import Mathlib

/-! # eucanetd: the reconciliation main loop of `net/eucanetd.c`

A shallow embedding of one iteration of the `while (gIsRunning)` loop of `main`
(lines 592-817), of `eucanetd_fetch_latest_network` (1618),
`eucanetd_read_latest_network` (1686) and of the four signal handlers (849-890); of the loop as
a whole with the end of `main` (lines 583-592 and 819-834); of one iteration of the
pre-flight loop (lines 500-580) with `eucanetd_detect_peer` (1812); and of the option loop
with the singleton lock (lines 369-475).

Conventions.
* C strings are lists of (non NUL) byte values; `strlen` is `List.length`, `strcmp(a, b) == 0`
  is `a = b`.
* Pointers are natural numbers, `NULL` is `0`. The two desired-state buffers live in a heap
  `Ptr → globalNetworkInfo`.
* `int` variables are `Int` (no counter of the loop comes near `INT_MAX`: signed overflow is
  outside the model). `u32 scrubResult` is a `Nat`; only `&` and `==` are applied to it.
* The driver callbacks, the fetcher, the parser and the file system are external. Every value
  they hand back during one iteration is a field of `CycleEnv`; a callback that is not invoked
  leaves its field unread. Each external call is recorded, in program order, in the ghost field
  `State.calls`, which is emptied at the top of every iteration. The values are arbitrary; the
  one assumption on a driver, `scrubWithinContract`, is a hypothesis where it is used.
* Constants of `eucanetd.h` and `euca_gni.h`, which are not part of the sources at hand, are the
  fields of `Consts`.
* Signal handlers run between iterations: a signal that arrives while an iteration is under way
  is taken as delivered when the iteration is over. SIGTERM handled inside an iteration, between
  two of its stages, is `cycleWithTerm`.
-/

namespace Eucanetd

/-- A C string, as the list of its bytes up to (excluding) the terminating NUL. -/
abbrev CStr := List Nat

/-- A pointer value. -/
abbrev Ptr := Nat

/-- The null pointer. -/
def NULL : Ptr := 0

/-- Modelled from the spec: the flush-mode enumeration is declared in `eucanetd.h`, which is not
among the sources. `main` stores `FLUSH_NONE` for "no flush requested" and tests
`if (config->flushmode)` for "the process was started in a flush mode", so `FLUSH_NONE` is the
zero enumerator. -/
def FLUSH_NONE : Nat := 0

/-- The call `snprintf(dst, n, "%s", src)`: at most `n - 1` bytes of `src` are stored. -/
def snprintf (n : Nat) (src : CStr) : CStr := src.take (n - 1)

/-- Constants used by the main loop whose definitions (`eucanetd.h`, `euca_gni.h`) are not among
the sources. -/
structure Consts where
  EUCANETD_RUN_NO_API : Nat
  EUCANETD_RUN_NETWORK_API : Nat
  EUCANETD_RUN_SECURITY_GROUP_API : Nat
  EUCANETD_RUN_ADDRESSING_API : Nat
  EUCANETD_RUN_ALL_API : Nat
  EUCANETD_RUN_ERROR_API : Nat
  EUCANETD_VPCMIDO_IFERROR : Nat
  FLUSH_ALL : Nat
  FLUSH_DYNAMIC : Nat
  NM_VPCMIDO : Nat
  SIGUSR1 : Nat
  SIGUSR2 : Nat
  deriving DecidableEq, Repr

/-- The fields of `globalNetworkInfo` read by the main loop. -/
structure globalNetworkInfo where
  version : CStr
  nmCode : Nat
  deriving DecidableEq, Repr

/-- The private subnet of a `gni_cluster`. -/
structure gni_subnet where
  subnet : Nat
  netmask : Nat
  gateway : Nat
  deriving DecidableEq, Repr

/-- The capability record `driver_handler`: for each optional callback, whether the pointer is
non-null. The callbacks themselves are external. -/
structure driver_handler where
  upgrade : Bool
  system_flush : Bool
  system_scrub : Bool
  implement_network : Bool
  implement_sg : Bool
  implement_addressing : Bool
  system_maint : Bool
  handle_signal : Bool
  cleanup : Bool
  deriving DecidableEq, Repr

/-- The fields of `eucanetdConfig` read or written by the main loop. -/
structure eucanetdConfig where
  flushmode : Nat
  nmCode : Nat
  polling_frequency : Int
  lastAppliedVersion : CStr
  nc_router : Int
  nc_router_ip : Int
  ncRouterIP : CStr
  vmGatewayIP : Nat
  deriving DecidableEq, Repr

/-- One external call made by the loop, with the arguments that matter and the value returned. -/
inductive Call where
  | upgrade (gni : Ptr) (rc : Int)
  | system_flush (gni : Ptr) (rc : Int)
  | lni_populate (rc : Int)
  | system_scrub (gni : Ptr) (applied : Ptr) (result : Nat)
  | implement_network (gni : Ptr) (rc : Int)
  | implement_sg (gni : Ptr) (rc : Int)
  | implement_addressing (gni : Ptr) (rc : Int)
  | lni_reset
  | str2file (version : CStr) (ok : Bool)
  | handle_signal (gni : Ptr) (sig : Nat)
  | system_maint (gni : Ptr) (rc : Int)
  | sleep (seconds : Int)
  deriving DecidableEq, Repr

/-- The call is one of the three apply APIs. -/
def Call.isApply : Call → Bool
  | .implement_network _ _ => true
  | .implement_sg _ _ => true
  | .implement_addressing _ _ => true
  | _ => false

/-- The call is `system_scrub`. -/
def Call.isScrub : Call → Bool
  | .system_scrub _ _ _ => true
  | _ => false

/-- The call is `system_scrub` or one of the three apply APIs. -/
def Call.isScrubOrApply (c : Call) : Bool := c.isScrub || c.isApply

/-- The call is an apply API that returned nonzero. -/
def Call.isFailedApply : Call → Bool
  | .implement_network _ rc => rc != 0
  | .implement_sg _ rc => rc != 0
  | .implement_addressing _ rc => rc != 0
  | _ => false

/-- Position of a scrub or apply call in the protocol: scrub 0, network 1, security groups 2,
addressing 3. -/
def Call.rank : Call → Nat
  | .system_scrub _ _ _ => 0
  | .implement_network _ _ => 1
  | .implement_sg _ _ => 2
  | .implement_addressing _ _ => 3
  | _ => 4

/-- What the external world hands back to `eucanetd_read_latest_network`. -/
structure ReadEnv where
  /-- return code of `gni_populate` -/
  gni_populate_rc : Int
  /-- contents of the target buffer once `gni_populate` has returned -/
  gni : globalNetworkInfo
  /-- return code of `gni_find_self_cluster` -/
  find_self_cluster_rc : Int
  /-- the private subnet of the cluster, `mycluster->private_subnet` -/
  private_subnet : gni_subnet
  /-- value of `dot2hex(config->ncRouterIP)` -/
  dot2hex : Nat
  /-- return code of `getdevinfo` -/
  getdevinfo_rc : Int
  /-- the pairs `(brdev_ips[i], brdev_nms[i])` -/
  brdev : List (Nat × Nat)
  deriving DecidableEq, Repr

/-- What the external world hands back during one iteration of the main loop. -/
structure CycleEnv where
  /-- return code of `atomic_file_get` -/
  atomic_file_get_rc : Int
  /-- the flag `atomic_file_get` stores through its second argument -/
  changed : Bool
  read : ReadEnv
  upgrade_rc : Int
  system_flush_rc : Int
  lni_populate_rc : Int
  system_scrub_result : Nat
  implement_network_rc : Int
  implement_sg_rc : Int
  implement_addressing_rc : Int
  /-- whether `str2file(...) == EUCA_OK` -/
  str2file_ok : Bool
  /-- contents of the version file after a failed `str2file` -/
  str2file_residue : Option CStr
  system_maint_rc : Int
  deriving DecidableEq, Repr

/-- The variables of `main` that are live in the loop, the file-scope statics, and the two
pieces of the outside world the loop writes to (version file, ghost call log). -/
structure State where
  scrubResult : Nat
  rc : Int
  firstrun : Int
  counter : Int
  epoch_updates : Int
  lni_rc : Int
  epoch_failed_updates : Int
  epoch_checks : Int
  epoch_timer : Int
  update_globalnet : Bool
  update_globalnet_failed : Bool
  update_version_file : Bool
  config : eucanetdConfig
  driver : driver_handler
  pGni : Ptr
  pGniApplied : Ptr
  gni_a : Ptr
  gni_b : Ptr
  heap : Ptr → globalNetworkInfo
  gIsRunning : Bool
  gUsr1Caught : Bool
  gUsr2Caught : Bool
  gHupCaught : Bool
  gTermCaught : Bool
  versionFile : Option CStr
  calls : List Call

/-- Record an external call in the ghost log. -/
def State.call (s : State) (c : Call) : State := { s with calls := s.calls ++ [c] }

/-! ### Signal handlers (lines 849-890) -/

/-- The handler `eucanetd_sigterm_handler` (line 849). -/
def eucanetd_sigterm_handler (s : State) : State :=
  { s with gIsRunning := false, gTermCaught := true }

/-- The handler `eucanetd_sighup_handler` (line 867). -/
def eucanetd_sighup_handler (s : State) : State :=
  { s with config := { s.config with flushmode := FLUSH_NONE }, gHupCaught := true }

/-- The handler `eucanetd_sigusr1_handler` (line 878). -/
def eucanetd_sigusr1_handler (s : State) : State := { s with gUsr1Caught := true }

/-- The handler `eucanetd_sigusr2_handler` (line 887). -/
def eucanetd_sigusr2_handler (s : State) : State := { s with gUsr2Caught := true }

/-- The four signals with an installed handler. -/
inductive Signal where
  | TERM | HUP | USR1 | USR2
  deriving DecidableEq, Repr

/-- Run the handler installed for a signal. -/
def deliver (s : State) : Signal → State
  | .TERM => eucanetd_sigterm_handler s
  | .HUP => eucanetd_sighup_handler s
  | .USR1 => eucanetd_sigusr1_handler s
  | .USR2 => eucanetd_sigusr2_handler s

/-- Run the handlers of a sequence of signals, in order of arrival. -/
def deliverAll (s : State) (sigs : List Signal) : State := sigs.foldl deliver s

/-! ### The fetcher and the reader

Every step below is a function on `State`. A C function whose return value the caller assigns
to `rc` stores that value in the field `rc`. -/

/-- The call `eucanetd_fetch_latest_network(&update_globalnet)` (line 1618), with
`eucanetd_fetch_latest_euca_network` (1660) inlined, and `rc = ...` of line 597.
`*update_globalnet` is first cleared, then written by `atomic_file_get`; the function returns 1
when `atomic_file_get` fails and 0 otherwise. `eucanetd_fetch_latest_local_config` (949) only
touches the log parameters and returns 0. -/
def eucanetd_fetch_latest_network (s : State) (e : CycleEnv) : State :=
  { s with update_globalnet := e.changed, rc := if e.atomic_file_get_rc ≠ 0 then 1 else 0 }

/-- The loop at lines 1760-1775: the first address of the bridge device whose netmask is the
netmask of the private subnet and that lies in the private subnet. -/
def autodetect (sub : gni_subnet) : List (Nat × Nat) → Option Nat
  | [] => none
  | (ip, nm) :: rest =>
    if nm = sub.netmask ∧ (ip &&& sub.netmask) = sub.subnet then some ip else autodetect sub rest

/-- Line 1707: `gni_populate` fills the buffer `pGni` points to. -/
def gni_populate (s : State) (r : ReadEnv) : State :=
  { s with heap := fun p => if p = s.pGni then r.gni else s.heap p }

/-- Lines 1715-1723: skip the update when the version of the document is the last applied
one, both being non-empty. -/
def versionGate (s : State) : State :=
  if (s.heap s.pGni).version.length ≠ 0 ∧ s.config.lastAppliedVersion.length ≠ 0 then
    if (s.heap s.pGni).version = s.config.lastAppliedVersion then
      { s with update_globalnet := false }
    else s
  else s

/-- Modelled from the spec: the macro `IS_NETMODE_VPCMIDO(pGni)` is defined in a header that is
not among the sources; it tests that the network mode of the desired state is the overlay mode. -/
def IS_NETMODE_VPCMIDO (k : Consts) (s : State) : Bool := (s.heap s.pGni).nmCode == k.NM_VPCMIDO

/-- Lines 1767-1785: the detected address becomes the gateway; with none found the read
fails. -/
def storeDetected (s : State) : Option Nat → State
  | some ip => { s with rc := 0, config := { s.config with vmGatewayIP := ip } }
  | none => { s with rc := 1 }

/-- Lines 1725-1792: choose the gateway of the instances; the value stored in `rc` is `ret`. -/
def selectGateway (k : Consts) (s : State) (r : ReadEnv) : State :=
  if IS_NETMODE_VPCMIDO k s then { s with rc := 0 }
  else if r.find_self_cluster_rc ≠ 0 then { s with rc := 1 }
  else if s.config.nc_router = 0 then
    { s with rc := 0, config := { s.config with vmGatewayIP := r.private_subnet.gateway } }
  else if s.config.nc_router_ip = 0 then
    { s with rc := 0, config := { s.config with vmGatewayIP := r.private_subnet.gateway } }
  else if s.config.ncRouterIP ≠ [65, 85, 84, 79] then -- strcmp(config->ncRouterIP, "AUTO")
    { s with rc := 0, config := { s.config with vmGatewayIP := r.dot2hex } }
  else if r.getdevinfo_rc ≠ 0 then { s with rc := 1 }
  else storeDetected s (autodetect r.private_subnet r.brdev)

/-- The call `eucanetd_read_latest_network(pGni, &update_globalnet)` (line 1686) and the
assignment `rc = ...` of line 621. The second argument is the address of a local of `main`,
never null. -/
def eucanetd_read_latest_network (k : Consts) (s : State) (r : ReadEnv) : State :=
  if r.gni_populate_rc ≠ 0 then { gni_populate s r with rc := 1 }
  else selectGateway k (versionGate (gni_populate s r)) r

/-! ### One iteration of the main loop, step by step -/

/-- Lines 593-594, and the reset of the ghost call log. -/
def loopTop (s : State) : State := { s with calls := [], counter := s.counter + 1 }

/-- Lines 602-605: first time we run, force an update. -/
def forceFirstRun (s : State) : State :=
  if s.firstrun ≠ 0 then { s with update_globalnet := true, firstrun := 0 } else s

/-- Lines 607-612: force an update if SIGHUP was caught, and invalidate the last applied
version. -/
def forceOnHup (s : State) : State :=
  if s.gHupCaught = true then
    { s with update_globalnet := true,
             config := { s.config with lastAppliedVersion := [] },
             gHupCaught := false }
  else s

/-- Lines 614-618: force an update after a failed iteration, then clear the failure flag. -/
def forceAfterFailure (s : State) : State :=
  if s.update_globalnet_failed = true then
    { s with update_globalnet := true, update_globalnet_failed := false }
  else { s with update_globalnet_failed := false }

/-- Lines 593-618: the fetch stage. -/
def stageFetch (s : State) (e : CycleEnv) : State :=
  forceAfterFailure (forceOnHup (forceFirstRun (eucanetd_fetch_latest_network (loopTop s) e)))

/-- Lines 620-622. -/
def readIfUpdate (k : Consts) (s : State) (e : CycleEnv) : State :=
  if s.update_globalnet = true then eucanetd_read_latest_network k s e.read else s

/-- Lines 623-627: if the read failed, skip any attempt to update. -/
def skipOnReadFailure (s : State) : State :=
  if s.rc ≠ 0 then { s with update_globalnet := false } else s

/-- Lines 629-632: skip the update when the network mode of the document is not the
configured one. -/
def skipOnModeMismatch (s : State) : State :=
  if s.update_globalnet = true ∧ (s.heap s.pGni).nmCode ≠ s.config.nmCode then
    { s with update_globalnet := false }
  else s

/-- Lines 620-632: the parse stage. -/
def stageParse (k : Consts) (s : State) (e : CycleEnv) : State :=
  skipOnModeMismatch (skipOnReadFailure (readIfUpdate k s e))

/-- Lines 634-647: the upgrade hook. -/
def stageUpgrade (s : State) (e : CycleEnv) : State :=
  if s.driver.upgrade = true then
    if e.upgrade_rc = 0 then
      { s with calls := s.calls ++ [.upgrade s.pGni e.upgrade_rc],
               driver := { s.driver with upgrade := false } }
    else
      { s with calls := s.calls ++ [.upgrade s.pGni e.upgrade_rc],
               update_globalnet_failed := true }
  else s

/-- Lines 650-666: call the flush API of the driver, unless the flush mode does not fit the
network mode. -/
def flushCall (k : Consts) (s : State) (e : CycleEnv) : State :=
  if IS_NETMODE_VPCMIDO k s = true ∧
      (s.config.flushmode = k.FLUSH_DYNAMIC ∨ s.config.flushmode = k.FLUSH_ALL) then s
  else if IS_NETMODE_VPCMIDO k s = false ∧ s.config.flushmode > k.FLUSH_DYNAMIC then s
  else if s.driver.system_flush = true then s.call (.system_flush s.pGni e.system_flush_rc)
  else s

/-- Lines 667-669. -/
def flushDone (s : State) : State :=
  { s with update_globalnet := false, gIsRunning := false,
           config := { s.config with flushmode := FLUSH_NONE } }

/-- Lines 648-670: the flush short-circuit. -/
def stageFlush (k : Consts) (s : State) (e : CycleEnv) : State :=
  if s.config.flushmode ≠ 0 then flushDone (flushCall k s e) else s

/-- Lines 674-680: clear `update_version_file` and populate the local view (not in overlay
mode, where `lni_rc` keeps its value). -/
def lniPopulate (k : Consts) (s : State) (e : CycleEnv) : State :=
  if IS_NETMODE_VPCMIDO k s = false then
    { s with update_version_file := false, lni_rc := e.lni_populate_rc,
             calls := s.calls ++ [.lni_populate e.lni_populate_rc] }
  else { s with update_version_file := false }

/-- Lines 686-693: the scrub, or "run all" for a driver without `system_scrub`. -/
def scrub (k : Consts) (s : State) (e : CycleEnv) : State :=
  if s.driver.system_scrub = false then { s with scrubResult := k.EUCANETD_RUN_ALL_API }
  else
    { s with scrubResult := e.system_scrub_result,
             calls := s.calls ++ [.system_scrub s.pGni s.pGniApplied e.system_scrub_result] }

/-- Lines 698-710: `implement_network`, when the driver has it and the scrub asks for it. -/
def applyNetwork (k : Consts) (s : State) (e : CycleEnv) : State :=
  if s.driver.implement_network = true ∧
      (s.scrubResult &&& k.EUCANETD_RUN_NETWORK_API) ≠ 0 then
    if e.implement_network_rc ≠ 0 then
      { s with rc := e.implement_network_rc, update_globalnet_failed := true,
               calls := s.calls ++ [.implement_network s.pGni e.implement_network_rc] }
    else
      { s with rc := e.implement_network_rc,
               calls := s.calls ++ [.implement_network s.pGni e.implement_network_rc] }
  else s

/-- Lines 711-720: `implement_sg`, when the driver has it and the scrub asks for it. -/
def applySg (k : Consts) (s : State) (e : CycleEnv) : State :=
  if s.driver.implement_sg = true ∧
      (s.scrubResult &&& k.EUCANETD_RUN_SECURITY_GROUP_API) ≠ 0 then
    if e.implement_sg_rc ≠ 0 then
      { s with rc := e.implement_sg_rc, update_globalnet_failed := true,
               calls := s.calls ++ [.implement_sg s.pGni e.implement_sg_rc] }
    else
      { s with rc := e.implement_sg_rc,
               calls := s.calls ++ [.implement_sg s.pGni e.implement_sg_rc] }
  else s

/-- Lines 721-730: `implement_addressing`, when the driver has it and the scrub asks for it. -/
def applyAddressing (k : Consts) (s : State) (e : CycleEnv) : State :=
  if s.driver.implement_addressing = true ∧
      (s.scrubResult &&& k.EUCANETD_RUN_ADDRESSING_API) ≠ 0 then
    if e.implement_addressing_rc ≠ 0 then
      { s with rc := e.implement_addressing_rc, update_globalnet_failed := true,
               calls := s.calls ++ [.implement_addressing s.pGni e.implement_addressing_rc] }
    else
      { s with rc := e.implement_addressing_rc,
               calls := s.calls ++ [.implement_addressing s.pGni e.implement_addressing_rc] }
  else s

/-- Lines 695-734: when the scrub did not fail, the three apply APIs in sequence; otherwise the
iteration has failed. -/
def applyOrFail (k : Consts) (s : State) (e : CycleEnv) : State :=
  if (s.scrubResult &&& k.EUCANETD_RUN_ERROR_API) = 0 then
    applyAddressing k (applySg k (applyNetwork k s e) e) e
  else { s with update_globalnet_failed := true }

/-- Lines 735-738: reset the local view (not in overlay mode). -/
def lniReset (k : Consts) (s : State) : State :=
  if IS_NETMODE_VPCMIDO k s = false then s.call .lni_reset else s

/-- Lines 681-742: scrub and apply when the local view could be loaded; otherwise the iteration
has failed. -/
def applyBody (k : Consts) (s : State) (e : CycleEnv) : State :=
  if s.lni_rc = 0 then lniReset k (applyOrFail k (scrub k s e) e)
  else { s with update_globalnet_failed := true }

/-- Lines 672-743: the apply stage. -/
def stageApply (k : Consts) (s : State) (e : CycleEnv) : State :=
  if s.update_globalnet = true then applyBody k (lniPopulate k s e) e else s

/-- Lines 746-753: count a failure; decide whether the version is to be recorded. -/
def countFailure (k : Consts) (s : State) : State :=
  if s.update_globalnet_failed = true then
    if s.scrubResult = k.EUCANETD_VPCMIDO_IFERROR then
      { s with epoch_failed_updates := s.epoch_failed_updates + 1, update_version_file := true }
    else { s with epoch_failed_updates := s.epoch_failed_updates + 1 }
  else { s with update_version_file := true }

/-- Lines 754-765: write the version file and record the version as last applied.
`str2file` is not called for an empty version (`||` short-circuits). -/
def writeVersion (s : State) (e : CycleEnv) : State :=
  if s.update_version_file = true then
    if (s.heap s.pGni).version.length = 0 then { s with epoch_updates := s.epoch_updates + 1 }
    else if e.str2file_ok = false then
      { s with epoch_updates := s.epoch_updates + 1,
               versionFile := e.str2file_residue,
               calls := s.calls ++ [.str2file (s.heap s.pGni).version false] }
    else
      { s with epoch_updates := s.epoch_updates + 1,
               versionFile := some (s.heap s.pGni).version,
               config := { s.config with
                           lastAppliedVersion := snprintf 32 (s.heap s.pGni).version },
               calls := s.calls ++ [.str2file (s.heap s.pGni).version true] }
  else s

/-- Lines 745-766: failure accounting and version persistence. -/
def stagePersist (k : Consts) (s : State) (e : CycleEnv) : State :=
  if s.update_globalnet = true then writeVersion (countFailure k s) e else s

/-- Line 767. -/
def tickChecks (s : State) : State := { s with epoch_checks := s.epoch_checks + 1 }

/-- Lines 768-773: forward SIGUSR1 to the driver. -/
def forwardUsr1 (k : Consts) (s : State) : State :=
  if s.gUsr1Caught = true then
    if s.driver.handle_signal = true then
      { s with gUsr1Caught := false, calls := s.calls ++ [.handle_signal s.pGni k.SIGUSR1] }
    else { s with gUsr1Caught := false }
  else s

/-- Lines 774-779: forward SIGUSR2 to the driver. -/
def forwardUsr2 (k : Consts) (s : State) : State :=
  if s.gUsr2Caught = true then
    if s.driver.handle_signal = true then
      { s with gUsr2Caught := false, calls := s.calls ++ [.handle_signal s.pGni k.SIGUSR2] }
    else { s with gUsr2Caught := false }
  else s

/-- Lines 767-779: tick the check counter and forward the user signals. -/
def stageSignals (k : Consts) (s : State) : State := forwardUsr2 k (forwardUsr1 k (tickChecks s))

/-- Lines 781-785: the periodic report resets the epoch counters. -/
def stageReport (s : State) : State :=
  if s.epoch_timer ≥ 300 then
    { s with epoch_checks := 0, epoch_updates := 0, epoch_failed_updates := 0, epoch_timer := 0 }
  else s

/-- Lines 787-794: maintenance, when nothing was applied and nothing failed. -/
def stageMaint (s : State) (e : CycleEnv) : State :=
  if s.update_globalnet_failed = false ∧ s.update_globalnet = false ∧ s.gIsRunning = true then
    if s.driver.system_maint = true then
      { s with rc := e.system_maint_rc,
               calls := s.calls ++ [.system_maint s.pGni e.system_maint_rc] }
    else s
  else s

/-- Lines 796-813: on failure forget the last applied state and sleep; with nothing to do,
sleep; after an apply, publish the current buffer as last applied and switch buffers. -/
def swapOrSleep (s : State) : State :=
  if s.update_globalnet_failed = true then
    { s with pGniApplied := NULL, calls := s.calls ++ [.sleep s.config.polling_frequency] }
  else if s.update_globalnet = false then
    { s with calls := s.calls ++ [.sleep s.config.polling_frequency] }
  else if s.pGni = s.gni_a then { s with pGniApplied := s.pGni, pGni := s.gni_b }
  else { s with pGniApplied := s.pGni, pGni := s.gni_a }

/-- Line 815. -/
def tickTimer (s : State) : State :=
  { s with epoch_timer := s.epoch_timer + s.config.polling_frequency }

/-- Lines 795-815: buffer swap, sleep, epoch timer. -/
def stageSwap (s : State) : State := tickTimer (swapOrSleep s)

/-- The state in which the apply stage is entered (lines 593-670 have run). -/
def beforeApply (k : Consts) (s : State) (e : CycleEnv) : State :=
  stageFlush k (stageUpgrade (stageParse k (stageFetch s e) e) e) e

/-- The state when the apply stage has run (lines 593-743). -/
def uptoApply (k : Consts) (s : State) (e : CycleEnv) : State :=
  stageApply k (beforeApply k s e) e

/-- The rest of the iteration, from the state the apply stage leaves (lines 745-815). -/
def finishCycle (k : Consts) (a : State) (e : CycleEnv) : State :=
  stageSwap (stageMaint (stageReport (stageSignals k (stagePersist k a e))) e)

/-- One iteration of `while (gIsRunning)` (lines 592-817). -/
def mainLoopCycle (k : Consts) (s : State) (e : CycleEnv) : State :=
  finishCycle k (uptoApply k s e) e

/-- The scrub and apply calls of the call log, in program order. -/
def protoCalls (s : State) : List Call := s.calls.filter Call.isScrubOrApply

/-- The version of the desired state held by the current buffer once the parse stage is over
(line 632). -/
def parsedVersion (k : Consts) (s : State) (e : CycleEnv) : CStr :=
  ((stageParse k (stageFetch s e) e).heap (stageParse k (stageFetch s e) e).pGni).version

/-- The value of `config->lastAppliedVersion` that the idempotence test of
`eucanetd_read_latest_network` compares against: the one left by the fetch stage. -/
def gateVersion (s : State) (e : CycleEnv) : CStr := (stageFetch s e).config.lastAppliedVersion

/-- The state in which control first reaches `while (gIsRunning)` (line 592): the locals of
`main` hold their initial values (`rc` is 0 when the pre-flight loop ends), `config` was
zero-allocated by `eucanetd_initialize` so no version has been applied, `pGni` is `gni_a` and
nothing is published as last applied. A SIGHUP taken before the loop has already run its
handler, which stores `FLUSH_NONE`. -/
def LoopEntry (k : Consts) (s : State) : Prop :=
  s.scrubResult = k.EUCANETD_RUN_NO_API ∧ s.rc = 0 ∧ s.firstrun = 1 ∧ s.counter = 0 ∧
  s.epoch_updates = 0 ∧ s.lni_rc = 0 ∧ s.epoch_failed_updates = 0 ∧ s.epoch_checks = 0 ∧
  s.epoch_timer = 0 ∧ s.update_globalnet = false ∧ s.update_globalnet_failed = false ∧
  s.update_version_file = false ∧ s.config.lastAppliedVersion = [] ∧
  s.pGni = s.gni_a ∧ s.pGniApplied = NULL ∧
  (s.gHupCaught = true → s.config.flushmode = FLUSH_NONE) ∧
  (s.gTermCaught = true → s.gIsRunning = false)

instance (k : Consts) (s : State) : Decidable (LoopEntry k s) := by
  unfold LoopEntry; infer_instance

/-- The states the main loop can be in at the test of `while (gIsRunning)`: the entry state,
and from there any number of iterations (taken only while `gIsRunning` holds) and signal
deliveries between them. -/
inductive Reachable (k : Consts) : State → Prop
  | entry (s : State) : LoopEntry k s → Reachable k s
  | cycle (s : State) (e : CycleEnv) :
      Reachable k s → s.gIsRunning = true → Reachable k (mainLoopCycle k s e)
  | signal (s : State) (sig : Signal) : Reachable k s → Reachable k (deliver s sig)

/-! ### Sample data -/

/-- Sample values for the constants of the absent headers: the three apply bits, their union,
a separate error bit, and the overlay sentinel. -/
def sampleConsts : Consts :=
  { EUCANETD_RUN_NO_API := 0, EUCANETD_RUN_NETWORK_API := 1, EUCANETD_RUN_SECURITY_GROUP_API := 2,
    EUCANETD_RUN_ADDRESSING_API := 4, EUCANETD_RUN_ALL_API := 7,
    EUCANETD_RUN_ERROR_API := 2147483648, EUCANETD_VPCMIDO_IFERROR := 1073741824,
    FLUSH_ALL := 1, FLUSH_DYNAMIC := 2, NM_VPCMIDO := 3, SIGUSR1 := 10, SIGUSR2 := 12 }

/-- The version string "v1". -/
def v1 : CStr := [118, 49]

/-- A driver with every callback but `upgrade`. -/
def fullDriver : driver_handler :=
  { upgrade := false, system_flush := true, system_scrub := true, implement_network := true,
    implement_sg := true, implement_addressing := true, system_maint := true,
    handle_signal := true, cleanup := true }

/-- A loop-entry state: overlay mode (code 3), polling every 5 seconds, no flush, buffers at
addresses 1 and 2, full driver. -/
def entryState : State :=
  { scrubResult := 0, rc := 0, firstrun := 1, counter := 0, epoch_updates := 0, lni_rc := 0,
    epoch_failed_updates := 0, epoch_checks := 0, epoch_timer := 0, update_globalnet := false,
    update_globalnet_failed := false, update_version_file := false,
    config := { flushmode := 0, nmCode := 3, polling_frequency := 5, lastAppliedVersion := [],
                nc_router := 0, nc_router_ip := 0, ncRouterIP := [], vmGatewayIP := 0 },
    driver := fullDriver, pGni := 1, pGniApplied := 0, gni_a := 1, gni_b := 2,
    heap := fun _ => { version := [], nmCode := 0 },
    gIsRunning := true, gUsr1Caught := false, gUsr2Caught := false, gHupCaught := false,
    gTermCaught := false, versionFile := none, calls := [] }

/-- An iteration in which the fetched document changed, carries version `v` in overlay mode,
every external call succeeds, and the scrub asks for all three apply APIs. -/
def okEnv (v : CStr) : CycleEnv :=
  { atomic_file_get_rc := 0, changed := true,
    read := { gni_populate_rc := 0, gni := { version := v, nmCode := 3 },
              find_self_cluster_rc := 0,
              private_subnet := { subnet := 0, netmask := 0, gateway := 0 }, dot2hex := 0,
              getdevinfo_rc := 0, brdev := [] },
    upgrade_rc := 0, system_flush_rc := 0, lni_populate_rc := 0, system_scrub_result := 7,
    implement_network_rc := 0, implement_sg_rc := 0, implement_addressing_rc := 0,
    str2file_ok := true, str2file_residue := none, system_maint_rc := 0 }

/-- The state after a first iteration that applied version "v1" from `entryState`. -/
def appliedState : State := mainLoopCycle sampleConsts entryState (okEnv v1)

/-- An iteration like `okEnv "v1"` in which `implement_network` fails. -/
def failEnv : CycleEnv := { okEnv v1 with implement_network_rc := 1 }

/-- An iteration like `okEnv v` in which the fetched document did not change. -/
def quietEnv (v : CStr) : CycleEnv := { okEnv v with changed := false }

/-- The local view could be loaded: `lni_rc` is 0 when line 681 tests it (in overlay mode
`lni_populate` is not called and `lni_rc` keeps its value). -/
def lniLoaded (k : Consts) (s : State) (e : CycleEnv) : Prop :=
  (lniPopulate k (beforeApply k s e) e).lni_rc = 0

instance (k : Consts) (s : State) (e : CycleEnv) : Decidable (lniLoaded k s e) := by
  unfold lniLoaded; infer_instance

/-- The entry state with a driver that has neither `system_scrub` nor `implement_sg`. -/
def noScrubNoSgState : State :=
  { entryState with driver := { fullDriver with system_scrub := false, implement_sg := false } }

/-- The entry state with a driver that has no `implement_network`. -/
def noNetworkState : State :=
  { entryState with driver := { fullDriver with implement_network := false } }

/-- An iteration like `okEnv "v1"` in which the scrub returns the error bit together with the
three apply bits. -/
def scrubErrorEnv : CycleEnv := { okEnv v1 with system_scrub_result := 2147483648 + 7 }

/-! ### The loop as a whole, and the end of `main` (lines 583-592, 819-834) -/

/-- What happens around one iteration: the values the external calls return during it, and the
signals that arrive before the loop condition is tested again. -/
structure Round where
  env : CycleEnv
  sigs : List Signal
  deriving DecidableEq, Repr

/-- The loop `while (gIsRunning)` (line 592), run on a finite supply of rounds: `some s` is the
state in which the loop is left, `none` says that the loop is still running when the rounds
are used up. -/
def runLoop (k : Consts) : State → List Round → Option State
  | s, [] => if s.gIsRunning = true then none else some s
  | s, r :: rs =>
    if s.gIsRunning = true then runLoop k (deliverAll (mainLoopCycle k s r.env) r.sigs) rs
    else some s

/-- Lines 583-589: set up the local view, outside overlay mode (`pLni` is null until then);
when `lni_init` returns null the loop is not to be entered. -/
def lniInit (k : Consts) (s : State) (lni_init_null : Bool) : State :=
  if IS_NETMODE_VPCMIDO k s = false ∧ lni_init_null = true then { s with gIsRunning := false }
  else s

/-- How the process ends: the code passed to `exit`, and the invocations of the `cleanup`
callback of the driver, each with the buffer and the flush mode it was given. -/
structure Exit where
  code : Int
  cleanup : List (Ptr × Nat)
  deriving DecidableEq, Repr

/-- Lines 819-834: clean up the driver when it has a `cleanup` callback, then `exit(0)`. -/
def shutdown (s : State) : Exit :=
  { code := 0,
    cleanup := if s.driver.cleanup = true then [(s.pGni, s.config.flushmode)] else [] }

/-- Lines 583-834 of `main`: from the end of the pre-flight checks to `exit`. The result is
`none` when the loop is still running after the rounds given. -/
def mainTail (k : Consts) (s : State) (lni_init_null : Bool) (rounds : List Round) :
    Option Exit :=
  (runLoop k (lniInit k s lni_init_null) rounds).map shutdown

/-- The states that come later than a given one at the loop test: after any number of
iterations (taken only while `gIsRunning` holds) and signal deliveries. -/
inductive Later (k : Consts) (s : State) : State → Prop
  | refl : Later k s s
  | cycle (t : State) (e : CycleEnv) :
      Later k s t → t.gIsRunning = true → Later k s (mainLoopCycle k t e)
  | signal (t : State) (sig : Signal) : Later k s t → Later k s (deliver t sig)

/-- The call is `upgrade`. -/
def Call.isUpgrade : Call → Bool
  | .upgrade _ _ => true
  | _ => false

/-- The call is `system_flush`. -/
def Call.isFlush : Call → Bool
  | .system_flush _ _ => true
  | _ => false

/-- The call is `upgrade` or `system_flush`. -/
def Call.isHook (c : Call) : Bool := c.isUpgrade || c.isFlush

/-- The state in which the flush stage is entered (lines 593-647 have run). -/
def beforeFlush (k : Consts) (s : State) (e : CycleEnv) : State :=
  stageUpgrade (stageParse k (stageFetch s e) e) e

/-! ### The pre-flight checks (lines 500-580) -/

/-- The role of the service running alongside (`eucanetd_peer`, named after
`asPeerRoleName`). -/
inductive eucanetd_peer where
  | PEER_INVALID | PEER_CLC | PEER_CC | PEER_NC | PEER_NONE
  deriving DecidableEq, Repr

/-- The function `eucanetd_detect_peer` (line 1812), for a non-null `pGni`: the arguments are
the return codes of `gni_find_self_node` and `gni_find_self_cluster`. -/
def eucanetd_detect_peer (find_self_node_rc find_self_cluster_rc : Int) : eucanetd_peer :=
  if find_self_node_rc = 0 then .PEER_NC
  else if find_self_cluster_rc = 0 then .PEER_CC
  else .PEER_NONE

/-- Modelled from the spec: the macros `PEER_IS_NONE` and `PEER_IS_VALID` are defined in a
header that is not among the sources; outside overlay mode the role has to be
cluster-controller or node-controller. The value is the negation of the test of line 530. -/
def peerAccepted (p : eucanetd_peer) : Bool :=
  p = .PEER_CC || p = .PEER_NC

/-- What the external world hands back during one iteration of the pre-flight loop. -/
structure PreflightEnv where
  /-- return code of `eucanetd_read_config` -/
  read_config_rc : Int
  /-- whether `config->nmCode == NM_INVALID` once `eucanetd_read_config` has returned -/
  nm_invalid : Bool
  /-- value of `IS_NETMODE_VPCMIDO(pGni)` -/
  vpcmido : Bool
  /-- return code of `gni_find_self_node` -/
  find_self_node_rc : Int
  /-- return code of `gni_find_self_cluster` -/
  find_self_cluster_rc : Int
  /-- value of `gni_is_self_getifaddrs(clcip)` -/
  is_self : Int
  /-- return code of `eucanetd_initialize_network_drivers` -/
  init_drivers_rc : Int
  deriving DecidableEq, Repr

/-- How one iteration of the pre-flight loop ends. -/
inductive PreflightOutcome where
  /-- the process calls `exit` with this code -/
  | exit (code : Int)
  /-- the loop goes round again (`rc` is nonzero) -/
  | retry
  /-- the loop is left (`rc` is 0) and `main` goes on to line 581 -/
  | complete
  deriving DecidableEq, Repr

/-- Lines 505-557: the value of `rc` with which line 559 is reached, or `none` when the
iteration is cut short by the `continue` of line 521 (invalid network mode: `rc = 1`,
`sleep(1)`, next iteration). -/
def preflightChecks (p : PreflightEnv) : Option Int :=
  if p.read_config_rc ≠ 0 then some p.read_config_rc
  else if p.nm_invalid = true then none
  else if p.vpcmido = false then
    if peerAccepted (eucanetd_detect_peer p.find_self_node_rc p.find_self_cluster_rc) = true
    then some 0 else some 1
  else if p.is_self = 0 then some 0
  else some 1

/-- Lines 559-579: with `rc` nonzero in a flush mode, `exit(1)`; with SIGTERM caught,
`exit(0)`; with `rc` zero the driver is initialised, `exit(1)` if that fails; otherwise the
loop condition `rc` decides. -/
def preflightTail (flushmode : Nat) (gTermCaught : Bool) (p : PreflightEnv) (rc : Int) :
    PreflightOutcome :=
  if rc ≠ 0 ∧ flushmode ≠ 0 then .exit 1
  else if gTermCaught = true then .exit 0
  else if rc = 0 then (if p.init_drivers_rc ≠ 0 then .exit 1 else .complete)
  else .retry

/-- One iteration of the pre-flight loop (lines 500-580), for the values `config->flushmode`
and `gTermCaught` have when lines 559 and 563 read them. -/
def preflightIteration (flushmode : Nat) (gTermCaught : Bool) (p : PreflightEnv) :
    PreflightOutcome :=
  match preflightChecks p with
  | none => .retry
  | some rc => preflightTail flushmode gTermCaught p rc

/-! ### A signal in the course of an iteration -/

/-- The stages of one iteration (lines 593-815), in program order. -/
def stages (k : Consts) (e : CycleEnv) : List (State → State) :=
  [fun s => stageFetch s e, fun s => stageParse k s e, fun s => stageUpgrade s e,
   fun s => stageFlush k s e, fun s => stageApply k s e, fun s => stagePersist k s e,
   stageSignals k, stageReport, fun s => stageMaint s e, stageSwap]

/-- Run stages one after the other. -/
def runStages (fs : List (State → State)) (s : State) : State := fs.foldl (fun t f => f t) s

/-- One iteration of the loop, in the course of which SIGTERM is handled when the first `n`
stages have run (with `n` at least 10: when the iteration is over). -/
def cycleWithTerm (k : Consts) (s : State) (e : CycleEnv) (n : Nat) : State :=
  runStages ((stages k e).drop n) (eucanetd_sigterm_handler (runStages ((stages k e).take n) s))

/-- One iteration of the loop in which the test of line 787 fails on `gIsRunning`: the
maintenance step (lines 787-794) is passed over. -/
def cycleNoMaint (k : Consts) (s : State) (e : CycleEnv) : State :=
  stageSwap (stageReport (stageSignals k (stagePersist k (uptoApply k s e) e)))

/-- Run stages one after the other, handling before each of them the signals that have arrived
since the one before: `sg i` are the signals handled when `i` stages have run. -/
def runStagesFrom (sg : Nat → List Signal) : Nat → List (State → State) → State → State
  | _, [], s => s
  | i, f :: fs, s => runStagesFrom sg (i + 1) fs (f (deliverAll s (sg i)))

/-- One iteration of the loop with signals handled inside it, between its stages. -/
def cycleWithSignals (k : Consts) (s : State) (e : CycleEnv) (sg : Nat → List Signal) : State :=
  runStagesFrom sg 0 (stages k e) s

/-- The state in which stage `n` of such an iteration is entered; the flush stage, with the test
of line 648, is stage 3. -/
def atStage (k : Consts) (s : State) (e : CycleEnv) (sg : Nat → List Signal) (n : Nat) : State :=
  deliverAll (runStagesFrom sg 0 ((stages k e).take n) s) (sg n)

/-! ### More sample data -/

/-- Constants like `sampleConsts`, with an overlay sentinel that carries the error bit. -/
def sentinelConsts : Consts :=
  { sampleConsts with EUCANETD_VPCMIDO_IFERROR := 2147483648 + 128 }

/-- An iteration like `okEnv v` in which the scrub returns the overlay sentinel of
`sentinelConsts`. -/
def sentinelEnv (v : CStr) : CycleEnv := { okEnv v with system_scrub_result := 2147483648 + 128 }

/-- A version string of 32 bytes. -/
def v32 : CStr := List.replicate 32 118

/-- The entry state with a driver that has an `upgrade` callback. -/
def upgradeState : State :=
  { entryState with driver := { fullDriver with upgrade := true } }

/-- An iteration in which the document cannot be parsed and the upgrade fails. -/
def upgradeFailEnv : CycleEnv :=
  { okEnv v1 with read := { (okEnv v1).read with gni_populate_rc := 1 }, upgrade_rc := 1 }

/-- The entry state of a process started with the flush mode `FLUSH_ALL` of `sampleConsts`. -/
def flushState : State :=
  { entryState with config := { entryState.config with flushmode := 1 } }

/-- An entry state outside overlay mode: the current buffer holds a document of mode 0. -/
def edgeState : State :=
  { entryState with config := { entryState.config with nmCode := 0 } }

/-- An iteration like `okEnv v` whose document is of mode 0, outside overlay mode. -/
def edgeEnv (v : CStr) : CycleEnv :=
  { okEnv v with read := { (okEnv v).read with gni := { version := v, nmCode := 0 } } }

/-- The state `edgeState` of a process started with the flush mode `FLUSH_ALL` of
`sampleConsts`. -/
def edgeFlushState : State :=
  { edgeState with config := { edgeState.config with flushmode := 1 } }

/-- A pre-flight iteration in which every check passes, in overlay mode. -/
def okPreflight : PreflightEnv :=
  { read_config_rc := 0, nm_invalid := false, vpcmido := true, find_self_node_rc := 1,
    find_self_cluster_rc := 1, is_self := 0, init_drivers_rc := 0 }

/-- A SIGHUP handled when the fetch stage has run, and no other signal. -/
def hupAfterFetch : Nat → List Signal := fun i => if i = 1 then [.HUP] else []

/-- A SIGUSR1 handled when the fetch stage has run, a SIGTERM when the apply stage has run. -/
def usr1ThenTerm : Nat → List Signal :=
  fun i => if i = 1 then [.USR1] else if i = 5 then [.TERM] else []
/-! ### Sample data for the accounting and parse claims -/

/-- The version string "v2". -/
def v2 : CStr := [118, 50]

/-- The state after a first iteration from `entryState` in which `implement_network` failed:
one failed apply is counted. -/
def failedState : State := mainLoopCycle sampleConsts entryState failEnv

/-- The state `entryState` of a process that polls every 300 seconds. -/
def slowState : State :=
  { entryState with config := { entryState.config with polling_frequency := 300 } }

/-- An iteration like `okEnv v` in which `gni_populate` fails. -/
def parseFailEnv (v : CStr) : CycleEnv :=
  { okEnv v with read := { (okEnv v).read with gni_populate_rc := 1 } }

/-- An iteration like `edgeEnv v`, outside overlay mode, in which the scrub returns the overlay
sentinel of `sentinelConsts`. -/
def edgeSentinelEnv (v : CStr) : CycleEnv :=
  { edgeEnv v with system_scrub_result := sentinelConsts.EUCANETD_VPCMIDO_IFERROR }

/-- An iteration like `edgeEnv v`, outside overlay mode, in which `lni_populate` fails. -/
def lniFailEnv (v : CStr) : CycleEnv := { edgeEnv v with lni_populate_rc := 1 }

/-! ### The scrub result from one iteration to the next -/

/-- The state `s` with the value `x` in the local `scrubResult`. -/
def State.withScrubResult (s : State) (x : Nat) : State := { s with scrubResult := x }

/-- Modelled from the spec: the drivers are not among the sources. The scrub result
`EUCANETD_VPCMIDO_IFERROR` is the sentinel "from overlay driver" of the specification (partial
overlay convergence): outside overlay mode the `system_scrub` of the driver does not return
it. The driver is chosen by the configured network mode
(`eucanetd_initialize_network_drivers`, lines 1108-1115). -/
def scrubWithinContract (k : Consts) (s : State) (e : CycleEnv) : Prop :=
  s.config.nmCode ≠ k.NM_VPCMIDO → e.system_scrub_result ≠ k.EUCANETD_VPCMIDO_IFERROR

instance (k : Consts) (s : State) (e : CycleEnv) : Decidable (scrubWithinContract k s e) := by
  unfold scrubWithinContract; infer_instance

/-- The states the main loop can be in at the test of `while (gIsRunning)` when the scrub of
the driver keeps to `scrubWithinContract` in every iteration. -/
inductive ReachableWithin (k : Consts) : State → Prop
  | entry (s : State) : LoopEntry k s → ReachableWithin k s
  | cycle (s : State) (e : CycleEnv) :
      ReachableWithin k s → s.gIsRunning = true → scrubWithinContract k s e →
      ReachableWithin k (mainLoopCycle k s e)
  | signal (s : State) (sig : Signal) : ReachableWithin k s → ReachableWithin k (deliver s sig)

/-- The call is `lni_populate`. -/
def Call.isLniPopulate : Call → Bool
  | .lni_populate _ => true
  | _ => false

/-- The state after a first iteration that applied version "v1" from `edgeState`, outside
overlay mode. -/
def edgeAppliedState : State := mainLoopCycle sampleConsts edgeState (edgeEnv v1)

/-- The state `edgeState` of a process configured with the node as router and the router
address "AUTO". -/
def autoState : State :=
  { edgeState with
    config := { edgeState.config with nc_router := 1, nc_router_ip := 1,
                                      ncRouterIP := [65, 85, 84, 79] } }

/-- A read outside overlay mode: the private subnet is 10.0.0.0/255.255.255.0, the bridge device
has the addresses 192.168.1.1, 10.0.0.5 and 10.0.0.6, each with netmask 255.255.255.0. -/
def autoRead : ReadEnv :=
  { gni_populate_rc := 0, gni := { version := v1, nmCode := 0 }, find_self_cluster_rc := 0,
    private_subnet := { subnet := 167772160, netmask := 4294967040, gateway := 167772161 },
    dot2hex := 0, getdevinfo_rc := 0,
    brdev := [(3232235777, 4294967040), (167772165, 4294967040), (167772166, 4294967040)] }

/-! ### Command-line options and the singleton lock (lines 369-475) -/

/-- Constants of `eucanetd.h`, which is not among the sources at hand: the flush modes of the
overlay back end and the debug levels. `FLUSH_ALL` and `FLUSH_DYNAMIC` are fields of
`Consts`. -/
structure OptConsts where
  FLUSH_MIDO_LISTVPC : Nat
  FLUSH_MIDO_DYNAMIC : Nat
  FLUSH_MIDO_ALL : Nat
  FLUSH_MIDO_CHECKDUPS : Nat
  FLUSH_MIDO_DUPS : Nat
  FLUSH_MIDO_CHECKUNCONNECTED : Nat
  FLUSH_MIDO_UNCONNECTED : Nat
  FLUSH_MIDO_CHECKVPC : Nat
  FLUSH_MIDO_VPC : Nat
  FLUSH_MIDO_TEST : Nat
  EUCANETD_DEBUG_TRACE : Nat
  EUCANETD_DEBUG_INFO : Nat
  deriving DecidableEq, Repr

/-- The fields of `config` that the option loop writes. `flushmodearg` is the pointer `optarg`,
`none` when null. -/
structure OptConfig where
  flushmode : Nat
  debug : Nat
  flushmodearg : Option CStr
  multieucanetd_safe : Bool
  deriving DecidableEq, Repr

/-- What one call of `getopt` hands back: the option character (`?` for an option that is not
in "dhHlfFmMuUCZv:V:z:" or lacks its argument) and `optarg`. -/
structure Opt where
  opt : Char
  optarg : Option CStr
  deriving DecidableEq, Repr

/-- How option parsing ends: with the usage text and `exit(1)`, or with the configuration. -/
inductive Parsed where
  | exit (code : Int)
  | ok (c : OptConfig)
  deriving DecidableEq, Repr

/-- The `switch (opt)` of lines 373-458. -/
def applyOption (k : Consts) (m : OptConsts) (c : OptConfig) (o : Opt) : Parsed :=
  if o.opt = 'd' then .ok { c with debug := m.EUCANETD_DEBUG_TRACE }
  else if o.opt = 'l' then
    .ok { c with flushmode := m.FLUSH_MIDO_LISTVPC, debug := m.EUCANETD_DEBUG_INFO,
                 multieucanetd_safe := true }
  else if o.opt = 'F' then
    .ok { c with flushmode := k.FLUSH_ALL, debug := m.EUCANETD_DEBUG_INFO }
  else if o.opt = 'f' then
    .ok { c with flushmode := k.FLUSH_DYNAMIC, debug := m.EUCANETD_DEBUG_INFO }
  else if o.opt = 'C' then
    .ok { c with flushmode := m.FLUSH_MIDO_DYNAMIC, debug := m.EUCANETD_DEBUG_INFO }
  else if o.opt = 'Z' then
    .ok { c with flushmode := m.FLUSH_MIDO_ALL, debug := m.EUCANETD_DEBUG_INFO }
  else if o.opt = 'm' then
    .ok { c with flushmode := m.FLUSH_MIDO_CHECKDUPS, debug := m.EUCANETD_DEBUG_INFO,
                 multieucanetd_safe := true }
  else if o.opt = 'M' then
    .ok { c with flushmode := m.FLUSH_MIDO_DUPS, debug := m.EUCANETD_DEBUG_INFO }
  else if o.opt = 'u' then
    .ok { c with flushmode := m.FLUSH_MIDO_CHECKUNCONNECTED, debug := m.EUCANETD_DEBUG_INFO,
                 multieucanetd_safe := true }
  else if o.opt = 'U' then
    .ok { c with flushmode := m.FLUSH_MIDO_UNCONNECTED, debug := m.EUCANETD_DEBUG_INFO }
  else if o.opt = 'v' then
    .ok { c with flushmode := m.FLUSH_MIDO_CHECKVPC, debug := m.EUCANETD_DEBUG_INFO,
                 flushmodearg := o.optarg, multieucanetd_safe := true }
  else if o.opt = 'V' then
    .ok { c with flushmode := m.FLUSH_MIDO_VPC, debug := m.EUCANETD_DEBUG_INFO,
                 flushmodearg := o.optarg }
  else if o.opt = 'z' then
    .ok { c with flushmode := m.FLUSH_MIDO_TEST, debug := m.EUCANETD_DEBUG_INFO,
                 flushmodearg := o.optarg }
  else .exit 1

/-- The loop `while ((opt = getopt(...)) != -1)` of line 372, over the options `getopt` returns
in turn. -/
def parseOptions (k : Consts) (m : OptConsts) : OptConfig → List Opt → Parsed
  | c, [] => .ok c
  | c, o :: os =>
    match applyOption k m c o with
    | .exit code => .exit code
    | .ok c2 => parseOptions k m c2 os

/-- The configuration when option parsing starts: `config` was zero-allocated by
`eucanetd_initialize` (line 1057), and line 371 stores `FLUSH_NONE`. -/
def initialConfig : OptConfig :=
  { flushmode := FLUSH_NONE, debug := 0, flushmodearg := none, multieucanetd_safe := false }

/-- How lines 369-475 end: the process exits, or goes on to daemonize, holding the singleton
socket (`locked`) or without having tried to bind it (`unlocked`). -/
inductive Startup where
  | exit (code : Int)
  | locked (c : OptConfig)
  | unlocked (c : OptConfig)
  deriving DecidableEq, Repr

/-- Lines 369-475 of `main`: parse the options, read the bootstrap configuration, and bind the
singleton socket unless `multieucanetd_safe` is set. The arguments are the options `getopt`
returns and the return codes of `eucanetd_read_config_bootstrap` and
`eucanetd_dummy_udpsock`. -/
def startup (k : Consts) (m : OptConsts) (opts : List Opt) (bootstrap_rc udpsock_rc : Int) :
    Startup :=
  match parseOptions k m initialConfig opts with
  | .exit code => .exit code
  | .ok c =>
    if bootstrap_rc ≠ 0 then .exit 1
    else if c.multieucanetd_safe = false then
      (if udpsock_rc = -1 then .exit 1 else .locked c)
    else .unlocked c

/-- The option sets the flag `multieucanetd_safe`: one of `-l`, `-m`, `-u`, `-v`. -/
def Opt.isSafe (o : Opt) : Bool :=
  o.opt = 'l' || o.opt = 'm' || o.opt = 'u' || o.opt = 'v'

/-- Sample values for the constants of the overlay flush modes and the debug levels. -/
def sampleOptConsts : OptConsts :=
  { FLUSH_MIDO_LISTVPC := 3, FLUSH_MIDO_DYNAMIC := 4, FLUSH_MIDO_ALL := 5,
    FLUSH_MIDO_CHECKDUPS := 6, FLUSH_MIDO_DUPS := 7, FLUSH_MIDO_CHECKUNCONNECTED := 8,
    FLUSH_MIDO_UNCONNECTED := 9, FLUSH_MIDO_CHECKVPC := 10, FLUSH_MIDO_VPC := 11,
    FLUSH_MIDO_TEST := 12, EUCANETD_DEBUG_TRACE := 1, EUCANETD_DEBUG_INFO := 2 }

/-- The argument "vpc-1" of an option. -/
def vpcArg : CStr := [118, 112, 99, 45, 49]

/-- The option `-l`. -/
def optL : Opt := { opt := 'l', optarg := none }

/-- The option `-F`. -/
def optF : Opt := { opt := 'F', optarg := none }

/-- The option `-z vpc-1`. -/
def optZ : Opt := { opt := 'z', optarg := some vpcArg }

end Eucanetd

/-! # diskutil: helpers of `storage/diskutil.c`

`diskutil_init` (lines 129-139), `diskutil_sectors` (351-401) and the sector rounding of lines
657-658.

Conventions.
* C strings are lists of (non NUL) byte values.
* `long long` values are integers; the result of an arithmetic operation is wrapped to 64 bits
  (`wrapLL`).
* The constants `OK`, `ERROR` and `SECTOR_SIZE` come from headers that are not among the sources
  at hand: they are the fields of `DiskConsts`.
* The output of the external command run by `pruntf` is an argument, `none` when `pruntf`
  returns null. The libc functions `strtok`, `strstr` and `atoll` are modelled after their
  manual pages.
* The buffer `pruntf` returns holds what the command printed, as one C string (lines 640-645).
  `strtok` writes NUL over the semicolon that ends a token: the string that starts one byte
  past the end of a token is the rest of the output. The memory after the terminator of the
  output was never written, nor was any of the buffer when the command printed nothing: a
  read from there has no determined result, which is `none` in the model.
-/

namespace Diskutil

/-- A C string, as the list of its bytes up to (excluding) the terminating NUL. -/
abbrev Bytes := List Nat

/-- The bytes of a string literal. -/
def str (s : String) : Bytes := s.toList.map Char.toNat

/-- Constants of `eucalyptus.h` and `diskutil.h`. -/
structure DiskConsts where
  OK : Int
  ERROR : Int
  SECTOR_SIZE : Int
  deriving DecidableEq, Repr

/-- The value of a `long long` computation: wrapped to 64 bits, two's complement. -/
def wrapLL (x : Int) : Int := (x + 2 ^ 63) % 2 ^ 64 - 2 ^ 63

/-! ### Sector rounding (lines 657-658) -/

/-- The function `round_up_sec` (line 657); `%` and `/` are the truncating operators of C. -/
def round_up_sec (k : DiskConsts) (bytes : Int) : Int :=
  if bytes.tmod k.SECTOR_SIZE ≠ 0 then
    wrapLL (wrapLL (bytes.tdiv k.SECTOR_SIZE + 1) * k.SECTOR_SIZE)
  else bytes

/-- The function `round_down_sec` (line 658). -/
def round_down_sec (k : DiskConsts) (bytes : Int) : Int :=
  if bytes.tmod k.SECTOR_SIZE ≠ 0 then wrapLL (bytes.tdiv k.SECTOR_SIZE * k.SECTOR_SIZE)
  else bytes

/-! ### `diskutil_init` (lines 127-139) -/

/-- The static `initialized` (line 127), and a ghost count of the calls of `verify_helpers`. -/
structure InitState where
  initialized : Int
  verifyCalls : Nat
  deriving DecidableEq, Repr

/-- The state when the process starts: `static int initialized = 0`. -/
def InitState.start : InitState := { initialized := 0, verifyCalls := 0 }

/-- The function `diskutil_init` (lines 129-139): the argument is what `verify_helpers` returns
if it is called; the result is the return value and the new state. -/
def diskutil_init (st : InitState) (verify_helpers_rc : Int) : Int × InitState :=
  if st.initialized = 0 then
    (verify_helpers_rc, { initialized := 1, verifyCalls := st.verifyCalls + 1 })
  else (0, st)

/-- A sequence of calls of `diskutil_init`, one for each element of the list (the value
`verify_helpers` would return at that call): the return values, and the state at the end. -/
def initCalls : InitState → List Int → List Int × InitState
  | st, [] => ([], st)
  | st, rc :: rcs =>
    ((diskutil_init st rc).1 :: (initCalls (diskutil_init st rc).2 rcs).1,
     (initCalls (diskutil_init st rc).2 rcs).2)

/-! ### `diskutil_sectors` (lines 351-401) -/

/-- The tokens that `strtok (output, ";")`, followed by repeated `strtok (NULL, ";")`, returns
for the string in the buffer: its maximal runs of bytes other than the delimiter, in order,
each with what follows it in the buffer. A run that ends at a delimiter has that byte
overwritten with NUL by `strtok`, and comes with `some r`, where `r` is the string that starts
at the next byte: the rest of the output, untouched, at which the next call resumes. A run that
ends at the terminator of the output comes with `none`. The first argument is the run read so
far. -/
def strtokScan (delim : Nat) : Bytes → Bytes → List (Bytes × Option Bytes)
  | cur, [] => if cur = [] then [] else [(cur, none)]
  | cur, c :: cs =>
    if c = delim then
      if cur = [] then strtokScan delim [] cs else (cur, some cs) :: strtokScan delim [] cs
    else strtokScan delim (cur ++ [c]) cs

/-- The tokens of a string, each with what follows it in the buffer. -/
def strtokAll (delim : Nat) (s : Bytes) : List (Bytes × Option Bytes) := strtokScan delim [] s

/-- The loop of lines 369-375 once the first token has been taken: `p` counts from 0, each
round takes the next token, and stops with it when `p` is `part`; `none` when the tokens run
out (`found` stays `FALSE`). -/
def sectionLoop (part : Int) : Int → List (Bytes × Option Bytes) → Option (Bytes × Option Bytes)
  | _, [] => none
  | p, t :: rest => if p = part then some t else sectionLoop part (p + 1) rest

/-- Lines 368-375: the section that the loop stops at, with what follows it in the buffer.
Without a first token the loop is not entered. -/
def findSection (tokens : List (Bytes × Option Bytes)) (part : Int) :
    Option (Bytes × Option Bytes) :=
  match tokens with
  | [] => none
  | _ :: rest => sectionLoop part 0 rest

/-- The libc function `strstr`: the offset of the first occurrence of `needle` in `hay`. -/
def strstr : Bytes → Bytes → Option Nat
  | [], needle => if needle = [] then some 0 else none
  | c :: cs, needle =>
    if needle.isPrefixOf (c :: cs) then some 0 else (strstr cs needle).map (· + 1)

/-- The value of the longest prefix of decimal digits of a string, after `acc`. -/
def digitsVal : Nat → Bytes → Nat
  | acc, [] => acc
  | acc, c :: cs => if 48 ≤ c ∧ c ≤ 57 then digitsVal (acc * 10 + (c - 48)) cs else acc

/-- The test `isspace` of the C locale. -/
def isspace (c : Nat) : Bool := c = 32 || (9 ≤ c && c ≤ 13)

/-- The libc function `atoll`: white space, an optional sign, decimal digits; a value out of
the range of `long long` is clamped to the range, as `strtoll` does. -/
def atoll (s : Bytes) : Int :=
  match s.dropWhile isspace with
  | 45 :: r => max (-(2 ^ 63)) (-(digitsVal 0 r : Int))
  | 43 :: r => min (digitsVal 0 r : Int) (2 ^ 63 - 1)
  | r => min (digitsVal 0 r : Int) (2 ^ 63 - 1)

/-- Lines 379-389, for the string `ss` points to once it has been moved past `startsector `:
the values stored in `*first` and `*last`; both stay 0 when `, ` does not occur in the string,
or ` sectors` does not occur after the first `, `. -/
def afterStart (s : Bytes) : Int × Int :=
  match strstr s (str ", ") with
  | none => (0, 0)
  | some j =>
    match strstr (s.drop (j + 2)) (str " sectors") with
    | none => (0, 0)
    | some e =>
      (atoll (s.take j),
       wrapLL (wrapLL (atoll (s.take j) + atoll ((s.drop (j + 2)).take e)) - 1))

/-- Lines 376-391: the values stored in `*first` and `*last` for the section found, given what
follows the section in the buffer; both stay 0 when the section has no `startsector`.
Line 378 moves `ss` 12 bytes past the start of the first `startsector`, one byte more than the
length of that word. When the section goes on after the word, `ss` points into the section.
When the section ends with the word, `ss` points one byte past the NUL that ends the section:
at the rest of the output when `strtok` wrote that NUL over a semicolon, and outside the string
that `pruntf` returned when the NUL is the terminator of the output: the bytes there were never
written, and the result is `none`. -/
def sectorsOf (sec : Bytes) (rest : Option Bytes) : Option (Int × Int) :=
  match strstr sec (str "startsector") with
  | none => some (0, 0)
  | some i =>
    if sec.length < i + 12 then rest.map afterStart
    else some (afterStart (sec.drop (i + 12)))

/-- What `diskutil_sectors` hands back: its return value and the values of `*first` and
`*last`. -/
structure Sectors where
  ret : Int
  first : Int
  last : Int
  deriving DecidableEq, Repr

/-- The function `diskutil_sectors` (lines 351-401). The argument `output` is what the `file`
command printed, `none` when `pruntf` returns null. The result is `none` when the function
reads memory that was never written: past the terminator of the output (see `sectorsOf`), and
when the command printed nothing, which leaves the buffer as `malloc` returned it (lines
640-645). -/
def diskutil_sectors (k : DiskConsts) (output : Option Bytes) (part : Int) : Option Sectors :=
  match output with
  | none => some { ret := k.ERROR, first := 0, last := 0 }
  | some out =>
    if out = [] then none
    else
      match findSection (strtokAll 59 out) part with
      | none => some { ret := k.ERROR, first := 0, last := 0 }
      | some (sec, rest) =>
        (sectorsOf sec rest).map
          (fun (fl : Int × Int) =>
            { ret := if fl.2 > 0 then k.OK else k.ERROR, first := fl.1, last := fl.2 })

/-! ### Sample data -/

/-- Sample values of the constants: `OK` 0, `ERROR` 1, sectors of 512 bytes. -/
def sampleDisk : DiskConsts := { OK := 0, ERROR := 1, SECTOR_SIZE := 512 }

/-- The name section of the output documented at lines 362-366. -/
def sampleName : Bytes := str "NAME: x86 boot sector"

/-- The three partition sections of the output documented at lines 362-366. -/
def sampleSecs : List Bytes :=
  [str " partition 1: ID=0x83, starthead 1, startsector 63, 32769 sectors",
   str " partition 2: ID=0x83, starthead 2, startsector 32832, 32769 sectors",
   str " partition 3: ID=0x82, starthead 2, startsector 65601, 81 sectors"]

/-- The output documented at lines 362-366, on one line as `file` prints it. -/
def sampleOutput : Bytes :=
  str "NAME: x86 boot sector; partition 1: ID=0x83, starthead 1, startsector 63, " ++
  str "32769 sectors; partition 2: ID=0x83, starthead 2, startsector 32832, 32769 sectors; " ++
  str "partition 3: ID=0x82, starthead 2, startsector 65601, 81 sectors"

end Diskutil

namespace Eucanetd

/-! # Frame lemmas: the fields each step leaves alone -/

/-- The fields `State.call` leaves alone. -/
@[simp] theorem call_frame (s : State) (c : Call) :
    (s.call c).scrubResult = s.scrubResult ∧ (s.call c).rc = s.rc ∧
    (s.call c).firstrun = s.firstrun ∧ (s.call c).counter = s.counter ∧
    (s.call c).epoch_updates = s.epoch_updates ∧ (s.call c).lni_rc = s.lni_rc ∧
    (s.call c).epoch_failed_updates = s.epoch_failed_updates ∧
    (s.call c).epoch_checks = s.epoch_checks ∧ (s.call c).epoch_timer = s.epoch_timer ∧
    (s.call c).update_globalnet = s.update_globalnet ∧
    (s.call c).update_globalnet_failed = s.update_globalnet_failed ∧
    (s.call c).update_version_file = s.update_version_file ∧ (s.call c).config = s.config ∧
    (s.call c).driver = s.driver ∧ (s.call c).pGni = s.pGni ∧
    (s.call c).pGniApplied = s.pGniApplied ∧ (s.call c).gni_a = s.gni_a ∧
    (s.call c).gni_b = s.gni_b ∧ (s.call c).heap = s.heap ∧
    (s.call c).gIsRunning = s.gIsRunning ∧ (s.call c).gUsr1Caught = s.gUsr1Caught ∧
    (s.call c).gUsr2Caught = s.gUsr2Caught ∧ (s.call c).gHupCaught = s.gHupCaught ∧
    (s.call c).gTermCaught = s.gTermCaught ∧ (s.call c).versionFile = s.versionFile := by
  simp [State.call]

/-- The fields `eucanetd_sigterm_handler` leaves alone. -/
@[simp] theorem eucanetd_sigterm_handler_frame (s : State) :
    (eucanetd_sigterm_handler s).scrubResult = s.scrubResult ∧
    (eucanetd_sigterm_handler s).rc = s.rc ∧ (eucanetd_sigterm_handler s).firstrun = s.firstrun ∧
    (eucanetd_sigterm_handler s).counter = s.counter ∧
    (eucanetd_sigterm_handler s).epoch_updates = s.epoch_updates ∧
    (eucanetd_sigterm_handler s).lni_rc = s.lni_rc ∧
    (eucanetd_sigterm_handler s).epoch_failed_updates = s.epoch_failed_updates ∧
    (eucanetd_sigterm_handler s).epoch_checks = s.epoch_checks ∧
    (eucanetd_sigterm_handler s).epoch_timer = s.epoch_timer ∧
    (eucanetd_sigterm_handler s).update_globalnet = s.update_globalnet ∧
    (eucanetd_sigterm_handler s).update_globalnet_failed = s.update_globalnet_failed ∧
    (eucanetd_sigterm_handler s).update_version_file = s.update_version_file ∧
    (eucanetd_sigterm_handler s).config = s.config ∧
    (eucanetd_sigterm_handler s).driver = s.driver ∧ (eucanetd_sigterm_handler s).pGni = s.pGni ∧
    (eucanetd_sigterm_handler s).pGniApplied = s.pGniApplied ∧
    (eucanetd_sigterm_handler s).gni_a = s.gni_a ∧ (eucanetd_sigterm_handler s).gni_b = s.gni_b ∧
    (eucanetd_sigterm_handler s).heap = s.heap ∧
    (eucanetd_sigterm_handler s).gUsr1Caught = s.gUsr1Caught ∧
    (eucanetd_sigterm_handler s).gUsr2Caught = s.gUsr2Caught ∧
    (eucanetd_sigterm_handler s).gHupCaught = s.gHupCaught ∧
    (eucanetd_sigterm_handler s).versionFile = s.versionFile ∧
    (eucanetd_sigterm_handler s).calls = s.calls := by
  simp [eucanetd_sigterm_handler]

/-- The fields `eucanetd_sighup_handler` leaves alone. -/
@[simp] theorem eucanetd_sighup_handler_frame (s : State) :
    (eucanetd_sighup_handler s).scrubResult = s.scrubResult ∧
    (eucanetd_sighup_handler s).rc = s.rc ∧ (eucanetd_sighup_handler s).firstrun = s.firstrun ∧
    (eucanetd_sighup_handler s).counter = s.counter ∧
    (eucanetd_sighup_handler s).epoch_updates = s.epoch_updates ∧
    (eucanetd_sighup_handler s).lni_rc = s.lni_rc ∧
    (eucanetd_sighup_handler s).epoch_failed_updates = s.epoch_failed_updates ∧
    (eucanetd_sighup_handler s).epoch_checks = s.epoch_checks ∧
    (eucanetd_sighup_handler s).epoch_timer = s.epoch_timer ∧
    (eucanetd_sighup_handler s).update_globalnet = s.update_globalnet ∧
    (eucanetd_sighup_handler s).update_globalnet_failed = s.update_globalnet_failed ∧
    (eucanetd_sighup_handler s).update_version_file = s.update_version_file ∧
    (eucanetd_sighup_handler s).config.nmCode = s.config.nmCode ∧
    (eucanetd_sighup_handler s).config.polling_frequency = s.config.polling_frequency ∧
    (eucanetd_sighup_handler s).config.lastAppliedVersion = s.config.lastAppliedVersion ∧
    (eucanetd_sighup_handler s).config.nc_router = s.config.nc_router ∧
    (eucanetd_sighup_handler s).config.nc_router_ip = s.config.nc_router_ip ∧
    (eucanetd_sighup_handler s).config.ncRouterIP = s.config.ncRouterIP ∧
    (eucanetd_sighup_handler s).config.vmGatewayIP = s.config.vmGatewayIP ∧
    (eucanetd_sighup_handler s).driver = s.driver ∧ (eucanetd_sighup_handler s).pGni = s.pGni ∧
    (eucanetd_sighup_handler s).pGniApplied = s.pGniApplied ∧
    (eucanetd_sighup_handler s).gni_a = s.gni_a ∧ (eucanetd_sighup_handler s).gni_b = s.gni_b ∧
    (eucanetd_sighup_handler s).heap = s.heap ∧
    (eucanetd_sighup_handler s).gIsRunning = s.gIsRunning ∧
    (eucanetd_sighup_handler s).gUsr1Caught = s.gUsr1Caught ∧
    (eucanetd_sighup_handler s).gUsr2Caught = s.gUsr2Caught ∧
    (eucanetd_sighup_handler s).gTermCaught = s.gTermCaught ∧
    (eucanetd_sighup_handler s).versionFile = s.versionFile ∧
    (eucanetd_sighup_handler s).calls = s.calls := by
  simp [eucanetd_sighup_handler]

/-- The fields `eucanetd_sigusr1_handler` leaves alone. -/
@[simp] theorem eucanetd_sigusr1_handler_frame (s : State) :
    (eucanetd_sigusr1_handler s).scrubResult = s.scrubResult ∧
    (eucanetd_sigusr1_handler s).rc = s.rc ∧ (eucanetd_sigusr1_handler s).firstrun = s.firstrun ∧
    (eucanetd_sigusr1_handler s).counter = s.counter ∧
    (eucanetd_sigusr1_handler s).epoch_updates = s.epoch_updates ∧
    (eucanetd_sigusr1_handler s).lni_rc = s.lni_rc ∧
    (eucanetd_sigusr1_handler s).epoch_failed_updates = s.epoch_failed_updates ∧
    (eucanetd_sigusr1_handler s).epoch_checks = s.epoch_checks ∧
    (eucanetd_sigusr1_handler s).epoch_timer = s.epoch_timer ∧
    (eucanetd_sigusr1_handler s).update_globalnet = s.update_globalnet ∧
    (eucanetd_sigusr1_handler s).update_globalnet_failed = s.update_globalnet_failed ∧
    (eucanetd_sigusr1_handler s).update_version_file = s.update_version_file ∧
    (eucanetd_sigusr1_handler s).config = s.config ∧
    (eucanetd_sigusr1_handler s).driver = s.driver ∧ (eucanetd_sigusr1_handler s).pGni = s.pGni ∧
    (eucanetd_sigusr1_handler s).pGniApplied = s.pGniApplied ∧
    (eucanetd_sigusr1_handler s).gni_a = s.gni_a ∧ (eucanetd_sigusr1_handler s).gni_b = s.gni_b ∧
    (eucanetd_sigusr1_handler s).heap = s.heap ∧
    (eucanetd_sigusr1_handler s).gIsRunning = s.gIsRunning ∧
    (eucanetd_sigusr1_handler s).gUsr2Caught = s.gUsr2Caught ∧
    (eucanetd_sigusr1_handler s).gHupCaught = s.gHupCaught ∧
    (eucanetd_sigusr1_handler s).gTermCaught = s.gTermCaught ∧
    (eucanetd_sigusr1_handler s).versionFile = s.versionFile ∧
    (eucanetd_sigusr1_handler s).calls = s.calls := by
  simp [eucanetd_sigusr1_handler]

/-- The fields `eucanetd_sigusr2_handler` leaves alone. -/
@[simp] theorem eucanetd_sigusr2_handler_frame (s : State) :
    (eucanetd_sigusr2_handler s).scrubResult = s.scrubResult ∧
    (eucanetd_sigusr2_handler s).rc = s.rc ∧ (eucanetd_sigusr2_handler s).firstrun = s.firstrun ∧
    (eucanetd_sigusr2_handler s).counter = s.counter ∧
    (eucanetd_sigusr2_handler s).epoch_updates = s.epoch_updates ∧
    (eucanetd_sigusr2_handler s).lni_rc = s.lni_rc ∧
    (eucanetd_sigusr2_handler s).epoch_failed_updates = s.epoch_failed_updates ∧
    (eucanetd_sigusr2_handler s).epoch_checks = s.epoch_checks ∧
    (eucanetd_sigusr2_handler s).epoch_timer = s.epoch_timer ∧
    (eucanetd_sigusr2_handler s).update_globalnet = s.update_globalnet ∧
    (eucanetd_sigusr2_handler s).update_globalnet_failed = s.update_globalnet_failed ∧
    (eucanetd_sigusr2_handler s).update_version_file = s.update_version_file ∧
    (eucanetd_sigusr2_handler s).config = s.config ∧
    (eucanetd_sigusr2_handler s).driver = s.driver ∧ (eucanetd_sigusr2_handler s).pGni = s.pGni ∧
    (eucanetd_sigusr2_handler s).pGniApplied = s.pGniApplied ∧
    (eucanetd_sigusr2_handler s).gni_a = s.gni_a ∧ (eucanetd_sigusr2_handler s).gni_b = s.gni_b ∧
    (eucanetd_sigusr2_handler s).heap = s.heap ∧
    (eucanetd_sigusr2_handler s).gIsRunning = s.gIsRunning ∧
    (eucanetd_sigusr2_handler s).gUsr1Caught = s.gUsr1Caught ∧
    (eucanetd_sigusr2_handler s).gHupCaught = s.gHupCaught ∧
    (eucanetd_sigusr2_handler s).gTermCaught = s.gTermCaught ∧
    (eucanetd_sigusr2_handler s).versionFile = s.versionFile ∧
    (eucanetd_sigusr2_handler s).calls = s.calls := by
  simp [eucanetd_sigusr2_handler]

/-- The fields `deliver` leaves alone. -/
@[simp] theorem deliver_frame (s : State) (sig : Signal) :
    (deliver s sig).scrubResult = s.scrubResult ∧ (deliver s sig).rc = s.rc ∧
    (deliver s sig).firstrun = s.firstrun ∧ (deliver s sig).counter = s.counter ∧
    (deliver s sig).epoch_updates = s.epoch_updates ∧ (deliver s sig).lni_rc = s.lni_rc ∧
    (deliver s sig).epoch_failed_updates = s.epoch_failed_updates ∧
    (deliver s sig).epoch_checks = s.epoch_checks ∧ (deliver s sig).epoch_timer = s.epoch_timer ∧
    (deliver s sig).update_globalnet = s.update_globalnet ∧
    (deliver s sig).update_globalnet_failed = s.update_globalnet_failed ∧
    (deliver s sig).update_version_file = s.update_version_file ∧
    (deliver s sig).config.nmCode = s.config.nmCode ∧
    (deliver s sig).config.polling_frequency = s.config.polling_frequency ∧
    (deliver s sig).config.lastAppliedVersion = s.config.lastAppliedVersion ∧
    (deliver s sig).config.nc_router = s.config.nc_router ∧
    (deliver s sig).config.nc_router_ip = s.config.nc_router_ip ∧
    (deliver s sig).config.ncRouterIP = s.config.ncRouterIP ∧
    (deliver s sig).config.vmGatewayIP = s.config.vmGatewayIP ∧
    (deliver s sig).driver = s.driver ∧ (deliver s sig).pGni = s.pGni ∧
    (deliver s sig).pGniApplied = s.pGniApplied ∧ (deliver s sig).gni_a = s.gni_a ∧
    (deliver s sig).gni_b = s.gni_b ∧ (deliver s sig).heap = s.heap ∧
    (deliver s sig).versionFile = s.versionFile ∧ (deliver s sig).calls = s.calls := by
  cases sig <;> simp [deliver]

/-- The fields `eucanetd_fetch_latest_network` leaves alone. -/
@[simp] theorem eucanetd_fetch_latest_network_frame (s : State) (e : CycleEnv) :
    (eucanetd_fetch_latest_network s e).scrubResult = s.scrubResult ∧
    (eucanetd_fetch_latest_network s e).firstrun = s.firstrun ∧
    (eucanetd_fetch_latest_network s e).counter = s.counter ∧
    (eucanetd_fetch_latest_network s e).epoch_updates = s.epoch_updates ∧
    (eucanetd_fetch_latest_network s e).lni_rc = s.lni_rc ∧
    (eucanetd_fetch_latest_network s e).epoch_failed_updates = s.epoch_failed_updates ∧
    (eucanetd_fetch_latest_network s e).epoch_checks = s.epoch_checks ∧
    (eucanetd_fetch_latest_network s e).epoch_timer = s.epoch_timer ∧
    (eucanetd_fetch_latest_network s e).update_globalnet_failed = s.update_globalnet_failed ∧
    (eucanetd_fetch_latest_network s e).update_version_file = s.update_version_file ∧
    (eucanetd_fetch_latest_network s e).config = s.config ∧
    (eucanetd_fetch_latest_network s e).driver = s.driver ∧
    (eucanetd_fetch_latest_network s e).pGni = s.pGni ∧
    (eucanetd_fetch_latest_network s e).pGniApplied = s.pGniApplied ∧
    (eucanetd_fetch_latest_network s e).gni_a = s.gni_a ∧
    (eucanetd_fetch_latest_network s e).gni_b = s.gni_b ∧
    (eucanetd_fetch_latest_network s e).heap = s.heap ∧
    (eucanetd_fetch_latest_network s e).gIsRunning = s.gIsRunning ∧
    (eucanetd_fetch_latest_network s e).gUsr1Caught = s.gUsr1Caught ∧
    (eucanetd_fetch_latest_network s e).gUsr2Caught = s.gUsr2Caught ∧
    (eucanetd_fetch_latest_network s e).gHupCaught = s.gHupCaught ∧
    (eucanetd_fetch_latest_network s e).gTermCaught = s.gTermCaught ∧
    (eucanetd_fetch_latest_network s e).versionFile = s.versionFile ∧
    (eucanetd_fetch_latest_network s e).calls = s.calls := by
  simp [eucanetd_fetch_latest_network]

/-- The fields `gni_populate` leaves alone. -/
@[simp] theorem gni_populate_frame (s : State) (r : ReadEnv) :
    (gni_populate s r).scrubResult = s.scrubResult ∧ (gni_populate s r).rc = s.rc ∧
    (gni_populate s r).firstrun = s.firstrun ∧ (gni_populate s r).counter = s.counter ∧
    (gni_populate s r).epoch_updates = s.epoch_updates ∧ (gni_populate s r).lni_rc = s.lni_rc ∧
    (gni_populate s r).epoch_failed_updates = s.epoch_failed_updates ∧
    (gni_populate s r).epoch_checks = s.epoch_checks ∧
    (gni_populate s r).epoch_timer = s.epoch_timer ∧
    (gni_populate s r).update_globalnet = s.update_globalnet ∧
    (gni_populate s r).update_globalnet_failed = s.update_globalnet_failed ∧
    (gni_populate s r).update_version_file = s.update_version_file ∧
    (gni_populate s r).config = s.config ∧ (gni_populate s r).driver = s.driver ∧
    (gni_populate s r).pGni = s.pGni ∧ (gni_populate s r).pGniApplied = s.pGniApplied ∧
    (gni_populate s r).gni_a = s.gni_a ∧ (gni_populate s r).gni_b = s.gni_b ∧
    (gni_populate s r).gIsRunning = s.gIsRunning ∧
    (gni_populate s r).gUsr1Caught = s.gUsr1Caught ∧
    (gni_populate s r).gUsr2Caught = s.gUsr2Caught ∧
    (gni_populate s r).gHupCaught = s.gHupCaught ∧
    (gni_populate s r).gTermCaught = s.gTermCaught ∧
    (gni_populate s r).versionFile = s.versionFile ∧ (gni_populate s r).calls = s.calls := by
  simp [gni_populate]

/-- The fields `versionGate` leaves alone. -/
@[simp] theorem versionGate_frame (s : State) :
    (versionGate s).scrubResult = s.scrubResult ∧ (versionGate s).rc = s.rc ∧
    (versionGate s).firstrun = s.firstrun ∧ (versionGate s).counter = s.counter ∧
    (versionGate s).epoch_updates = s.epoch_updates ∧ (versionGate s).lni_rc = s.lni_rc ∧
    (versionGate s).epoch_failed_updates = s.epoch_failed_updates ∧
    (versionGate s).epoch_checks = s.epoch_checks ∧ (versionGate s).epoch_timer = s.epoch_timer ∧
    (versionGate s).update_globalnet_failed = s.update_globalnet_failed ∧
    (versionGate s).update_version_file = s.update_version_file ∧
    (versionGate s).config = s.config ∧ (versionGate s).driver = s.driver ∧
    (versionGate s).pGni = s.pGni ∧ (versionGate s).pGniApplied = s.pGniApplied ∧
    (versionGate s).gni_a = s.gni_a ∧ (versionGate s).gni_b = s.gni_b ∧
    (versionGate s).heap = s.heap ∧ (versionGate s).gIsRunning = s.gIsRunning ∧
    (versionGate s).gUsr1Caught = s.gUsr1Caught ∧ (versionGate s).gUsr2Caught = s.gUsr2Caught ∧
    (versionGate s).gHupCaught = s.gHupCaught ∧ (versionGate s).gTermCaught = s.gTermCaught ∧
    (versionGate s).versionFile = s.versionFile ∧ (versionGate s).calls = s.calls := by
  unfold versionGate; split_ifs <;> simp

/-- The fields `storeDetected` leaves alone. -/
@[simp] theorem storeDetected_frame (s : State) (o : Option Nat) :
    (storeDetected s o).scrubResult = s.scrubResult ∧ (storeDetected s o).firstrun = s.firstrun ∧
    (storeDetected s o).counter = s.counter ∧
    (storeDetected s o).epoch_updates = s.epoch_updates ∧ (storeDetected s o).lni_rc = s.lni_rc ∧
    (storeDetected s o).epoch_failed_updates = s.epoch_failed_updates ∧
    (storeDetected s o).epoch_checks = s.epoch_checks ∧
    (storeDetected s o).epoch_timer = s.epoch_timer ∧
    (storeDetected s o).update_globalnet = s.update_globalnet ∧
    (storeDetected s o).update_globalnet_failed = s.update_globalnet_failed ∧
    (storeDetected s o).update_version_file = s.update_version_file ∧
    (storeDetected s o).config.flushmode = s.config.flushmode ∧
    (storeDetected s o).config.nmCode = s.config.nmCode ∧
    (storeDetected s o).config.polling_frequency = s.config.polling_frequency ∧
    (storeDetected s o).config.lastAppliedVersion = s.config.lastAppliedVersion ∧
    (storeDetected s o).config.nc_router = s.config.nc_router ∧
    (storeDetected s o).config.nc_router_ip = s.config.nc_router_ip ∧
    (storeDetected s o).config.ncRouterIP = s.config.ncRouterIP ∧
    (storeDetected s o).driver = s.driver ∧ (storeDetected s o).pGni = s.pGni ∧
    (storeDetected s o).pGniApplied = s.pGniApplied ∧ (storeDetected s o).gni_a = s.gni_a ∧
    (storeDetected s o).gni_b = s.gni_b ∧ (storeDetected s o).heap = s.heap ∧
    (storeDetected s o).gIsRunning = s.gIsRunning ∧
    (storeDetected s o).gUsr1Caught = s.gUsr1Caught ∧
    (storeDetected s o).gUsr2Caught = s.gUsr2Caught ∧
    (storeDetected s o).gHupCaught = s.gHupCaught ∧
    (storeDetected s o).gTermCaught = s.gTermCaught ∧
    (storeDetected s o).versionFile = s.versionFile ∧ (storeDetected s o).calls = s.calls := by
  cases o <;> simp [storeDetected]

/-- The fields `selectGateway` leaves alone. -/
@[simp] theorem selectGateway_frame (k : Consts) (s : State) (r : ReadEnv) :
    (selectGateway k s r).scrubResult = s.scrubResult ∧
    (selectGateway k s r).firstrun = s.firstrun ∧ (selectGateway k s r).counter = s.counter ∧
    (selectGateway k s r).epoch_updates = s.epoch_updates ∧
    (selectGateway k s r).lni_rc = s.lni_rc ∧
    (selectGateway k s r).epoch_failed_updates = s.epoch_failed_updates ∧
    (selectGateway k s r).epoch_checks = s.epoch_checks ∧
    (selectGateway k s r).epoch_timer = s.epoch_timer ∧
    (selectGateway k s r).update_globalnet = s.update_globalnet ∧
    (selectGateway k s r).update_globalnet_failed = s.update_globalnet_failed ∧
    (selectGateway k s r).update_version_file = s.update_version_file ∧
    (selectGateway k s r).config.flushmode = s.config.flushmode ∧
    (selectGateway k s r).config.nmCode = s.config.nmCode ∧
    (selectGateway k s r).config.polling_frequency = s.config.polling_frequency ∧
    (selectGateway k s r).config.lastAppliedVersion = s.config.lastAppliedVersion ∧
    (selectGateway k s r).config.nc_router = s.config.nc_router ∧
    (selectGateway k s r).config.nc_router_ip = s.config.nc_router_ip ∧
    (selectGateway k s r).config.ncRouterIP = s.config.ncRouterIP ∧
    (selectGateway k s r).driver = s.driver ∧ (selectGateway k s r).pGni = s.pGni ∧
    (selectGateway k s r).pGniApplied = s.pGniApplied ∧ (selectGateway k s r).gni_a = s.gni_a ∧
    (selectGateway k s r).gni_b = s.gni_b ∧ (selectGateway k s r).heap = s.heap ∧
    (selectGateway k s r).gIsRunning = s.gIsRunning ∧
    (selectGateway k s r).gUsr1Caught = s.gUsr1Caught ∧
    (selectGateway k s r).gUsr2Caught = s.gUsr2Caught ∧
    (selectGateway k s r).gHupCaught = s.gHupCaught ∧
    (selectGateway k s r).gTermCaught = s.gTermCaught ∧
    (selectGateway k s r).versionFile = s.versionFile ∧
    (selectGateway k s r).calls = s.calls := by
  unfold selectGateway; split_ifs <;> simp

/-- The fields `eucanetd_read_latest_network` leaves alone. -/
@[simp] theorem eucanetd_read_latest_network_frame (k : Consts) (s : State) (r : ReadEnv) :
    (eucanetd_read_latest_network k s r).scrubResult = s.scrubResult ∧
    (eucanetd_read_latest_network k s r).firstrun = s.firstrun ∧
    (eucanetd_read_latest_network k s r).counter = s.counter ∧
    (eucanetd_read_latest_network k s r).epoch_updates = s.epoch_updates ∧
    (eucanetd_read_latest_network k s r).lni_rc = s.lni_rc ∧
    (eucanetd_read_latest_network k s r).epoch_failed_updates = s.epoch_failed_updates ∧
    (eucanetd_read_latest_network k s r).epoch_checks = s.epoch_checks ∧
    (eucanetd_read_latest_network k s r).epoch_timer = s.epoch_timer ∧
    (eucanetd_read_latest_network k s r).update_globalnet_failed = s.update_globalnet_failed ∧
    (eucanetd_read_latest_network k s r).update_version_file = s.update_version_file ∧
    (eucanetd_read_latest_network k s r).config.flushmode = s.config.flushmode ∧
    (eucanetd_read_latest_network k s r).config.nmCode = s.config.nmCode ∧
    (eucanetd_read_latest_network k s r).config.polling_frequency = s.config.polling_frequency ∧
    (eucanetd_read_latest_network k s r).config.lastAppliedVersion = s.config.lastAppliedVersion ∧
    (eucanetd_read_latest_network k s r).config.nc_router = s.config.nc_router ∧
    (eucanetd_read_latest_network k s r).config.nc_router_ip = s.config.nc_router_ip ∧
    (eucanetd_read_latest_network k s r).config.ncRouterIP = s.config.ncRouterIP ∧
    (eucanetd_read_latest_network k s r).driver = s.driver ∧
    (eucanetd_read_latest_network k s r).pGni = s.pGni ∧
    (eucanetd_read_latest_network k s r).pGniApplied = s.pGniApplied ∧
    (eucanetd_read_latest_network k s r).gni_a = s.gni_a ∧
    (eucanetd_read_latest_network k s r).gni_b = s.gni_b ∧
    (eucanetd_read_latest_network k s r).gIsRunning = s.gIsRunning ∧
    (eucanetd_read_latest_network k s r).gUsr1Caught = s.gUsr1Caught ∧
    (eucanetd_read_latest_network k s r).gUsr2Caught = s.gUsr2Caught ∧
    (eucanetd_read_latest_network k s r).gHupCaught = s.gHupCaught ∧
    (eucanetd_read_latest_network k s r).gTermCaught = s.gTermCaught ∧
    (eucanetd_read_latest_network k s r).versionFile = s.versionFile ∧
    (eucanetd_read_latest_network k s r).calls = s.calls := by
  unfold eucanetd_read_latest_network; split_ifs <;> simp

/-- The fields `loopTop` leaves alone. -/
@[simp] theorem loopTop_frame (s : State) :
    (loopTop s).scrubResult = s.scrubResult ∧ (loopTop s).rc = s.rc ∧
    (loopTop s).firstrun = s.firstrun ∧ (loopTop s).epoch_updates = s.epoch_updates ∧
    (loopTop s).lni_rc = s.lni_rc ∧ (loopTop s).epoch_failed_updates = s.epoch_failed_updates ∧
    (loopTop s).epoch_checks = s.epoch_checks ∧ (loopTop s).epoch_timer = s.epoch_timer ∧
    (loopTop s).update_globalnet = s.update_globalnet ∧
    (loopTop s).update_globalnet_failed = s.update_globalnet_failed ∧
    (loopTop s).update_version_file = s.update_version_file ∧ (loopTop s).config = s.config ∧
    (loopTop s).driver = s.driver ∧ (loopTop s).pGni = s.pGni ∧
    (loopTop s).pGniApplied = s.pGniApplied ∧ (loopTop s).gni_a = s.gni_a ∧
    (loopTop s).gni_b = s.gni_b ∧ (loopTop s).heap = s.heap ∧
    (loopTop s).gIsRunning = s.gIsRunning ∧ (loopTop s).gUsr1Caught = s.gUsr1Caught ∧
    (loopTop s).gUsr2Caught = s.gUsr2Caught ∧ (loopTop s).gHupCaught = s.gHupCaught ∧
    (loopTop s).gTermCaught = s.gTermCaught ∧ (loopTop s).versionFile = s.versionFile := by
  simp [loopTop]

/-- The fields `forceFirstRun` leaves alone. -/
@[simp] theorem forceFirstRun_frame (s : State) :
    (forceFirstRun s).scrubResult = s.scrubResult ∧ (forceFirstRun s).rc = s.rc ∧
    (forceFirstRun s).counter = s.counter ∧ (forceFirstRun s).epoch_updates = s.epoch_updates ∧
    (forceFirstRun s).lni_rc = s.lni_rc ∧
    (forceFirstRun s).epoch_failed_updates = s.epoch_failed_updates ∧
    (forceFirstRun s).epoch_checks = s.epoch_checks ∧
    (forceFirstRun s).epoch_timer = s.epoch_timer ∧
    (forceFirstRun s).update_globalnet_failed = s.update_globalnet_failed ∧
    (forceFirstRun s).update_version_file = s.update_version_file ∧
    (forceFirstRun s).config = s.config ∧ (forceFirstRun s).driver = s.driver ∧
    (forceFirstRun s).pGni = s.pGni ∧ (forceFirstRun s).pGniApplied = s.pGniApplied ∧
    (forceFirstRun s).gni_a = s.gni_a ∧ (forceFirstRun s).gni_b = s.gni_b ∧
    (forceFirstRun s).heap = s.heap ∧ (forceFirstRun s).gIsRunning = s.gIsRunning ∧
    (forceFirstRun s).gUsr1Caught = s.gUsr1Caught ∧
    (forceFirstRun s).gUsr2Caught = s.gUsr2Caught ∧ (forceFirstRun s).gHupCaught = s.gHupCaught ∧
    (forceFirstRun s).gTermCaught = s.gTermCaught ∧
    (forceFirstRun s).versionFile = s.versionFile ∧ (forceFirstRun s).calls = s.calls := by
  unfold forceFirstRun; split_ifs <;> simp

/-- The fields `forceOnHup` leaves alone. -/
@[simp] theorem forceOnHup_frame (s : State) :
    (forceOnHup s).scrubResult = s.scrubResult ∧ (forceOnHup s).rc = s.rc ∧
    (forceOnHup s).firstrun = s.firstrun ∧ (forceOnHup s).counter = s.counter ∧
    (forceOnHup s).epoch_updates = s.epoch_updates ∧ (forceOnHup s).lni_rc = s.lni_rc ∧
    (forceOnHup s).epoch_failed_updates = s.epoch_failed_updates ∧
    (forceOnHup s).epoch_checks = s.epoch_checks ∧ (forceOnHup s).epoch_timer = s.epoch_timer ∧
    (forceOnHup s).update_globalnet_failed = s.update_globalnet_failed ∧
    (forceOnHup s).update_version_file = s.update_version_file ∧
    (forceOnHup s).config.flushmode = s.config.flushmode ∧
    (forceOnHup s).config.nmCode = s.config.nmCode ∧
    (forceOnHup s).config.polling_frequency = s.config.polling_frequency ∧
    (forceOnHup s).config.nc_router = s.config.nc_router ∧
    (forceOnHup s).config.nc_router_ip = s.config.nc_router_ip ∧
    (forceOnHup s).config.ncRouterIP = s.config.ncRouterIP ∧
    (forceOnHup s).config.vmGatewayIP = s.config.vmGatewayIP ∧ (forceOnHup s).driver = s.driver ∧
    (forceOnHup s).pGni = s.pGni ∧ (forceOnHup s).pGniApplied = s.pGniApplied ∧
    (forceOnHup s).gni_a = s.gni_a ∧ (forceOnHup s).gni_b = s.gni_b ∧
    (forceOnHup s).heap = s.heap ∧ (forceOnHup s).gIsRunning = s.gIsRunning ∧
    (forceOnHup s).gUsr1Caught = s.gUsr1Caught ∧ (forceOnHup s).gUsr2Caught = s.gUsr2Caught ∧
    (forceOnHup s).gTermCaught = s.gTermCaught ∧ (forceOnHup s).versionFile = s.versionFile ∧
    (forceOnHup s).calls = s.calls := by
  unfold forceOnHup; split_ifs <;> simp

/-- The fields `forceAfterFailure` leaves alone. -/
@[simp] theorem forceAfterFailure_frame (s : State) :
    (forceAfterFailure s).scrubResult = s.scrubResult ∧ (forceAfterFailure s).rc = s.rc ∧
    (forceAfterFailure s).firstrun = s.firstrun ∧ (forceAfterFailure s).counter = s.counter ∧
    (forceAfterFailure s).epoch_updates = s.epoch_updates ∧
    (forceAfterFailure s).lni_rc = s.lni_rc ∧
    (forceAfterFailure s).epoch_failed_updates = s.epoch_failed_updates ∧
    (forceAfterFailure s).epoch_checks = s.epoch_checks ∧
    (forceAfterFailure s).epoch_timer = s.epoch_timer ∧
    (forceAfterFailure s).update_version_file = s.update_version_file ∧
    (forceAfterFailure s).config = s.config ∧ (forceAfterFailure s).driver = s.driver ∧
    (forceAfterFailure s).pGni = s.pGni ∧ (forceAfterFailure s).pGniApplied = s.pGniApplied ∧
    (forceAfterFailure s).gni_a = s.gni_a ∧ (forceAfterFailure s).gni_b = s.gni_b ∧
    (forceAfterFailure s).heap = s.heap ∧ (forceAfterFailure s).gIsRunning = s.gIsRunning ∧
    (forceAfterFailure s).gUsr1Caught = s.gUsr1Caught ∧
    (forceAfterFailure s).gUsr2Caught = s.gUsr2Caught ∧
    (forceAfterFailure s).gHupCaught = s.gHupCaught ∧
    (forceAfterFailure s).gTermCaught = s.gTermCaught ∧
    (forceAfterFailure s).versionFile = s.versionFile ∧
    (forceAfterFailure s).calls = s.calls := by
  unfold forceAfterFailure; split_ifs <;> simp

/-- The fields `stageFetch` leaves alone. -/
@[simp] theorem stageFetch_frame (s : State) (e : CycleEnv) :
    (stageFetch s e).scrubResult = s.scrubResult ∧
    (stageFetch s e).epoch_updates = s.epoch_updates ∧ (stageFetch s e).lni_rc = s.lni_rc ∧
    (stageFetch s e).epoch_failed_updates = s.epoch_failed_updates ∧
    (stageFetch s e).epoch_checks = s.epoch_checks ∧
    (stageFetch s e).epoch_timer = s.epoch_timer ∧
    (stageFetch s e).update_version_file = s.update_version_file ∧
    (stageFetch s e).config.flushmode = s.config.flushmode ∧
    (stageFetch s e).config.nmCode = s.config.nmCode ∧
    (stageFetch s e).config.polling_frequency = s.config.polling_frequency ∧
    (stageFetch s e).config.nc_router = s.config.nc_router ∧
    (stageFetch s e).config.nc_router_ip = s.config.nc_router_ip ∧
    (stageFetch s e).config.ncRouterIP = s.config.ncRouterIP ∧
    (stageFetch s e).config.vmGatewayIP = s.config.vmGatewayIP ∧
    (stageFetch s e).driver = s.driver ∧ (stageFetch s e).pGni = s.pGni ∧
    (stageFetch s e).pGniApplied = s.pGniApplied ∧ (stageFetch s e).gni_a = s.gni_a ∧
    (stageFetch s e).gni_b = s.gni_b ∧ (stageFetch s e).heap = s.heap ∧
    (stageFetch s e).gIsRunning = s.gIsRunning ∧ (stageFetch s e).gUsr1Caught = s.gUsr1Caught ∧
    (stageFetch s e).gUsr2Caught = s.gUsr2Caught ∧ (stageFetch s e).gTermCaught = s.gTermCaught ∧
    (stageFetch s e).versionFile = s.versionFile := by
  simp [stageFetch]

/-- The fields `readIfUpdate` leaves alone. -/
@[simp] theorem readIfUpdate_frame (k : Consts) (s : State) (e : CycleEnv) :
    (readIfUpdate k s e).scrubResult = s.scrubResult ∧
    (readIfUpdate k s e).firstrun = s.firstrun ∧ (readIfUpdate k s e).counter = s.counter ∧
    (readIfUpdate k s e).epoch_updates = s.epoch_updates ∧
    (readIfUpdate k s e).lni_rc = s.lni_rc ∧
    (readIfUpdate k s e).epoch_failed_updates = s.epoch_failed_updates ∧
    (readIfUpdate k s e).epoch_checks = s.epoch_checks ∧
    (readIfUpdate k s e).epoch_timer = s.epoch_timer ∧
    (readIfUpdate k s e).update_globalnet_failed = s.update_globalnet_failed ∧
    (readIfUpdate k s e).update_version_file = s.update_version_file ∧
    (readIfUpdate k s e).config.flushmode = s.config.flushmode ∧
    (readIfUpdate k s e).config.nmCode = s.config.nmCode ∧
    (readIfUpdate k s e).config.polling_frequency = s.config.polling_frequency ∧
    (readIfUpdate k s e).config.lastAppliedVersion = s.config.lastAppliedVersion ∧
    (readIfUpdate k s e).config.nc_router = s.config.nc_router ∧
    (readIfUpdate k s e).config.nc_router_ip = s.config.nc_router_ip ∧
    (readIfUpdate k s e).config.ncRouterIP = s.config.ncRouterIP ∧
    (readIfUpdate k s e).driver = s.driver ∧ (readIfUpdate k s e).pGni = s.pGni ∧
    (readIfUpdate k s e).pGniApplied = s.pGniApplied ∧ (readIfUpdate k s e).gni_a = s.gni_a ∧
    (readIfUpdate k s e).gni_b = s.gni_b ∧ (readIfUpdate k s e).gIsRunning = s.gIsRunning ∧
    (readIfUpdate k s e).gUsr1Caught = s.gUsr1Caught ∧
    (readIfUpdate k s e).gUsr2Caught = s.gUsr2Caught ∧
    (readIfUpdate k s e).gHupCaught = s.gHupCaught ∧
    (readIfUpdate k s e).gTermCaught = s.gTermCaught ∧
    (readIfUpdate k s e).versionFile = s.versionFile ∧ (readIfUpdate k s e).calls = s.calls := by
  unfold readIfUpdate; split_ifs <;> simp

/-- The fields `skipOnReadFailure` leaves alone. -/
@[simp] theorem skipOnReadFailure_frame (s : State) :
    (skipOnReadFailure s).scrubResult = s.scrubResult ∧ (skipOnReadFailure s).rc = s.rc ∧
    (skipOnReadFailure s).firstrun = s.firstrun ∧ (skipOnReadFailure s).counter = s.counter ∧
    (skipOnReadFailure s).epoch_updates = s.epoch_updates ∧
    (skipOnReadFailure s).lni_rc = s.lni_rc ∧
    (skipOnReadFailure s).epoch_failed_updates = s.epoch_failed_updates ∧
    (skipOnReadFailure s).epoch_checks = s.epoch_checks ∧
    (skipOnReadFailure s).epoch_timer = s.epoch_timer ∧
    (skipOnReadFailure s).update_globalnet_failed = s.update_globalnet_failed ∧
    (skipOnReadFailure s).update_version_file = s.update_version_file ∧
    (skipOnReadFailure s).config = s.config ∧ (skipOnReadFailure s).driver = s.driver ∧
    (skipOnReadFailure s).pGni = s.pGni ∧ (skipOnReadFailure s).pGniApplied = s.pGniApplied ∧
    (skipOnReadFailure s).gni_a = s.gni_a ∧ (skipOnReadFailure s).gni_b = s.gni_b ∧
    (skipOnReadFailure s).heap = s.heap ∧ (skipOnReadFailure s).gIsRunning = s.gIsRunning ∧
    (skipOnReadFailure s).gUsr1Caught = s.gUsr1Caught ∧
    (skipOnReadFailure s).gUsr2Caught = s.gUsr2Caught ∧
    (skipOnReadFailure s).gHupCaught = s.gHupCaught ∧
    (skipOnReadFailure s).gTermCaught = s.gTermCaught ∧
    (skipOnReadFailure s).versionFile = s.versionFile ∧
    (skipOnReadFailure s).calls = s.calls := by
  unfold skipOnReadFailure; split_ifs <;> simp

/-- The fields `skipOnModeMismatch` leaves alone. -/
@[simp] theorem skipOnModeMismatch_frame (s : State) :
    (skipOnModeMismatch s).scrubResult = s.scrubResult ∧ (skipOnModeMismatch s).rc = s.rc ∧
    (skipOnModeMismatch s).firstrun = s.firstrun ∧ (skipOnModeMismatch s).counter = s.counter ∧
    (skipOnModeMismatch s).epoch_updates = s.epoch_updates ∧
    (skipOnModeMismatch s).lni_rc = s.lni_rc ∧
    (skipOnModeMismatch s).epoch_failed_updates = s.epoch_failed_updates ∧
    (skipOnModeMismatch s).epoch_checks = s.epoch_checks ∧
    (skipOnModeMismatch s).epoch_timer = s.epoch_timer ∧
    (skipOnModeMismatch s).update_globalnet_failed = s.update_globalnet_failed ∧
    (skipOnModeMismatch s).update_version_file = s.update_version_file ∧
    (skipOnModeMismatch s).config = s.config ∧ (skipOnModeMismatch s).driver = s.driver ∧
    (skipOnModeMismatch s).pGni = s.pGni ∧ (skipOnModeMismatch s).pGniApplied = s.pGniApplied ∧
    (skipOnModeMismatch s).gni_a = s.gni_a ∧ (skipOnModeMismatch s).gni_b = s.gni_b ∧
    (skipOnModeMismatch s).heap = s.heap ∧ (skipOnModeMismatch s).gIsRunning = s.gIsRunning ∧
    (skipOnModeMismatch s).gUsr1Caught = s.gUsr1Caught ∧
    (skipOnModeMismatch s).gUsr2Caught = s.gUsr2Caught ∧
    (skipOnModeMismatch s).gHupCaught = s.gHupCaught ∧
    (skipOnModeMismatch s).gTermCaught = s.gTermCaught ∧
    (skipOnModeMismatch s).versionFile = s.versionFile ∧
    (skipOnModeMismatch s).calls = s.calls := by
  unfold skipOnModeMismatch; split_ifs <;> simp

/-- The fields `stageParse` leaves alone. -/
@[simp] theorem stageParse_frame (k : Consts) (s : State) (e : CycleEnv) :
    (stageParse k s e).scrubResult = s.scrubResult ∧ (stageParse k s e).firstrun = s.firstrun ∧
    (stageParse k s e).counter = s.counter ∧ (stageParse k s e).epoch_updates = s.epoch_updates ∧
    (stageParse k s e).lni_rc = s.lni_rc ∧
    (stageParse k s e).epoch_failed_updates = s.epoch_failed_updates ∧
    (stageParse k s e).epoch_checks = s.epoch_checks ∧
    (stageParse k s e).epoch_timer = s.epoch_timer ∧
    (stageParse k s e).update_globalnet_failed = s.update_globalnet_failed ∧
    (stageParse k s e).update_version_file = s.update_version_file ∧
    (stageParse k s e).config.flushmode = s.config.flushmode ∧
    (stageParse k s e).config.nmCode = s.config.nmCode ∧
    (stageParse k s e).config.polling_frequency = s.config.polling_frequency ∧
    (stageParse k s e).config.lastAppliedVersion = s.config.lastAppliedVersion ∧
    (stageParse k s e).config.nc_router = s.config.nc_router ∧
    (stageParse k s e).config.nc_router_ip = s.config.nc_router_ip ∧
    (stageParse k s e).config.ncRouterIP = s.config.ncRouterIP ∧
    (stageParse k s e).driver = s.driver ∧ (stageParse k s e).pGni = s.pGni ∧
    (stageParse k s e).pGniApplied = s.pGniApplied ∧ (stageParse k s e).gni_a = s.gni_a ∧
    (stageParse k s e).gni_b = s.gni_b ∧ (stageParse k s e).gIsRunning = s.gIsRunning ∧
    (stageParse k s e).gUsr1Caught = s.gUsr1Caught ∧
    (stageParse k s e).gUsr2Caught = s.gUsr2Caught ∧
    (stageParse k s e).gHupCaught = s.gHupCaught ∧
    (stageParse k s e).gTermCaught = s.gTermCaught ∧
    (stageParse k s e).versionFile = s.versionFile ∧ (stageParse k s e).calls = s.calls := by
  simp [stageParse]

/-- The fields `stageUpgrade` leaves alone. -/
@[simp] theorem stageUpgrade_frame (s : State) (e : CycleEnv) :
    (stageUpgrade s e).scrubResult = s.scrubResult ∧ (stageUpgrade s e).rc = s.rc ∧
    (stageUpgrade s e).firstrun = s.firstrun ∧ (stageUpgrade s e).counter = s.counter ∧
    (stageUpgrade s e).epoch_updates = s.epoch_updates ∧ (stageUpgrade s e).lni_rc = s.lni_rc ∧
    (stageUpgrade s e).epoch_failed_updates = s.epoch_failed_updates ∧
    (stageUpgrade s e).epoch_checks = s.epoch_checks ∧
    (stageUpgrade s e).epoch_timer = s.epoch_timer ∧
    (stageUpgrade s e).update_globalnet = s.update_globalnet ∧
    (stageUpgrade s e).update_version_file = s.update_version_file ∧
    (stageUpgrade s e).config = s.config ∧
    (stageUpgrade s e).driver.system_flush = s.driver.system_flush ∧
    (stageUpgrade s e).driver.system_scrub = s.driver.system_scrub ∧
    (stageUpgrade s e).driver.implement_network = s.driver.implement_network ∧
    (stageUpgrade s e).driver.implement_sg = s.driver.implement_sg ∧
    (stageUpgrade s e).driver.implement_addressing = s.driver.implement_addressing ∧
    (stageUpgrade s e).driver.system_maint = s.driver.system_maint ∧
    (stageUpgrade s e).driver.handle_signal = s.driver.handle_signal ∧
    (stageUpgrade s e).driver.cleanup = s.driver.cleanup ∧ (stageUpgrade s e).pGni = s.pGni ∧
    (stageUpgrade s e).pGniApplied = s.pGniApplied ∧ (stageUpgrade s e).gni_a = s.gni_a ∧
    (stageUpgrade s e).gni_b = s.gni_b ∧ (stageUpgrade s e).heap = s.heap ∧
    (stageUpgrade s e).gIsRunning = s.gIsRunning ∧
    (stageUpgrade s e).gUsr1Caught = s.gUsr1Caught ∧
    (stageUpgrade s e).gUsr2Caught = s.gUsr2Caught ∧
    (stageUpgrade s e).gHupCaught = s.gHupCaught ∧
    (stageUpgrade s e).gTermCaught = s.gTermCaught ∧
    (stageUpgrade s e).versionFile = s.versionFile := by
  unfold stageUpgrade; split_ifs <;> simp

/-- The fields `flushCall` leaves alone. -/
@[simp] theorem flushCall_frame (k : Consts) (s : State) (e : CycleEnv) :
    (flushCall k s e).scrubResult = s.scrubResult ∧ (flushCall k s e).rc = s.rc ∧
    (flushCall k s e).firstrun = s.firstrun ∧ (flushCall k s e).counter = s.counter ∧
    (flushCall k s e).epoch_updates = s.epoch_updates ∧ (flushCall k s e).lni_rc = s.lni_rc ∧
    (flushCall k s e).epoch_failed_updates = s.epoch_failed_updates ∧
    (flushCall k s e).epoch_checks = s.epoch_checks ∧
    (flushCall k s e).epoch_timer = s.epoch_timer ∧
    (flushCall k s e).update_globalnet = s.update_globalnet ∧
    (flushCall k s e).update_globalnet_failed = s.update_globalnet_failed ∧
    (flushCall k s e).update_version_file = s.update_version_file ∧
    (flushCall k s e).config = s.config ∧ (flushCall k s e).driver = s.driver ∧
    (flushCall k s e).pGni = s.pGni ∧ (flushCall k s e).pGniApplied = s.pGniApplied ∧
    (flushCall k s e).gni_a = s.gni_a ∧ (flushCall k s e).gni_b = s.gni_b ∧
    (flushCall k s e).heap = s.heap ∧ (flushCall k s e).gIsRunning = s.gIsRunning ∧
    (flushCall k s e).gUsr1Caught = s.gUsr1Caught ∧
    (flushCall k s e).gUsr2Caught = s.gUsr2Caught ∧ (flushCall k s e).gHupCaught = s.gHupCaught ∧
    (flushCall k s e).gTermCaught = s.gTermCaught ∧
    (flushCall k s e).versionFile = s.versionFile := by
  unfold flushCall; split_ifs <;> simp

/-- The fields `flushDone` leaves alone. -/
@[simp] theorem flushDone_frame (s : State) :
    (flushDone s).scrubResult = s.scrubResult ∧ (flushDone s).rc = s.rc ∧
    (flushDone s).firstrun = s.firstrun ∧ (flushDone s).counter = s.counter ∧
    (flushDone s).epoch_updates = s.epoch_updates ∧ (flushDone s).lni_rc = s.lni_rc ∧
    (flushDone s).epoch_failed_updates = s.epoch_failed_updates ∧
    (flushDone s).epoch_checks = s.epoch_checks ∧ (flushDone s).epoch_timer = s.epoch_timer ∧
    (flushDone s).update_globalnet_failed = s.update_globalnet_failed ∧
    (flushDone s).update_version_file = s.update_version_file ∧
    (flushDone s).config.nmCode = s.config.nmCode ∧
    (flushDone s).config.polling_frequency = s.config.polling_frequency ∧
    (flushDone s).config.lastAppliedVersion = s.config.lastAppliedVersion ∧
    (flushDone s).config.nc_router = s.config.nc_router ∧
    (flushDone s).config.nc_router_ip = s.config.nc_router_ip ∧
    (flushDone s).config.ncRouterIP = s.config.ncRouterIP ∧
    (flushDone s).config.vmGatewayIP = s.config.vmGatewayIP ∧ (flushDone s).driver = s.driver ∧
    (flushDone s).pGni = s.pGni ∧ (flushDone s).pGniApplied = s.pGniApplied ∧
    (flushDone s).gni_a = s.gni_a ∧ (flushDone s).gni_b = s.gni_b ∧ (flushDone s).heap = s.heap ∧
    (flushDone s).gUsr1Caught = s.gUsr1Caught ∧ (flushDone s).gUsr2Caught = s.gUsr2Caught ∧
    (flushDone s).gHupCaught = s.gHupCaught ∧ (flushDone s).gTermCaught = s.gTermCaught ∧
    (flushDone s).versionFile = s.versionFile ∧ (flushDone s).calls = s.calls := by
  simp [flushDone]

/-- The fields `stageFlush` leaves alone. -/
@[simp] theorem stageFlush_frame (k : Consts) (s : State) (e : CycleEnv) :
    (stageFlush k s e).scrubResult = s.scrubResult ∧ (stageFlush k s e).rc = s.rc ∧
    (stageFlush k s e).firstrun = s.firstrun ∧ (stageFlush k s e).counter = s.counter ∧
    (stageFlush k s e).epoch_updates = s.epoch_updates ∧ (stageFlush k s e).lni_rc = s.lni_rc ∧
    (stageFlush k s e).epoch_failed_updates = s.epoch_failed_updates ∧
    (stageFlush k s e).epoch_checks = s.epoch_checks ∧
    (stageFlush k s e).epoch_timer = s.epoch_timer ∧
    (stageFlush k s e).update_globalnet_failed = s.update_globalnet_failed ∧
    (stageFlush k s e).update_version_file = s.update_version_file ∧
    (stageFlush k s e).config.nmCode = s.config.nmCode ∧
    (stageFlush k s e).config.polling_frequency = s.config.polling_frequency ∧
    (stageFlush k s e).config.lastAppliedVersion = s.config.lastAppliedVersion ∧
    (stageFlush k s e).config.nc_router = s.config.nc_router ∧
    (stageFlush k s e).config.nc_router_ip = s.config.nc_router_ip ∧
    (stageFlush k s e).config.ncRouterIP = s.config.ncRouterIP ∧
    (stageFlush k s e).config.vmGatewayIP = s.config.vmGatewayIP ∧
    (stageFlush k s e).driver = s.driver ∧ (stageFlush k s e).pGni = s.pGni ∧
    (stageFlush k s e).pGniApplied = s.pGniApplied ∧ (stageFlush k s e).gni_a = s.gni_a ∧
    (stageFlush k s e).gni_b = s.gni_b ∧ (stageFlush k s e).heap = s.heap ∧
    (stageFlush k s e).gUsr1Caught = s.gUsr1Caught ∧
    (stageFlush k s e).gUsr2Caught = s.gUsr2Caught ∧
    (stageFlush k s e).gHupCaught = s.gHupCaught ∧
    (stageFlush k s e).gTermCaught = s.gTermCaught ∧
    (stageFlush k s e).versionFile = s.versionFile := by
  unfold stageFlush; split_ifs <;> simp

/-- The fields `beforeApply` leaves alone. -/
@[simp] theorem beforeApply_frame (k : Consts) (s : State) (e : CycleEnv) :
    (beforeApply k s e).scrubResult = s.scrubResult ∧
    (beforeApply k s e).epoch_updates = s.epoch_updates ∧ (beforeApply k s e).lni_rc = s.lni_rc ∧
    (beforeApply k s e).epoch_failed_updates = s.epoch_failed_updates ∧
    (beforeApply k s e).epoch_checks = s.epoch_checks ∧
    (beforeApply k s e).epoch_timer = s.epoch_timer ∧
    (beforeApply k s e).update_version_file = s.update_version_file ∧
    (beforeApply k s e).config.nmCode = s.config.nmCode ∧
    (beforeApply k s e).config.polling_frequency = s.config.polling_frequency ∧
    (beforeApply k s e).config.nc_router = s.config.nc_router ∧
    (beforeApply k s e).config.nc_router_ip = s.config.nc_router_ip ∧
    (beforeApply k s e).config.ncRouterIP = s.config.ncRouterIP ∧
    (beforeApply k s e).driver.system_flush = s.driver.system_flush ∧
    (beforeApply k s e).driver.system_scrub = s.driver.system_scrub ∧
    (beforeApply k s e).driver.implement_network = s.driver.implement_network ∧
    (beforeApply k s e).driver.implement_sg = s.driver.implement_sg ∧
    (beforeApply k s e).driver.implement_addressing = s.driver.implement_addressing ∧
    (beforeApply k s e).driver.system_maint = s.driver.system_maint ∧
    (beforeApply k s e).driver.handle_signal = s.driver.handle_signal ∧
    (beforeApply k s e).driver.cleanup = s.driver.cleanup ∧ (beforeApply k s e).pGni = s.pGni ∧
    (beforeApply k s e).pGniApplied = s.pGniApplied ∧ (beforeApply k s e).gni_a = s.gni_a ∧
    (beforeApply k s e).gni_b = s.gni_b ∧ (beforeApply k s e).gUsr1Caught = s.gUsr1Caught ∧
    (beforeApply k s e).gUsr2Caught = s.gUsr2Caught ∧
    (beforeApply k s e).gTermCaught = s.gTermCaught ∧
    (beforeApply k s e).versionFile = s.versionFile := by
  simp [beforeApply]

/-- The fields `lniPopulate` leaves alone. -/
@[simp] theorem lniPopulate_frame (k : Consts) (s : State) (e : CycleEnv) :
    (lniPopulate k s e).scrubResult = s.scrubResult ∧ (lniPopulate k s e).rc = s.rc ∧
    (lniPopulate k s e).firstrun = s.firstrun ∧ (lniPopulate k s e).counter = s.counter ∧
    (lniPopulate k s e).epoch_updates = s.epoch_updates ∧
    (lniPopulate k s e).epoch_failed_updates = s.epoch_failed_updates ∧
    (lniPopulate k s e).epoch_checks = s.epoch_checks ∧
    (lniPopulate k s e).epoch_timer = s.epoch_timer ∧
    (lniPopulate k s e).update_globalnet = s.update_globalnet ∧
    (lniPopulate k s e).update_globalnet_failed = s.update_globalnet_failed ∧
    (lniPopulate k s e).config = s.config ∧ (lniPopulate k s e).driver = s.driver ∧
    (lniPopulate k s e).pGni = s.pGni ∧ (lniPopulate k s e).pGniApplied = s.pGniApplied ∧
    (lniPopulate k s e).gni_a = s.gni_a ∧ (lniPopulate k s e).gni_b = s.gni_b ∧
    (lniPopulate k s e).heap = s.heap ∧ (lniPopulate k s e).gIsRunning = s.gIsRunning ∧
    (lniPopulate k s e).gUsr1Caught = s.gUsr1Caught ∧
    (lniPopulate k s e).gUsr2Caught = s.gUsr2Caught ∧
    (lniPopulate k s e).gHupCaught = s.gHupCaught ∧
    (lniPopulate k s e).gTermCaught = s.gTermCaught ∧
    (lniPopulate k s e).versionFile = s.versionFile := by
  unfold lniPopulate; split_ifs <;> simp

/-- The fields `scrub` leaves alone. -/
@[simp] theorem scrub_frame (k : Consts) (s : State) (e : CycleEnv) :
    (scrub k s e).rc = s.rc ∧ (scrub k s e).firstrun = s.firstrun ∧
    (scrub k s e).counter = s.counter ∧ (scrub k s e).epoch_updates = s.epoch_updates ∧
    (scrub k s e).lni_rc = s.lni_rc ∧
    (scrub k s e).epoch_failed_updates = s.epoch_failed_updates ∧
    (scrub k s e).epoch_checks = s.epoch_checks ∧ (scrub k s e).epoch_timer = s.epoch_timer ∧
    (scrub k s e).update_globalnet = s.update_globalnet ∧
    (scrub k s e).update_globalnet_failed = s.update_globalnet_failed ∧
    (scrub k s e).update_version_file = s.update_version_file ∧ (scrub k s e).config = s.config ∧
    (scrub k s e).driver = s.driver ∧ (scrub k s e).pGni = s.pGni ∧
    (scrub k s e).pGniApplied = s.pGniApplied ∧ (scrub k s e).gni_a = s.gni_a ∧
    (scrub k s e).gni_b = s.gni_b ∧ (scrub k s e).heap = s.heap ∧
    (scrub k s e).gIsRunning = s.gIsRunning ∧ (scrub k s e).gUsr1Caught = s.gUsr1Caught ∧
    (scrub k s e).gUsr2Caught = s.gUsr2Caught ∧ (scrub k s e).gHupCaught = s.gHupCaught ∧
    (scrub k s e).gTermCaught = s.gTermCaught ∧ (scrub k s e).versionFile = s.versionFile := by
  unfold scrub; split_ifs <;> simp

/-- The fields `applyNetwork` leaves alone. -/
@[simp] theorem applyNetwork_frame (k : Consts) (s : State) (e : CycleEnv) :
    (applyNetwork k s e).scrubResult = s.scrubResult ∧
    (applyNetwork k s e).firstrun = s.firstrun ∧ (applyNetwork k s e).counter = s.counter ∧
    (applyNetwork k s e).epoch_updates = s.epoch_updates ∧
    (applyNetwork k s e).lni_rc = s.lni_rc ∧
    (applyNetwork k s e).epoch_failed_updates = s.epoch_failed_updates ∧
    (applyNetwork k s e).epoch_checks = s.epoch_checks ∧
    (applyNetwork k s e).epoch_timer = s.epoch_timer ∧
    (applyNetwork k s e).update_globalnet = s.update_globalnet ∧
    (applyNetwork k s e).update_version_file = s.update_version_file ∧
    (applyNetwork k s e).config = s.config ∧ (applyNetwork k s e).driver = s.driver ∧
    (applyNetwork k s e).pGni = s.pGni ∧ (applyNetwork k s e).pGniApplied = s.pGniApplied ∧
    (applyNetwork k s e).gni_a = s.gni_a ∧ (applyNetwork k s e).gni_b = s.gni_b ∧
    (applyNetwork k s e).heap = s.heap ∧ (applyNetwork k s e).gIsRunning = s.gIsRunning ∧
    (applyNetwork k s e).gUsr1Caught = s.gUsr1Caught ∧
    (applyNetwork k s e).gUsr2Caught = s.gUsr2Caught ∧
    (applyNetwork k s e).gHupCaught = s.gHupCaught ∧
    (applyNetwork k s e).gTermCaught = s.gTermCaught ∧
    (applyNetwork k s e).versionFile = s.versionFile := by
  unfold applyNetwork; split_ifs <;> simp

/-- The fields `applySg` leaves alone. -/
@[simp] theorem applySg_frame (k : Consts) (s : State) (e : CycleEnv) :
    (applySg k s e).scrubResult = s.scrubResult ∧ (applySg k s e).firstrun = s.firstrun ∧
    (applySg k s e).counter = s.counter ∧ (applySg k s e).epoch_updates = s.epoch_updates ∧
    (applySg k s e).lni_rc = s.lni_rc ∧
    (applySg k s e).epoch_failed_updates = s.epoch_failed_updates ∧
    (applySg k s e).epoch_checks = s.epoch_checks ∧ (applySg k s e).epoch_timer = s.epoch_timer ∧
    (applySg k s e).update_globalnet = s.update_globalnet ∧
    (applySg k s e).update_version_file = s.update_version_file ∧
    (applySg k s e).config = s.config ∧ (applySg k s e).driver = s.driver ∧
    (applySg k s e).pGni = s.pGni ∧ (applySg k s e).pGniApplied = s.pGniApplied ∧
    (applySg k s e).gni_a = s.gni_a ∧ (applySg k s e).gni_b = s.gni_b ∧
    (applySg k s e).heap = s.heap ∧ (applySg k s e).gIsRunning = s.gIsRunning ∧
    (applySg k s e).gUsr1Caught = s.gUsr1Caught ∧ (applySg k s e).gUsr2Caught = s.gUsr2Caught ∧
    (applySg k s e).gHupCaught = s.gHupCaught ∧ (applySg k s e).gTermCaught = s.gTermCaught ∧
    (applySg k s e).versionFile = s.versionFile := by
  unfold applySg; split_ifs <;> simp

/-- The fields `applyAddressing` leaves alone. -/
@[simp] theorem applyAddressing_frame (k : Consts) (s : State) (e : CycleEnv) :
    (applyAddressing k s e).scrubResult = s.scrubResult ∧
    (applyAddressing k s e).firstrun = s.firstrun ∧ (applyAddressing k s e).counter = s.counter ∧
    (applyAddressing k s e).epoch_updates = s.epoch_updates ∧
    (applyAddressing k s e).lni_rc = s.lni_rc ∧
    (applyAddressing k s e).epoch_failed_updates = s.epoch_failed_updates ∧
    (applyAddressing k s e).epoch_checks = s.epoch_checks ∧
    (applyAddressing k s e).epoch_timer = s.epoch_timer ∧
    (applyAddressing k s e).update_globalnet = s.update_globalnet ∧
    (applyAddressing k s e).update_version_file = s.update_version_file ∧
    (applyAddressing k s e).config = s.config ∧ (applyAddressing k s e).driver = s.driver ∧
    (applyAddressing k s e).pGni = s.pGni ∧ (applyAddressing k s e).pGniApplied = s.pGniApplied ∧
    (applyAddressing k s e).gni_a = s.gni_a ∧ (applyAddressing k s e).gni_b = s.gni_b ∧
    (applyAddressing k s e).heap = s.heap ∧ (applyAddressing k s e).gIsRunning = s.gIsRunning ∧
    (applyAddressing k s e).gUsr1Caught = s.gUsr1Caught ∧
    (applyAddressing k s e).gUsr2Caught = s.gUsr2Caught ∧
    (applyAddressing k s e).gHupCaught = s.gHupCaught ∧
    (applyAddressing k s e).gTermCaught = s.gTermCaught ∧
    (applyAddressing k s e).versionFile = s.versionFile := by
  unfold applyAddressing; split_ifs <;> simp

/-- The fields `applyOrFail` leaves alone. -/
@[simp] theorem applyOrFail_frame (k : Consts) (s : State) (e : CycleEnv) :
    (applyOrFail k s e).scrubResult = s.scrubResult ∧ (applyOrFail k s e).firstrun = s.firstrun ∧
    (applyOrFail k s e).counter = s.counter ∧
    (applyOrFail k s e).epoch_updates = s.epoch_updates ∧ (applyOrFail k s e).lni_rc = s.lni_rc ∧
    (applyOrFail k s e).epoch_failed_updates = s.epoch_failed_updates ∧
    (applyOrFail k s e).epoch_checks = s.epoch_checks ∧
    (applyOrFail k s e).epoch_timer = s.epoch_timer ∧
    (applyOrFail k s e).update_globalnet = s.update_globalnet ∧
    (applyOrFail k s e).update_version_file = s.update_version_file ∧
    (applyOrFail k s e).config = s.config ∧ (applyOrFail k s e).driver = s.driver ∧
    (applyOrFail k s e).pGni = s.pGni ∧ (applyOrFail k s e).pGniApplied = s.pGniApplied ∧
    (applyOrFail k s e).gni_a = s.gni_a ∧ (applyOrFail k s e).gni_b = s.gni_b ∧
    (applyOrFail k s e).heap = s.heap ∧ (applyOrFail k s e).gIsRunning = s.gIsRunning ∧
    (applyOrFail k s e).gUsr1Caught = s.gUsr1Caught ∧
    (applyOrFail k s e).gUsr2Caught = s.gUsr2Caught ∧
    (applyOrFail k s e).gHupCaught = s.gHupCaught ∧
    (applyOrFail k s e).gTermCaught = s.gTermCaught ∧
    (applyOrFail k s e).versionFile = s.versionFile := by
  unfold applyOrFail; split_ifs <;> simp

/-- The fields `lniReset` leaves alone. -/
@[simp] theorem lniReset_frame (k : Consts) (s : State) :
    (lniReset k s).scrubResult = s.scrubResult ∧ (lniReset k s).rc = s.rc ∧
    (lniReset k s).firstrun = s.firstrun ∧ (lniReset k s).counter = s.counter ∧
    (lniReset k s).epoch_updates = s.epoch_updates ∧ (lniReset k s).lni_rc = s.lni_rc ∧
    (lniReset k s).epoch_failed_updates = s.epoch_failed_updates ∧
    (lniReset k s).epoch_checks = s.epoch_checks ∧ (lniReset k s).epoch_timer = s.epoch_timer ∧
    (lniReset k s).update_globalnet = s.update_globalnet ∧
    (lniReset k s).update_globalnet_failed = s.update_globalnet_failed ∧
    (lniReset k s).update_version_file = s.update_version_file ∧
    (lniReset k s).config = s.config ∧ (lniReset k s).driver = s.driver ∧
    (lniReset k s).pGni = s.pGni ∧ (lniReset k s).pGniApplied = s.pGniApplied ∧
    (lniReset k s).gni_a = s.gni_a ∧ (lniReset k s).gni_b = s.gni_b ∧
    (lniReset k s).heap = s.heap ∧ (lniReset k s).gIsRunning = s.gIsRunning ∧
    (lniReset k s).gUsr1Caught = s.gUsr1Caught ∧ (lniReset k s).gUsr2Caught = s.gUsr2Caught ∧
    (lniReset k s).gHupCaught = s.gHupCaught ∧ (lniReset k s).gTermCaught = s.gTermCaught ∧
    (lniReset k s).versionFile = s.versionFile := by
  unfold lniReset; split_ifs <;> simp

/-- The fields `applyBody` leaves alone. -/
@[simp] theorem applyBody_frame (k : Consts) (s : State) (e : CycleEnv) :
    (applyBody k s e).firstrun = s.firstrun ∧ (applyBody k s e).counter = s.counter ∧
    (applyBody k s e).epoch_updates = s.epoch_updates ∧ (applyBody k s e).lni_rc = s.lni_rc ∧
    (applyBody k s e).epoch_failed_updates = s.epoch_failed_updates ∧
    (applyBody k s e).epoch_checks = s.epoch_checks ∧
    (applyBody k s e).epoch_timer = s.epoch_timer ∧
    (applyBody k s e).update_globalnet = s.update_globalnet ∧
    (applyBody k s e).update_version_file = s.update_version_file ∧
    (applyBody k s e).config = s.config ∧ (applyBody k s e).driver = s.driver ∧
    (applyBody k s e).pGni = s.pGni ∧ (applyBody k s e).pGniApplied = s.pGniApplied ∧
    (applyBody k s e).gni_a = s.gni_a ∧ (applyBody k s e).gni_b = s.gni_b ∧
    (applyBody k s e).heap = s.heap ∧ (applyBody k s e).gIsRunning = s.gIsRunning ∧
    (applyBody k s e).gUsr1Caught = s.gUsr1Caught ∧
    (applyBody k s e).gUsr2Caught = s.gUsr2Caught ∧ (applyBody k s e).gHupCaught = s.gHupCaught ∧
    (applyBody k s e).gTermCaught = s.gTermCaught ∧
    (applyBody k s e).versionFile = s.versionFile := by
  unfold applyBody; split_ifs <;> simp

/-- The fields `stageApply` leaves alone. -/
@[simp] theorem stageApply_frame (k : Consts) (s : State) (e : CycleEnv) :
    (stageApply k s e).firstrun = s.firstrun ∧ (stageApply k s e).counter = s.counter ∧
    (stageApply k s e).epoch_updates = s.epoch_updates ∧
    (stageApply k s e).epoch_failed_updates = s.epoch_failed_updates ∧
    (stageApply k s e).epoch_checks = s.epoch_checks ∧
    (stageApply k s e).epoch_timer = s.epoch_timer ∧
    (stageApply k s e).update_globalnet = s.update_globalnet ∧
    (stageApply k s e).config = s.config ∧ (stageApply k s e).driver = s.driver ∧
    (stageApply k s e).pGni = s.pGni ∧ (stageApply k s e).pGniApplied = s.pGniApplied ∧
    (stageApply k s e).gni_a = s.gni_a ∧ (stageApply k s e).gni_b = s.gni_b ∧
    (stageApply k s e).heap = s.heap ∧ (stageApply k s e).gIsRunning = s.gIsRunning ∧
    (stageApply k s e).gUsr1Caught = s.gUsr1Caught ∧
    (stageApply k s e).gUsr2Caught = s.gUsr2Caught ∧
    (stageApply k s e).gHupCaught = s.gHupCaught ∧
    (stageApply k s e).gTermCaught = s.gTermCaught ∧
    (stageApply k s e).versionFile = s.versionFile := by
  unfold stageApply; split_ifs <;> simp

/-- The fields `countFailure` leaves alone. -/
@[simp] theorem countFailure_frame (k : Consts) (s : State) :
    (countFailure k s).scrubResult = s.scrubResult ∧ (countFailure k s).rc = s.rc ∧
    (countFailure k s).firstrun = s.firstrun ∧ (countFailure k s).counter = s.counter ∧
    (countFailure k s).epoch_updates = s.epoch_updates ∧ (countFailure k s).lni_rc = s.lni_rc ∧
    (countFailure k s).epoch_checks = s.epoch_checks ∧
    (countFailure k s).epoch_timer = s.epoch_timer ∧
    (countFailure k s).update_globalnet = s.update_globalnet ∧
    (countFailure k s).update_globalnet_failed = s.update_globalnet_failed ∧
    (countFailure k s).config = s.config ∧ (countFailure k s).driver = s.driver ∧
    (countFailure k s).pGni = s.pGni ∧ (countFailure k s).pGniApplied = s.pGniApplied ∧
    (countFailure k s).gni_a = s.gni_a ∧ (countFailure k s).gni_b = s.gni_b ∧
    (countFailure k s).heap = s.heap ∧ (countFailure k s).gIsRunning = s.gIsRunning ∧
    (countFailure k s).gUsr1Caught = s.gUsr1Caught ∧
    (countFailure k s).gUsr2Caught = s.gUsr2Caught ∧
    (countFailure k s).gHupCaught = s.gHupCaught ∧
    (countFailure k s).gTermCaught = s.gTermCaught ∧
    (countFailure k s).versionFile = s.versionFile ∧ (countFailure k s).calls = s.calls := by
  unfold countFailure; split_ifs <;> simp

/-- The fields `writeVersion` leaves alone. -/
@[simp] theorem writeVersion_frame (s : State) (e : CycleEnv) :
    (writeVersion s e).scrubResult = s.scrubResult ∧ (writeVersion s e).rc = s.rc ∧
    (writeVersion s e).firstrun = s.firstrun ∧ (writeVersion s e).counter = s.counter ∧
    (writeVersion s e).lni_rc = s.lni_rc ∧
    (writeVersion s e).epoch_failed_updates = s.epoch_failed_updates ∧
    (writeVersion s e).epoch_checks = s.epoch_checks ∧
    (writeVersion s e).epoch_timer = s.epoch_timer ∧
    (writeVersion s e).update_globalnet = s.update_globalnet ∧
    (writeVersion s e).update_globalnet_failed = s.update_globalnet_failed ∧
    (writeVersion s e).update_version_file = s.update_version_file ∧
    (writeVersion s e).config.flushmode = s.config.flushmode ∧
    (writeVersion s e).config.nmCode = s.config.nmCode ∧
    (writeVersion s e).config.polling_frequency = s.config.polling_frequency ∧
    (writeVersion s e).config.nc_router = s.config.nc_router ∧
    (writeVersion s e).config.nc_router_ip = s.config.nc_router_ip ∧
    (writeVersion s e).config.ncRouterIP = s.config.ncRouterIP ∧
    (writeVersion s e).config.vmGatewayIP = s.config.vmGatewayIP ∧
    (writeVersion s e).driver = s.driver ∧ (writeVersion s e).pGni = s.pGni ∧
    (writeVersion s e).pGniApplied = s.pGniApplied ∧ (writeVersion s e).gni_a = s.gni_a ∧
    (writeVersion s e).gni_b = s.gni_b ∧ (writeVersion s e).heap = s.heap ∧
    (writeVersion s e).gIsRunning = s.gIsRunning ∧
    (writeVersion s e).gUsr1Caught = s.gUsr1Caught ∧
    (writeVersion s e).gUsr2Caught = s.gUsr2Caught ∧
    (writeVersion s e).gHupCaught = s.gHupCaught ∧
    (writeVersion s e).gTermCaught = s.gTermCaught := by
  unfold writeVersion; split_ifs <;> simp

/-- The fields `stagePersist` leaves alone. -/
@[simp] theorem stagePersist_frame (k : Consts) (s : State) (e : CycleEnv) :
    (stagePersist k s e).scrubResult = s.scrubResult ∧ (stagePersist k s e).rc = s.rc ∧
    (stagePersist k s e).firstrun = s.firstrun ∧ (stagePersist k s e).counter = s.counter ∧
    (stagePersist k s e).lni_rc = s.lni_rc ∧ (stagePersist k s e).epoch_checks = s.epoch_checks ∧
    (stagePersist k s e).epoch_timer = s.epoch_timer ∧
    (stagePersist k s e).update_globalnet = s.update_globalnet ∧
    (stagePersist k s e).update_globalnet_failed = s.update_globalnet_failed ∧
    (stagePersist k s e).config.flushmode = s.config.flushmode ∧
    (stagePersist k s e).config.nmCode = s.config.nmCode ∧
    (stagePersist k s e).config.polling_frequency = s.config.polling_frequency ∧
    (stagePersist k s e).config.nc_router = s.config.nc_router ∧
    (stagePersist k s e).config.nc_router_ip = s.config.nc_router_ip ∧
    (stagePersist k s e).config.ncRouterIP = s.config.ncRouterIP ∧
    (stagePersist k s e).config.vmGatewayIP = s.config.vmGatewayIP ∧
    (stagePersist k s e).driver = s.driver ∧ (stagePersist k s e).pGni = s.pGni ∧
    (stagePersist k s e).pGniApplied = s.pGniApplied ∧ (stagePersist k s e).gni_a = s.gni_a ∧
    (stagePersist k s e).gni_b = s.gni_b ∧ (stagePersist k s e).heap = s.heap ∧
    (stagePersist k s e).gIsRunning = s.gIsRunning ∧
    (stagePersist k s e).gUsr1Caught = s.gUsr1Caught ∧
    (stagePersist k s e).gUsr2Caught = s.gUsr2Caught ∧
    (stagePersist k s e).gHupCaught = s.gHupCaught ∧
    (stagePersist k s e).gTermCaught = s.gTermCaught := by
  unfold stagePersist; split_ifs <;> simp

/-- The fields `tickChecks` leaves alone. -/
@[simp] theorem tickChecks_frame (s : State) :
    (tickChecks s).scrubResult = s.scrubResult ∧ (tickChecks s).rc = s.rc ∧
    (tickChecks s).firstrun = s.firstrun ∧ (tickChecks s).counter = s.counter ∧
    (tickChecks s).epoch_updates = s.epoch_updates ∧ (tickChecks s).lni_rc = s.lni_rc ∧
    (tickChecks s).epoch_failed_updates = s.epoch_failed_updates ∧
    (tickChecks s).epoch_timer = s.epoch_timer ∧
    (tickChecks s).update_globalnet = s.update_globalnet ∧
    (tickChecks s).update_globalnet_failed = s.update_globalnet_failed ∧
    (tickChecks s).update_version_file = s.update_version_file ∧
    (tickChecks s).config = s.config ∧ (tickChecks s).driver = s.driver ∧
    (tickChecks s).pGni = s.pGni ∧ (tickChecks s).pGniApplied = s.pGniApplied ∧
    (tickChecks s).gni_a = s.gni_a ∧ (tickChecks s).gni_b = s.gni_b ∧
    (tickChecks s).heap = s.heap ∧ (tickChecks s).gIsRunning = s.gIsRunning ∧
    (tickChecks s).gUsr1Caught = s.gUsr1Caught ∧ (tickChecks s).gUsr2Caught = s.gUsr2Caught ∧
    (tickChecks s).gHupCaught = s.gHupCaught ∧ (tickChecks s).gTermCaught = s.gTermCaught ∧
    (tickChecks s).versionFile = s.versionFile ∧ (tickChecks s).calls = s.calls := by
  simp [tickChecks]

/-- The fields `forwardUsr1` leaves alone. -/
@[simp] theorem forwardUsr1_frame (k : Consts) (s : State) :
    (forwardUsr1 k s).scrubResult = s.scrubResult ∧ (forwardUsr1 k s).rc = s.rc ∧
    (forwardUsr1 k s).firstrun = s.firstrun ∧ (forwardUsr1 k s).counter = s.counter ∧
    (forwardUsr1 k s).epoch_updates = s.epoch_updates ∧ (forwardUsr1 k s).lni_rc = s.lni_rc ∧
    (forwardUsr1 k s).epoch_failed_updates = s.epoch_failed_updates ∧
    (forwardUsr1 k s).epoch_checks = s.epoch_checks ∧
    (forwardUsr1 k s).epoch_timer = s.epoch_timer ∧
    (forwardUsr1 k s).update_globalnet = s.update_globalnet ∧
    (forwardUsr1 k s).update_globalnet_failed = s.update_globalnet_failed ∧
    (forwardUsr1 k s).update_version_file = s.update_version_file ∧
    (forwardUsr1 k s).config = s.config ∧ (forwardUsr1 k s).driver = s.driver ∧
    (forwardUsr1 k s).pGni = s.pGni ∧ (forwardUsr1 k s).pGniApplied = s.pGniApplied ∧
    (forwardUsr1 k s).gni_a = s.gni_a ∧ (forwardUsr1 k s).gni_b = s.gni_b ∧
    (forwardUsr1 k s).heap = s.heap ∧ (forwardUsr1 k s).gIsRunning = s.gIsRunning ∧
    (forwardUsr1 k s).gUsr2Caught = s.gUsr2Caught ∧ (forwardUsr1 k s).gHupCaught = s.gHupCaught ∧
    (forwardUsr1 k s).gTermCaught = s.gTermCaught ∧
    (forwardUsr1 k s).versionFile = s.versionFile := by
  unfold forwardUsr1; split_ifs <;> simp

/-- The fields `forwardUsr2` leaves alone. -/
@[simp] theorem forwardUsr2_frame (k : Consts) (s : State) :
    (forwardUsr2 k s).scrubResult = s.scrubResult ∧ (forwardUsr2 k s).rc = s.rc ∧
    (forwardUsr2 k s).firstrun = s.firstrun ∧ (forwardUsr2 k s).counter = s.counter ∧
    (forwardUsr2 k s).epoch_updates = s.epoch_updates ∧ (forwardUsr2 k s).lni_rc = s.lni_rc ∧
    (forwardUsr2 k s).epoch_failed_updates = s.epoch_failed_updates ∧
    (forwardUsr2 k s).epoch_checks = s.epoch_checks ∧
    (forwardUsr2 k s).epoch_timer = s.epoch_timer ∧
    (forwardUsr2 k s).update_globalnet = s.update_globalnet ∧
    (forwardUsr2 k s).update_globalnet_failed = s.update_globalnet_failed ∧
    (forwardUsr2 k s).update_version_file = s.update_version_file ∧
    (forwardUsr2 k s).config = s.config ∧ (forwardUsr2 k s).driver = s.driver ∧
    (forwardUsr2 k s).pGni = s.pGni ∧ (forwardUsr2 k s).pGniApplied = s.pGniApplied ∧
    (forwardUsr2 k s).gni_a = s.gni_a ∧ (forwardUsr2 k s).gni_b = s.gni_b ∧
    (forwardUsr2 k s).heap = s.heap ∧ (forwardUsr2 k s).gIsRunning = s.gIsRunning ∧
    (forwardUsr2 k s).gUsr1Caught = s.gUsr1Caught ∧ (forwardUsr2 k s).gHupCaught = s.gHupCaught ∧
    (forwardUsr2 k s).gTermCaught = s.gTermCaught ∧
    (forwardUsr2 k s).versionFile = s.versionFile := by
  unfold forwardUsr2; split_ifs <;> simp

/-- The fields `stageSignals` leaves alone. -/
@[simp] theorem stageSignals_frame (k : Consts) (s : State) :
    (stageSignals k s).scrubResult = s.scrubResult ∧ (stageSignals k s).rc = s.rc ∧
    (stageSignals k s).firstrun = s.firstrun ∧ (stageSignals k s).counter = s.counter ∧
    (stageSignals k s).epoch_updates = s.epoch_updates ∧ (stageSignals k s).lni_rc = s.lni_rc ∧
    (stageSignals k s).epoch_failed_updates = s.epoch_failed_updates ∧
    (stageSignals k s).epoch_timer = s.epoch_timer ∧
    (stageSignals k s).update_globalnet = s.update_globalnet ∧
    (stageSignals k s).update_globalnet_failed = s.update_globalnet_failed ∧
    (stageSignals k s).update_version_file = s.update_version_file ∧
    (stageSignals k s).config = s.config ∧ (stageSignals k s).driver = s.driver ∧
    (stageSignals k s).pGni = s.pGni ∧ (stageSignals k s).pGniApplied = s.pGniApplied ∧
    (stageSignals k s).gni_a = s.gni_a ∧ (stageSignals k s).gni_b = s.gni_b ∧
    (stageSignals k s).heap = s.heap ∧ (stageSignals k s).gIsRunning = s.gIsRunning ∧
    (stageSignals k s).gHupCaught = s.gHupCaught ∧
    (stageSignals k s).gTermCaught = s.gTermCaught ∧
    (stageSignals k s).versionFile = s.versionFile := by
  simp [stageSignals]

/-- The fields `stageReport` leaves alone. -/
@[simp] theorem stageReport_frame (s : State) :
    (stageReport s).scrubResult = s.scrubResult ∧ (stageReport s).rc = s.rc ∧
    (stageReport s).firstrun = s.firstrun ∧ (stageReport s).counter = s.counter ∧
    (stageReport s).lni_rc = s.lni_rc ∧ (stageReport s).update_globalnet = s.update_globalnet ∧
    (stageReport s).update_globalnet_failed = s.update_globalnet_failed ∧
    (stageReport s).update_version_file = s.update_version_file ∧
    (stageReport s).config = s.config ∧ (stageReport s).driver = s.driver ∧
    (stageReport s).pGni = s.pGni ∧ (stageReport s).pGniApplied = s.pGniApplied ∧
    (stageReport s).gni_a = s.gni_a ∧ (stageReport s).gni_b = s.gni_b ∧
    (stageReport s).heap = s.heap ∧ (stageReport s).gIsRunning = s.gIsRunning ∧
    (stageReport s).gUsr1Caught = s.gUsr1Caught ∧ (stageReport s).gUsr2Caught = s.gUsr2Caught ∧
    (stageReport s).gHupCaught = s.gHupCaught ∧ (stageReport s).gTermCaught = s.gTermCaught ∧
    (stageReport s).versionFile = s.versionFile ∧ (stageReport s).calls = s.calls := by
  unfold stageReport; split_ifs <;> simp

/-- The fields `stageMaint` leaves alone. -/
@[simp] theorem stageMaint_frame (s : State) (e : CycleEnv) :
    (stageMaint s e).scrubResult = s.scrubResult ∧ (stageMaint s e).firstrun = s.firstrun ∧
    (stageMaint s e).counter = s.counter ∧ (stageMaint s e).epoch_updates = s.epoch_updates ∧
    (stageMaint s e).lni_rc = s.lni_rc ∧
    (stageMaint s e).epoch_failed_updates = s.epoch_failed_updates ∧
    (stageMaint s e).epoch_checks = s.epoch_checks ∧
    (stageMaint s e).epoch_timer = s.epoch_timer ∧
    (stageMaint s e).update_globalnet = s.update_globalnet ∧
    (stageMaint s e).update_globalnet_failed = s.update_globalnet_failed ∧
    (stageMaint s e).update_version_file = s.update_version_file ∧
    (stageMaint s e).config = s.config ∧ (stageMaint s e).driver = s.driver ∧
    (stageMaint s e).pGni = s.pGni ∧ (stageMaint s e).pGniApplied = s.pGniApplied ∧
    (stageMaint s e).gni_a = s.gni_a ∧ (stageMaint s e).gni_b = s.gni_b ∧
    (stageMaint s e).heap = s.heap ∧ (stageMaint s e).gIsRunning = s.gIsRunning ∧
    (stageMaint s e).gUsr1Caught = s.gUsr1Caught ∧ (stageMaint s e).gUsr2Caught = s.gUsr2Caught ∧
    (stageMaint s e).gHupCaught = s.gHupCaught ∧ (stageMaint s e).gTermCaught = s.gTermCaught ∧
    (stageMaint s e).versionFile = s.versionFile := by
  unfold stageMaint; split_ifs <;> simp

/-- The fields `swapOrSleep` leaves alone. -/
@[simp] theorem swapOrSleep_frame (s : State) :
    (swapOrSleep s).scrubResult = s.scrubResult ∧ (swapOrSleep s).rc = s.rc ∧
    (swapOrSleep s).firstrun = s.firstrun ∧ (swapOrSleep s).counter = s.counter ∧
    (swapOrSleep s).epoch_updates = s.epoch_updates ∧ (swapOrSleep s).lni_rc = s.lni_rc ∧
    (swapOrSleep s).epoch_failed_updates = s.epoch_failed_updates ∧
    (swapOrSleep s).epoch_checks = s.epoch_checks ∧ (swapOrSleep s).epoch_timer = s.epoch_timer ∧
    (swapOrSleep s).update_globalnet = s.update_globalnet ∧
    (swapOrSleep s).update_globalnet_failed = s.update_globalnet_failed ∧
    (swapOrSleep s).update_version_file = s.update_version_file ∧
    (swapOrSleep s).config = s.config ∧ (swapOrSleep s).driver = s.driver ∧
    (swapOrSleep s).gni_a = s.gni_a ∧ (swapOrSleep s).gni_b = s.gni_b ∧
    (swapOrSleep s).heap = s.heap ∧ (swapOrSleep s).gIsRunning = s.gIsRunning ∧
    (swapOrSleep s).gUsr1Caught = s.gUsr1Caught ∧ (swapOrSleep s).gUsr2Caught = s.gUsr2Caught ∧
    (swapOrSleep s).gHupCaught = s.gHupCaught ∧ (swapOrSleep s).gTermCaught = s.gTermCaught ∧
    (swapOrSleep s).versionFile = s.versionFile := by
  unfold swapOrSleep; split_ifs <;> simp

/-- The fields `tickTimer` leaves alone. -/
@[simp] theorem tickTimer_frame (s : State) :
    (tickTimer s).scrubResult = s.scrubResult ∧ (tickTimer s).rc = s.rc ∧
    (tickTimer s).firstrun = s.firstrun ∧ (tickTimer s).counter = s.counter ∧
    (tickTimer s).epoch_updates = s.epoch_updates ∧ (tickTimer s).lni_rc = s.lni_rc ∧
    (tickTimer s).epoch_failed_updates = s.epoch_failed_updates ∧
    (tickTimer s).epoch_checks = s.epoch_checks ∧
    (tickTimer s).update_globalnet = s.update_globalnet ∧
    (tickTimer s).update_globalnet_failed = s.update_globalnet_failed ∧
    (tickTimer s).update_version_file = s.update_version_file ∧ (tickTimer s).config = s.config ∧
    (tickTimer s).driver = s.driver ∧ (tickTimer s).pGni = s.pGni ∧
    (tickTimer s).pGniApplied = s.pGniApplied ∧ (tickTimer s).gni_a = s.gni_a ∧
    (tickTimer s).gni_b = s.gni_b ∧ (tickTimer s).heap = s.heap ∧
    (tickTimer s).gIsRunning = s.gIsRunning ∧ (tickTimer s).gUsr1Caught = s.gUsr1Caught ∧
    (tickTimer s).gUsr2Caught = s.gUsr2Caught ∧ (tickTimer s).gHupCaught = s.gHupCaught ∧
    (tickTimer s).gTermCaught = s.gTermCaught ∧ (tickTimer s).versionFile = s.versionFile ∧
    (tickTimer s).calls = s.calls := by
  simp [tickTimer]

/-- The fields `stageSwap` leaves alone. -/
@[simp] theorem stageSwap_frame (s : State) :
    (stageSwap s).scrubResult = s.scrubResult ∧ (stageSwap s).rc = s.rc ∧
    (stageSwap s).firstrun = s.firstrun ∧ (stageSwap s).counter = s.counter ∧
    (stageSwap s).epoch_updates = s.epoch_updates ∧ (stageSwap s).lni_rc = s.lni_rc ∧
    (stageSwap s).epoch_failed_updates = s.epoch_failed_updates ∧
    (stageSwap s).epoch_checks = s.epoch_checks ∧
    (stageSwap s).update_globalnet = s.update_globalnet ∧
    (stageSwap s).update_globalnet_failed = s.update_globalnet_failed ∧
    (stageSwap s).update_version_file = s.update_version_file ∧ (stageSwap s).config = s.config ∧
    (stageSwap s).driver = s.driver ∧ (stageSwap s).gni_a = s.gni_a ∧
    (stageSwap s).gni_b = s.gni_b ∧ (stageSwap s).heap = s.heap ∧
    (stageSwap s).gIsRunning = s.gIsRunning ∧ (stageSwap s).gUsr1Caught = s.gUsr1Caught ∧
    (stageSwap s).gUsr2Caught = s.gUsr2Caught ∧ (stageSwap s).gHupCaught = s.gHupCaught ∧
    (stageSwap s).gTermCaught = s.gTermCaught ∧ (stageSwap s).versionFile = s.versionFile := by
  simp [stageSwap]

/-- The fields `finishCycle` leaves alone. -/
@[simp] theorem finishCycle_frame (k : Consts) (s : State) (e : CycleEnv) :
    (finishCycle k s e).scrubResult = s.scrubResult ∧ (finishCycle k s e).firstrun = s.firstrun ∧
    (finishCycle k s e).counter = s.counter ∧ (finishCycle k s e).lni_rc = s.lni_rc ∧
    (finishCycle k s e).update_globalnet = s.update_globalnet ∧
    (finishCycle k s e).update_globalnet_failed = s.update_globalnet_failed ∧
    (finishCycle k s e).config.flushmode = s.config.flushmode ∧
    (finishCycle k s e).config.nmCode = s.config.nmCode ∧
    (finishCycle k s e).config.polling_frequency = s.config.polling_frequency ∧
    (finishCycle k s e).config.nc_router = s.config.nc_router ∧
    (finishCycle k s e).config.nc_router_ip = s.config.nc_router_ip ∧
    (finishCycle k s e).config.ncRouterIP = s.config.ncRouterIP ∧
    (finishCycle k s e).config.vmGatewayIP = s.config.vmGatewayIP ∧
    (finishCycle k s e).driver = s.driver ∧ (finishCycle k s e).gni_a = s.gni_a ∧
    (finishCycle k s e).gni_b = s.gni_b ∧ (finishCycle k s e).heap = s.heap ∧
    (finishCycle k s e).gIsRunning = s.gIsRunning ∧
    (finishCycle k s e).gHupCaught = s.gHupCaught ∧
    (finishCycle k s e).gTermCaught = s.gTermCaught := by
  simp [finishCycle]

/-- The fields `uptoApply` leaves alone. -/
@[simp] theorem uptoApply_frame (k : Consts) (s : State) (e : CycleEnv) :
    (uptoApply k s e).epoch_updates = s.epoch_updates ∧
    (uptoApply k s e).epoch_failed_updates = s.epoch_failed_updates ∧
    (uptoApply k s e).epoch_checks = s.epoch_checks ∧
    (uptoApply k s e).epoch_timer = s.epoch_timer ∧
    (uptoApply k s e).config.nmCode = s.config.nmCode ∧
    (uptoApply k s e).config.polling_frequency = s.config.polling_frequency ∧
    (uptoApply k s e).config.nc_router = s.config.nc_router ∧
    (uptoApply k s e).config.nc_router_ip = s.config.nc_router_ip ∧
    (uptoApply k s e).config.ncRouterIP = s.config.ncRouterIP ∧
    (uptoApply k s e).driver.system_flush = s.driver.system_flush ∧
    (uptoApply k s e).driver.system_scrub = s.driver.system_scrub ∧
    (uptoApply k s e).driver.implement_network = s.driver.implement_network ∧
    (uptoApply k s e).driver.implement_sg = s.driver.implement_sg ∧
    (uptoApply k s e).driver.implement_addressing = s.driver.implement_addressing ∧
    (uptoApply k s e).driver.system_maint = s.driver.system_maint ∧
    (uptoApply k s e).driver.handle_signal = s.driver.handle_signal ∧
    (uptoApply k s e).driver.cleanup = s.driver.cleanup ∧ (uptoApply k s e).pGni = s.pGni ∧
    (uptoApply k s e).pGniApplied = s.pGniApplied ∧ (uptoApply k s e).gni_a = s.gni_a ∧
    (uptoApply k s e).gni_b = s.gni_b ∧ (uptoApply k s e).gUsr1Caught = s.gUsr1Caught ∧
    (uptoApply k s e).gUsr2Caught = s.gUsr2Caught ∧
    (uptoApply k s e).gTermCaught = s.gTermCaught ∧
    (uptoApply k s e).versionFile = s.versionFile := by
  simp [uptoApply]

/-- The fields `mainLoopCycle` leaves alone. -/
@[simp] theorem mainLoopCycle_frame (k : Consts) (s : State) (e : CycleEnv) :
    (mainLoopCycle k s e).config.nmCode = s.config.nmCode ∧
    (mainLoopCycle k s e).config.polling_frequency = s.config.polling_frequency ∧
    (mainLoopCycle k s e).config.nc_router = s.config.nc_router ∧
    (mainLoopCycle k s e).config.nc_router_ip = s.config.nc_router_ip ∧
    (mainLoopCycle k s e).config.ncRouterIP = s.config.ncRouterIP ∧
    (mainLoopCycle k s e).driver.system_flush = s.driver.system_flush ∧
    (mainLoopCycle k s e).driver.system_scrub = s.driver.system_scrub ∧
    (mainLoopCycle k s e).driver.implement_network = s.driver.implement_network ∧
    (mainLoopCycle k s e).driver.implement_sg = s.driver.implement_sg ∧
    (mainLoopCycle k s e).driver.implement_addressing = s.driver.implement_addressing ∧
    (mainLoopCycle k s e).driver.system_maint = s.driver.system_maint ∧
    (mainLoopCycle k s e).driver.handle_signal = s.driver.handle_signal ∧
    (mainLoopCycle k s e).driver.cleanup = s.driver.cleanup ∧
    (mainLoopCycle k s e).gni_a = s.gni_a ∧ (mainLoopCycle k s e).gni_b = s.gni_b ∧
    (mainLoopCycle k s e).gTermCaught = s.gTermCaught := by
  simp [mainLoopCycle]


/-! ## What each step appends to the call log -/

@[simp] theorem call_calls (s : State) (c : Call) : (s.call c).calls = s.calls ++ [c] := rfl

@[simp] theorem loopTop_calls (s : State) : (loopTop s).calls = [] := rfl

@[simp] theorem stageFetch_calls (s : State) (e : CycleEnv) : (stageFetch s e).calls = [] := by
  simp [stageFetch]

@[simp] theorem stageUpgrade_calls (s : State) (e : CycleEnv) :
    (stageUpgrade s e).calls =
      s.calls ++ if s.driver.upgrade = true then [.upgrade s.pGni e.upgrade_rc] else [] := by
  unfold stageUpgrade; split_ifs <;> simp

@[simp] theorem lniPopulate_calls (k : Consts) (s : State) (e : CycleEnv) :
    (lniPopulate k s e).calls =
      s.calls ++ if IS_NETMODE_VPCMIDO k s = false then [.lni_populate e.lni_populate_rc]
                 else [] := by
  unfold lniPopulate; split_ifs <;> simp

@[simp] theorem scrub_calls (k : Consts) (s : State) (e : CycleEnv) :
    (scrub k s e).calls =
      s.calls ++ if s.driver.system_scrub = true then
                   [.system_scrub s.pGni s.pGniApplied e.system_scrub_result]
                 else [] := by
  unfold scrub; split_ifs <;> simp_all

@[simp] theorem applyNetwork_calls (k : Consts) (s : State) (e : CycleEnv) :
    (applyNetwork k s e).calls =
      s.calls ++ if s.driver.implement_network = true ∧
                      (s.scrubResult &&& k.EUCANETD_RUN_NETWORK_API) ≠ 0 then
                   [.implement_network s.pGni e.implement_network_rc]
                 else [] := by
  unfold applyNetwork; split_ifs <;> simp

@[simp] theorem applySg_calls (k : Consts) (s : State) (e : CycleEnv) :
    (applySg k s e).calls =
      s.calls ++ if s.driver.implement_sg = true ∧
                      (s.scrubResult &&& k.EUCANETD_RUN_SECURITY_GROUP_API) ≠ 0 then
                   [.implement_sg s.pGni e.implement_sg_rc]
                 else [] := by
  unfold applySg; split_ifs <;> simp

@[simp] theorem applyAddressing_calls (k : Consts) (s : State) (e : CycleEnv) :
    (applyAddressing k s e).calls =
      s.calls ++ if s.driver.implement_addressing = true ∧
                      (s.scrubResult &&& k.EUCANETD_RUN_ADDRESSING_API) ≠ 0 then
                   [.implement_addressing s.pGni e.implement_addressing_rc]
                 else [] := by
  unfold applyAddressing; split_ifs <;> simp

@[simp] theorem lniReset_calls (k : Consts) (s : State) :
    (lniReset k s).calls =
      s.calls ++ if IS_NETMODE_VPCMIDO k s = false then [.lni_reset] else [] := by
  unfold lniReset; split_ifs <;> simp

@[simp] theorem forwardUsr1_calls (k : Consts) (s : State) :
    (forwardUsr1 k s).calls =
      s.calls ++ if s.gUsr1Caught = true ∧ s.driver.handle_signal = true then
                   [.handle_signal s.pGni k.SIGUSR1]
                 else [] := by
  unfold forwardUsr1; split_ifs <;> simp_all

@[simp] theorem forwardUsr2_calls (k : Consts) (s : State) :
    (forwardUsr2 k s).calls =
      s.calls ++ if s.gUsr2Caught = true ∧ s.driver.handle_signal = true then
                   [.handle_signal s.pGni k.SIGUSR2]
                 else [] := by
  unfold forwardUsr2; split_ifs <;> simp_all

@[simp] theorem stageMaint_calls (s : State) (e : CycleEnv) :
    (stageMaint s e).calls =
      s.calls ++ if (s.update_globalnet_failed = false ∧ s.update_globalnet = false ∧
                      s.gIsRunning = true) ∧ s.driver.system_maint = true then
                   [.system_maint s.pGni e.system_maint_rc]
                 else [] := by
  unfold stageMaint; split_ifs <;> simp_all

@[simp] theorem swapOrSleep_calls (s : State) :
    (swapOrSleep s).calls =
      s.calls ++ if s.update_globalnet_failed = true ∨ s.update_globalnet = false then
                   [.sleep s.config.polling_frequency]
                 else [] := by
  unfold swapOrSleep; split_ifs <;> simp_all

@[simp] theorem writeVersion_calls (s : State) (e : CycleEnv) :
    (writeVersion s e).calls =
      s.calls ++ if s.update_version_file = true ∧ (s.heap s.pGni).version.length ≠ 0 then
                   [.str2file (s.heap s.pGni).version e.str2file_ok]
                 else [] := by
  unfold writeVersion; split_ifs <;> simp_all

/-- Filtering a conditional singleton. -/
theorem filter_ite_singleton (p : Call → Bool) (c : Prop) [Decidable c] (x : Call) :
    List.filter p (if c then [x] else []) = if c ∧ p x = true then [x] else [] := by
  by_cases hc : c <;> by_cases hp : p x = true <;> simp [hc, hp]

@[simp] theorem flushCall_calls (k : Consts) (s : State) (e : CycleEnv) :
    (flushCall k s e).calls =
      s.calls ++ if ¬ (IS_NETMODE_VPCMIDO k s = true ∧
                        (s.config.flushmode = k.FLUSH_DYNAMIC ∨ s.config.flushmode = k.FLUSH_ALL)) ∧
                      ¬ (IS_NETMODE_VPCMIDO k s = false ∧ s.config.flushmode > k.FLUSH_DYNAMIC) ∧
                      s.driver.system_flush = true then
                   [.system_flush s.pGni e.system_flush_rc]
                 else [] := by
  unfold flushCall; split_ifs <;> simp_all

/-! ## The update flag and the failure flag, step by step -/

@[simp] theorem fetch_update (s : State) (e : CycleEnv) :
    (eucanetd_fetch_latest_network s e).update_globalnet = e.changed := rfl

@[simp] theorem forceFirstRun_update (s : State) :
    (forceFirstRun s).update_globalnet = (decide (s.firstrun ≠ 0) || s.update_globalnet) := by
  unfold forceFirstRun; split_ifs <;> simp_all

@[simp] theorem forceOnHup_update (s : State) :
    (forceOnHup s).update_globalnet = (s.gHupCaught || s.update_globalnet) := by
  unfold forceOnHup; split_ifs <;> simp_all

@[simp] theorem forceOnHup_hup (s : State) : (forceOnHup s).gHupCaught = false := by
  unfold forceOnHup; split_ifs <;> simp_all

@[simp] theorem forceOnHup_lastApplied (s : State) :
    (forceOnHup s).config.lastAppliedVersion =
      if s.gHupCaught = true then [] else s.config.lastAppliedVersion := by
  unfold forceOnHup; split_ifs <;> simp_all

@[simp] theorem forceAfterFailure_update (s : State) :
    (forceAfterFailure s).update_globalnet = (s.update_globalnet_failed || s.update_globalnet) := by
  unfold forceAfterFailure; split_ifs <;> simp_all

@[simp] theorem forceAfterFailure_failed (s : State) :
    (forceAfterFailure s).update_globalnet_failed = false := by
  unfold forceAfterFailure; split_ifs <;> simp_all

/-- Line 618 leaves `update_globalnet = changed || firstrun || HUP || last iteration failed`. -/
theorem stageFetch_update (s : State) (e : CycleEnv) :
    (stageFetch s e).update_globalnet =
      (s.update_globalnet_failed || (s.gHupCaught || (decide (s.firstrun ≠ 0) || e.changed))) := by
  simp [stageFetch]

@[simp] theorem stageFetch_failed (s : State) (e : CycleEnv) :
    (stageFetch s e).update_globalnet_failed = false := by
  simp [stageFetch]

@[simp] theorem stageFetch_hup (s : State) (e : CycleEnv) :
    (stageFetch s e).gHupCaught = false := by
  simp [stageFetch]

@[simp] theorem stageFetch_lastApplied (s : State) (e : CycleEnv) :
    (stageFetch s e).config.lastAppliedVersion =
      if s.gHupCaught = true then [] else s.config.lastAppliedVersion := by
  simp [stageFetch]

@[simp] theorem stageUpgrade_failed (s : State) (e : CycleEnv) :
    (stageUpgrade s e).update_globalnet_failed =
      (s.update_globalnet_failed || decide (s.driver.upgrade = true ∧ e.upgrade_rc ≠ 0)) := by
  unfold stageUpgrade; split_ifs <;> simp_all

@[simp] theorem flushDone_update (s : State) : (flushDone s).update_globalnet = false := rfl

@[simp] theorem flushDone_flushmode (s : State) : (flushDone s).config.flushmode = FLUSH_NONE :=
  rfl

@[simp] theorem stageFlush_calls (k : Consts) (s : State) (e : CycleEnv) :
    (stageFlush k s e).calls =
      s.calls ++ if s.config.flushmode ≠ 0 ∧
                      ¬ (IS_NETMODE_VPCMIDO k s = true ∧
                        (s.config.flushmode = k.FLUSH_DYNAMIC ∨ s.config.flushmode = k.FLUSH_ALL)) ∧
                      ¬ (IS_NETMODE_VPCMIDO k s = false ∧ s.config.flushmode > k.FLUSH_DYNAMIC) ∧
                      s.driver.system_flush = true then
                   [.system_flush s.pGni e.system_flush_rc]
                 else [] := by
  unfold stageFlush; split_ifs <;> simp_all

@[simp] theorem stageFlush_update (k : Consts) (s : State) (e : CycleEnv) :
    (stageFlush k s e).update_globalnet =
      (decide (s.config.flushmode = 0) && s.update_globalnet) := by
  unfold stageFlush; split_ifs <;> simp_all

@[simp] theorem lniPopulate_lni_rc (k : Consts) (s : State) (e : CycleEnv) :
    (lniPopulate k s e).lni_rc =
      if IS_NETMODE_VPCMIDO k s = false then e.lni_populate_rc else s.lni_rc := by
  unfold lniPopulate; split_ifs <;> simp_all

@[simp] theorem scrub_scrubResult (k : Consts) (s : State) (e : CycleEnv) :
    (scrub k s e).scrubResult =
      if s.driver.system_scrub = true then e.system_scrub_result
      else k.EUCANETD_RUN_ALL_API := by
  unfold scrub; split_ifs <;> simp_all

@[simp] theorem applyNetwork_failed (k : Consts) (s : State) (e : CycleEnv) :
    (applyNetwork k s e).update_globalnet_failed =
      (s.update_globalnet_failed ||
        decide ((s.driver.implement_network = true ∧
                  (s.scrubResult &&& k.EUCANETD_RUN_NETWORK_API) ≠ 0) ∧
                e.implement_network_rc ≠ 0)) := by
  unfold applyNetwork; split_ifs <;> simp_all

@[simp] theorem applySg_failed (k : Consts) (s : State) (e : CycleEnv) :
    (applySg k s e).update_globalnet_failed =
      (s.update_globalnet_failed ||
        decide ((s.driver.implement_sg = true ∧
                  (s.scrubResult &&& k.EUCANETD_RUN_SECURITY_GROUP_API) ≠ 0) ∧
                e.implement_sg_rc ≠ 0)) := by
  unfold applySg; split_ifs <;> simp_all

@[simp] theorem applyAddressing_failed (k : Consts) (s : State) (e : CycleEnv) :
    (applyAddressing k s e).update_globalnet_failed =
      (s.update_globalnet_failed ||
        decide ((s.driver.implement_addressing = true ∧
                  (s.scrubResult &&& k.EUCANETD_RUN_ADDRESSING_API) ≠ 0) ∧
                e.implement_addressing_rc ≠ 0)) := by
  unfold applyAddressing; split_ifs <;> simp_all

/-! ## The scrub and apply calls of an iteration -/

@[simp] theorem IS_NETMODE_VPCMIDO_congr (k : Consts) (s t : State)
    (hh : t.heap = s.heap) (hp : t.pGni = s.pGni) :
    IS_NETMODE_VPCMIDO k t = IS_NETMODE_VPCMIDO k s := by
  simp [IS_NETMODE_VPCMIDO, hh, hp]

theorem protoCalls_stageFetch (s : State) (e : CycleEnv) : protoCalls (stageFetch s e) = [] := by
  simp [protoCalls]

theorem protoCalls_stageParse (k : Consts) (s : State) (e : CycleEnv) :
    protoCalls (stageParse k s e) = protoCalls s := by
  simp [protoCalls]

theorem protoCalls_stageUpgrade (s : State) (e : CycleEnv) :
    protoCalls (stageUpgrade s e) = protoCalls s := by
  simp [protoCalls, filter_ite_singleton, Call.isScrubOrApply, Call.isScrub, Call.isApply]

theorem protoCalls_stageFlush (k : Consts) (s : State) (e : CycleEnv) :
    protoCalls (stageFlush k s e) = protoCalls s := by
  simp [protoCalls, filter_ite_singleton, Call.isScrubOrApply, Call.isScrub, Call.isApply]

theorem protoCalls_stagePersist (k : Consts) (s : State) (e : CycleEnv) :
    protoCalls (stagePersist k s e) = protoCalls s := by
  unfold stagePersist; split_ifs <;>
  simp [protoCalls, filter_ite_singleton, Call.isScrubOrApply, Call.isScrub, Call.isApply]

theorem protoCalls_finishCycle (k : Consts) (a : State) (e : CycleEnv) :
    protoCalls (finishCycle k a e) = protoCalls a := by
  have h := protoCalls_stagePersist k a e
  simp only [protoCalls] at h
  simp [finishCycle, stageSwap, stageSignals, protoCalls, filter_ite_singleton,
    Call.isScrubOrApply, Call.isScrub, Call.isApply, h]

/-- The scrub and apply calls of the apply stage, spelled out. -/
theorem protoCalls_stageApply (k : Consts) (a : State) (e : CycleEnv) :
    protoCalls (stageApply k a e) =
      protoCalls a ++
        if a.update_globalnet = true ∧ (lniPopulate k a e).lni_rc = 0 then
          (if a.driver.system_scrub = true then
            [.system_scrub a.pGni a.pGniApplied e.system_scrub_result] else []) ++
          if ((scrub k a e).scrubResult &&& k.EUCANETD_RUN_ERROR_API) = 0 then
            (if a.driver.implement_network = true ∧
                ((scrub k a e).scrubResult &&& k.EUCANETD_RUN_NETWORK_API) ≠ 0 then
              [.implement_network a.pGni e.implement_network_rc] else []) ++
            ((if a.driver.implement_sg = true ∧
                ((scrub k a e).scrubResult &&& k.EUCANETD_RUN_SECURITY_GROUP_API) ≠ 0 then
              [.implement_sg a.pGni e.implement_sg_rc] else []) ++
            (if a.driver.implement_addressing = true ∧
                ((scrub k a e).scrubResult &&& k.EUCANETD_RUN_ADDRESSING_API) ≠ 0 then
              [.implement_addressing a.pGni e.implement_addressing_rc] else []))
          else []
        else [] := by
  unfold stageApply
  by_cases hu : a.update_globalnet = true
  · rw [if_pos hu]
    unfold applyBody
    by_cases hl : (lniPopulate k a e).lni_rc = 0
    · rw [if_pos hl, if_pos ⟨hu, hl⟩]
      unfold applyOrFail
      have hs : (scrub k (lniPopulate k a e) e).scrubResult = (scrub k a e).scrubResult := by
        simp
      rw [hs]
      by_cases he : ((scrub k a e).scrubResult &&& k.EUCANETD_RUN_ERROR_API) = 0
      · rw [if_pos he, if_pos he]
        simp [protoCalls, filter_ite_singleton, Call.isScrubOrApply, Call.isScrub, Call.isApply]
      · rw [if_neg he, if_neg he]
        simp [protoCalls, filter_ite_singleton, Call.isScrubOrApply, Call.isScrub, Call.isApply]
    · rw [if_neg hl, if_neg (fun h => hl h.2)]
      simp [protoCalls, filter_ite_singleton, Call.isScrubOrApply, Call.isScrub, Call.isApply]
  · rw [if_neg hu, if_neg (fun h => hu h.1)]
    simp

/-! ## The parse stage -/

@[simp] theorem gni_populate_heap (s : State) (r : ReadEnv) :
    (gni_populate s r).heap s.pGni = r.gni := by
  simp [gni_populate]

@[simp] theorem versionGate_update (s : State) :
    (versionGate s).update_globalnet =
      (s.update_globalnet &&
        !decide (((s.heap s.pGni).version.length ≠ 0 ∧ s.config.lastAppliedVersion.length ≠ 0) ∧
                  (s.heap s.pGni).version = s.config.lastAppliedVersion)) := by
  unfold versionGate
  split_ifs
  all_goals simp_all
  tauto

@[simp] theorem skipOnReadFailure_update (s : State) :
    (skipOnReadFailure s).update_globalnet = (s.update_globalnet && decide (s.rc = 0)) := by
  unfold skipOnReadFailure; split_ifs <;> simp_all

@[simp] theorem skipOnModeMismatch_update (s : State) :
    (skipOnModeMismatch s).update_globalnet =
      (s.update_globalnet && decide ((s.heap s.pGni).nmCode = s.config.nmCode)) := by
  unfold skipOnModeMismatch; split_ifs <;> simp_all

/-- The buffer `pGni` points to after the parse stage: the parsed document when the read ran,
the old contents otherwise. -/
theorem stageParse_heap (k : Consts) (s : State) (e : CycleEnv) :
    (stageParse k s e).heap s.pGni =
      if s.update_globalnet = true then e.read.gni else s.heap s.pGni := by
  simp only [stageParse, skipOnModeMismatch_frame, skipOnReadFailure_frame]
  unfold readIfUpdate eucanetd_read_latest_network
  split_ifs <;> simp

/-- When the read ran and `gni_populate` succeeded, the update flag that comes out of
`eucanetd_read_latest_network` is the one the version test leaves. -/
theorem read_update (k : Consts) (s : State) (r : ReadEnv) (h : r.gni_populate_rc = 0) :
    (eucanetd_read_latest_network k s r).update_globalnet =
      (s.update_globalnet &&
        !decide ((r.gni.version.length ≠ 0 ∧ s.config.lastAppliedVersion.length ≠ 0) ∧
                  r.gni.version = s.config.lastAppliedVersion)) := by
  unfold eucanetd_read_latest_network
  simp [h]

/-- A failed `gni_populate` makes the read return 1. -/
theorem read_rc_of_populate_failed (k : Consts) (s : State) (r : ReadEnv)
    (h : r.gni_populate_rc ≠ 0) : (eucanetd_read_latest_network k s r).rc = 1 := by
  unfold eucanetd_read_latest_network
  simp [h]

/-- The apply stage is reached with the update flag set exactly when the flag was set after the
fetch stage, the read returned 0, the version test did not fire and the network mode of the
document is the configured one. -/
theorem stageParse_update (k : Consts) (s : State) (e : CycleEnv) :
    (stageParse k s e).update_globalnet = true ↔
      s.update_globalnet = true ∧ (readIfUpdate k s e).rc = 0 ∧
      ¬ ((e.read.gni.version.length ≠ 0 ∧ s.config.lastAppliedVersion.length ≠ 0) ∧
          e.read.gni.version = s.config.lastAppliedVersion) ∧
      e.read.gni.nmCode = s.config.nmCode := by
  by_cases hu : s.update_globalnet = true
  · have hheap := stageParse_heap k s e
    simp only [stageParse, skipOnModeMismatch_frame, skipOnReadFailure_frame, hu, if_true]
      at hheap
    have hp : (readIfUpdate k s e).pGni = s.pGni := by simp
    by_cases hg : e.read.gni_populate_rc = 0
    · have hr := read_update k s e.read hg
      simp only [stageParse, skipOnModeMismatch_update, skipOnReadFailure_update,
        skipOnReadFailure_frame, hp, hheap]
      have hcfg : (readIfUpdate k s e).config.nmCode = s.config.nmCode := by simp
      rw [hcfg]
      have hru : (readIfUpdate k s e).update_globalnet =
          (eucanetd_read_latest_network k s e.read).update_globalnet := by
        simp [readIfUpdate, hu]
      rw [hru, hr]
      simp [hu]
      tauto
    · have hrc : (readIfUpdate k s e).rc = 1 := by
        simp [readIfUpdate, hu, read_rc_of_populate_failed k s e.read hg]
      simp [stageParse, hrc]
  · have : (readIfUpdate k s e).update_globalnet = false := by
      simp [readIfUpdate, hu]
    simp [stageParse, this, hu]

/-! ## The scrub and apply calls of a whole iteration -/

theorem mem_protoCalls (s : State) (c : Call) :
    c ∈ protoCalls s ↔ c ∈ s.calls ∧ c.isScrubOrApply = true := by
  simp [protoCalls, List.mem_filter]

theorem protoCalls_beforeApply (k : Consts) (s : State) (e : CycleEnv) :
    protoCalls (beforeApply k s e) = [] := by
  unfold beforeApply
  rw [protoCalls_stageFlush, protoCalls_stageUpgrade, protoCalls_stageParse,
    protoCalls_stageFetch]

/-- The scrub and apply calls of an iteration are those of its apply stage. -/
theorem protoCalls_cycle (k : Consts) (s : State) (e : CycleEnv) :
    protoCalls (mainLoopCycle k s e) = protoCalls (stageApply k (beforeApply k s e) e) := by
  unfold mainLoopCycle uptoApply
  rw [protoCalls_finishCycle]

/-- An iteration that enters the apply stage with the update flag down makes no scrub and no
apply call. -/
theorem protoCalls_of_not_update (k : Consts) (s : State) (e : CycleEnv)
    (h : (beforeApply k s e).update_globalnet = false) :
    protoCalls (mainLoopCycle k s e) = [] := by
  rw [protoCalls_cycle, protoCalls_stageApply, protoCalls_beforeApply]
  simp [h]

/-- The update flag with which the apply stage is entered. -/
theorem beforeApply_update (k : Consts) (s : State) (e : CycleEnv) :
    (beforeApply k s e).update_globalnet =
      (decide ((stageFetch s e).config.flushmode = 0) &&
        (stageParse k (stageFetch s e) e).update_globalnet) := by
  simp [beforeApply]

/-- The version test of the read blocks the update: when the version in the current buffer
after the parse stage is non-empty and is the last applied one, the update flag is down. -/
theorem gate_blocks (k : Consts) (t : State) (e : CycleEnv)
    (hne : ((stageParse k t e).heap t.pGni).version ≠ [])
    (heq : ((stageParse k t e).heap t.pGni).version = t.config.lastAppliedVersion) :
    (stageParse k t e).update_globalnet = false := by
  by_contra hcon
  have hT : (stageParse k t e).update_globalnet = true := by simpa using hcon
  obtain ⟨hu, -, hgate, -⟩ := (stageParse_update k t e).1 hT
  rw [stageParse_heap, if_pos hu] at hne heq
  apply hgate
  refine ⟨⟨?_, ?_⟩, heq⟩
  · simpa using hne
  · rw [← heq]; simpa using hne

/-- With the update flag down after the parse stage, the iteration makes no scrub and no apply
call. -/
theorem no_proto_of_parse_blocked (k : Consts) (s : State) (e : CycleEnv)
    (h : (stageParse k (stageFetch s e) e).update_globalnet = false) :
    ∀ c ∈ (mainLoopCycle k s e).calls, c.isScrubOrApply = false := by
  intro c hc
  by_contra hcon
  have hp : c ∈ protoCalls (mainLoopCycle k s e) :=
    (mem_protoCalls _ c).2 ⟨hc, by simpa using hcon⟩
  rw [protoCalls_of_not_update k s e (by rw [beforeApply_update, h]; simp)] at hp
  simp at hp

/-- The content of C1 (amended), shared by the claims on version idempotence. -/
theorem gate_no_proto (k : Consts) (s : State) (e : CycleEnv)
    (hne : parsedVersion k s e ≠ [])
    (heq : parsedVersion k s e = gateVersion s e) :
    ∀ c ∈ (mainLoopCycle k s e).calls, c.isScrubOrApply = false := by
  apply no_proto_of_parse_blocked
  have hp : (stageParse k (stageFetch s e) e).pGni = (stageFetch s e).pGni := by simp
  unfold parsedVersion at hne heq
  rw [hp] at hne heq
  exact gate_blocks k (stageFetch s e) e hne heq

/-! ## Signals between iterations -/

/-- The fields no signal handler touches stay as they are under any sequence of signals. -/
theorem deliverAll_frame (s : State) (sigs : List Signal) :
    (deliverAll s sigs).update_globalnet_failed = s.update_globalnet_failed ∧
    (deliverAll s sigs).update_globalnet = s.update_globalnet ∧
    (deliverAll s sigs).config.lastAppliedVersion = s.config.lastAppliedVersion ∧
    (deliverAll s sigs).config.nmCode = s.config.nmCode ∧
    (deliverAll s sigs).driver = s.driver ∧
    (deliverAll s sigs).pGni = s.pGni ∧ (deliverAll s sigs).pGniApplied = s.pGniApplied ∧
    (deliverAll s sigs).gni_a = s.gni_a ∧ (deliverAll s sigs).gni_b = s.gni_b ∧
    (deliverAll s sigs).heap = s.heap ∧ (deliverAll s sigs).firstrun = s.firstrun ∧
    (deliverAll s sigs).scrubResult = s.scrubResult ∧ (deliverAll s sigs).lni_rc = s.lni_rc := by
  induction sigs generalizing s with
  | nil => simp [deliverAll]
  | cons sig rest ih =>
    have h := ih (deliver s sig)
    simp only [deliverAll, List.foldl_cons] at h ⊢
    simpa using h

/-- Without a SIGHUP among the signals, the SIGHUP flag stays as it is. -/
theorem deliverAll_hup (s : State) (sigs : List Signal) (h : Signal.HUP ∉ sigs) :
    (deliverAll s sigs).gHupCaught = s.gHupCaught := by
  induction sigs generalizing s with
  | nil => simp [deliverAll]
  | cons sig rest ih =>
    have hrest : Signal.HUP ∉ rest := fun hm => h (List.mem_cons_of_mem _ hm)
    have hsig : sig ≠ Signal.HUP := fun he => h (by simp [he])
    have h1 := ih (deliver s sig) hrest
    simp only [deliverAll, List.foldl_cons] at h1 ⊢
    rw [h1]
    cases sig <;> simp_all [deliver, eucanetd_sigterm_handler, eucanetd_sigusr1_handler,
      eucanetd_sigusr2_handler]

/-! ## Version persistence -/

@[simp] theorem countFailure_version_file (k : Consts) (s : State) :
    (countFailure k s).update_version_file =
      if s.update_globalnet_failed = true then
        (decide (s.scrubResult = k.EUCANETD_VPCMIDO_IFERROR) || s.update_version_file)
      else true := by
  unfold countFailure; split_ifs <;> simp_all

@[simp] theorem countFailure_failed_updates (k : Consts) (s : State) :
    (countFailure k s).epoch_failed_updates =
      if s.update_globalnet_failed = true then s.epoch_failed_updates + 1
      else s.epoch_failed_updates := by
  unfold countFailure; split_ifs <;> simp_all

@[simp] theorem writeVersion_lastApplied (s : State) (e : CycleEnv) :
    (writeVersion s e).config.lastAppliedVersion =
      if s.update_version_file = true ∧ (s.heap s.pGni).version.length ≠ 0 ∧
          e.str2file_ok = true then snprintf 32 (s.heap s.pGni).version
      else s.config.lastAppliedVersion := by
  unfold writeVersion; split_ifs <;> simp_all

/-- The last applied version an iteration leaves: the first 31 bytes of the version in the
current buffer when the iteration applied, the version is to be recorded, it is not empty and
the version file could be written; otherwise the previous value. -/
theorem stagePersist_lastApplied (k : Consts) (a : State) (e : CycleEnv) :
    (stagePersist k a e).config.lastAppliedVersion =
      if a.update_globalnet = true ∧ (countFailure k a).update_version_file = true ∧
          (a.heap a.pGni).version.length ≠ 0 ∧ e.str2file_ok = true then
        snprintf 32 (a.heap a.pGni).version
      else a.config.lastAppliedVersion := by
  unfold stagePersist
  by_cases hu : a.update_globalnet = true
  · simp only [hu, if_true, true_and, writeVersion_lastApplied, countFailure_frame]
  · simp [hu]

@[simp] theorem writeVersion_versionFile (s : State) (e : CycleEnv) :
    (writeVersion s e).versionFile =
      if s.update_version_file = true ∧ (s.heap s.pGni).version.length ≠ 0 then
        (if e.str2file_ok = true then some (s.heap s.pGni).version else e.str2file_residue)
      else s.versionFile := by
  unfold writeVersion; split_ifs <;> simp_all

/-- The version file an iteration leaves. -/
theorem stagePersist_versionFile (k : Consts) (a : State) (e : CycleEnv) :
    (stagePersist k a e).versionFile =
      if a.update_globalnet = true ∧ (countFailure k a).update_version_file = true ∧
          (a.heap a.pGni).version.length ≠ 0 then
        (if e.str2file_ok = true then some (a.heap a.pGni).version else e.str2file_residue)
      else a.versionFile := by
  unfold stagePersist
  by_cases hu : a.update_globalnet = true
  · simp only [hu, if_true, true_and, writeVersion_versionFile, countFailure_frame]
  · simp [hu]

/-- The failure counter after the accounting of lines 745-753. -/
theorem stagePersist_failed_updates (k : Consts) (a : State) (e : CycleEnv) :
    (stagePersist k a e).epoch_failed_updates =
      if a.update_globalnet = true ∧ a.update_globalnet_failed = true then
        a.epoch_failed_updates + 1
      else a.epoch_failed_updates := by
  unfold stagePersist
  by_cases hu : a.update_globalnet = true
  · simp [hu]
  · simp [hu]

@[simp] theorem stageReport_failed_updates (s : State) :
    (stageReport s).epoch_failed_updates =
      if s.epoch_timer ≥ 300 then 0 else s.epoch_failed_updates := by
  unfold stageReport; split_ifs <;> simp_all

/-- The failure counter at the end of an iteration: the count after the accounting, unless the
periodic report (every 300 polling seconds) reset it. -/
theorem mainLoopCycle_failed_updates (k : Consts) (s : State) (e : CycleEnv) :
    (mainLoopCycle k s e).epoch_failed_updates =
      if s.epoch_timer ≥ 300 then 0
      else (stagePersist k (uptoApply k s e) e).epoch_failed_updates := by
  simp [mainLoopCycle, finishCycle, stageSwap]

theorem finishCycle_lastApplied (k : Consts) (a : State) (e : CycleEnv) :
    (finishCycle k a e).config.lastAppliedVersion =
      (stagePersist k a e).config.lastAppliedVersion := by
  simp [finishCycle]

theorem finishCycle_versionFile (k : Consts) (a : State) (e : CycleEnv) :
    (finishCycle k a e).versionFile = (stagePersist k a e).versionFile := by
  simp [finishCycle]

theorem uptoApply_heap (k : Consts) (s : State) (e : CycleEnv) :
    (uptoApply k s e).heap = (stageParse k (stageFetch s e) e).heap := by
  simp [uptoApply, beforeApply]

theorem snprintf_short (n : Nat) (v : CStr) (h : v.length < n) : snprintf n v = v := by
  unfold snprintf
  exact List.take_of_length_le (by omega)

theorem mainLoopCycle_update (k : Consts) (s : State) (e : CycleEnv) :
    (mainLoopCycle k s e).update_globalnet = (beforeApply k s e).update_globalnet := by
  simp [mainLoopCycle, uptoApply]

theorem mainLoopCycle_failed (k : Consts) (s : State) (e : CycleEnv) :
    (mainLoopCycle k s e).update_globalnet_failed =
      (stageApply k (beforeApply k s e) e).update_globalnet_failed := by
  simp [mainLoopCycle, uptoApply]

/-- An iteration that applied without failure a non-empty version and could write the version
file leaves that version in the file and its first 31 bytes as the last applied version. -/
theorem persisted_of_success (k : Consts) (s : State) (e : CycleEnv)
    (happlied : (mainLoopCycle k s e).update_globalnet = true)
    (hok : (mainLoopCycle k s e).update_globalnet_failed = false)
    (hne : parsedVersion k s e ≠ []) (hwrite : e.str2file_ok = true) :
    (mainLoopCycle k s e).versionFile = some (parsedVersion k s e) ∧
    (mainLoopCycle k s e).config.lastAppliedVersion = snprintf 32 (parsedVersion k s e) := by
  have hp : (stageParse k (stageFetch s e) e).pGni = (uptoApply k s e).pGni := by simp
  have hv : ((uptoApply k s e).heap (uptoApply k s e).pGni).version = parsedVersion k s e := by
    rw [uptoApply_heap, parsedVersion, hp]
  have hu : (uptoApply k s e).update_globalnet = true := by
    rw [mainLoopCycle_update] at happlied
    simpa [uptoApply] using happlied
  have hf : (uptoApply k s e).update_globalnet_failed = false := by
    rw [mainLoopCycle_failed] at hok
    simpa [uptoApply] using hok
  have hc : (countFailure k (uptoApply k s e)).update_version_file = true := by
    simp [hf]
  have hl : ((uptoApply k s e).heap (uptoApply k s e).pGni).version.length ≠ 0 := by
    rw [hv]; simpa using hne
  unfold mainLoopCycle
  constructor
  · rw [finishCycle_versionFile, stagePersist_versionFile,
      if_pos (And.intro hu (And.intro hc hl)), if_pos hwrite, hv]
  · rw [finishCycle_lastApplied, stagePersist_lastApplied,
      if_pos (And.intro hu (And.intro hc (And.intro hl hwrite))), hv]

/-! ## Applying iterations -/

/-- The scrub and apply calls of an iteration that enters the apply stage with the update flag
up and loads the local view. -/
theorem protoCalls_applying (k : Consts) (s : State) (e : CycleEnv)
    (hu : (beforeApply k s e).update_globalnet = true) (hl : lniLoaded k s e) :
    protoCalls (mainLoopCycle k s e) =
      (if s.driver.system_scrub = true then
        [.system_scrub s.pGni s.pGniApplied e.system_scrub_result] else []) ++
      if ((scrub k s e).scrubResult &&& k.EUCANETD_RUN_ERROR_API) = 0 then
        (if s.driver.implement_network = true ∧
            ((scrub k s e).scrubResult &&& k.EUCANETD_RUN_NETWORK_API) ≠ 0 then
          [.implement_network s.pGni e.implement_network_rc] else []) ++
        ((if s.driver.implement_sg = true ∧
            ((scrub k s e).scrubResult &&& k.EUCANETD_RUN_SECURITY_GROUP_API) ≠ 0 then
          [.implement_sg s.pGni e.implement_sg_rc] else []) ++
        (if s.driver.implement_addressing = true ∧
            ((scrub k s e).scrubResult &&& k.EUCANETD_RUN_ADDRESSING_API) ≠ 0 then
          [.implement_addressing s.pGni e.implement_addressing_rc] else []))
      else [] := by
  rw [protoCalls_cycle, protoCalls_stageApply, protoCalls_beforeApply, if_pos ⟨hu, hl⟩]
  simp

/-- Every scrub or apply call of an iteration is in the list of its scrub and apply calls. -/
theorem mem_calls_of_mem_proto (s : State) (c : Call) (h : c ∈ protoCalls s) : c ∈ s.calls :=
  ((mem_protoCalls s c).1 h).1

/-! ## Reachable states -/

/-- A pending SIGHUP has cleared the flush mode. -/
theorem reachable_hup_flushmode (k : Consts) (s : State) (h : Reachable k s) :
    s.gHupCaught = true → s.config.flushmode = 0 := by
  induction h with
  | entry s hs => exact hs.2.2.2.2.2.2.2.2.2.2.2.2.2.2.2.1
  | cycle s e _ _ _ => intro hh; simp [mainLoopCycle, uptoApply, beforeApply] at hh
  | signal s sig _ ih =>
    cases sig <;>
    simp_all [deliver, eucanetd_sigterm_handler, eucanetd_sighup_handler,
      eucanetd_sigusr1_handler, eucanetd_sigusr2_handler, FLUSH_NONE]

/-! ## The failure flag of an iteration -/

/-- The failure flag the apply stage leaves. -/
theorem stageApply_failed (k : Consts) (a : State) (e : CycleEnv) :
    (stageApply k a e).update_globalnet_failed = true ↔
      a.update_globalnet_failed = true ∨
      (a.update_globalnet = true ∧
        ((lniPopulate k a e).lni_rc ≠ 0 ∨
         ((scrub k a e).scrubResult &&& k.EUCANETD_RUN_ERROR_API) ≠ 0 ∨
         ((a.driver.implement_network = true ∧
            ((scrub k a e).scrubResult &&& k.EUCANETD_RUN_NETWORK_API) ≠ 0) ∧
           e.implement_network_rc ≠ 0) ∨
         ((a.driver.implement_sg = true ∧
            ((scrub k a e).scrubResult &&& k.EUCANETD_RUN_SECURITY_GROUP_API) ≠ 0) ∧
           e.implement_sg_rc ≠ 0) ∨
         ((a.driver.implement_addressing = true ∧
            ((scrub k a e).scrubResult &&& k.EUCANETD_RUN_ADDRESSING_API) ≠ 0) ∧
           e.implement_addressing_rc ≠ 0))) := by
  unfold stageApply
  by_cases hu : a.update_globalnet = true
  · rw [if_pos hu]
    unfold applyBody
    by_cases hl : (lniPopulate k a e).lni_rc = 0
    · rw [if_pos hl]
      unfold applyOrFail
      have hs : (scrub k (lniPopulate k a e) e).scrubResult = (scrub k a e).scrubResult := by
        simp
      rw [hs]
      by_cases he : ((scrub k a e).scrubResult &&& k.EUCANETD_RUN_ERROR_API) = 0
      · rw [if_pos he]
        simp only [lniReset_frame, applyAddressing_failed, applySg_failed, applyNetwork_failed,
          applySg_frame, applyNetwork_frame, scrub_frame, lniPopulate_frame, hs,
          Bool.or_eq_true, decide_eq_true_eq]
        tauto
      · rw [if_neg he]
        simp only [lniReset_frame]
        tauto
    · rw [if_neg hl]
      simp only []
      tauto
  · rw [if_neg hu]
    tauto

theorem beforeApply_failed (k : Consts) (s : State) (e : CycleEnv) :
    (beforeApply k s e).update_globalnet_failed =
      decide (s.driver.upgrade = true ∧ e.upgrade_rc ≠ 0) := by
  simp [beforeApply]

/-- A failed apply call is a scrub or apply call. -/
theorem isScrubOrApply_of_isFailedApply (c : Call) (h : c.isFailedApply = true) :
    c.isScrubOrApply = true := by
  cases c <;> simp_all [Call.isFailedApply, Call.isScrubOrApply, Call.isApply, Call.isScrub]

/-- An iteration in which an apply API returned nonzero ends with the failure flag up. -/
theorem failed_of_failed_apply (k : Consts) (s : State) (e : CycleEnv)
    (h : ∃ c ∈ (mainLoopCycle k s e).calls, c.isFailedApply = true) :
    (mainLoopCycle k s e).update_globalnet_failed = true := by
  obtain ⟨c, hc, hf⟩ := h
  have hp : c ∈ protoCalls (mainLoopCycle k s e) :=
    (mem_protoCalls _ c).2 ⟨hc, isScrubOrApply_of_isFailedApply c hf⟩
  rw [protoCalls_cycle, protoCalls_stageApply, protoCalls_beforeApply] at hp
  rw [mainLoopCycle_failed, stageApply_failed]
  right
  by_cases hu : (beforeApply k s e).update_globalnet = true ∧
      (lniPopulate k (beforeApply k s e) e).lni_rc = 0
  · rw [if_pos hu] at hp
    refine ⟨hu.1, ?_⟩
    by_cases he : ((scrub k (beforeApply k s e) e).scrubResult &&&
        k.EUCANETD_RUN_ERROR_API) = 0
    · rw [if_pos he] at hp
      simp only [List.nil_append, List.mem_append] at hp
      rcases hp with hp | hp | hp | hp
      · split_ifs at hp <;> simp_all [Call.isFailedApply]
      · split_ifs at hp with hn
        · simp only [List.mem_singleton] at hp
          subst hp
          right; right; left
          exact ⟨hn, by simpa [Call.isFailedApply] using hf⟩
        · simp at hp
      · split_ifs at hp with hn
        · simp only [List.mem_singleton] at hp
          subst hp
          right; right; right; left
          exact ⟨hn, by simpa [Call.isFailedApply] using hf⟩
        · simp at hp
      · split_ifs at hp with hn
        · simp only [List.mem_singleton] at hp
          subst hp
          right; right; right; right
          exact ⟨hn, by simpa [Call.isFailedApply] using hf⟩
        · simp at hp
    · right; left; exact he
  · rw [if_neg hu] at hp
    simp at hp

/-- The update flag after the fetch stage of the iteration that follows a failed one, with
any signals in between. -/
theorem update_after_failure (s : State) (sigs : List Signal) (e : CycleEnv)
    (h : s.update_globalnet_failed = true) :
    (stageFetch (deliverAll s sigs) e).update_globalnet = true := by
  rw [stageFetch_update, (deliverAll_frame s sigs).1, h]
  simp

/-- The failure flag at the end of an iteration, in terms of the state it started from. -/
theorem cycle_failed_iff (k : Consts) (s : State) (e : CycleEnv) :
    (mainLoopCycle k s e).update_globalnet_failed = true ↔
      (s.driver.upgrade = true ∧ e.upgrade_rc ≠ 0) ∨
      ((beforeApply k s e).update_globalnet = true ∧
        (¬ lniLoaded k s e ∨
         ((scrub k s e).scrubResult &&& k.EUCANETD_RUN_ERROR_API) ≠ 0 ∨
         ((s.driver.implement_network = true ∧
            ((scrub k s e).scrubResult &&& k.EUCANETD_RUN_NETWORK_API) ≠ 0) ∧
           e.implement_network_rc ≠ 0) ∨
         ((s.driver.implement_sg = true ∧
            ((scrub k s e).scrubResult &&& k.EUCANETD_RUN_SECURITY_GROUP_API) ≠ 0) ∧
           e.implement_sg_rc ≠ 0) ∨
         ((s.driver.implement_addressing = true ∧
            ((scrub k s e).scrubResult &&& k.EUCANETD_RUN_ADDRESSING_API) ≠ 0) ∧
           e.implement_addressing_rc ≠ 0))) := by
  have hsr : (scrub k (beforeApply k s e) e).scrubResult = (scrub k s e).scrubResult := by
    simp
  rw [mainLoopCycle_failed, stageApply_failed, beforeApply_failed, hsr]
  simp only [beforeApply_frame, lniLoaded, decide_eq_true_eq]

/-- In an iteration that applies with a scrub result free of the error bit, an apply API
returned nonzero exactly when one that the driver has and the result asks for did. -/
theorem exists_failed_apply_iff (k : Consts) (s : State) (e : CycleEnv)
    (hu : (beforeApply k s e).update_globalnet = true) (hl : lniLoaded k s e)
    (he : ((scrub k s e).scrubResult &&& k.EUCANETD_RUN_ERROR_API) = 0) :
    (∃ c ∈ (mainLoopCycle k s e).calls, c.isFailedApply = true) ↔
      ((s.driver.implement_network = true ∧
          ((scrub k s e).scrubResult &&& k.EUCANETD_RUN_NETWORK_API) ≠ 0) ∧
        e.implement_network_rc ≠ 0) ∨
      ((s.driver.implement_sg = true ∧
          ((scrub k s e).scrubResult &&& k.EUCANETD_RUN_SECURITY_GROUP_API) ≠ 0) ∧
        e.implement_sg_rc ≠ 0) ∨
      ((s.driver.implement_addressing = true ∧
          ((scrub k s e).scrubResult &&& k.EUCANETD_RUN_ADDRESSING_API) ≠ 0) ∧
        e.implement_addressing_rc ≠ 0) := by
  have hpc := protoCalls_applying k s e hu hl
  rw [if_pos he] at hpc
  constructor
  · intro h
    have hf := (cycle_failed_iff k s e).1 (failed_of_failed_apply k s e h)
    obtain ⟨c, hc, hcf⟩ := h
    have hp : c ∈ protoCalls (mainLoopCycle k s e) :=
      (mem_protoCalls _ c).2 ⟨hc, isScrubOrApply_of_isFailedApply c hcf⟩
    rw [hpc] at hp
    simp only [List.mem_append] at hp
    rcases hp with hp | hp | hp | hp
    · split_ifs at hp <;> simp_all [Call.isFailedApply]
    · split_ifs at hp with hn
      · simp only [List.mem_singleton] at hp
        subst hp
        exact Or.inl ⟨hn, by simpa [Call.isFailedApply] using hcf⟩
      · simp at hp
    · split_ifs at hp with hn
      · simp only [List.mem_singleton] at hp
        subst hp
        exact Or.inr (Or.inl ⟨hn, by simpa [Call.isFailedApply] using hcf⟩)
      · simp at hp
    · split_ifs at hp with hn
      · simp only [List.mem_singleton] at hp
        subst hp
        exact Or.inr (Or.inr ⟨hn, by simpa [Call.isFailedApply] using hcf⟩)
      · simp at hp
  · intro h
    rcases h with ⟨hn, hrc⟩ | ⟨hn, hrc⟩ | ⟨hn, hrc⟩
    · refine ⟨.implement_network s.pGni e.implement_network_rc, ?_, ?_⟩
      · apply mem_calls_of_mem_proto
        rw [hpc, if_pos hn]; simp
      · simpa [Call.isFailedApply] using hrc
    · refine ⟨.implement_sg s.pGni e.implement_sg_rc, ?_, ?_⟩
      · apply mem_calls_of_mem_proto
        rw [hpc, if_pos hn]; simp
      · simpa [Call.isFailedApply] using hrc
    · refine ⟨.implement_addressing s.pGni e.implement_addressing_rc, ?_, ?_⟩
      · apply mem_calls_of_mem_proto
        rw [hpc, if_pos hn]; simp
      · simpa [Call.isFailedApply] using hrc

/-! ## The two buffers -/

@[simp] theorem swapOrSleep_pGni (s : State) :
    (swapOrSleep s).pGni =
      if s.update_globalnet_failed = true ∨ s.update_globalnet = false then s.pGni
      else if s.pGni = s.gni_a then s.gni_b else s.gni_a := by
  unfold swapOrSleep; split_ifs <;> simp_all

@[simp] theorem swapOrSleep_pGniApplied (s : State) :
    (swapOrSleep s).pGniApplied =
      if s.update_globalnet_failed = true then NULL
      else if s.update_globalnet = false then s.pGniApplied else s.pGni := by
  unfold swapOrSleep; split_ifs <;> simp_all

/-- The current buffer after an iteration: the other buffer after an apply without failure,
the same buffer otherwise. -/
theorem mainLoopCycle_pGni (k : Consts) (s : State) (e : CycleEnv) :
    (mainLoopCycle k s e).pGni =
      if (mainLoopCycle k s e).update_globalnet_failed = true ∨
          (mainLoopCycle k s e).update_globalnet = false then s.pGni
      else if s.pGni = s.gni_a then s.gni_b else s.gni_a := by
  rw [mainLoopCycle_failed, mainLoopCycle_update]
  simp [mainLoopCycle, uptoApply, finishCycle, stageSwap]

/-- The last applied buffer after an iteration: none after a failure, the buffer that was
current after an apply without failure, unchanged otherwise. -/
theorem mainLoopCycle_pGniApplied (k : Consts) (s : State) (e : CycleEnv) :
    (mainLoopCycle k s e).pGniApplied =
      if (mainLoopCycle k s e).update_globalnet_failed = true then NULL
      else if (mainLoopCycle k s e).update_globalnet = false then s.pGniApplied
      else s.pGni := by
  rw [mainLoopCycle_failed, mainLoopCycle_update]
  simp [mainLoopCycle, uptoApply, finishCycle, stageSwap]

/-- The invariant of the double buffer. -/
theorem reachable_buffers (k : Consts) (s : State) (h : Reachable k s)
    (hab : s.gni_a ≠ s.gni_b) :
    (s.pGniApplied = NULL ∨ s.pGniApplied ≠ s.pGni) ∧ (s.pGni = s.gni_a ∨ s.pGni = s.gni_b) := by
  induction h with
  | entry s hs =>
    obtain ⟨-, -, -, -, -, -, -, -, -, -, -, -, -, hp, ha, -⟩ := hs
    exact ⟨Or.inl ha, Or.inl hp⟩
  | cycle s e _ _ ih =>
    have hab' : s.gni_a ≠ s.gni_b := by simpa using hab
    obtain ⟨h1, h2⟩ := ih hab'
    rw [mainLoopCycle_pGni, mainLoopCycle_pGniApplied]
    simp only [mainLoopCycle_frame]
    split_ifs <;> simp_all
  | signal s sig _ ih =>
    have hab' : s.gni_a ≠ s.gni_b := by simpa using hab
    simpa using ih hab'

/-- The arguments and the result of a scrub call of an iteration. -/
theorem scrub_call_args (k : Consts) (s : State) (e : CycleEnv) (g a : Ptr) (r : Nat)
    (h : Call.system_scrub g a r ∈ (mainLoopCycle k s e).calls) :
    g = s.pGni ∧ a = s.pGniApplied ∧ r = e.system_scrub_result ∧
    s.driver.system_scrub = true ∧
    (beforeApply k s e).update_globalnet = true ∧ lniLoaded k s e := by
  have hp : Call.system_scrub g a r ∈ protoCalls (mainLoopCycle k s e) :=
    (mem_protoCalls _ _).2 ⟨h, by simp [Call.isScrubOrApply, Call.isScrub]⟩
  rw [protoCalls_cycle, protoCalls_stageApply, protoCalls_beforeApply] at hp
  by_cases hu : (beforeApply k s e).update_globalnet = true ∧
      (lniPopulate k (beforeApply k s e) e).lni_rc = 0
  · rw [if_pos hu] at hp
    simp only [List.nil_append, List.mem_append] at hp
    rcases hp with hp | hp
    · split_ifs at hp with hs
      · simp only [List.mem_singleton, Call.system_scrub.injEq] at hp
        refine ⟨?_, ?_, hp.2.2, ?_, hu.1, hu.2⟩
        · simpa using hp.1
        · simpa using hp.2.1
        · simpa using hs
      · simp at hp
    · split_ifs at hp <;> simp at hp
  · rw [if_neg hu] at hp
    simp at hp

/-! ## Order of the scrub and apply calls -/

/-- An iteration that does not enter the apply stage with the update flag up, or cannot load
the local view, makes no scrub and no apply call. -/
theorem protoCalls_idle (k : Consts) (s : State) (e : CycleEnv)
    (h : ¬ ((beforeApply k s e).update_globalnet = true ∧ lniLoaded k s e)) :
    protoCalls (mainLoopCycle k s e) = [] := by
  unfold lniLoaded at h
  rw [protoCalls_cycle, protoCalls_stageApply, protoCalls_beforeApply, if_neg h]
  simp

/-- The ranks of the scrub and apply calls of an iteration increase strictly. -/
theorem protoCalls_ranks (k : Consts) (s : State) (e : CycleEnv) :
    List.Pairwise (fun c d : Call => c.rank < d.rank) (protoCalls (mainLoopCycle k s e)) := by
  by_cases h : (beforeApply k s e).update_globalnet = true ∧ lniLoaded k s e
  · rw [protoCalls_applying k s e h.1 h.2]
    split_ifs <;> simp [Call.rank]
  · rw [protoCalls_idle k s e h]
    exact List.Pairwise.nil

/-- Pairwise on the scrub and apply calls, read on the whole call log. -/
theorem pairwise_protoCalls (R : Call → Call → Prop) (s : State) :
    List.Pairwise R (protoCalls s) ↔
      List.Pairwise
        (fun c d => c.isScrubOrApply = true → d.isScrubOrApply = true → R c d) s.calls := by
  have h := List.pairwise_filter (R := R) (p := fun c : Call => c.isScrubOrApply = true)
    (l := s.calls)
  simpa [protoCalls] using h

/-- An apply call is a scrub or apply call. -/
theorem isScrubOrApply_of_isApply (c : Call) (h : c.isApply = true) :
    c.isScrubOrApply = true := by
  simp [Call.isScrubOrApply, h]

/-- The value of `scrubResult` the apply stage leaves. -/
theorem stageApply_scrubResult (k : Consts) (a : State) (e : CycleEnv) :
    (stageApply k a e).scrubResult =
      if a.update_globalnet = true ∧ (lniPopulate k a e).lni_rc = 0 then
        (scrub k a e).scrubResult
      else a.scrubResult := by
  unfold stageApply
  by_cases hu : a.update_globalnet = true
  · rw [if_pos hu]
    unfold applyBody
    by_cases hl : (lniPopulate k a e).lni_rc = 0
    · rw [if_pos hl, if_pos ⟨hu, hl⟩]
      unfold applyOrFail
      split_ifs <;> simp
    · rw [if_neg hl, if_neg (fun h => hl h.2)]
      simp
  · rw [if_neg hu, if_neg (fun h => hu h.1)]

theorem mainLoopCycle_scrubResult (k : Consts) (s : State) (e : CycleEnv) :
    (mainLoopCycle k s e).scrubResult =
      if (beforeApply k s e).update_globalnet = true ∧ lniLoaded k s e then
        (scrub k s e).scrubResult
      else s.scrubResult := by
  have h := stageApply_scrubResult k (beforeApply k s e) e
  simp only [mainLoopCycle, uptoApply, finishCycle_frame, lniLoaded]
  rw [h]
  simp

/-- Membership in a concatenation of four conditional singletons. -/
theorem mem_four_ite (c x0 x1 x2 x3 : Call) (p0 p1 p2 p3 : Prop)
    [Decidable p0] [Decidable p1] [Decidable p2] [Decidable p3] :
    c ∈ (if p0 then [x0] else []) ++
        ((if p1 then [x1] else []) ++ ((if p2 then [x2] else []) ++ if p3 then [x3] else [])) ↔
      (p0 ∧ c = x0) ∨ (p1 ∧ c = x1) ∨ (p2 ∧ c = x2) ∨ (p3 ∧ c = x3) := by
  by_cases h0 : p0 <;> by_cases h1 : p1 <;> by_cases h2 : p2 <;> by_cases h3 : p3 <;>
    simp [h0, h1, h2, h3]

/-- An apply call is in the call log exactly when it is among the scrub and apply calls. -/
theorem mem_calls_iff_of_isApply (s : State) (c : Call) (hc : c.isApply = true) :
    c ∈ s.calls ↔ c ∈ protoCalls s := by
  rw [mem_protoCalls]
  exact ⟨fun h => ⟨h, isScrubOrApply_of_isApply c hc⟩, fun h => h.1⟩

/-- Every apply call of an iteration is the call of an API the driver has and the scrub result
asks for, on the current buffer. -/
theorem apply_call_cases (k : Consts) (s : State) (e : CycleEnv) (c : Call)
    (hc : c ∈ (mainLoopCycle k s e).calls) (ha : c.isApply = true) :
    (c = .implement_network s.pGni e.implement_network_rc ∧
      s.driver.implement_network = true ∧
      ((scrub k s e).scrubResult &&& k.EUCANETD_RUN_NETWORK_API) ≠ 0) ∨
    (c = .implement_sg s.pGni e.implement_sg_rc ∧
      s.driver.implement_sg = true ∧
      ((scrub k s e).scrubResult &&& k.EUCANETD_RUN_SECURITY_GROUP_API) ≠ 0) ∨
    (c = .implement_addressing s.pGni e.implement_addressing_rc ∧
      s.driver.implement_addressing = true ∧
      ((scrub k s e).scrubResult &&& k.EUCANETD_RUN_ADDRESSING_API) ≠ 0) := by
  have hp := (mem_calls_iff_of_isApply _ c ha).1 hc
  by_cases h : (beforeApply k s e).update_globalnet = true ∧ lniLoaded k s e
  · rw [protoCalls_applying k s e h.1 h.2] at hp
    by_cases he : ((scrub k s e).scrubResult &&& k.EUCANETD_RUN_ERROR_API) = 0
    · rw [if_pos he, mem_four_ite] at hp
      rcases hp with ⟨-, hp⟩ | ⟨hn, hp⟩ | ⟨hn, hp⟩ | ⟨hn, hp⟩
      · subst hp; simp [Call.isApply] at ha
      · exact Or.inl ⟨hp, hn⟩
      · exact Or.inr (Or.inl ⟨hp, hn⟩)
      · exact Or.inr (Or.inr ⟨hp, hn⟩)
    · rw [if_neg he] at hp
      simp only [List.append_nil] at hp
      split_ifs at hp
      · simp only [List.mem_singleton] at hp
        subst hp; simp [Call.isApply] at ha
      · simp at hp
  · rw [protoCalls_idle k s e h] at hp
    simp at hp

/-! ## The loop condition -/

@[simp] theorem flushDone_running (s : State) : (flushDone s).gIsRunning = false := rfl

@[simp] theorem stageFlush_running (k : Consts) (s : State) (e : CycleEnv) :
    (stageFlush k s e).gIsRunning = (decide (s.config.flushmode = 0) && s.gIsRunning) := by
  unfold stageFlush; split_ifs <;> simp_all

/-- An iteration leaves `gIsRunning` as it is, unless it started in a flush mode. -/
theorem mainLoopCycle_running (k : Consts) (s : State) (e : CycleEnv) :
    (mainLoopCycle k s e).gIsRunning = (decide (s.config.flushmode = 0) && s.gIsRunning) := by
  simp [mainLoopCycle, uptoApply, beforeApply, finishCycle, stageSwap, stageSignals]

/-- Signals leave `gIsRunning` as it is, unless a SIGTERM is among them. -/
theorem deliverAll_running (s : State) (sigs : List Signal) :
    (deliverAll s sigs).gIsRunning = (s.gIsRunning && decide (Signal.TERM ∉ sigs)) := by
  induction sigs generalizing s with
  | nil => simp [deliverAll]
  | cons sig rest ih =>
    have h := ih (deliver s sig)
    simp only [deliverAll, List.foldl_cons] at h ⊢
    rw [h]
    cases sig <;> simp [deliver, eucanetd_sigterm_handler, eucanetd_sighup_handler,
      eucanetd_sigusr1_handler, eucanetd_sigusr2_handler]

/-- A loop whose condition is false is left at once, whatever rounds are on offer. -/
theorem runLoop_stopped (k : Consts) (s : State) (rounds : List Round)
    (h : s.gIsRunning = false) : runLoop k s rounds = some s := by
  cases rounds <;> simp [runLoop, h]

/-- While the condition holds, the loop runs the iteration of the first round. -/
theorem runLoop_step (k : Consts) (s : State) (r : Round) (rs : List Round)
    (h : s.gIsRunning = true) :
    runLoop k s (r :: rs) = runLoop k (deliverAll (mainLoopCycle k s r.env) r.sigs) rs := by
  simp [runLoop, h]

/-! ## The upgrade and flush calls of an iteration -/

theorem hook_stageApply (k : Consts) (a : State) (e : CycleEnv) :
    (stageApply k a e).calls.filter Call.isHook = a.calls.filter Call.isHook := by
  unfold stageApply applyBody applyOrFail
  split_ifs <;>
    simp [filter_ite_singleton, Call.isHook, Call.isUpgrade, Call.isFlush]

theorem hook_stagePersist (k : Consts) (a : State) (e : CycleEnv) :
    (stagePersist k a e).calls.filter Call.isHook = a.calls.filter Call.isHook := by
  unfold stagePersist
  split_ifs <;>
    simp [filter_ite_singleton, Call.isHook, Call.isUpgrade, Call.isFlush]

theorem hook_finishCycle (k : Consts) (a : State) (e : CycleEnv) :
    (finishCycle k a e).calls.filter Call.isHook = a.calls.filter Call.isHook := by
  have h := hook_stagePersist k a e
  simp [finishCycle, stageSwap, stageSignals, filter_ite_singleton, Call.isHook,
    Call.isUpgrade, Call.isFlush] at h ⊢
  exact h

/-- The upgrade and flush calls of an iteration: the upgrade when the driver has the callback,
then the flush when the process is in a flush mode that fits the network mode and the driver
has the callback. -/
theorem hook_cycle (k : Consts) (s : State) (e : CycleEnv) :
    (mainLoopCycle k s e).calls.filter Call.isHook =
      (if s.driver.upgrade = true then [.upgrade s.pGni e.upgrade_rc] else []) ++
      (if s.config.flushmode ≠ 0 ∧
          ¬ (IS_NETMODE_VPCMIDO k (beforeFlush k s e) = true ∧
            (s.config.flushmode = k.FLUSH_DYNAMIC ∨ s.config.flushmode = k.FLUSH_ALL)) ∧
          ¬ (IS_NETMODE_VPCMIDO k (beforeFlush k s e) = false ∧
            s.config.flushmode > k.FLUSH_DYNAMIC) ∧
          s.driver.system_flush = true then
        [.system_flush s.pGni e.system_flush_rc] else []) := by
  unfold mainLoopCycle uptoApply
  rw [hook_finishCycle, hook_stageApply]
  have hf : (beforeFlush k s e).config.flushmode = s.config.flushmode := by
    simp [beforeFlush]
  have hd : (beforeFlush k s e).driver.system_flush = s.driver.system_flush := by
    simp [beforeFlush]
  have hp : (beforeFlush k s e).pGni = s.pGni := by simp [beforeFlush]
  have hc : (beforeFlush k s e).calls =
      if s.driver.upgrade = true then [.upgrade s.pGni e.upgrade_rc] else [] := by
    simp [beforeFlush]
  have hb : beforeApply k s e = stageFlush k (beforeFlush k s e) e := rfl
  rw [hb, stageFlush_calls, hf, hd, hp, hc, List.filter_append, filter_ite_singleton,
    filter_ite_singleton]
  simp [Call.isHook, Call.isUpgrade, Call.isFlush]

/-- An upgrade call is an upgrade or flush call. -/
theorem filter_isUpgrade (l : List Call) :
    l.filter Call.isUpgrade = (l.filter Call.isHook).filter Call.isUpgrade := by
  rw [List.filter_filter]
  congr 1
  funext c
  cases c <;> simp [Call.isHook, Call.isUpgrade, Call.isFlush]

/-- The upgrade calls of an iteration. -/
theorem upgradeCalls_cycle (k : Consts) (s : State) (e : CycleEnv) :
    (mainLoopCycle k s e).calls.filter Call.isUpgrade =
      if s.driver.upgrade = true then [.upgrade s.pGni e.upgrade_rc] else [] := by
  rw [filter_isUpgrade, hook_cycle, List.filter_append, filter_ite_singleton,
    filter_ite_singleton]
  simp [Call.isUpgrade]

/-- The upgrade capability after an iteration: null once the callback has returned 0. -/
theorem mainLoopCycle_upgrade (k : Consts) (s : State) (e : CycleEnv) :
    (mainLoopCycle k s e).driver.upgrade = (s.driver.upgrade && decide (e.upgrade_rc ≠ 0)) := by
  have h : (stageUpgrade (stageParse k (stageFetch s e) e) e).driver.upgrade =
      (s.driver.upgrade && decide (e.upgrade_rc ≠ 0)) := by
    unfold stageUpgrade
    split_ifs <;> simp_all
  simpa [mainLoopCycle, uptoApply, beforeApply, finishCycle, stageSwap, stageSignals] using h

/-- A null upgrade capability stays null. -/
theorem later_upgrade (k : Consts) (s t : State) (h : Later k s t)
    (hs : s.driver.upgrade = false) : t.driver.upgrade = false := by
  induction h with
  | refl => exact hs
  | cycle t e _ _ ih => rw [mainLoopCycle_upgrade, ih]; simp
  | signal t sig _ ih => simpa using ih

/-- Signals do not touch the iteration counter. -/
theorem deliverAll_counter (s : State) (sigs : List Signal) :
    (deliverAll s sigs).counter = s.counter := by
  induction sigs generalizing s with
  | nil => simp [deliverAll]
  | cons sig rest ih =>
    have h := ih (deliver s sig)
    simp only [deliverAll, List.foldl_cons] at h ⊢
    simpa using h

/-- An iteration counts itself. -/
theorem mainLoopCycle_counter (k : Consts) (s : State) (e : CycleEnv) :
    (mainLoopCycle k s e).counter = s.counter + 1 := by
  simp [mainLoopCycle, uptoApply, beforeApply, finishCycle, stageSwap, stageSignals, stageFetch,
    loopTop]

/-- The flush mode after an iteration: `FLUSH_NONE` when the iteration started in a flush mode,
unchanged (so `FLUSH_NONE` again) otherwise. -/
theorem mainLoopCycle_flushmode (k : Consts) (s : State) (e : CycleEnv) :
    (mainLoopCycle k s e).config.flushmode = FLUSH_NONE := by
  have h : (stageFlush k (beforeFlush k s e) e).config.flushmode = FLUSH_NONE := by
    unfold stageFlush
    split_ifs with hf
    · simp
    · simpa [FLUSH_NONE] using hf
  simpa [mainLoopCycle, uptoApply, beforeApply, beforeFlush, finishCycle, stageSwap,
    stageSignals] using h

/-- Signals leave a flush mode `FLUSH_NONE` as it is. -/
theorem deliverAll_flushmode (s : State) (sigs : List Signal)
    (h : s.config.flushmode = FLUSH_NONE) :
    (deliverAll s sigs).config.flushmode = FLUSH_NONE := by
  induction sigs generalizing s with
  | nil => simpa [deliverAll] using h
  | cons sig rest ih =>
    have h1 : (deliver s sig).config.flushmode = FLUSH_NONE := by
      cases sig <;> simp [deliver, eucanetd_sigterm_handler, eucanetd_sighup_handler,
        eucanetd_sigusr1_handler, eucanetd_sigusr2_handler, h]
    have h2 := ih (deliver s sig) h1
    simpa only [deliverAll, List.foldl_cons] using h2

/-- Signals do not touch the call log of the iteration. -/
theorem deliverAll_calls (s : State) (sigs : List Signal) :
    (deliverAll s sigs).calls = s.calls := by
  induction sigs generalizing s with
  | nil => simp [deliverAll]
  | cons sig rest ih =>
    have h := ih (deliver s sig)
    simp only [deliverAll, List.foldl_cons] at h ⊢
    simpa using h

/-- The flag `gTermCaught` is never lowered by a signal. -/
theorem deliverAll_term_mono (s : State) (sigs : List Signal) (h : s.gTermCaught = true) :
    (deliverAll s sigs).gTermCaught = true := by
  induction sigs generalizing s with
  | nil => simpa [deliverAll] using h
  | cons sig rest ih =>
    have h1 : (deliver s sig).gTermCaught = true := by
      cases sig <;> simp [deliver, eucanetd_sigterm_handler, eucanetd_sighup_handler,
        eucanetd_sigusr1_handler, eucanetd_sigusr2_handler, h]
    have h2 := ih (deliver s sig) h1
    simpa only [deliverAll, List.foldl_cons] using h2

/-- After a SIGTERM among the signals delivered, the flag `gTermCaught` is up. -/
theorem deliverAll_term (s : State) (sigs : List Signal) (h : Signal.TERM ∈ sigs) :
    (deliverAll s sigs).gTermCaught = true := by
  induction sigs generalizing s with
  | nil => simp at h
  | cons sig rest ih =>
    simp only [deliverAll, List.foldl_cons]
    rcases List.mem_cons.1 h with h1 | h1
    · subst h1
      exact deliverAll_term_mono _ rest (by simp [deliver, eucanetd_sigterm_handler])
    · exact ih (deliver s sig) h1

/-! ## More on version persistence -/

/-- The version in the current buffer when the apply stage is over is the parsed version. -/
theorem uptoApply_version (k : Consts) (s : State) (e : CycleEnv) :
    ((uptoApply k s e).heap (uptoApply k s e).pGni).version = parsedVersion k s e := by
  have hp : (stageParse k (stageFetch s e) e).pGni = (uptoApply k s e).pGni := by simp
  rw [uptoApply_heap, parsedVersion, hp]

theorem uptoApply_lastApplied (k : Consts) (s : State) (e : CycleEnv) :
    (uptoApply k s e).config.lastAppliedVersion = gateVersion s e := by
  simp [uptoApply, beforeApply, gateVersion]

theorem uptoApply_update (k : Consts) (s : State) (e : CycleEnv) :
    (uptoApply k s e).update_globalnet = (mainLoopCycle k s e).update_globalnet := by
  simp [mainLoopCycle]

theorem uptoApply_failed (k : Consts) (s : State) (e : CycleEnv) :
    (uptoApply k s e).update_globalnet_failed = (mainLoopCycle k s e).update_globalnet_failed := by
  simp [mainLoopCycle]

theorem uptoApply_scrubResult (k : Consts) (s : State) (e : CycleEnv) :
    (uptoApply k s e).scrubResult = (mainLoopCycle k s e).scrubResult := by
  simp [mainLoopCycle]

/-- What an iteration persists, in terms of the decision of lines 746-753. -/
theorem persisted_of_version_file (k : Consts) (s : State) (e : CycleEnv)
    (happlied : (mainLoopCycle k s e).update_globalnet = true)
    (hc : (countFailure k (uptoApply k s e)).update_version_file = true)
    (hne : parsedVersion k s e ≠ []) :
    (mainLoopCycle k s e).versionFile =
      (if e.str2file_ok = true then some (parsedVersion k s e) else e.str2file_residue) ∧
    (mainLoopCycle k s e).config.lastAppliedVersion =
      (if e.str2file_ok = true then snprintf 32 (parsedVersion k s e) else gateVersion s e) := by
  have hv := uptoApply_version k s e
  have hu : (uptoApply k s e).update_globalnet = true := by
    rw [uptoApply_update]; exact happlied
  have hl : ((uptoApply k s e).heap (uptoApply k s e).pGni).version.length ≠ 0 := by
    rw [hv]; simpa using hne
  unfold mainLoopCycle
  constructor
  · rw [finishCycle_versionFile, stagePersist_versionFile,
      if_pos (And.intro hu (And.intro hc hl)), hv]
  · rw [finishCycle_lastApplied, stagePersist_lastApplied, uptoApply_lastApplied]
    by_cases hw : e.str2file_ok = true
    · rw [if_pos (And.intro hu (And.intro hc (And.intro hl hw))), if_pos hw, hv]
    · rw [if_neg (fun h => hw h.2.2.2), if_neg hw]

/-- An empty version is not persisted: the version file and the last applied version stay as
they are (the latter as the fetch stage left it). -/
theorem not_persisted_of_empty (k : Consts) (s : State) (e : CycleEnv)
    (hempty : parsedVersion k s e = []) :
    (mainLoopCycle k s e).versionFile = s.versionFile ∧
    (mainLoopCycle k s e).config.lastAppliedVersion = gateVersion s e := by
  have hv := uptoApply_version k s e
  have hl : ¬ ((uptoApply k s e).heap (uptoApply k s e).pGni).version.length ≠ 0 := by
    rw [hv, hempty]; simp
  have hvf : (uptoApply k s e).versionFile = s.versionFile := by simp
  unfold mainLoopCycle
  constructor
  · rw [finishCycle_versionFile, stagePersist_versionFile, if_neg (fun h => hl h.2.2), hvf]
  · rw [finishCycle_lastApplied, stagePersist_lastApplied, if_neg (fun h => hl h.2.2.1),
      uptoApply_lastApplied]

/-- The decision of lines 746-753 in an iteration without failure. -/
theorem version_file_of_success (k : Consts) (s : State) (e : CycleEnv)
    (hok : (mainLoopCycle k s e).update_globalnet_failed = false) :
    (countFailure k (uptoApply k s e)).update_version_file = true := by
  rw [← uptoApply_failed] at hok
  simp [hok]

/-- The decision of lines 746-753 in a failed iteration whose scrub result is the overlay
sentinel. -/
theorem version_file_of_sentinel (k : Consts) (s : State) (e : CycleEnv)
    (hfail : (mainLoopCycle k s e).update_globalnet_failed = true)
    (hsr : (mainLoopCycle k s e).scrubResult = k.EUCANETD_VPCMIDO_IFERROR) :
    (countFailure k (uptoApply k s e)).update_version_file = true := by
  rw [← uptoApply_failed] at hfail
  rw [← uptoApply_scrubResult] at hsr
  simp [hfail, hsr]

/-- The failure counter after the accounting of a failed applying iteration. -/
theorem failed_updates_of_failure (k : Consts) (s : State) (e : CycleEnv)
    (happlied : (mainLoopCycle k s e).update_globalnet = true)
    (hfail : (mainLoopCycle k s e).update_globalnet_failed = true) :
    (stagePersist k (uptoApply k s e) e).epoch_failed_updates = s.epoch_failed_updates + 1 := by
  rw [← uptoApply_update] at happlied
  rw [← uptoApply_failed] at hfail
  rw [stagePersist_failed_updates, if_pos (And.intro happlied hfail)]
  simp

/-! ## SIGTERM in the course of an iteration

The handler of SIGTERM writes `gIsRunning` and `gTermCaught` only, and within an iteration only
the maintenance step reads one of them: every other step does the same work whether the signal
was handled before it or after it. -/

theorem IS_NETMODE_VPCMIDO_sigterm (k : Consts) (s : State) :
    IS_NETMODE_VPCMIDO k (eucanetd_sigterm_handler s) = IS_NETMODE_VPCMIDO k s := rfl

theorem loopTop_sigterm (s : State) :
    loopTop (eucanetd_sigterm_handler s) = eucanetd_sigterm_handler (loopTop s) := rfl

theorem fetch_sigterm (s : State) (e : CycleEnv) :
    eucanetd_fetch_latest_network (eucanetd_sigterm_handler s) e =
      eucanetd_sigterm_handler (eucanetd_fetch_latest_network s e) := rfl

theorem forceFirstRun_sigterm (s : State) :
    forceFirstRun (eucanetd_sigterm_handler s) = eucanetd_sigterm_handler (forceFirstRun s) := by
  simp only [forceFirstRun, eucanetd_sigterm_handler]
  split_ifs <;> rfl

theorem forceOnHup_sigterm (s : State) :
    forceOnHup (eucanetd_sigterm_handler s) = eucanetd_sigterm_handler (forceOnHup s) := by
  simp only [forceOnHup, eucanetd_sigterm_handler]
  split_ifs <;> rfl

theorem forceAfterFailure_sigterm (s : State) :
    forceAfterFailure (eucanetd_sigterm_handler s) =
      eucanetd_sigterm_handler (forceAfterFailure s) := by
  simp only [forceAfterFailure, eucanetd_sigterm_handler]
  split_ifs <;> rfl

theorem stageFetch_sigterm (s : State) (e : CycleEnv) :
    stageFetch (eucanetd_sigterm_handler s) e = eucanetd_sigterm_handler (stageFetch s e) := by
  simp only [stageFetch, loopTop_sigterm, fetch_sigterm, forceFirstRun_sigterm,
    forceOnHup_sigterm, forceAfterFailure_sigterm]

theorem gni_populate_sigterm (s : State) (r : ReadEnv) :
    gni_populate (eucanetd_sigterm_handler s) r =
      eucanetd_sigterm_handler (gni_populate s r) := rfl

theorem versionGate_sigterm (s : State) :
    versionGate (eucanetd_sigterm_handler s) = eucanetd_sigterm_handler (versionGate s) := by
  simp only [versionGate, eucanetd_sigterm_handler]
  split_ifs <;> rfl

theorem selectGateway_sigterm (k : Consts) (s : State) (r : ReadEnv) :
    selectGateway k (eucanetd_sigterm_handler s) r =
      eucanetd_sigterm_handler (selectGateway k s r) := by
  simp only [selectGateway, eucanetd_sigterm_handler, IS_NETMODE_VPCMIDO, storeDetected]
  split_ifs <;> first | rfl | (cases autodetect r.private_subnet r.brdev <;> rfl)

theorem read_sigterm (k : Consts) (s : State) (r : ReadEnv) :
    eucanetd_read_latest_network k (eucanetd_sigterm_handler s) r =
      eucanetd_sigterm_handler (eucanetd_read_latest_network k s r) := by
  simp only [eucanetd_read_latest_network, gni_populate_sigterm, versionGate_sigterm,
    selectGateway_sigterm]
  split_ifs <;> rfl

theorem readIfUpdate_sigterm (k : Consts) (s : State) (e : CycleEnv) :
    readIfUpdate k (eucanetd_sigterm_handler s) e =
      eucanetd_sigterm_handler (readIfUpdate k s e) := by
  simp only [readIfUpdate, read_sigterm, eucanetd_sigterm_handler_frame]
  split_ifs <;> rfl

theorem skipOnReadFailure_sigterm (s : State) :
    skipOnReadFailure (eucanetd_sigterm_handler s) =
      eucanetd_sigterm_handler (skipOnReadFailure s) := by
  simp only [skipOnReadFailure, eucanetd_sigterm_handler]
  split_ifs <;> rfl

theorem skipOnModeMismatch_sigterm (s : State) :
    skipOnModeMismatch (eucanetd_sigterm_handler s) =
      eucanetd_sigterm_handler (skipOnModeMismatch s) := by
  simp only [skipOnModeMismatch, eucanetd_sigterm_handler]
  split_ifs <;> rfl

theorem stageParse_sigterm (k : Consts) (s : State) (e : CycleEnv) :
    stageParse k (eucanetd_sigterm_handler s) e =
      eucanetd_sigterm_handler (stageParse k s e) := by
  simp only [stageParse, readIfUpdate_sigterm, skipOnReadFailure_sigterm,
    skipOnModeMismatch_sigterm]

theorem stageUpgrade_sigterm (s : State) (e : CycleEnv) :
    stageUpgrade (eucanetd_sigterm_handler s) e =
      eucanetd_sigterm_handler (stageUpgrade s e) := by
  simp only [stageUpgrade, eucanetd_sigterm_handler]
  split_ifs <;> rfl

theorem stageFlush_sigterm (k : Consts) (s : State) (e : CycleEnv) :
    stageFlush k (eucanetd_sigterm_handler s) e =
      eucanetd_sigterm_handler (stageFlush k s e) := by
  simp only [stageFlush, flushDone, flushCall, State.call, eucanetd_sigterm_handler,
    IS_NETMODE_VPCMIDO]
  split_ifs <;> rfl

theorem lniPopulate_sigterm (k : Consts) (s : State) (e : CycleEnv) :
    lniPopulate k (eucanetd_sigterm_handler s) e =
      eucanetd_sigterm_handler (lniPopulate k s e) := by
  simp only [lniPopulate, eucanetd_sigterm_handler, IS_NETMODE_VPCMIDO]
  split_ifs <;> rfl

theorem scrub_sigterm (k : Consts) (s : State) (e : CycleEnv) :
    scrub k (eucanetd_sigterm_handler s) e = eucanetd_sigterm_handler (scrub k s e) := by
  simp only [scrub, eucanetd_sigterm_handler]
  split_ifs <;> rfl

theorem applyNetwork_sigterm (k : Consts) (s : State) (e : CycleEnv) :
    applyNetwork k (eucanetd_sigterm_handler s) e =
      eucanetd_sigterm_handler (applyNetwork k s e) := by
  simp only [applyNetwork, eucanetd_sigterm_handler]
  split_ifs <;> rfl

theorem applySg_sigterm (k : Consts) (s : State) (e : CycleEnv) :
    applySg k (eucanetd_sigterm_handler s) e = eucanetd_sigterm_handler (applySg k s e) := by
  simp only [applySg, eucanetd_sigterm_handler]
  split_ifs <;> rfl

theorem applyAddressing_sigterm (k : Consts) (s : State) (e : CycleEnv) :
    applyAddressing k (eucanetd_sigterm_handler s) e =
      eucanetd_sigterm_handler (applyAddressing k s e) := by
  simp only [applyAddressing, eucanetd_sigterm_handler]
  split_ifs <;> rfl

theorem applyOrFail_sigterm (k : Consts) (s : State) (e : CycleEnv) :
    applyOrFail k (eucanetd_sigterm_handler s) e =
      eucanetd_sigterm_handler (applyOrFail k s e) := by
  simp only [applyOrFail, applyNetwork_sigterm, applySg_sigterm, applyAddressing_sigterm,
    eucanetd_sigterm_handler_frame]
  split_ifs <;> rfl

theorem lniReset_sigterm (k : Consts) (s : State) :
    lniReset k (eucanetd_sigterm_handler s) = eucanetd_sigterm_handler (lniReset k s) := by
  simp only [lniReset, State.call, eucanetd_sigterm_handler, IS_NETMODE_VPCMIDO]
  split_ifs <;> rfl

theorem applyBody_sigterm (k : Consts) (s : State) (e : CycleEnv) :
    applyBody k (eucanetd_sigterm_handler s) e =
      eucanetd_sigterm_handler (applyBody k s e) := by
  simp only [applyBody, scrub_sigterm, applyOrFail_sigterm, lniReset_sigterm,
    eucanetd_sigterm_handler_frame]
  split_ifs <;> rfl

theorem stageApply_sigterm (k : Consts) (s : State) (e : CycleEnv) :
    stageApply k (eucanetd_sigterm_handler s) e =
      eucanetd_sigterm_handler (stageApply k s e) := by
  simp only [stageApply, lniPopulate_sigterm, applyBody_sigterm,
    eucanetd_sigterm_handler_frame]
  split_ifs <;> rfl

theorem countFailure_sigterm (k : Consts) (s : State) :
    countFailure k (eucanetd_sigterm_handler s) =
      eucanetd_sigterm_handler (countFailure k s) := by
  simp only [countFailure, eucanetd_sigterm_handler]
  split_ifs <;> rfl

theorem writeVersion_sigterm (s : State) (e : CycleEnv) :
    writeVersion (eucanetd_sigterm_handler s) e =
      eucanetd_sigterm_handler (writeVersion s e) := by
  simp only [writeVersion, eucanetd_sigterm_handler]
  split_ifs <;> rfl

theorem stagePersist_sigterm (k : Consts) (s : State) (e : CycleEnv) :
    stagePersist k (eucanetd_sigterm_handler s) e =
      eucanetd_sigterm_handler (stagePersist k s e) := by
  simp only [stagePersist, countFailure_sigterm, writeVersion_sigterm,
    eucanetd_sigterm_handler_frame]
  split_ifs <;> rfl

theorem stageSignals_sigterm (k : Consts) (s : State) :
    stageSignals k (eucanetd_sigterm_handler s) =
      eucanetd_sigterm_handler (stageSignals k s) := by
  simp only [stageSignals, tickChecks, forwardUsr1, forwardUsr2, eucanetd_sigterm_handler]
  split_ifs <;> rfl

theorem stageReport_sigterm (s : State) :
    stageReport (eucanetd_sigterm_handler s) = eucanetd_sigterm_handler (stageReport s) := by
  simp only [stageReport, eucanetd_sigterm_handler]
  split_ifs <;> rfl

/-- With `gIsRunning` down the maintenance step does nothing. -/
theorem stageMaint_sigterm (s : State) (e : CycleEnv) :
    stageMaint (eucanetd_sigterm_handler s) e = eucanetd_sigterm_handler s := by
  simp [stageMaint, eucanetd_sigterm_handler]

theorem stageSwap_sigterm (s : State) :
    stageSwap (eucanetd_sigterm_handler s) = eucanetd_sigterm_handler (stageSwap s) := by
  simp only [stageSwap, tickTimer, swapOrSleep, eucanetd_sigterm_handler]
  split_ifs <;> rfl

/-- The stages, run in order, are the iteration. -/
theorem runStages_stages (k : Consts) (s : State) (e : CycleEnv) :
    runStages (stages k e) s = mainLoopCycle k s e := rfl

/-- SIGTERM handled before the maintenance step: the iteration is carried through without the
maintenance step. -/
theorem cycleWithTerm_early (k : Consts) (s : State) (e : CycleEnv) (n : Nat) (h : n ≤ 8) :
    cycleWithTerm k s e n = eucanetd_sigterm_handler (cycleNoMaint k s e) := by
  interval_cases n <;>
  simp only [cycleWithTerm, cycleNoMaint, uptoApply, beforeApply, runStages, stages, List.take,
    List.drop, List.foldl, stageFetch_sigterm, stageParse_sigterm, stageUpgrade_sigterm,
    stageFlush_sigterm, stageApply_sigterm, stagePersist_sigterm, stageSignals_sigterm,
    stageReport_sigterm, stageMaint_sigterm, stageSwap_sigterm]

/-- SIGTERM handled after the maintenance step: the iteration is the whole iteration. -/
theorem cycleWithTerm_late (k : Consts) (s : State) (e : CycleEnv) (n : Nat) (h : 9 ≤ n) :
    cycleWithTerm k s e n = eucanetd_sigterm_handler (mainLoopCycle k s e) := by
  rcases Nat.eq_or_lt_of_le h with h9 | h10
  · subst h9
    simp only [cycleWithTerm, mainLoopCycle, finishCycle, uptoApply, beforeApply, runStages,
      stages, List.take, List.drop, List.foldl, stageSwap_sigterm]
  · have hlen : (stages k e).length ≤ n := by simpa [stages] using h10
    rw [cycleWithTerm, List.drop_of_length_le hlen, List.take_of_length_le hlen,
      runStages_stages]
    rfl

/-- The maintenance step leaves the scrub and apply calls, the version file, the last applied
version and the buffers as they are. -/
theorem cycleNoMaint_same (k : Consts) (s : State) (e : CycleEnv) :
    protoCalls (cycleNoMaint k s e) = protoCalls (mainLoopCycle k s e) ∧
    (cycleNoMaint k s e).versionFile = (mainLoopCycle k s e).versionFile ∧
    (cycleNoMaint k s e).config = (mainLoopCycle k s e).config ∧
    (cycleNoMaint k s e).driver = (mainLoopCycle k s e).driver ∧
    (cycleNoMaint k s e).pGni = (mainLoopCycle k s e).pGni ∧
    (cycleNoMaint k s e).pGniApplied = (mainLoopCycle k s e).pGniApplied := by
  refine ⟨?_, ?_, ?_, ?_, ?_, ?_⟩
  · have h := protoCalls_stagePersist k (uptoApply k s e) e
    rw [mainLoopCycle, protoCalls_finishCycle]
    simp only [protoCalls] at h ⊢
    simp [cycleNoMaint, stageSwap, stageSignals, filter_ite_singleton,
      Call.isScrubOrApply, Call.isScrub, Call.isApply, h]
  all_goals simp [cycleNoMaint, mainLoopCycle, finishCycle, stageSwap]

/-! ## Signals in the course of an iteration -/

theorem deliverAll_append (s : State) (l1 l2 : List Signal) :
    deliverAll (deliverAll s l1) l2 = deliverAll s (l1 ++ l2) := by
  simp [deliverAll, List.foldl_append]

theorem deliverAll_update (s : State) (sigs : List Signal) :
    (deliverAll s sigs).update_globalnet = s.update_globalnet := (deliverAll_frame s sigs).2.1

theorem deliverAll_failed (s : State) (sigs : List Signal) :
    (deliverAll s sigs).update_globalnet_failed = s.update_globalnet_failed :=
  (deliverAll_frame s sigs).1

theorem deliverAll_driver (s : State) (sigs : List Signal) :
    (deliverAll s sigs).driver = s.driver := (deliverAll_frame s sigs).2.2.2.2.1

theorem deliverAll_pGni (s : State) (sigs : List Signal) :
    (deliverAll s sigs).pGni = s.pGni := (deliverAll_frame s sigs).2.2.2.2.2.1

/-- Once `gIsRunning` is down no signal raises it. -/
theorem deliverAll_stopped (s : State) (sigs : List Signal) (h : s.gIsRunning = false) :
    (deliverAll s sigs).gIsRunning = false := by
  rw [deliverAll_running, h]
  rfl

theorem stageApply_of_not_update (k : Consts) (s : State) (e : CycleEnv)
    (h : s.update_globalnet = false) : stageApply k s e = s := by
  unfold stageApply
  simp [h]

theorem stagePersist_of_not_update (k : Consts) (s : State) (e : CycleEnv)
    (h : s.update_globalnet = false) : stagePersist k s e = s := by
  unfold stagePersist
  simp [h]

theorem stageMaint_of_stopped (s : State) (e : CycleEnv) (h : s.gIsRunning = false) :
    stageMaint s e = s := by
  unfold stageMaint
  simp [h]

/-- The iteration from its flush stage on, when the flush stage has cleared the update flag and
`gIsRunning`: nothing is applied, nothing is persisted, no maintenance is done. -/
theorem afterFlush_eq (k : Consts) (e : CycleEnv) (sg : Nat → List Signal) (a : State)
    (hu : a.update_globalnet = false) (hr : a.gIsRunning = false) :
    runStagesFrom sg 4 ((stages k e).drop 4) a =
      stageSwap (deliverAll (stageReport (deliverAll (stageSignals k
        (deliverAll a (sg 4 ++ (sg 5 ++ sg 6)))) (sg 7))) (sg 8 ++ sg 9)) := by
  have h4 : (deliverAll a (sg 4)).update_globalnet = false := by rw [deliverAll_update, hu]
  have h5 : (deliverAll (deliverAll a (sg 4)) (sg 5)).update_globalnet = false := by
    rw [deliverAll_update, h4]
  have h8 : (deliverAll (stageReport (deliverAll (stageSignals k
      (deliverAll a (sg 4 ++ (sg 5 ++ sg 6)))) (sg 7))) (sg 8)).gIsRunning = false := by
    simp [deliverAll_running, hr]
  simp only [runStagesFrom, stages, List.drop]
  rw [stageApply_of_not_update k _ e h4, stagePersist_of_not_update k _ e h5,
    deliverAll_append, deliverAll_append, stageMaint_of_stopped _ e h8, deliverAll_append]

/-- What is left of the flush short-circuit at the end of the iteration. -/
theorem afterFlush_facts (k : Consts) (e : CycleEnv) (sg : Nat → List Signal) (a : State)
    (hu : a.update_globalnet = false) (hr : a.gIsRunning = false)
    (hf : a.config.flushmode = FLUSH_NONE) :
    (runStagesFrom sg 4 ((stages k e).drop 4) a).calls.filter Call.isFlush =
      a.calls.filter Call.isFlush ∧
    protoCalls (runStagesFrom sg 4 ((stages k e).drop 4) a) = protoCalls a ∧
    (runStagesFrom sg 4 ((stages k e).drop 4) a).gIsRunning = false ∧
    (runStagesFrom sg 4 ((stages k e).drop 4) a).pGni = a.pGni ∧
    (runStagesFrom sg 4 ((stages k e).drop 4) a).driver = a.driver ∧
    (runStagesFrom sg 4 ((stages k e).drop 4) a).config.flushmode = FLUSH_NONE := by
  rw [afterFlush_eq k e sg a hu hr]
  refine ⟨?_, ?_, ?_, ?_, ?_, ?_⟩
  · simp [stageSwap, stageSignals, deliverAll_calls, filter_ite_singleton, Call.isFlush]
  · simp [protoCalls, stageSwap, stageSignals, deliverAll_calls, filter_ite_singleton,
      Call.isScrubOrApply, Call.isScrub, Call.isApply]
  · simp [stageSwap, deliverAll_running, hr]
  · simp [stageSwap, stageSignals, deliverAll_update, deliverAll_failed, deliverAll_pGni, hu]
  · simp [stageSwap, stageSignals, deliverAll_driver]
  · have h1 := deliverAll_flushmode a (sg 4 ++ (sg 5 ++ sg 6)) hf
    have h2 := deliverAll_flushmode (stageSignals k (deliverAll a (sg 4 ++ (sg 5 ++ sg 6))))
      (sg 7) (by simpa using h1)
    have h3 := deliverAll_flushmode (stageReport (deliverAll (stageSignals k
      (deliverAll a (sg 4 ++ (sg 5 ++ sg 6)))) (sg 7))) (sg 8 ++ sg 9) (by simpa using h2)
    simpa [stageSwap] using h3

/-- Without a SIGHUP among the signals, the flush mode stays as it is. -/
theorem deliverAll_flushmode_of_no_hup (s : State) (sigs : List Signal)
    (h : Signal.HUP ∉ sigs) : (deliverAll s sigs).config.flushmode = s.config.flushmode := by
  induction sigs generalizing s with
  | nil => simp [deliverAll]
  | cons sig rest ih =>
    have hrest : Signal.HUP ∉ rest := fun hm => h (List.mem_cons_of_mem _ hm)
    have h1 := ih (deliver s sig) hrest
    simp only [deliverAll, List.foldl_cons] at h1 ⊢
    rw [h1]
    cases sig <;> simp_all [deliver, eucanetd_sigterm_handler, eucanetd_sigusr1_handler,
      eucanetd_sigusr2_handler]

/-- The state in which the flush stage is entered, spelled out. -/
theorem atStage_flush (k : Consts) (s : State) (e : CycleEnv) (sg : Nat → List Signal) :
    atStage k s e sg 3 =
      deliverAll (stageUpgrade (deliverAll (stageParse k (deliverAll
        (stageFetch (deliverAll s (sg 0)) e) (sg 1)) e) (sg 2)) e) (sg 3) := rfl

/-- The iteration is its flush stage, entered in that state, and what follows it. -/
theorem cycleWithSignals_split (k : Consts) (s : State) (e : CycleEnv)
    (sg : Nat → List Signal) :
    cycleWithSignals k s e sg =
      runStagesFrom sg 4 ((stages k e).drop 4) (stageFlush k (atStage k s e sg 3) e) := rfl

/-- Without signals inside it, the iteration is `mainLoopCycle`. -/
theorem cycleWithSignals_quiet (k : Consts) (s : State) (e : CycleEnv) :
    cycleWithSignals k s e (fun _ => []) = mainLoopCycle k s e := rfl

/-- What the stages before the flush stage leave: no flush call, no scrub or apply call, the
buffer and the driver callbacks of the start (but for `upgrade`). -/
theorem atStage_flush_facts (k : Consts) (s : State) (e : CycleEnv) (sg : Nat → List Signal) :
    (atStage k s e sg 3).calls.filter Call.isFlush = [] ∧
    protoCalls (atStage k s e sg 3) = [] ∧
    (atStage k s e sg 3).pGni = s.pGni ∧
    (atStage k s e sg 3).driver.system_flush = s.driver.system_flush ∧
    (atStage k s e sg 3).driver.cleanup = s.driver.cleanup := by
  rw [atStage_flush]
  refine ⟨?_, ?_, ?_, ?_, ?_⟩
  · simp [deliverAll_calls, filter_ite_singleton, Call.isFlush]
  · simp [protoCalls, deliverAll_calls, filter_ite_singleton, Call.isScrubOrApply, Call.isScrub,
      Call.isApply]
  · simp [deliverAll_pGni]
  · simp [deliverAll_driver]
  · simp [deliverAll_driver]

/-- Without a SIGHUP before it, the flush stage is entered with the flush mode of the start. -/
theorem atStage_flush_flushmode (k : Consts) (s : State) (e : CycleEnv)
    (sg : Nat → List Signal) (h : ∀ i, i ≤ 3 → Signal.HUP ∉ sg i) :
    (atStage k s e sg 3).config.flushmode = s.config.flushmode := by
  rw [atStage_flush, deliverAll_flushmode_of_no_hup _ _ (h 3 (by decide))]
  simp only [(stageUpgrade_frame _ _).2.2.2.2.2.2.2.2.2.2.2.1]
  rw [deliverAll_flushmode_of_no_hup _ _ (h 2 (by decide))]
  have hp := (stageParse_frame k (deliverAll (stageFetch (deliverAll s (sg 0)) e) (sg 1)) e)
  have hf := (stageFetch_frame (deliverAll s (sg 0)) e)
  simp only [hp, hf, deliverAll_flushmode_of_no_hup _ _ (h 1 (by decide)),
    deliverAll_flushmode_of_no_hup _ _ (h 0 (by decide))]

/-! ## A document that cannot be used -/

/-- While the driver still has its `upgrade` callback nothing is published as last applied:
every iteration so far has ended with the failure flag set. -/
theorem reachable_upgrade_applied (k : Consts) (s : State) (h : Reachable k s) :
    s.driver.upgrade = true → s.pGniApplied = NULL := by
  induction h with
  | entry s hs => exact fun _ => hs.2.2.2.2.2.2.2.2.2.2.2.2.2.2.1
  | cycle s e _ _ ih =>
    intro hu
    rw [mainLoopCycle_upgrade] at hu
    have hu2 : s.driver.upgrade = true ∧ e.upgrade_rc ≠ 0 := by simpa using hu
    rw [mainLoopCycle_pGniApplied, if_pos ((cycle_failed_iff k s e).2 (Or.inl hu2))]
  | signal s sig _ ih =>
    cases sig <;>
    simpa [deliver, eucanetd_sigterm_handler, eucanetd_sighup_handler,
      eucanetd_sigusr1_handler, eucanetd_sigusr2_handler] using ih

/-- The parse stage clears the update flag when the read fails or the network mode of the
document is not the configured one. -/
theorem stageParse_blocked (k : Consts) (t : State) (e : CycleEnv)
    (hbad : (readIfUpdate k t e).rc ≠ 0 ∨ e.read.gni.nmCode ≠ t.config.nmCode) :
    (stageParse k t e).update_globalnet = false := by
  by_contra hcon
  have hT : (stageParse k t e).update_globalnet = true := by simpa using hcon
  obtain ⟨-, hrc, -, hmode⟩ := (stageParse_update k t e).1 hT
  rcases hbad with h | h
  · exact h hrc
  · exact h hmode

/-! ## Auto-detection of the router address -/

/-- The loop of lines 1760-1775 finds nothing exactly when no address of the device
qualifies. -/
theorem autodetect_none (sub : gni_subnet) (l : List (Nat × Nat)) :
    autodetect sub l = none ↔
      ∀ x ∈ l, ¬ (x.2 = sub.netmask ∧ (x.1 &&& sub.netmask) = sub.subnet) := by
  induction l with
  | nil => simp [autodetect]
  | cons x rest ih =>
    obtain ⟨ip, nm⟩ := x
    by_cases h : nm = sub.netmask ∧ (ip &&& sub.netmask) = sub.subnet
    · simp [autodetect, h]
    · simp only [autodetect, if_neg h, ih, List.mem_cons, forall_eq_or_imp]
      exact ⟨fun hr => ⟨h, hr⟩, fun hr => hr.2⟩

/-- The loop of lines 1760-1775 finds the qualifying address of lowest index. -/
theorem autodetect_first (sub : gni_subnet) (l : List (Nat × Nat)) (i ip nm : Nat)
    (hi : l[i]? = some (ip, nm))
    (hq : nm = sub.netmask ∧ (ip &&& sub.netmask) = sub.subnet)
    (hlow : ∀ x ∈ l.take i, ¬ (x.2 = sub.netmask ∧ (x.1 &&& sub.netmask) = sub.subnet)) :
    autodetect sub l = some ip := by
  induction l generalizing i with
  | nil => simp at hi
  | cons x rest ih =>
    obtain ⟨ip0, nm0⟩ := x
    cases i with
    | zero =>
      simp only [List.getElem?_cons_zero, Option.some.injEq, Prod.mk.injEq] at hi
      obtain ⟨h1, h2⟩ := hi
      subst h1 h2
      simp [autodetect, hq]
    | succ i =>
      have h0 := hlow (ip0, nm0) (by simp)
      simp only [autodetect, if_neg h0]
      apply ih i (by simpa using hi)
      intro y hy
      exact hlow y (by simp [hy])

/-! ## Command-line options -/

/-- An option sets `multieucanetd_safe` when it is one of `-l`, `-m`, `-u`, `-v`, and leaves it
as it is otherwise. -/
theorem applyOption_safe (k : Consts) (m : OptConsts) (c c2 : OptConfig) (o : Opt)
    (h : applyOption k m c o = .ok c2) :
    c2.multieucanetd_safe = (c.multieucanetd_safe || o.isSafe) := by
  unfold applyOption at h
  by_cases h0 : o.opt = 'd'
  · rw [if_pos h0] at h
    cases h
    simp [Opt.isSafe, h0]
  rw [if_neg h0] at h
  by_cases h1 : o.opt = 'l'
  · rw [if_pos h1] at h
    cases h
    simp [Opt.isSafe, h1]
  rw [if_neg h1] at h
  by_cases h2 : o.opt = 'F'
  · rw [if_pos h2] at h
    cases h
    simp [Opt.isSafe, h2]
  rw [if_neg h2] at h
  by_cases h3 : o.opt = 'f'
  · rw [if_pos h3] at h
    cases h
    simp [Opt.isSafe, h3]
  rw [if_neg h3] at h
  by_cases h4 : o.opt = 'C'
  · rw [if_pos h4] at h
    cases h
    simp [Opt.isSafe, h4]
  rw [if_neg h4] at h
  by_cases h5 : o.opt = 'Z'
  · rw [if_pos h5] at h
    cases h
    simp [Opt.isSafe, h5]
  rw [if_neg h5] at h
  by_cases h6 : o.opt = 'm'
  · rw [if_pos h6] at h
    cases h
    simp [Opt.isSafe, h6]
  rw [if_neg h6] at h
  by_cases h7 : o.opt = 'M'
  · rw [if_pos h7] at h
    cases h
    simp [Opt.isSafe, h7]
  rw [if_neg h7] at h
  by_cases h8 : o.opt = 'u'
  · rw [if_pos h8] at h
    cases h
    simp [Opt.isSafe, h8]
  rw [if_neg h8] at h
  by_cases h9 : o.opt = 'U'
  · rw [if_pos h9] at h
    cases h
    simp [Opt.isSafe, h9]
  rw [if_neg h9] at h
  by_cases h10 : o.opt = 'v'
  · rw [if_pos h10] at h
    cases h
    simp [Opt.isSafe, h10]
  rw [if_neg h10] at h
  by_cases h11 : o.opt = 'V'
  · rw [if_pos h11] at h
    cases h
    simp [Opt.isSafe, h11]
  rw [if_neg h11] at h
  by_cases h12 : o.opt = 'z'
  · rw [if_pos h12] at h
    cases h
    simp [Opt.isSafe, h12]
  rw [if_neg h12] at h
  cases h

/-- After the option loop the flag `multieucanetd_safe` is set exactly when it was set before
or one of the options is `-l`, `-m`, `-u` or `-v`. -/
theorem parseOptions_safe (k : Consts) (m : OptConsts) (opts : List Opt) (c c2 : OptConfig)
    (h : parseOptions k m c opts = .ok c2) :
    c2.multieucanetd_safe = (c.multieucanetd_safe || opts.any Opt.isSafe) := by
  induction opts generalizing c with
  | nil =>
    simp only [parseOptions, Parsed.ok.injEq] at h
    subst h
    simp
  | cons o os ih =>
    simp only [parseOptions] at h
    cases ha : applyOption k m c o with
    | exit code => rw [ha] at h; simp at h
    | ok c1 =>
      rw [ha] at h
      rw [ih c1 h, applyOption_safe k m c c1 o ha]
      simp [Bool.or_assoc]

/-! ## Two iterations in a row without a change -/

/-- After an iteration `firstrun` is 0 (line 604). -/
theorem mainLoopCycle_firstrun (k : Consts) (s : State) (e : CycleEnv) :
    (mainLoopCycle k s e).firstrun = 0 := by
  have h : (forceFirstRun (eucanetd_fetch_latest_network (loopTop s) e)).firstrun = 0 := by
    unfold forceFirstRun
    split_ifs with h
    · rfl
    · simpa using h
  simpa [mainLoopCycle, uptoApply, beforeApply, stageFetch] using h

/-- Without a failure in the iteration before, without a SIGHUP since, and without a change of
the document, the fetch stage leaves the update flag down. -/
theorem stageFetch_quiet (k : Consts) (s : State) (e1 e2 : CycleEnv) (sigs : List Signal)
    (hok : (mainLoopCycle k s e1).update_globalnet_failed = false)
    (hhup : Signal.HUP ∉ sigs) (hq : e2.changed = false) :
    (stageFetch (deliverAll (mainLoopCycle k s e1) sigs) e2).update_globalnet = false := by
  have hh : (deliverAll (mainLoopCycle k s e1) sigs).gHupCaught = false := by
    rw [deliverAll_hup _ _ hhup]
    simp [mainLoopCycle, uptoApply, beforeApply]
  rw [stageFetch_update, deliverAll_failed, hok, hh, hq,
    (deliverAll_frame _ sigs).2.2.2.2.2.2.2.2.2.2.1, mainLoopCycle_firstrun]
  simp

/-! ## The local view -/

/-- When the apply stage is entered with the update flag up, the document in the current
buffer is of the configured network mode (lines 629-632). -/
theorem beforeApply_mode (k : Consts) (s : State) (e : CycleEnv)
    (hu : (beforeApply k s e).update_globalnet = true) :
    ((beforeApply k s e).heap (beforeApply k s e).pGni).nmCode = s.config.nmCode := by
  rw [beforeApply_update] at hu
  simp only [Bool.and_eq_true, decide_eq_true_eq] at hu
  have h2 := hu.2
  simp only [stageParse, skipOnModeMismatch_update, Bool.and_eq_true, decide_eq_true_eq] at h2
  simpa [beforeApply, stageParse] using h2.2

/-- When the apply stage is entered with the update flag up, the overlay test of the document
is the overlay test of the configuration. -/
theorem beforeApply_overlay (k : Consts) (s : State) (e : CycleEnv)
    (hu : (beforeApply k s e).update_globalnet = true) :
    IS_NETMODE_VPCMIDO k (beforeApply k s e) = decide (s.config.nmCode = k.NM_VPCMIDO) := by
  unfold IS_NETMODE_VPCMIDO
  rw [beforeApply_mode k s e hu]
  by_cases h : s.config.nmCode = k.NM_VPCMIDO <;> simp [h]

/-- The value of `lni_rc` an iteration leaves. -/
theorem mainLoopCycle_lni_rc (k : Consts) (s : State) (e : CycleEnv) :
    (mainLoopCycle k s e).lni_rc =
      if (beforeApply k s e).update_globalnet = true ∧ s.config.nmCode ≠ k.NM_VPCMIDO then
        e.lni_populate_rc
      else s.lni_rc := by
  have h1 : (mainLoopCycle k s e).lni_rc = (stageApply k (beforeApply k s e) e).lni_rc := by
    simp [mainLoopCycle, uptoApply]
  rw [h1]
  unfold stageApply
  by_cases hu : (beforeApply k s e).update_globalnet = true
  · have ho := beforeApply_overlay k s e hu
    have h2 : (applyBody k (lniPopulate k (beforeApply k s e) e) e).lni_rc =
        (lniPopulate k (beforeApply k s e) e).lni_rc := by simp
    rw [if_pos hu, h2, lniPopulate_lni_rc, ho]
    by_cases hm : s.config.nmCode = k.NM_VPCMIDO <;> simp [hm, hu]
  · rw [if_neg hu, if_neg (fun h => hu h.1)]
    simp

/-- In overlay mode `lni_populate` is never called: `lni_rc` keeps the 0 of line 340. -/
theorem reachable_overlay_lni (k : Consts) (s : State) (h : Reachable k s) :
    s.config.nmCode = k.NM_VPCMIDO → s.lni_rc = 0 := by
  induction h with
  | entry s hs => exact fun _ => hs.2.2.2.2.2.1
  | cycle s e _ _ ih =>
    intro hm
    have hc : s.config.nmCode = k.NM_VPCMIDO := by
      rw [← (mainLoopCycle_frame k s e).1]; exact hm
    rw [mainLoopCycle_lni_rc, if_neg (fun h => h.2 hc)]
    exact ih hc
  | signal s sig _ ih =>
    intro hm
    have h1 := (deliverAll_frame s [sig])
    simp only [deliverAll, List.foldl_cons, List.foldl_nil] at h1
    rw [h1.2.2.2.2.2.2.2.2.2.2.2.2]
    exact ih (by rw [← h1.2.2.2.1]; exact hm)

/-- At a reachable state the local view is loaded when `lni_populate`, where it is called,
returns 0. -/
theorem lniLoaded_of_populate (k : Consts) (s : State) (e : CycleEnv) (hr : Reachable k s)
    (hu : (beforeApply k s e).update_globalnet = true)
    (hl : s.config.nmCode ≠ k.NM_VPCMIDO → e.lni_populate_rc = 0) : lniLoaded k s e := by
  unfold lniLoaded
  rw [lniPopulate_lni_rc, beforeApply_overlay k s e hu]
  by_cases hm : s.config.nmCode = k.NM_VPCMIDO
  · simp [hm, reachable_overlay_lni k s hr hm]
  · simp [hm, hl hm]

/-- An iteration in which `lni_populate` is called and fails makes no scrub and no apply
call. -/
theorem no_proto_of_lni_failure (k : Consts) (s : State) (e : CycleEnv)
    (hm : s.config.nmCode ≠ k.NM_VPCMIDO) (hl : e.lni_populate_rc ≠ 0) :
    protoCalls (mainLoopCycle k s e) = [] := by
  by_cases hu : (beforeApply k s e).update_globalnet = true
  · rw [protoCalls_cycle, protoCalls_stageApply, protoCalls_beforeApply]
    have hn : ¬ (lniPopulate k (beforeApply k s e) e).lni_rc = 0 := by
      rw [lniPopulate_lni_rc, beforeApply_overlay k s e hu]
      simp [hm, hl]
    rw [if_neg (fun h => hn h.2)]
    rfl
  · exact protoCalls_of_not_update k s e (by simpa using hu)

/-! ## The value kept in `scrubResult`

No step before the apply stage reads or writes `scrubResult`: it does the same work whatever the
value kept from the iteration before. -/

@[simp] theorem withScrubResult_frame (s : State) (x : Nat) :
    (s.withScrubResult x).update_globalnet = s.update_globalnet ∧
    (s.withScrubResult x).update_globalnet_failed = s.update_globalnet_failed ∧
    (s.withScrubResult x).update_version_file = s.update_version_file ∧
    (s.withScrubResult x).lni_rc = s.lni_rc ∧
    (s.withScrubResult x).rc = s.rc ∧
    (s.withScrubResult x).config = s.config ∧
    (s.withScrubResult x).driver = s.driver ∧
    (s.withScrubResult x).pGni = s.pGni ∧
    (s.withScrubResult x).pGniApplied = s.pGniApplied ∧
    (s.withScrubResult x).heap = s.heap ∧
    (s.withScrubResult x).versionFile = s.versionFile ∧
    (s.withScrubResult x).calls = s.calls ∧
    (s.withScrubResult x).gHupCaught = s.gHupCaught ∧
    (s.withScrubResult x).firstrun = s.firstrun ∧
    (s.withScrubResult x).scrubResult = x :=
  ⟨rfl, rfl, rfl, rfl, rfl, rfl, rfl, rfl, rfl, rfl, rfl, rfl, rfl, rfl, rfl⟩

theorem IS_NETMODE_VPCMIDO_withScrub (k : Consts) (s : State) (x : Nat) :
    IS_NETMODE_VPCMIDO k (s.withScrubResult x) = IS_NETMODE_VPCMIDO k s := rfl

theorem loopTop_withScrub (s : State) (x : Nat) :
    loopTop (s.withScrubResult x) = (loopTop s).withScrubResult x := rfl

theorem fetch_withScrub (s : State) (e : CycleEnv) (x : Nat) :
    eucanetd_fetch_latest_network (s.withScrubResult x) e =
      (eucanetd_fetch_latest_network s e).withScrubResult x := rfl

theorem forceFirstRun_withScrub (s : State) (x : Nat) :
    forceFirstRun (s.withScrubResult x) = (forceFirstRun s).withScrubResult x := by
  simp only [forceFirstRun, State.withScrubResult]
  split_ifs <;> rfl

theorem forceOnHup_withScrub (s : State) (x : Nat) :
    forceOnHup (s.withScrubResult x) = (forceOnHup s).withScrubResult x := by
  simp only [forceOnHup, State.withScrubResult]
  split_ifs <;> rfl

theorem forceAfterFailure_withScrub (s : State) (x : Nat) :
    forceAfterFailure (s.withScrubResult x) =
      (forceAfterFailure s).withScrubResult x := by
  simp only [forceAfterFailure, State.withScrubResult]
  split_ifs <;> rfl

theorem stageFetch_withScrub (s : State) (e : CycleEnv) (x : Nat) :
    stageFetch (s.withScrubResult x) e = (stageFetch s e).withScrubResult x := by
  simp only [stageFetch, loopTop_withScrub, fetch_withScrub, forceFirstRun_withScrub,
    forceOnHup_withScrub, forceAfterFailure_withScrub]

theorem gni_populate_withScrub (s : State) (r : ReadEnv) (x : Nat) :
    gni_populate (s.withScrubResult x) r =
      (gni_populate s r).withScrubResult x := rfl

theorem versionGate_withScrub (s : State) (x : Nat) :
    versionGate (s.withScrubResult x) = (versionGate s).withScrubResult x := by
  simp only [versionGate, State.withScrubResult]
  split_ifs <;> rfl

theorem selectGateway_withScrub (k : Consts) (s : State) (r : ReadEnv) (x : Nat) :
    selectGateway k (s.withScrubResult x) r =
      (selectGateway k s r).withScrubResult x := by
  simp only [selectGateway, State.withScrubResult, IS_NETMODE_VPCMIDO, storeDetected]
  split_ifs <;> first | rfl | (cases autodetect r.private_subnet r.brdev <;> rfl)

theorem read_withScrub (k : Consts) (s : State) (r : ReadEnv) (x : Nat) :
    eucanetd_read_latest_network k (s.withScrubResult x) r =
      (eucanetd_read_latest_network k s r).withScrubResult x := by
  simp only [eucanetd_read_latest_network, gni_populate_withScrub, versionGate_withScrub,
    selectGateway_withScrub]
  split_ifs <;> rfl

theorem readIfUpdate_withScrub (k : Consts) (s : State) (e : CycleEnv) (x : Nat) :
    readIfUpdate k (s.withScrubResult x) e =
      (readIfUpdate k s e).withScrubResult x := by
  simp only [readIfUpdate, read_withScrub, withScrubResult_frame]
  split_ifs <;> rfl

theorem skipOnReadFailure_withScrub (s : State) (x : Nat) :
    skipOnReadFailure (s.withScrubResult x) =
      (skipOnReadFailure s).withScrubResult x := by
  simp only [skipOnReadFailure, State.withScrubResult]
  split_ifs <;> rfl

theorem skipOnModeMismatch_withScrub (s : State) (x : Nat) :
    skipOnModeMismatch (s.withScrubResult x) =
      (skipOnModeMismatch s).withScrubResult x := by
  simp only [skipOnModeMismatch, State.withScrubResult]
  split_ifs <;> rfl

theorem stageParse_withScrub (k : Consts) (s : State) (e : CycleEnv) (x : Nat) :
    stageParse k (s.withScrubResult x) e =
      (stageParse k s e).withScrubResult x := by
  simp only [stageParse, readIfUpdate_withScrub, skipOnReadFailure_withScrub,
    skipOnModeMismatch_withScrub]

theorem stageUpgrade_withScrub (s : State) (e : CycleEnv) (x : Nat) :
    stageUpgrade (s.withScrubResult x) e =
      (stageUpgrade s e).withScrubResult x := by
  simp only [stageUpgrade, State.withScrubResult]
  split_ifs <;> rfl

theorem stageFlush_withScrub (k : Consts) (s : State) (e : CycleEnv) (x : Nat) :
    stageFlush k (s.withScrubResult x) e =
      (stageFlush k s e).withScrubResult x := by
  simp only [stageFlush, flushDone, flushCall, State.call, State.withScrubResult,
    IS_NETMODE_VPCMIDO]
  split_ifs <;> rfl

theorem lniPopulate_withScrub (k : Consts) (s : State) (e : CycleEnv) (x : Nat) :
    lniPopulate k (s.withScrubResult x) e =
      (lniPopulate k s e).withScrubResult x := by
  simp only [lniPopulate, State.withScrubResult, IS_NETMODE_VPCMIDO]
  split_ifs <;> rfl

theorem beforeApply_withScrub (k : Consts) (s : State) (e : CycleEnv) (x : Nat) :
    beforeApply k (s.withScrubResult x) e = (beforeApply k s e).withScrubResult x := by
  simp only [beforeApply, stageFetch_withScrub, stageParse_withScrub, stageUpgrade_withScrub,
    stageFlush_withScrub]

/-- The scrub overwrites `scrubResult`. -/
theorem scrub_withScrub (k : Consts) (s : State) (e : CycleEnv) (x : Nat) :
    scrub k (s.withScrubResult x) e = scrub k s e := by
  simp only [scrub, State.withScrubResult]

theorem applyBody_withScrub (k : Consts) (l : State) (e : CycleEnv) (x : Nat) :
    applyBody k (l.withScrubResult x) e =
      if l.lni_rc = 0 then applyBody k l e else (applyBody k l e).withScrubResult x := by
  have hr : (l.withScrubResult x).lni_rc = l.lni_rc := rfl
  by_cases hl : l.lni_rc = 0
  · rw [if_pos hl]
    unfold applyBody
    rw [hr, if_pos hl, if_pos hl, scrub_withScrub]
  · rw [if_neg hl]
    unfold applyBody
    rw [hr, if_neg hl, if_neg hl]
    rfl

/-- The apply stage started with another value in `scrubResult`: the same state when the scrub
runs, the same state but for `scrubResult` otherwise. -/
theorem stageApply_withScrub (k : Consts) (b : State) (e : CycleEnv) (x : Nat) :
    stageApply k (b.withScrubResult x) e =
      if b.update_globalnet = true ∧ (lniPopulate k b e).lni_rc = 0 then stageApply k b e
      else (stageApply k b e).withScrubResult x := by
  have hr : (b.withScrubResult x).update_globalnet = b.update_globalnet := rfl
  unfold stageApply
  rw [hr]
  by_cases hu : b.update_globalnet = true
  · rw [if_pos hu, if_pos hu, lniPopulate_withScrub, applyBody_withScrub]
    by_cases hl : (lniPopulate k b e).lni_rc = 0
    · rw [if_pos hl, if_pos (And.intro hu hl)]
    · rw [if_neg hl, if_neg (fun h => hl h.2)]
  · rw [if_neg hu, if_neg hu, if_neg (fun h => hu h.1)]

theorem uptoApply_withScrub (k : Consts) (s : State) (e : CycleEnv) (x : Nat) :
    uptoApply k (s.withScrubResult x) e =
      if (beforeApply k s e).update_globalnet = true ∧ lniLoaded k s e then uptoApply k s e
      else (uptoApply k s e).withScrubResult x := by
  simp only [uptoApply, beforeApply_withScrub, stageApply_withScrub, lniLoaded]

theorem reachableWithin_reachable (k : Consts) (s : State) (h : ReachableWithin k s) :
    Reachable k s := by
  induction h with
  | entry s hs => exact Reachable.entry s hs
  | cycle s e _ hrun _ ih => exact Reachable.cycle s e ih hrun
  | signal s sig _ ih => exact Reachable.signal s sig ih

/-- Outside overlay mode the value kept in `scrubResult` is never the overlay sentinel, when
the scrub keeps to its contract. -/
theorem reachableWithin_scrubResult (k : Consts) (s : State)
    (hno : k.EUCANETD_RUN_NO_API ≠ k.EUCANETD_VPCMIDO_IFERROR)
    (hall : k.EUCANETD_RUN_ALL_API ≠ k.EUCANETD_VPCMIDO_IFERROR)
    (h : ReachableWithin k s) :
    s.config.nmCode ≠ k.NM_VPCMIDO → s.scrubResult ≠ k.EUCANETD_VPCMIDO_IFERROR := by
  induction h with
  | entry s hs => intro _; rw [hs.1]; exact hno
  | cycle s e _ _ hc ih =>
    intro hm
    have hcfg : s.config.nmCode ≠ k.NM_VPCMIDO := by
      rw [← (mainLoopCycle_frame k s e).1]; exact hm
    rw [mainLoopCycle_scrubResult]
    split_ifs
    · rw [scrub_scrubResult]
      split_ifs
      · exact hc hcfg
      · exact hall
    · exact ih hcfg
  | signal s sig _ ih =>
    intro hm
    have h1 := (deliverAll_frame s [sig])
    simp only [deliverAll, List.foldl_cons, List.foldl_nil] at h1
    rw [h1.2.2.2.2.2.2.2.2.2.2.2.1]
    exact ih (by rw [← h1.2.2.2.1]; exact hm)

theorem lni_finishCycle (k : Consts) (a : State) (e : CycleEnv) :
    (finishCycle k a e).calls.filter Call.isLniPopulate =
      a.calls.filter Call.isLniPopulate := by
  have h : (stagePersist k a e).calls.filter Call.isLniPopulate =
      a.calls.filter Call.isLniPopulate := by
    unfold stagePersist
    split_ifs <;> simp [filter_ite_singleton, Call.isLniPopulate]
  simp [finishCycle, stageSwap, stageSignals, filter_ite_singleton, Call.isLniPopulate] at h ⊢
  exact h

theorem lni_beforeApply (k : Consts) (s : State) (e : CycleEnv) :
    (beforeApply k s e).calls.filter Call.isLniPopulate = [] := by
  simp [beforeApply, filter_ite_singleton, Call.isLniPopulate]

theorem lni_stageApply (k : Consts) (a : State) (e : CycleEnv) :
    (stageApply k a e).calls.filter Call.isLniPopulate =
      a.calls.filter Call.isLniPopulate ++
        if a.update_globalnet = true ∧ IS_NETMODE_VPCMIDO k a = false then
          [.lni_populate e.lni_populate_rc] else [] := by
  unfold stageApply applyBody applyOrFail
  split_ifs <;>
    simp_all [filter_ite_singleton, Call.isLniPopulate]

/-- The `lni_populate` calls of an iteration: one, when the apply stage is entered outside
overlay mode. -/
theorem lni_cycle (k : Consts) (s : State) (e : CycleEnv) :
    (mainLoopCycle k s e).calls.filter Call.isLniPopulate =
      if (beforeApply k s e).update_globalnet = true ∧ s.config.nmCode ≠ k.NM_VPCMIDO then
        [.lni_populate e.lni_populate_rc] else [] := by
  unfold mainLoopCycle uptoApply
  rw [lni_finishCycle, lni_stageApply, lni_beforeApply, List.nil_append]
  by_cases hu : (beforeApply k s e).update_globalnet = true
  · rw [beforeApply_overlay k s e hu]
    by_cases hm : s.config.nmCode = k.NM_VPCMIDO <;> simp [hu, hm]
  · rw [if_neg (fun h => hu h.1), if_neg (fun h => hu h.1)]

/-- A failing `lni_populate` call in the log of an iteration: the apply stage was entered
outside overlay mode and the local view could not be loaded. -/
theorem lni_failure_of_call (k : Consts) (s : State) (e : CycleEnv) (rc : Int) (hrc : rc ≠ 0)
    (h : Call.lni_populate rc ∈ (mainLoopCycle k s e).calls) :
    (beforeApply k s e).update_globalnet = true ∧ s.config.nmCode ≠ k.NM_VPCMIDO ∧
    e.lni_populate_rc ≠ 0 := by
  have hf : Call.lni_populate rc ∈ (mainLoopCycle k s e).calls.filter Call.isLniPopulate :=
    List.mem_filter.2 ⟨h, rfl⟩
  rw [lni_cycle] at hf
  split_ifs at hf with hc
  · simp only [List.mem_singleton, Call.lni_populate.injEq] at hf
    exact ⟨hc.1, hc.2, hf ▸ hrc⟩
  · simp at hf

/-- The decision of lines 746-753 after an iteration in which the local view could not be
loaded, at a state whose `scrubResult` is not the sentinel: the version is not recorded. -/
theorem not_persisted_of_lni_failure (k : Consts) (s : State) (e : CycleEnv)
    (hu : (beforeApply k s e).update_globalnet = true)
    (hm : s.config.nmCode ≠ k.NM_VPCMIDO) (hl : e.lni_populate_rc ≠ 0)
    (hs : s.scrubResult ≠ k.EUCANETD_VPCMIDO_IFERROR) :
    (countFailure k (uptoApply k s e)).update_version_file = false := by
  have hn : ¬ (lniPopulate k (beforeApply k s e) e).lni_rc = 0 := by
    rw [lniPopulate_lni_rc, beforeApply_overlay k s e hu]
    simp [hm, hl]
  have hsr : (uptoApply k s e).scrubResult = s.scrubResult := by
    rw [uptoApply, stageApply_scrubResult, if_neg (fun h => hn h.2)]
    simp
  have hf : (uptoApply k s e).update_globalnet_failed = true := by
    simp only [uptoApply, stageApply, if_pos hu, applyBody, if_neg hn]
  have hv : (uptoApply k s e).update_version_file = false := by
    simp only [uptoApply, stageApply, if_pos hu, applyBody, if_neg hn]
    simp [lniPopulate]
    split_ifs <;> rfl
  rw [countFailure_version_file, if_pos hf, hsr, hv]
  simp [hs]

/-! # The claims -/

/-- C1, as stated, fails: on the first iteration of a freshly started daemon
(`lastAppliedVersion` empty) that parses a document with an empty version, the parsed version
equals `config.lastAppliedVersion`, yet `system_scrub` and the three apply APIs are invoked. -/
theorem C1_counterexample :
    LoopEntry sampleConsts entryState ∧
    parsedVersion sampleConsts entryState (okEnv []) = gateVersion entryState (okEnv []) ∧
    (mainLoopCycle sampleConsts entryState (okEnv [])).calls =
      [.system_scrub 1 0 7, .implement_network 1 0, .implement_sg 1 0,
       .implement_addressing 1 0] := by
  decide

/-- C1 (amended): in every main-loop iteration whose parsed version is non-empty and equals
`config.lastAppliedVersion`, neither `system_scrub` nor any of `implement_network`,
`implement_sg`, `implement_addressing` is invoked, whatever forced the re-parse. -/
theorem C1_version_gate (k : Consts) (s : State) (e : CycleEnv)
    (hne : parsedVersion k s e ≠ [])
    (heq : parsedVersion k s e = gateVersion s e) :
    ∀ c ∈ (mainLoopCycle k s e).calls, c.isScrubOrApply = false :=
  gate_no_proto k s e hne heq

/-- C1 (amended) at a concrete iteration: version "v1" was applied, the document changed but
still carries "v1". -/
theorem C1_version_gate_witness :
    parsedVersion sampleConsts appliedState (okEnv v1) ≠ [] ∧
    parsedVersion sampleConsts appliedState (okEnv v1) = gateVersion appliedState (okEnv v1) ∧
    (mainLoopCycle sampleConsts appliedState (okEnv v1)).calls.filter Call.isScrubOrApply
      = [] :=
  ⟨by decide, by decide, List.filter_eq_nil_iff.2 (fun c hc => by
    simp [C1_version_gate sampleConsts appliedState (okEnv v1) (by decide) (by decide) c hc])⟩

/-- C2, as stated, fails: after a first iteration in which `implement_network` failed, a second
iteration with the same parsed version "v1", an unchanged document and no SIGHUP invokes the
three apply APIs again. -/
theorem C2_counterexample :
    entryState.gHupCaught = false ∧
    (mainLoopCycle sampleConsts entryState failEnv).gHupCaught = false ∧
    parsedVersion sampleConsts entryState failEnv = v1 ∧
    parsedVersion sampleConsts (mainLoopCycle sampleConsts entryState failEnv) (quietEnv v1)
      = v1 ∧
    (mainLoopCycle sampleConsts (mainLoopCycle sampleConsts entryState failEnv)
        (quietEnv v1)).calls.filter Call.isApply =
      [.implement_network 1 0, .implement_sg 1 0, .implement_addressing 1 0] := by
  decide

/-- C2 (amended): for any two consecutive iterations of which the first ended without failure,
with no SIGHUP raised in between, the second iteration invokes no apply API (and no scrub) when
the version is unchanged: either the fetcher reports no change of the document, so that the
second iteration parses nothing, or the first iteration applied a non-empty version shorter
than 32 bytes and wrote the version file, and the version the second iteration parses, if it
parses one, is that version. -/
theorem C2_second_cycle_idle (k : Consts) (s : State) (e1 e2 : CycleEnv) (sigs : List Signal)
    (hok : (mainLoopCycle k s e1).update_globalnet_failed = false)
    (hhup : Signal.HUP ∉ sigs)
    (hsame : e2.changed = false ∨
      ((mainLoopCycle k s e1).update_globalnet = true ∧
        parsedVersion k s e1 ≠ [] ∧ (parsedVersion k s e1).length < 32 ∧
        e1.str2file_ok = true ∧
        ((stageFetch (deliverAll (mainLoopCycle k s e1) sigs) e2).update_globalnet = true →
          e2.read.gni_populate_rc = 0 →
          parsedVersion k (deliverAll (mainLoopCycle k s e1) sigs) e2 =
            parsedVersion k s e1))) :
    ∀ c ∈ (mainLoopCycle k (deliverAll (mainLoopCycle k s e1) sigs) e2).calls,
      c.isScrubOrApply = false := by
  by_cases hu : (stageFetch (deliverAll (mainLoopCycle k s e1) sigs) e2).update_globalnet = true
  · rcases hsame with hq | ⟨happlied, hne, hlen, hwrite, hsame⟩
    · rw [stageFetch_quiet k s e1 e2 sigs hok hhup hq] at hu
      exact absurd hu (by decide)
    by_cases hg : e2.read.gni_populate_rc = 0
    · have hsame := hsame hu hg
      have hlast := (persisted_of_success k s e1 happlied hok hne hwrite).2
      rw [snprintf_short _ _ hlen] at hlast
      have hh : (deliverAll (mainLoopCycle k s e1) sigs).gHupCaught = false := by
        rw [deliverAll_hup _ _ hhup]
        simp [mainLoopCycle, uptoApply, beforeApply]
      apply gate_no_proto
      · rw [hsame]; exact hne
      · rw [hsame, gateVersion, stageFetch_lastApplied, hh]
        simp [(deliverAll_frame _ sigs).2.2.1, hlast]
    · apply no_proto_of_parse_blocked
      by_contra hcon
      have hT := (stageParse_update k _ e2).1 (by simpa using hcon)
      have hrc : (readIfUpdate k (stageFetch (deliverAll (mainLoopCycle k s e1) sigs) e2) e2).rc
          = 1 := by
        simp [readIfUpdate, hu, read_rc_of_populate_failed k _ e2.read hg]
      rw [hrc] at hT
      exact absurd hT.2.1 (by decide)
  · apply no_proto_of_parse_blocked
    by_contra hcon
    exact hu ((stageParse_update k _ e2).1 (by simpa using hcon)).1

/-- C2 (amended) at concrete pairs of iterations: "v1" is applied, a SIGUSR1 arrives, and the
document is unchanged in the next iteration; the document is unchanged in two iterations in a
row; "v1" is applied and the document changes but still carries "v1". -/
theorem C2_second_cycle_idle_witness :
    (mainLoopCycle sampleConsts
        (deliverAll (mainLoopCycle sampleConsts entryState (okEnv v1)) [Signal.USR1])
        (quietEnv v1)).calls.filter Call.isScrubOrApply = [] ∧
    (mainLoopCycle sampleConsts
        (deliverAll (mainLoopCycle sampleConsts appliedState (quietEnv v1)) [])
        (quietEnv v1)).calls.filter Call.isScrubOrApply = [] ∧
    (mainLoopCycle sampleConsts
        (deliverAll (mainLoopCycle sampleConsts entryState (okEnv v1)) [])
        (okEnv v1)).calls.filter Call.isScrubOrApply = [] :=
  ⟨List.filter_eq_nil_iff.2 (fun c hc => by
    simp [C2_second_cycle_idle sampleConsts entryState (okEnv v1) (quietEnv v1) [Signal.USR1]
      (by decide) (by decide) (Or.inl (by decide)) c hc]),
   List.filter_eq_nil_iff.2 (fun c hc => by
    simp [C2_second_cycle_idle sampleConsts appliedState (quietEnv v1) (quietEnv v1) []
      (by decide) (by decide) (Or.inl (by decide)) c hc]),
   List.filter_eq_nil_iff.2 (fun c hc => by
    simp [C2_second_cycle_idle sampleConsts entryState (okEnv v1) (okEnv v1) []
      (by decide) (by decide) (Or.inr (by decide)) c hc])⟩

/-- C3, as stated, fails. Outside overlay mode, after "v1" was applied, a SIGHUP is pending
when an iteration starts; the document is read (return value 0), is of the configured mode and
still carries "v1"; `lni_populate` fails: the iteration invokes neither the scrub nor an apply
API. And in overlay mode, in the same situation, a scrub that returns the error bit is followed
by no apply API. -/
theorem C3_counterexample :
    Reachable sampleConsts (deliver edgeAppliedState Signal.HUP) ∧
    (deliver edgeAppliedState Signal.HUP).gHupCaught = true ∧
    (eucanetd_read_latest_network sampleConsts
      (stageFetch (deliver edgeAppliedState Signal.HUP) (lniFailEnv v1))
      (lniFailEnv v1).read).rc = 0 ∧
    (lniFailEnv v1).read.gni.nmCode = (deliver edgeAppliedState Signal.HUP).config.nmCode ∧
    (deliver edgeAppliedState Signal.HUP).config.lastAppliedVersion = v1 ∧
    parsedVersion sampleConsts (deliver edgeAppliedState Signal.HUP) (lniFailEnv v1) = v1 ∧
    (mainLoopCycle sampleConsts (deliver edgeAppliedState Signal.HUP) (lniFailEnv v1)).calls =
      [.lni_populate 1, .sleep 5] ∧
    (mainLoopCycle sampleConsts (deliver appliedState Signal.HUP) scrubErrorEnv).calls =
      [.system_scrub 2 1 2147483655, .sleep 5] :=
  ⟨Reachable.signal _ Signal.HUP
      (Reachable.cycle edgeState (edgeEnv v1) (Reachable.entry edgeState (by decide))
        (by decide)),
    by decide, by decide, by decide, by decide, by decide, by decide, by decide⟩

/-- C3 (amended): if the SIGHUP flag is set when an iteration starts, the iteration empties
`config.lastAppliedVersion`, clears the flag and forces `update_globalnet` to TRUE; and when
the read of the document returns 0 and the network mode of the document is the configured one,
the apply stage is entered with `update_globalnet` TRUE whatever the parsed version is (no
hypothesis relates it to the version last applied). When the local view can be populated
(`lni_populate` returns 0; in overlay mode it is not called), `system_scrub` is invoked on the
current and the last applied buffer when the driver has it; then, the scrub result being free
of the error bit, every apply API the result asks for and the driver has is invoked, and with
the error bit in the result no apply API is invoked. When `lni_populate` fails, neither the
scrub nor an apply API is invoked. -/
theorem C3_reload_forces_rescrub (k : Consts) (s : State) (e : CycleEnv)
    (hr : Reachable k s) (hhup : s.gHupCaught = true) :
    (stageFetch s e).config.lastAppliedVersion = [] ∧
    (stageFetch s e).gHupCaught = false ∧
    (stageFetch s e).update_globalnet = true ∧
    ((eucanetd_read_latest_network k (stageFetch s e) e.read).rc = 0 →
      e.read.gni.nmCode = s.config.nmCode →
      (beforeApply k s e).update_globalnet = true ∧
      ((s.config.nmCode ≠ k.NM_VPCMIDO → e.lni_populate_rc = 0) →
        (s.driver.system_scrub = true →
          .system_scrub s.pGni s.pGniApplied e.system_scrub_result ∈
            (mainLoopCycle k s e).calls) ∧
        (((scrub k s e).scrubResult &&& k.EUCANETD_RUN_ERROR_API) = 0 →
          (s.driver.implement_network = true →
            ((scrub k s e).scrubResult &&& k.EUCANETD_RUN_NETWORK_API) ≠ 0 →
            .implement_network s.pGni e.implement_network_rc ∈ (mainLoopCycle k s e).calls) ∧
          (s.driver.implement_sg = true →
            ((scrub k s e).scrubResult &&& k.EUCANETD_RUN_SECURITY_GROUP_API) ≠ 0 →
            .implement_sg s.pGni e.implement_sg_rc ∈ (mainLoopCycle k s e).calls) ∧
          (s.driver.implement_addressing = true →
            ((scrub k s e).scrubResult &&& k.EUCANETD_RUN_ADDRESSING_API) ≠ 0 →
            .implement_addressing s.pGni e.implement_addressing_rc ∈
              (mainLoopCycle k s e).calls)) ∧
        (((scrub k s e).scrubResult &&& k.EUCANETD_RUN_ERROR_API) ≠ 0 →
          ∀ c ∈ (mainLoopCycle k s e).calls, c.isApply = false)) ∧
      (s.config.nmCode ≠ k.NM_VPCMIDO → e.lni_populate_rc ≠ 0 →
        ∀ c ∈ (mainLoopCycle k s e).calls, c.isScrubOrApply = false)) := by
  have hfu : (stageFetch s e).update_globalnet = true := by
    rw [stageFetch_update, hhup]; simp
  have hla : (stageFetch s e).config.lastAppliedVersion = [] := by
    rw [stageFetch_lastApplied, if_pos hhup]
  refine ⟨hla, stageFetch_hup s e, hfu, ?_⟩
  intro hrc hmode
  have hu : (beforeApply k s e).update_globalnet = true := by
    rw [beforeApply_update]
    have hf : s.config.flushmode = 0 := reachable_hup_flushmode k s hr hhup
    have hp : (stageParse k (stageFetch s e) e).update_globalnet = true := by
      rw [stageParse_update]
      refine ⟨hfu, ?_, ?_, ?_⟩
      · simpa [readIfUpdate, hfu] using hrc
      · rw [hla]; simp
      · simpa using hmode
    simp [hf, hp]
  refine ⟨hu, fun hlni => ?_, fun hm hl => ?_⟩
  · have hpc := protoCalls_applying k s e hu (lniLoaded_of_populate k s e hr hu hlni)
    refine ⟨?_, ?_, ?_⟩
    · intro hs
      apply mem_calls_of_mem_proto
      rw [hpc]; simp [hs]
    · intro he
      refine ⟨?_, ?_, ?_⟩
      all_goals intro hd hb
      all_goals apply mem_calls_of_mem_proto
      all_goals rw [hpc, if_pos he, if_pos (And.intro hd hb)]
      all_goals simp
    · intro he c hc
      by_contra hcon
      have hca : c.isApply = true := by simpa using hcon
      have hp : c ∈ protoCalls (mainLoopCycle k s e) :=
        (mem_protoCalls _ c).2 ⟨hc, isScrubOrApply_of_isApply c hca⟩
      rw [hpc, if_neg he] at hp
      by_cases hs : s.driver.system_scrub = true
      · simp [hs] at hp
        subst hp
        simp [Call.isApply] at hca
      · simp [hs] at hp
  · intro c hc
    by_contra hcon
    have hp : c ∈ protoCalls (mainLoopCycle k s e) :=
      (mem_protoCalls _ c).2 ⟨hc, by simpa using hcon⟩
    rw [no_proto_of_lni_failure k s e hm hl] at hp
    simp at hp

/-- C5: after an iteration in which an apply API (`implement_network`, `implement_sg` or
`implement_addressing`) returned nonzero, `update_globalnet` is TRUE in the next iteration once
the fetch stage is over (line 618), whatever the fetcher reports and whatever signals arrived
in between. -/
theorem C5_failure_forces_update (k : Consts) (s : State) (e1 e2 : CycleEnv)
    (sigs : List Signal)
    (hfail : ∃ c ∈ (mainLoopCycle k s e1).calls, c.isFailedApply = true) :
    (stageFetch (deliverAll (mainLoopCycle k s e1) sigs) e2).update_globalnet = true :=
  update_after_failure _ sigs e2 (failed_of_failed_apply k s e1 hfail)

/-- C5 at a concrete pair of iterations: `implement_network` fails, then the document is
unchanged. -/
theorem C5_failure_forces_update_witness :
    (stageFetch (deliverAll (mainLoopCycle sampleConsts entryState failEnv) [])
      (quietEnv v1)).update_globalnet = true :=
  C5_failure_forces_update sampleConsts entryState failEnv (quietEnv v1) []
    ⟨.implement_network 1 1, by decide, by decide⟩

/-- C4: with `gni_a` and `gni_b` distinct, at every iteration boundary `pGniApplied` is null or
different from `pGni`, and `pGni` is `gni_a` or `gni_b`; every `system_scrub` call of an
iteration receives the current buffer and a last applied argument that is null or a different
buffer; and after an iteration that applied without failure the buffer published as last
applied is the one that was current, and differs from the buffer current for the next
iteration. -/
theorem C4_buffer_non_aliasing (k : Consts) (s : State) (hr : Reachable k s)
    (hab : s.gni_a ≠ s.gni_b) :
    (s.pGniApplied = NULL ∨ s.pGniApplied ≠ s.pGni) ∧
    (s.pGni = s.gni_a ∨ s.pGni = s.gni_b) ∧
    (∀ (e : CycleEnv) (g a : Ptr) (r : Nat),
      Call.system_scrub g a r ∈ (mainLoopCycle k s e).calls →
        g = s.pGni ∧ (a = NULL ∨ a ≠ g)) ∧
    (∀ e : CycleEnv,
      (mainLoopCycle k s e).update_globalnet = true →
      (mainLoopCycle k s e).update_globalnet_failed = false →
        (mainLoopCycle k s e).pGniApplied = s.pGni ∧
        (mainLoopCycle k s e).pGniApplied ≠ (mainLoopCycle k s e).pGni) := by
  obtain ⟨h1, h2⟩ := reachable_buffers k s hr hab
  refine ⟨h1, h2, ?_, ?_⟩
  · intro e g a r hc
    obtain ⟨hg, ha, -⟩ := scrub_call_args k s e g a r hc
    subst hg ha
    exact ⟨rfl, h1⟩
  · intro e hu hf
    rw [mainLoopCycle_pGni, mainLoopCycle_pGniApplied]
    simp only [hu, hf]
    rcases h2 with h2 | h2
    · simp [h2]; exact hab
    · simp [h2]
      split_ifs with h
      · exact absurd h.symm hab
      · exact h

/-- C4 at a concrete boundary: the state after "v1" was applied from `entryState`. -/
theorem C4_buffer_non_aliasing_witness :
    (appliedState.pGniApplied = NULL ∨ appliedState.pGniApplied ≠ appliedState.pGni) ∧
    (appliedState.pGni = appliedState.gni_a ∨ appliedState.pGni = appliedState.gni_b) :=
  have h := C4_buffer_non_aliasing sampleConsts appliedState
    (Reachable.cycle entryState (okEnv v1) (Reachable.entry entryState (by decide))
      (by decide))
    (by decide)
  ⟨h.1, h.2.1⟩

/-- C3 (amended) at a concrete iteration: "v1" was applied, a SIGHUP arrives, and the unchanged
document (still "v1") is scrubbed again, against the last applied buffer, and applied. -/
theorem C3_reload_forces_rescrub_witness :
    (deliver appliedState Signal.HUP).config.lastAppliedVersion = v1 ∧
    parsedVersion sampleConsts (deliver appliedState Signal.HUP) (quietEnv v1) = v1 ∧
    Call.system_scrub 2 1 7 ∈
      (mainLoopCycle sampleConsts (deliver appliedState Signal.HUP) (quietEnv v1)).calls ∧
    Call.implement_network 2 0 ∈
      (mainLoopCycle sampleConsts (deliver appliedState Signal.HUP) (quietEnv v1)).calls :=
  have h := C3_reload_forces_rescrub sampleConsts (deliver appliedState Signal.HUP)
    (quietEnv v1)
    (Reachable.signal appliedState Signal.HUP
      (Reachable.cycle entryState (okEnv v1) (Reachable.entry entryState (by decide))
        (by decide)))
    (by decide)
  have h2 := (h.2.2.2 (by decide) (by decide)).2.1 (by decide)
  ⟨by decide, by decide, h2.1 (by decide), (h2.2.1 (by decide)).1 (by decide) (by decide)⟩

/-- C6: in every iteration, for every scrub result, the scrub and apply calls appear in the
call log in strictly increasing rank (scrub 0, `implement_network` 1, `implement_sg` 2,
`implement_addressing` 3): the apply APIs that are invoked are invoked in the order network,
security groups, addressing, each at most once, and after the scrub; and when the driver has
`system_scrub`, an iteration that invokes an apply API has invoked `system_scrub`. -/
theorem C6_apply_ordering (k : Consts) (s : State) (e : CycleEnv) :
    List.Pairwise
      (fun c d => c.isScrubOrApply = true → d.isScrubOrApply = true → c.rank < d.rank)
      (mainLoopCycle k s e).calls ∧
    (s.driver.system_scrub = true →
      ∀ c ∈ (mainLoopCycle k s e).calls, c.isApply = true →
        Call.system_scrub s.pGni s.pGniApplied e.system_scrub_result ∈
          (mainLoopCycle k s e).calls) := by
  refine ⟨(pairwise_protoCalls _ _).1 (protoCalls_ranks k s e), ?_⟩
  intro hs c hc ha
  have hp : c ∈ protoCalls (mainLoopCycle k s e) :=
    (mem_protoCalls _ c).2 ⟨hc, isScrubOrApply_of_isApply c ha⟩
  apply mem_calls_of_mem_proto
  by_cases h : (beforeApply k s e).update_globalnet = true ∧ lniLoaded k s e
  · rw [protoCalls_applying k s e h.1 h.2, if_pos hs]
    simp
  · rw [protoCalls_idle k s e h] at hp
    simp at hp

/-- C7, as stated, fails: with a driver that has neither `system_scrub` nor `implement_sg`, an
iteration that reaches the apply stage (update flag up, local view loaded) works with the
run-all result but invokes only `implement_network` and `implement_addressing`. -/
theorem C7_counterexample :
    noScrubNoSgState.driver.system_scrub = false ∧
    (beforeApply sampleConsts noScrubNoSgState (okEnv v1)).update_globalnet = true ∧
    lniLoaded sampleConsts noScrubNoSgState (okEnv v1) ∧
    (mainLoopCycle sampleConsts noScrubNoSgState (okEnv v1)).scrubResult =
      sampleConsts.EUCANETD_RUN_ALL_API ∧
    (mainLoopCycle sampleConsts noScrubNoSgState (okEnv v1)).calls =
      [.implement_network 1 0, .implement_addressing 1 0, .str2file v1 true] := by
  decide

/-- C7 (amended): when the driver has no `system_scrub`, every iteration that reaches the
apply stage (update flag up at line 672, local view loaded) works with the run-all result and
invokes, in the order network, security groups, addressing, exactly those of the three apply
APIs whose callback the driver has; no `system_scrub` call is made. The run-all constant is
taken to contain the three API bits and not the error bit. -/
theorem C7_missing_scrub_runs_all (k : Consts) (s : State) (e : CycleEnv)
    (hall : (k.EUCANETD_RUN_ALL_API &&& k.EUCANETD_RUN_ERROR_API) = 0)
    (hnet : (k.EUCANETD_RUN_ALL_API &&& k.EUCANETD_RUN_NETWORK_API) ≠ 0)
    (hsg : (k.EUCANETD_RUN_ALL_API &&& k.EUCANETD_RUN_SECURITY_GROUP_API) ≠ 0)
    (haddr : (k.EUCANETD_RUN_ALL_API &&& k.EUCANETD_RUN_ADDRESSING_API) ≠ 0)
    (hns : s.driver.system_scrub = false)
    (hu : (beforeApply k s e).update_globalnet = true) (hl : lniLoaded k s e) :
    (mainLoopCycle k s e).scrubResult = k.EUCANETD_RUN_ALL_API ∧
    (mainLoopCycle k s e).calls.filter Call.isScrubOrApply =
      (if s.driver.implement_network = true then
        [.implement_network s.pGni e.implement_network_rc] else []) ++
      ((if s.driver.implement_sg = true then
        [.implement_sg s.pGni e.implement_sg_rc] else []) ++
      (if s.driver.implement_addressing = true then
        [.implement_addressing s.pGni e.implement_addressing_rc] else [])) := by
  have hsr : (scrub k s e).scrubResult = k.EUCANETD_RUN_ALL_API := by
    rw [scrub_scrubResult, hns]; simp
  have hpc := protoCalls_applying k s e hu hl
  rw [hsr, if_pos hall] at hpc
  refine ⟨?_, ?_⟩
  · rw [mainLoopCycle_scrubResult, if_pos ⟨hu, hl⟩, hsr]
  · unfold protoCalls at hpc
    rw [hpc]
    simp [hns, hnet, hsg, haddr]

/-- C7 (amended) at a concrete iteration: the driver without `system_scrub` and
`implement_sg`. -/
theorem C7_missing_scrub_runs_all_witness :
    (mainLoopCycle sampleConsts noScrubNoSgState (okEnv v1)).scrubResult = 7 ∧
    (mainLoopCycle sampleConsts noScrubNoSgState (okEnv v1)).calls.filter
        Call.isScrubOrApply =
      [.implement_network 1 0, .implement_addressing 1 0] :=
  C7_missing_scrub_runs_all sampleConsts noScrubNoSgState (okEnv v1)
    (by decide) (by decide) (by decide) (by decide) (by decide) (by decide) (by decide)

/-- C8, as stated, fails: in an iteration where `implement_network` returns 1, the failed flag
is set but `implement_sg` and `implement_addressing` are invoked all the same. -/
theorem C8_counterexample :
    (mainLoopCycle sampleConsts entryState failEnv).calls =
      [.system_scrub 1 0 7, .implement_network 1 1, .implement_sg 1 0,
       .implement_addressing 1 0, .sleep 5] ∧
    (mainLoopCycle sampleConsts entryState failEnv).update_globalnet_failed = true := by
  decide

/-- C8 (amended): within the apply stage (update flag up, local view loaded, scrub result free
of the error bit), a nonzero return of any of `implement_network`, `implement_sg`,
`implement_addressing` sets the failed flag, and no failure aborts the rest of the apply: each
of the three APIs is invoked exactly when the driver has it and the scrub result asks for it,
whatever the other APIs returned. -/
theorem C8_apply_failures (k : Consts) (s : State) (e : CycleEnv)
    (hu : (beforeApply k s e).update_globalnet = true) (hl : lniLoaded k s e)
    (he : ((scrub k s e).scrubResult &&& k.EUCANETD_RUN_ERROR_API) = 0) :
    ((∃ c ∈ (mainLoopCycle k s e).calls, c.isFailedApply = true) →
      (mainLoopCycle k s e).update_globalnet_failed = true) ∧
    (Call.implement_network s.pGni e.implement_network_rc ∈ (mainLoopCycle k s e).calls ↔
      s.driver.implement_network = true ∧
        ((scrub k s e).scrubResult &&& k.EUCANETD_RUN_NETWORK_API) ≠ 0) ∧
    (Call.implement_sg s.pGni e.implement_sg_rc ∈ (mainLoopCycle k s e).calls ↔
      s.driver.implement_sg = true ∧
        ((scrub k s e).scrubResult &&& k.EUCANETD_RUN_SECURITY_GROUP_API) ≠ 0) ∧
    (Call.implement_addressing s.pGni e.implement_addressing_rc ∈
        (mainLoopCycle k s e).calls ↔
      s.driver.implement_addressing = true ∧
        ((scrub k s e).scrubResult &&& k.EUCANETD_RUN_ADDRESSING_API) ≠ 0) := by
  have hpc := protoCalls_applying k s e hu hl
  rw [if_pos he] at hpc
  refine ⟨failed_of_failed_apply k s e, ?_, ?_, ?_⟩
  · rw [mem_calls_iff_of_isApply _ _ (by rfl), hpc, mem_four_ite]
    simp
  · rw [mem_calls_iff_of_isApply _ _ (by rfl), hpc, mem_four_ite]
    simp
  · rw [mem_calls_iff_of_isApply _ _ (by rfl), hpc, mem_four_ite]
    simp

/-- C8 (amended) at the iteration in which `implement_network` fails. -/
theorem C8_apply_failures_witness :
    Call.implement_sg 1 0 ∈ (mainLoopCycle sampleConsts entryState failEnv).calls ∧
    Call.implement_addressing 1 0 ∈ (mainLoopCycle sampleConsts entryState failEnv).calls ∧
    (mainLoopCycle sampleConsts entryState failEnv).update_globalnet_failed = true :=
  have h := C8_apply_failures sampleConsts entryState failEnv (by decide) (by decide)
    (by decide)
  ⟨h.2.2.1.2 (by decide), h.2.2.2.2 (by decide),
    h.1 ⟨.implement_network 1 1, by decide, by decide⟩⟩

/-- C9, as stated, fails: the scrub result 7 asks for `implement_network`, the driver has no
such callback, and the iteration is not marked failed: the version is written to the version
file and recorded as last applied. -/
theorem C9_counterexample :
    noNetworkState.driver.implement_network = false ∧
    ((scrub sampleConsts noNetworkState (okEnv v1)).scrubResult &&&
      sampleConsts.EUCANETD_RUN_NETWORK_API) ≠ 0 ∧
    (mainLoopCycle sampleConsts noNetworkState (okEnv v1)).update_globalnet_failed = false ∧
    (mainLoopCycle sampleConsts noNetworkState (okEnv v1)).versionFile = some v1 ∧
    (mainLoopCycle sampleConsts noNetworkState (okEnv v1)).config.lastAppliedVersion = v1 ∧
    (mainLoopCycle sampleConsts noNetworkState (okEnv v1)).calls =
      [.system_scrub 1 0 7, .implement_sg 1 0, .implement_addressing 1 0,
       .str2file v1 true] := by
  decide

/-- C9 (amended): an apply API whose `implement_*` callback the driver lacks is skipped, also
when the scrub result asks for it: no call of it is made, and this alone does not mark the
iteration failed. In an iteration that applies (update flag up, local view loaded, scrub
result free of the error bit) `update_globalnet_failed` is set exactly when the upgrade hook or
an invoked apply API returned nonzero; and when it is not set, a non-empty version is written
to the version file and recorded as last applied, provided the file can be written. -/
theorem C9_missing_callback_skipped (k : Consts) (s : State) (e : CycleEnv) :
    (s.driver.implement_network = false →
      ∀ g rc, Call.implement_network g rc ∉ (mainLoopCycle k s e).calls) ∧
    (s.driver.implement_sg = false →
      ∀ g rc, Call.implement_sg g rc ∉ (mainLoopCycle k s e).calls) ∧
    (s.driver.implement_addressing = false →
      ∀ g rc, Call.implement_addressing g rc ∉ (mainLoopCycle k s e).calls) ∧
    ((beforeApply k s e).update_globalnet = true → lniLoaded k s e →
      ((scrub k s e).scrubResult &&& k.EUCANETD_RUN_ERROR_API) = 0 →
      ((mainLoopCycle k s e).update_globalnet_failed = true ↔
        (s.driver.upgrade = true ∧ e.upgrade_rc ≠ 0) ∨
        ∃ c ∈ (mainLoopCycle k s e).calls, c.isFailedApply = true) ∧
      ((mainLoopCycle k s e).update_globalnet_failed = false →
        parsedVersion k s e ≠ [] → e.str2file_ok = true →
        (mainLoopCycle k s e).versionFile = some (parsedVersion k s e) ∧
        (mainLoopCycle k s e).config.lastAppliedVersion =
          snprintf 32 (parsedVersion k s e))) := by
  refine ⟨?_, ?_, ?_, ?_⟩
  · intro hd g rc hc
    rcases apply_call_cases k s e _ hc rfl with ⟨-, h, -⟩ | ⟨h, -⟩ | ⟨h, -⟩
    · simp [hd] at h
    · simp at h
    · simp at h
  · intro hd g rc hc
    rcases apply_call_cases k s e _ hc rfl with ⟨h, -⟩ | ⟨-, h, -⟩ | ⟨h, -⟩
    · simp at h
    · simp [hd] at h
    · simp at h
  · intro hd g rc hc
    rcases apply_call_cases k s e _ hc rfl with ⟨h, -⟩ | ⟨h, -⟩ | ⟨-, h, -⟩
    · simp at h
    · simp at h
    · simp [hd] at h
  · intro hu hl he
    refine ⟨?_, ?_⟩
    · rw [cycle_failed_iff, exists_failed_apply_iff k s e hu hl he]
      constructor
      · rintro (h | ⟨-, h | h | h⟩)
        · exact Or.inl h
        · exact absurd hl h
        · exact absurd he h
        · exact Or.inr h
      · rintro (h | h)
        · exact Or.inl h
        · exact Or.inr ⟨hu, Or.inr (Or.inr h)⟩
    · intro hf hne hw
      exact persisted_of_success k s e (by rw [mainLoopCycle_update]; exact hu) hf hne hw

/-- C9 (amended) at the iteration of the driver without `implement_network`. -/
theorem C9_missing_callback_skipped_witness :
    (mainLoopCycle sampleConsts noNetworkState (okEnv v1)).calls.contains
      (.implement_network 1 0) = false ∧
    (mainLoopCycle sampleConsts noNetworkState (okEnv v1)).versionFile = some v1 :=
  have h := C9_missing_callback_skipped sampleConsts noNetworkState (okEnv v1)
  ⟨by simpa using h.1 (by decide) 1 0,
    ((h.2.2.2 (by decide) (by decide) (by decide)).2 (by decide) (by decide) (by decide)).1⟩

/-- C10: when `system_scrub` returns a result with the error bit set, no apply API is invoked
in that iteration, whatever the other bits, and the iteration counts as an apply failure: the
failed flag is set, the failure counter is incremented at line 747 (at the end of the iteration
it holds the incremented value, unless the report of every 300 polling seconds has reset the
epoch counters to 0), the last applied pointer is null, and `update_globalnet` is forced to
TRUE in the next iteration, whatever the fetcher reports and whatever signals arrive in
between. -/
theorem C10_scrub_error (k : Consts) (s : State) (e e2 : CycleEnv) (sigs : List Signal)
    (g a : Ptr) (r : Nat)
    (hcall : Call.system_scrub g a r ∈ (mainLoopCycle k s e).calls)
    (herr : (r &&& k.EUCANETD_RUN_ERROR_API) ≠ 0) :
    (∀ c ∈ (mainLoopCycle k s e).calls, c.isApply = false) ∧
    (mainLoopCycle k s e).update_globalnet_failed = true ∧
    (stagePersist k (uptoApply k s e) e).epoch_failed_updates = s.epoch_failed_updates + 1 ∧
    (mainLoopCycle k s e).epoch_failed_updates =
      (if s.epoch_timer ≥ 300 then 0 else s.epoch_failed_updates + 1) ∧
    (mainLoopCycle k s e).pGniApplied = NULL ∧
    (stageFetch (deliverAll (mainLoopCycle k s e) sigs) e2).update_globalnet = true := by
  obtain ⟨-, -, hr, hs, hu, hl⟩ := scrub_call_args k s e g a r hcall
  subst hr
  have hsr : (scrub k s e).scrubResult = e.system_scrub_result := by
    rw [scrub_scrubResult, if_pos hs]
  have he : ((scrub k s e).scrubResult &&& k.EUCANETD_RUN_ERROR_API) ≠ 0 := by
    rw [hsr]; exact herr
  have hf : (mainLoopCycle k s e).update_globalnet_failed = true :=
    (cycle_failed_iff k s e).2 (Or.inr ⟨hu, Or.inr (Or.inl he)⟩)
  have hcount : (stagePersist k (uptoApply k s e) e).epoch_failed_updates =
      s.epoch_failed_updates + 1 := by
    have hu' : (uptoApply k s e).update_globalnet = true := by
      simpa [uptoApply] using hu
    have hf' : (uptoApply k s e).update_globalnet_failed = true := by
      rw [mainLoopCycle_failed] at hf
      simpa [uptoApply] using hf
    rw [stagePersist_failed_updates, if_pos ⟨hu', hf'⟩]
    simp
  refine ⟨?_, hf, hcount, ?_, ?_, update_after_failure _ sigs e2 hf⟩
  · intro c hc
    by_contra hcon
    have ha : c.isApply = true := by simpa using hcon
    have hp := (mem_calls_iff_of_isApply _ c ha).1 hc
    rw [protoCalls_applying k s e hu hl, if_neg he, if_pos hs] at hp
    simp only [List.append_nil, List.mem_singleton] at hp
    subst hp
    simp [Call.isApply] at ha
  · rw [mainLoopCycle_failed_updates, hcount]
  · rw [mainLoopCycle_pGniApplied, if_pos hf]

/-- C10 at a concrete iteration: the scrub returns the error bit together with the three apply
bits. -/
theorem C10_scrub_error_witness :
    (mainLoopCycle sampleConsts entryState scrubErrorEnv).calls.filter Call.isApply = [] ∧
    (mainLoopCycle sampleConsts entryState scrubErrorEnv).update_globalnet_failed = true ∧
    (mainLoopCycle sampleConsts entryState scrubErrorEnv).epoch_failed_updates = 1 ∧
    (mainLoopCycle sampleConsts entryState scrubErrorEnv).pGniApplied = NULL :=
  have h := C10_scrub_error sampleConsts entryState scrubErrorEnv (quietEnv v1) [] 1 0
    2147483655 (by decide) (by decide)
  ⟨List.filter_eq_nil_iff.2 (fun c hc => by simp [h.1 c hc]), h.2.1, h.2.2.2.1, h.2.2.2.2.1⟩

/-- C6 at a concrete iteration: the scrub precedes the three apply calls of the iteration that
applies "v1". -/
theorem C6_apply_ordering_witness :
    Call.system_scrub 1 0 7 ∈ (mainLoopCycle sampleConsts entryState (okEnv v1)).calls :=
  (C6_apply_ordering sampleConsts entryState (okEnv v1)).2 (by decide)
    (.implement_sg 1 0) (by decide) (by decide)

/-- C11, as stated, fails. After "v1" was applied, an iteration applies without failure a
document whose version is empty: the version file still holds "v1" and
`config.lastAppliedVersion` is still "v1". And the iteration that applies without failure a
version of 32 bytes writes it to the version file but leaves its first 31 bytes as
`config.lastAppliedVersion`. -/
theorem C11_counterexample :
    ((mainLoopCycle sampleConsts appliedState (okEnv [])).update_globalnet = true ∧
     (mainLoopCycle sampleConsts appliedState (okEnv [])).update_globalnet_failed = false ∧
     parsedVersion sampleConsts appliedState (okEnv []) = [] ∧
     (mainLoopCycle sampleConsts appliedState (okEnv [])).versionFile = some v1 ∧
     (mainLoopCycle sampleConsts appliedState (okEnv [])).config.lastAppliedVersion = v1) ∧
    ((mainLoopCycle sampleConsts entryState (okEnv v32)).update_globalnet = true ∧
     (mainLoopCycle sampleConsts entryState (okEnv v32)).update_globalnet_failed = false ∧
     parsedVersion sampleConsts entryState (okEnv v32) = v32 ∧
     (mainLoopCycle sampleConsts entryState (okEnv v32)).versionFile = some v32 ∧
     (mainLoopCycle sampleConsts entryState (okEnv v32)).config.lastAppliedVersion =
       List.replicate 31 118) := by
  decide

/-- C11 (amended): after every iteration that applied with no failure, a non-empty version
whose version file could be written is the content of the version file, and
`config.lastAppliedVersion` holds its first 31 bytes, hence the version itself when it is
shorter than 32 bytes; when the file could not be written `config.lastAppliedVersion` keeps
its value; and an empty version is not persisted: the version file is not written and
`config.lastAppliedVersion` keeps its value. -/
theorem C11_version_persistence (k : Consts) (s : State) (e : CycleEnv)
    (happlied : (mainLoopCycle k s e).update_globalnet = true)
    (hok : (mainLoopCycle k s e).update_globalnet_failed = false) :
    (parsedVersion k s e ≠ [] → e.str2file_ok = true →
      (mainLoopCycle k s e).versionFile = some (parsedVersion k s e) ∧
      (mainLoopCycle k s e).config.lastAppliedVersion = snprintf 32 (parsedVersion k s e) ∧
      ((parsedVersion k s e).length < 32 →
        (mainLoopCycle k s e).config.lastAppliedVersion = parsedVersion k s e)) ∧
    (parsedVersion k s e ≠ [] → e.str2file_ok = false →
      (mainLoopCycle k s e).config.lastAppliedVersion = gateVersion s e) ∧
    (parsedVersion k s e = [] →
      (mainLoopCycle k s e).versionFile = s.versionFile ∧
      (mainLoopCycle k s e).config.lastAppliedVersion = gateVersion s e) := by
  have hc := version_file_of_success k s e hok
  refine ⟨?_, ?_, not_persisted_of_empty k s e⟩
  · intro hne hw
    obtain ⟨h1, h2⟩ := persisted_of_version_file k s e happlied hc hne
    rw [if_pos hw] at h1 h2
    refine ⟨h1, h2, fun hlen => ?_⟩
    rw [h2, snprintf_short _ _ hlen]
  · intro hne hw
    have h2 := (persisted_of_version_file k s e happlied hc hne).2
    rw [if_neg (by simp [hw])] at h2
    exact h2

/-- C11 (amended) at the iteration that applies "v1" from `entryState`. -/
theorem C11_version_persistence_witness :
    (mainLoopCycle sampleConsts entryState (okEnv v1)).versionFile = some v1 ∧
    (mainLoopCycle sampleConsts entryState (okEnv v1)).config.lastAppliedVersion = v1 :=
  have h := (C11_version_persistence sampleConsts entryState (okEnv v1) (by decide)
    (by decide)).1 (by decide) (by decide)
  ⟨h.1, h.2.2 (by decide)⟩

/-- C12, as stated, fails. After "v1" was applied, the scrub of a document with an empty
version returns the overlay sentinel (which carries the error bit): the iteration is a failed
applying one whose scrub result is the sentinel, yet the version is not persisted (the version
file and `config.lastAppliedVersion` still hold "v1"), and the counter of successful applies
`epoch_updates` goes from 1 to 2. -/
theorem C12_counterexample :
    (mainLoopCycle sentinelConsts appliedState (sentinelEnv [])).update_globalnet = true ∧
    (mainLoopCycle sentinelConsts appliedState (sentinelEnv [])).update_globalnet_failed
      = true ∧
    (mainLoopCycle sentinelConsts appliedState (sentinelEnv [])).scrubResult =
      sentinelConsts.EUCANETD_VPCMIDO_IFERROR ∧
    parsedVersion sentinelConsts appliedState (sentinelEnv []) = [] ∧
    (mainLoopCycle sentinelConsts appliedState (sentinelEnv [])).versionFile = some v1 ∧
    (mainLoopCycle sentinelConsts appliedState (sentinelEnv [])).config.lastAppliedVersion
      = v1 ∧
    appliedState.epoch_updates = 1 ∧
    (mainLoopCycle sentinelConsts appliedState (sentinelEnv [])).epoch_updates = 2 := by
  decide

/-- C12 (amended): in a failed applying iteration whose scrub result equals the sentinel
`EUCANETD_VPCMIDO_IFERROR`, a non-empty version whose version file could be written is
persisted (it is the content of the version file, and its first 31 bytes are
`config.lastAppliedVersion`), and the iteration still counts as a failure: the failed-apply
counter is incremented at line 747 (at the end of the iteration it holds the incremented
value, unless the report of every 300 polling seconds has reset the epoch counters), the last
applied pointer is null and the buffers are not swapped. -/
theorem C12_partial_overlay_convergence (k : Consts) (s : State) (e : CycleEnv)
    (happlied : (mainLoopCycle k s e).update_globalnet = true)
    (hfail : (mainLoopCycle k s e).update_globalnet_failed = true)
    (hsr : (mainLoopCycle k s e).scrubResult = k.EUCANETD_VPCMIDO_IFERROR) :
    (parsedVersion k s e ≠ [] → e.str2file_ok = true →
      (mainLoopCycle k s e).versionFile = some (parsedVersion k s e) ∧
      (mainLoopCycle k s e).config.lastAppliedVersion = snprintf 32 (parsedVersion k s e)) ∧
    (stagePersist k (uptoApply k s e) e).epoch_failed_updates = s.epoch_failed_updates + 1 ∧
    (mainLoopCycle k s e).epoch_failed_updates =
      (if s.epoch_timer ≥ 300 then 0 else s.epoch_failed_updates + 1) ∧
    (mainLoopCycle k s e).pGniApplied = NULL ∧
    (mainLoopCycle k s e).pGni = s.pGni := by
  have hc := version_file_of_sentinel k s e hfail hsr
  have hcount := failed_updates_of_failure k s e happlied hfail
  refine ⟨?_, hcount, ?_, ?_, ?_⟩
  · intro hne hw
    obtain ⟨h1, h2⟩ := persisted_of_version_file k s e happlied hc hne
    rw [if_pos hw] at h1 h2
    exact ⟨h1, h2⟩
  · rw [mainLoopCycle_failed_updates, hcount]
  · rw [mainLoopCycle_pGniApplied, if_pos hfail]
  · rw [mainLoopCycle_pGni, if_pos (Or.inl hfail)]

/-- C12 (amended) at a concrete iteration: the scrub of "v1" returns the overlay sentinel. -/
theorem C12_partial_overlay_convergence_witness :
    (mainLoopCycle sentinelConsts entryState (sentinelEnv v1)).versionFile = some v1 ∧
    (mainLoopCycle sentinelConsts entryState (sentinelEnv v1)).config.lastAppliedVersion
      = v1 ∧
    (mainLoopCycle sentinelConsts entryState (sentinelEnv v1)).epoch_failed_updates = 1 ∧
    (mainLoopCycle sentinelConsts entryState (sentinelEnv v1)).pGniApplied = NULL ∧
    (mainLoopCycle sentinelConsts entryState (sentinelEnv v1)).pGni = 1 :=
  have h := C12_partial_overlay_convergence sentinelConsts entryState (sentinelEnv v1)
    (by decide) (by decide) (by decide)
  ⟨(h.1 (by decide) (by decide)).1, (h.1 (by decide) (by decide)).2, h.2.2.1, h.2.2.2.1,
    h.2.2.2.2⟩

/-- C13: after any iteration that ends with `update_globalnet_failed` set, `pGni` designates the
same buffer as when the iteration started and `pGniApplied` is null, so that a scrub call of
the next iteration, whatever signals arrive in between, receives that same buffer and a null
last applied state. -/
theorem C13_failed_cycle_keeps_buffer (k : Consts) (s : State) (e : CycleEnv)
    (hfail : (mainLoopCycle k s e).update_globalnet_failed = true) :
    (mainLoopCycle k s e).pGni = s.pGni ∧
    (mainLoopCycle k s e).pGniApplied = NULL ∧
    ∀ (sigs : List Signal) (e2 : CycleEnv) (g a : Ptr) (r : Nat),
      Call.system_scrub g a r ∈
          (mainLoopCycle k (deliverAll (mainLoopCycle k s e) sigs) e2).calls →
        g = s.pGni ∧ a = NULL := by
  have h1 : (mainLoopCycle k s e).pGni = s.pGni := by
    rw [mainLoopCycle_pGni, if_pos (Or.inl hfail)]
  have h2 : (mainLoopCycle k s e).pGniApplied = NULL := by
    rw [mainLoopCycle_pGniApplied, if_pos hfail]
  refine ⟨h1, h2, ?_⟩
  intro sigs e2 g a r hc
  obtain ⟨hg, ha, -⟩ := scrub_call_args k _ e2 g a r hc
  have hf := deliverAll_frame (mainLoopCycle k s e) sigs
  rw [hf.2.2.2.2.2.1, h1] at hg
  rw [hf.2.2.2.2.2.2.1, h2] at ha
  exact ⟨hg, ha⟩

/-- C13 at the iteration in which `implement_network` fails, followed by one that scrubs
again. -/
theorem C13_failed_cycle_keeps_buffer_witness :
    (mainLoopCycle sampleConsts entryState failEnv).pGni = 1 ∧
    (mainLoopCycle sampleConsts entryState failEnv).pGniApplied = NULL ∧
    Call.system_scrub 1 NULL 7 ∈
      (mainLoopCycle sampleConsts (deliverAll (mainLoopCycle sampleConsts entryState failEnv) [])
        (quietEnv v1)).calls :=
  have h := C13_failed_cycle_keeps_buffer sampleConsts entryState failEnv (by decide)
  ⟨h.1, h.2.1, by decide⟩

/-- C14, evaluated on the code: with a polling interval of 5 seconds, the iteration in which
`implement_network` fails ends with the failed flag set and sleeps 5 seconds, not 1. -/
theorem C14_failure_sleeps_polling_interval :
    entryState.config.polling_frequency = 5 ∧
    (mainLoopCycle sampleConsts entryState failEnv).update_globalnet_failed = true ∧
    (mainLoopCycle sampleConsts entryState failEnv).calls =
      [.system_scrub 1 0 7, .implement_network 1 1, .implement_sg 1 0,
       .implement_addressing 1 0, .sleep 5] := by
  decide

/-- C15: while the upgrade capability of the driver is non-null it is invoked exactly once in
every iteration; when it returns 0 the capability is set to null, when it returns nonzero the
capability stays; and once the capability is null it stays null and no later iteration,
whatever iterations and signals come in between, invokes it. -/
theorem C15_upgrade_once (k : Consts) (s : State) (e : CycleEnv) :
    (s.driver.upgrade = true →
      (mainLoopCycle k s e).calls.filter Call.isUpgrade = [.upgrade s.pGni e.upgrade_rc] ∧
      (e.upgrade_rc = 0 → (mainLoopCycle k s e).driver.upgrade = false) ∧
      (e.upgrade_rc ≠ 0 → (mainLoopCycle k s e).driver.upgrade = true)) ∧
    (s.driver.upgrade = false →
      ∀ t : State, Later k s t →
        t.driver.upgrade = false ∧
        ∀ e2 : CycleEnv, (mainLoopCycle k t e2).calls.filter Call.isUpgrade = []) := by
  refine ⟨fun hu => ⟨?_, fun h0 => ?_, fun h1 => ?_⟩, fun hn t ht => ?_⟩
  · rw [upgradeCalls_cycle, if_pos hu]
  · rw [mainLoopCycle_upgrade, hu]; simp [h0]
  · rw [mainLoopCycle_upgrade, hu]; simp [h1]
  · have hd := later_upgrade k s t ht hn
    refine ⟨hd, fun e2 => ?_⟩
    rw [upgradeCalls_cycle, hd]
    simp

/-- C15 at a concrete run: the upgrade fails in a first iteration, succeeds in a second, and a
third iteration does not invoke it. -/
theorem C15_upgrade_once_witness :
    (mainLoopCycle sampleConsts upgradeState upgradeFailEnv).calls.filter Call.isUpgrade =
      [.upgrade 1 1] ∧
    (mainLoopCycle sampleConsts upgradeState upgradeFailEnv).driver.upgrade = true ∧
    (mainLoopCycle sampleConsts
      (mainLoopCycle sampleConsts (mainLoopCycle sampleConsts upgradeState upgradeFailEnv)
        (okEnv v1)) (okEnv v1)).calls.filter Call.isUpgrade = [] :=
  have h1 := (C15_upgrade_once sampleConsts upgradeState upgradeFailEnv).1 (by decide)
  have h2 := (C15_upgrade_once sampleConsts
    (mainLoopCycle sampleConsts upgradeState upgradeFailEnv) (okEnv v1)).1 (by decide)
  have h3 := (C15_upgrade_once sampleConsts
    (mainLoopCycle sampleConsts (mainLoopCycle sampleConsts upgradeState upgradeFailEnv)
      (okEnv v1)) (okEnv v1)).2 (h2.2.1 (by decide)) _ Later.refl
  ⟨h1.1, h1.2.2 (by decide), h3.2 (okEnv v1)⟩

/-- C18: when SIGTERM is raised in the main loop, the current iteration runs to completion, the
loop is left, the `cleanup` callback of the driver, when there is one, is invoked exactly once,
with the current buffer and the current value of `config.flushmode`, and the process exits with
code 0. First for a signal taken as delivered when the iteration is over: the loop is left in
the state the whole iteration produces, with the calls of the whole iteration, whatever rounds
would follow. Then for a signal handled inside the iteration, when `n` of its stages have run:
the iteration is carried through, without its maintenance step when the signal came before it
(line 787 tests `gIsRunning`), with the same scrub and apply calls and the same version file;
the loop is left after it, whatever signals and rounds follow, and the process ends in the same
way. -/
theorem C18_graceful_termination (k : Consts) (s : State) (r : Round) (rs : List Round)
    (hrun : s.gIsRunning = true) (hterm : Signal.TERM ∈ r.sigs) :
    (runLoop k s (r :: rs) = some (deliverAll (mainLoopCycle k s r.env) r.sigs) ∧
     (deliverAll (mainLoopCycle k s r.env) r.sigs).calls = (mainLoopCycle k s r.env).calls ∧
     (deliverAll (mainLoopCycle k s r.env) r.sigs).counter = s.counter + 1 ∧
     (deliverAll (mainLoopCycle k s r.env) r.sigs).gTermCaught = true ∧
     (runLoop k s (r :: rs)).map shutdown =
       some { code := 0,
              cleanup :=
                if s.driver.cleanup = true then
                  [((deliverAll (mainLoopCycle k s r.env) r.sigs).pGni,
                    (deliverAll (mainLoopCycle k s r.env) r.sigs).config.flushmode)]
                else [] }) ∧
    ∀ (n : Nat) (sigs : List Signal),
      cycleWithTerm k s r.env n =
        eucanetd_sigterm_handler
          (if n ≤ 8 then cycleNoMaint k s r.env else mainLoopCycle k s r.env) ∧
      protoCalls (cycleWithTerm k s r.env n) = protoCalls (mainLoopCycle k s r.env) ∧
      (cycleWithTerm k s r.env n).versionFile = (mainLoopCycle k s r.env).versionFile ∧
      (cycleWithTerm k s r.env n).pGni = (mainLoopCycle k s r.env).pGni ∧
      runLoop k (deliverAll (cycleWithTerm k s r.env n) sigs) rs =
        some (deliverAll (cycleWithTerm k s r.env n) sigs) ∧
      shutdown (deliverAll (cycleWithTerm k s r.env n) sigs) =
        { code := 0,
          cleanup :=
            if s.driver.cleanup = true then
              [((mainLoopCycle k s r.env).pGni,
                (deliverAll (cycleWithTerm k s r.env n) sigs).config.flushmode)]
            else [] } := by
  have hstop : (deliverAll (mainLoopCycle k s r.env) r.sigs).gIsRunning = false := by
    rw [deliverAll_running]
    simp [hterm]
  have hloop : runLoop k s (r :: rs) = some (deliverAll (mainLoopCycle k s r.env) r.sigs) := by
    rw [runLoop_step k s r rs hrun, runLoop_stopped k _ rs hstop]
  have hfr := deliverAll_frame (mainLoopCycle k s r.env) r.sigs
  have hd : (mainLoopCycle k s r.env).driver.cleanup = s.driver.cleanup :=
    (mainLoopCycle_frame k s r.env).2.2.2.2.2.2.2.2.2.2.2.2.1
  refine ⟨⟨hloop, deliverAll_calls _ _, ?_, deliverAll_term _ _ hterm, ?_⟩, fun n sigs => ?_⟩
  · rw [deliverAll_counter, mainLoopCycle_counter]
  · rw [hloop]
    simp only [Option.map_some', shutdown, hfr.2.2.2.2.1, hd]
  · have hsame := cycleNoMaint_same k s r.env
    have heq : cycleWithTerm k s r.env n =
        eucanetd_sigterm_handler
          (if n ≤ 8 then cycleNoMaint k s r.env else mainLoopCycle k s r.env) := by
      split_ifs with hn
      · exact cycleWithTerm_early k s r.env n hn
      · exact cycleWithTerm_late k s r.env n (by omega)
    have hproto : protoCalls (cycleWithTerm k s r.env n) =
        protoCalls (mainLoopCycle k s r.env) := by
      rw [heq]
      split_ifs
      · exact hsame.1
      · rfl
    have hvf : (cycleWithTerm k s r.env n).versionFile =
        (mainLoopCycle k s r.env).versionFile := by
      rw [heq]
      split_ifs
      · exact hsame.2.1
      · rfl
    have hdr : (cycleWithTerm k s r.env n).driver = (mainLoopCycle k s r.env).driver := by
      rw [heq]
      split_ifs
      · exact hsame.2.2.2.1
      · rfl
    have hp : (cycleWithTerm k s r.env n).pGni = (mainLoopCycle k s r.env).pGni := by
      rw [heq]
      split_ifs
      · exact hsame.2.2.2.2.1
      · rfl
    have hrun2 : (cycleWithTerm k s r.env n).gIsRunning = false := by
      rw [heq]
      rfl
    have hstop2 : (deliverAll (cycleWithTerm k s r.env n) sigs).gIsRunning = false := by
      rw [deliverAll_running, hrun2]
      rfl
    have hfr2 := deliverAll_frame (cycleWithTerm k s r.env n) sigs
    refine ⟨heq, hproto, hvf, hp, runLoop_stopped k _ rs hstop2, ?_⟩
    simp only [shutdown, hfr2.2.2.2.2.1, hfr2.2.2.2.2.2.1, hdr, hp, hd]

/-- C18 at a concrete run: SIGTERM arrives during the first iteration, which applies the
document; the loop is left after it with the buffers switched, `cleanup` is invoked once with
the current buffer and flush mode `FLUSH_NONE`, and the process exits with code 0; the same
when the signal is handled after the parse stage of that iteration. -/
theorem C18_graceful_termination_witness :
    entryState.gIsRunning = true ∧
    (runLoop sampleConsts entryState
      [{ env := okEnv v1, sigs := [.TERM] }, { env := okEnv v1, sigs := [] }]).map
        (fun t => t.calls) =
      some [.system_scrub 1 0 7, .implement_network 1 0, .implement_sg 1 0,
        .implement_addressing 1 0, .str2file v1 true] ∧
    (runLoop sampleConsts entryState
      [{ env := okEnv v1, sigs := [.TERM] }, { env := okEnv v1, sigs := [] }]).map shutdown =
      some { code := 0, cleanup := [(2, 0)] } ∧
    (cycleWithTerm sampleConsts entryState (okEnv v1) 2).calls =
      [.system_scrub 1 0 7, .implement_network 1 0, .implement_sg 1 0,
        .implement_addressing 1 0, .str2file v1 true] ∧
    shutdown (deliverAll (cycleWithTerm sampleConsts entryState (okEnv v1) 2) []) =
      { code := 0, cleanup := [(2, 0)] } :=
  have h := C18_graceful_termination sampleConsts entryState
    { env := okEnv v1, sigs := [.TERM] } [{ env := okEnv v1, sigs := [] }] (by decide)
    (by decide)
  ⟨by decide, by rw [h.1.1]; decide, by rw [h.1.2.2.2.2]; decide, by decide,
    by rw [(h.2 2 []).2.2.2.2.2]; decide⟩

/-- C19, evaluated on the code: outside overlay mode, when `lni_init` returns null, the loop
is not entered (the state is the one `lni_init` left, no iteration is counted, whatever rounds
are on offer), the `cleanup` callback is invoked, and the process exits with code 0, not 1. -/
theorem C19_lni_init_failure_exits_zero (rounds : List Round) :
    IS_NETMODE_VPCMIDO sampleConsts edgeState = false ∧
    edgeState.gIsRunning = true ∧
    (lniInit sampleConsts edgeState true).gIsRunning = false ∧
    (runLoop sampleConsts (lniInit sampleConsts edgeState true) rounds).map
        (fun t => (t.counter, t.calls)) = some (edgeState.counter, []) ∧
    mainTail sampleConsts edgeState true rounds = some { code := 0, cleanup := [(1, 0)] } := by
  have hstop : (lniInit sampleConsts edgeState true).gIsRunning = false := by decide
  refine ⟨by decide, by decide, hstop, ?_, ?_⟩
  · rw [runLoop_stopped sampleConsts _ rounds hstop]
    decide
  · rw [mainTail, runLoop_stopped sampleConsts _ rounds hstop]
    decide

/-- C20, evaluated on the code: in a flush mode, a pre-flight iteration in which the
configuration cannot be loaded exits with code 1, and so does one in which the peer check fails
(outside overlay mode and in overlay mode); an iteration that finds an invalid network mode does
not exit: the loop goes round again, also when SIGTERM has been caught. -/
theorem C20_invalid_mode_retries_in_flush_mode :
    preflightIteration 1 false { okPreflight with read_config_rc := 1 } = .exit 1 ∧
    preflightIteration 1 false { okPreflight with is_self := 1 } = .exit 1 ∧
    preflightIteration 1 false { okPreflight with vpcmido := false } = .exit 1 ∧
    preflightIteration 1 false { okPreflight with nm_invalid := true } = .retry ∧
    preflightIteration 1 true { okPreflight with nm_invalid := true } = .retry := by
  decide

/-- C21, evaluated on the code: with SIGTERM caught and no flush mode active, a pre-flight
iteration exits with code 0 when the configuration cannot be loaded, when the peer check fails
and when every check passes, but the iteration that finds an invalid network mode does not
exit: the `continue` of line 521 skips the test of `gTermCaught` and the loop goes round
again. -/
theorem C21_term_in_preflight :
    (∀ p : PreflightEnv,
      preflightIteration 0 true p =
        if p.read_config_rc = 0 ∧ p.nm_invalid = true then .retry else .exit 0) ∧
    preflightIteration 0 true { okPreflight with read_config_rc := 1 } = .exit 0 ∧
    preflightIteration 0 true { okPreflight with is_self := 1 } = .exit 0 ∧
    preflightIteration 0 true okPreflight = .exit 0 ∧
    preflightIteration 0 true { okPreflight with nm_invalid := true } = .retry := by
  refine ⟨fun p => ?_, by decide, by decide, by decide, by decide⟩
  unfold preflightIteration preflightChecks preflightTail
  by_cases h1 : p.read_config_rc = 0
  · by_cases h2 : p.nm_invalid = true
    · simp [h1, h2]
    · by_cases h3 : p.vpcmido = false
      · by_cases h4 : peerAccepted
            (eucanetd_detect_peer p.find_self_node_rc p.find_self_cluster_rc) = true
        · simp [h1, h2, h3, h4]
        · simp [h1, h2, h3, h4]
      · by_cases h5 : p.is_self = 0
        · simp [h1, h2, h3, h5]
        · simp [h1, h2, h3, h5]
  · simp [h1]

/-- C23, as stated, fails. After one failed apply is counted, an iteration that applies
successfully leaves the counter `epoch_failed_updates` at 1; and in a process that polls every
300 seconds, a second failed apply in a row ends with the counter at 0, reset by the periodic
report. -/
theorem C23_counterexample :
    (failedState.epoch_failed_updates = 1 ∧
     (mainLoopCycle sampleConsts failedState (okEnv v1)).update_globalnet = true ∧
     (mainLoopCycle sampleConsts failedState (okEnv v1)).update_globalnet_failed = false ∧
     (mainLoopCycle sampleConsts failedState (okEnv v1)).epoch_failed_updates = 1) ∧
    ((mainLoopCycle sampleConsts slowState failEnv).epoch_failed_updates = 1 ∧
     (mainLoopCycle sampleConsts (mainLoopCycle sampleConsts slowState failEnv)
        failEnv).update_globalnet_failed = true ∧
     (mainLoopCycle sampleConsts (mainLoopCycle sampleConsts slowState failEnv)
        failEnv).epoch_failed_updates = 0) := by
  decide

/-- C23 (amended): the counter `epoch_failed_updates` is cleared only by the periodic report
of lines 780-784: an iteration ends with the counter at zero when `epoch_timer` has reached 300
in it, whether or not it applied successfully; in every other iteration the counter is
incremented when the iteration applied with a failure and is left as it is otherwise, in
particular by a successful apply. -/
theorem C23_failed_updates_epoch (k : Consts) (s : State) (e : CycleEnv) :
    (mainLoopCycle k s e).epoch_failed_updates =
      if s.epoch_timer ≥ 300 then 0
      else if (mainLoopCycle k s e).update_globalnet = true ∧
          (mainLoopCycle k s e).update_globalnet_failed = true then
        s.epoch_failed_updates + 1
      else s.epoch_failed_updates := by
  have h0 : (uptoApply k s e).epoch_failed_updates = s.epoch_failed_updates := by simp
  rw [mainLoopCycle_failed_updates, stagePersist_failed_updates, uptoApply_update,
    uptoApply_failed, h0]

/-- C24, as stated, fails. A SIGHUP is pending when an iteration starts whose document cannot
be parsed: `config.lastAppliedVersion`, which was "v1", is emptied. And a process started in a
flush mode whose first document cannot be parsed leaves the loop after that iteration. -/
theorem C24_counterexample :
    ((deliver appliedState Signal.HUP).config.lastAppliedVersion = v1 ∧
     (readIfUpdate sampleConsts (stageFetch (deliver appliedState Signal.HUP) (parseFailEnv v2))
        (parseFailEnv v2)).rc ≠ 0 ∧
     (mainLoopCycle sampleConsts (deliver appliedState Signal.HUP)
        (parseFailEnv v2)).config.lastAppliedVersion = []) ∧
    (flushState.gIsRunning = true ∧
     (readIfUpdate sampleConsts (stageFetch flushState (parseFailEnv v1))
        (parseFailEnv v1)).rc ≠ 0 ∧
     (mainLoopCycle sampleConsts flushState (parseFailEnv v1)).gIsRunning = false) := by
  decide

/-- C24 (amended): in an iteration where the read of the desired state fails (line 623 finds
`rc` nonzero), or where the document is read and its network mode differs from the configured
one, `update_globalnet` is cleared, so no scrub and no apply API is invoked, the version file, `pGni` and `pGniApplied`
are unchanged, `config.lastAppliedVersion` is unchanged unless a SIGHUP was pending when the
iteration started (then it is emptied), the iteration is not counted as an apply failure
(`epoch_failed_updates` is not incremented: it keeps its value, or is reset by the periodic
report), and the loop goes on unless a flush mode is active. -/
theorem C24_unusable_document (k : Consts) (s : State) (e : CycleEnv)
    (hreach : Reachable k s)
    (hbad : (readIfUpdate k (stageFetch s e) e).rc ≠ 0 ∨
      ((stageFetch s e).update_globalnet = true ∧ e.read.gni.nmCode ≠ s.config.nmCode)) :
    (stageParse k (stageFetch s e) e).update_globalnet = false ∧
    (mainLoopCycle k s e).update_globalnet = false ∧
    (∀ c ∈ (mainLoopCycle k s e).calls, c.isScrubOrApply = false) ∧
    (mainLoopCycle k s e).versionFile = s.versionFile ∧
    (mainLoopCycle k s e).pGni = s.pGni ∧
    (mainLoopCycle k s e).pGniApplied = s.pGniApplied ∧
    (mainLoopCycle k s e).config.lastAppliedVersion =
      (if s.gHupCaught = true then [] else s.config.lastAppliedVersion) ∧
    (mainLoopCycle k s e).epoch_failed_updates =
      (if s.epoch_timer ≥ 300 then 0 else s.epoch_failed_updates) ∧
    (mainLoopCycle k s e).gIsRunning = (decide (s.config.flushmode = 0) && s.gIsRunning) := by
  have hcfg : (stageFetch s e).config.nmCode = s.config.nmCode := by simp
  have hblk : (stageParse k (stageFetch s e) e).update_globalnet = false :=
    stageParse_blocked k _ e (by rw [hcfg]; exact hbad.imp id And.right)
  have hba : (beforeApply k s e).update_globalnet = false := by
    rw [beforeApply_update, hblk]
    simp
  have hup : (mainLoopCycle k s e).update_globalnet = false := by
    rw [mainLoopCycle_update, hba]
  have hua : (uptoApply k s e).update_globalnet = false := by rw [uptoApply_update, hup]
  refine ⟨hblk, hup, no_proto_of_parse_blocked k s e hblk, ?_, ?_, ?_, ?_, ?_,
    mainLoopCycle_running k s e⟩
  · rw [mainLoopCycle, finishCycle_versionFile, stagePersist_versionFile]
    simp [hua]
  · rw [mainLoopCycle_pGni, hup]
    simp
  · rw [mainLoopCycle_pGniApplied, hup]
    by_cases hf : (mainLoopCycle k s e).update_globalnet_failed = true
    · rw [if_pos hf]
      rcases (cycle_failed_iff k s e).1 hf with h | h
      · exact (reachable_upgrade_applied k s hreach h.1).symm
      · rw [hba] at h
        simp at h
    · simp [hf]
  · rw [mainLoopCycle, finishCycle_lastApplied, stagePersist_lastApplied, if_neg (by simp [hua]),
      uptoApply_lastApplied, gateVersion, stageFetch_lastApplied]
  · have h0 : (uptoApply k s e).epoch_failed_updates = s.epoch_failed_updates := by simp
    rw [mainLoopCycle_failed_updates, stagePersist_failed_updates, h0]
    simp [hua]

/-- C24 (amended) at a concrete iteration: after "v1" was applied, a document that cannot be
parsed leaves the version file, the last applied version and both pointers as they were, and
the loop goes on. -/
theorem C24_unusable_document_witness :
    (readIfUpdate sampleConsts (stageFetch appliedState (parseFailEnv v2))
      (parseFailEnv v2)).rc ≠ 0 ∧
    (mainLoopCycle sampleConsts appliedState (parseFailEnv v2)).calls =
      [.system_maint 2 0, .sleep 5] ∧
    (mainLoopCycle sampleConsts appliedState (parseFailEnv v2)).versionFile = some v1 ∧
    (mainLoopCycle sampleConsts appliedState (parseFailEnv v2)).pGni = 2 ∧
    (mainLoopCycle sampleConsts appliedState (parseFailEnv v2)).pGniApplied = 1 ∧
    (mainLoopCycle sampleConsts appliedState (parseFailEnv v2)).config.lastAppliedVersion
      = v1 ∧
    (mainLoopCycle sampleConsts appliedState (parseFailEnv v2)).gIsRunning = true :=
  have h := C24_unusable_document sampleConsts appliedState (parseFailEnv v2)
    (Reachable.cycle entryState (okEnv v1) (Reachable.entry entryState (by decide))
      (by decide))
    (Or.inl (by decide))
  ⟨by decide, by decide, h.2.2.2.1, h.2.2.2.2.1, h.2.2.2.2.2.1, h.2.2.2.2.2.2.1,
    h.2.2.2.2.2.2.2.2⟩

/-- The hypothesis on the driver is needed. Outside overlay mode, a first iteration whose scrub
returns the overlay sentinel, which `scrubWithinContract` rules out, is followed by an
iteration for the document "v2" in which `lni_populate` fails: line 748 reads the scrub result
of the iteration before, and the version file and `config.lastAppliedVersion` are set to "v2". -/
theorem stale_sentinel_outside_contract :
    ¬ scrubWithinContract sentinelConsts edgeState (edgeSentinelEnv v1) ∧
    (mainLoopCycle sentinelConsts edgeState (edgeSentinelEnv v1)).scrubResult =
      sentinelConsts.EUCANETD_VPCMIDO_IFERROR ∧
    (mainLoopCycle sentinelConsts (mainLoopCycle sentinelConsts edgeState (edgeSentinelEnv v1))
      (lniFailEnv v2)).calls = [.lni_populate 1, .str2file v2 true, .sleep 5] ∧
    (mainLoopCycle sentinelConsts (mainLoopCycle sentinelConsts edgeState (edgeSentinelEnv v1))
      (lniFailEnv v2)).versionFile = some v2 ∧
    (mainLoopCycle sentinelConsts (mainLoopCycle sentinelConsts edgeState (edgeSentinelEnv v1))
      (lniFailEnv v2)).config.lastAppliedVersion = v2 := by
  decide

/-- C26: in `eucanetd_read_latest_network`, when the document is parsed, is not of overlay mode
and names the cluster of this node, with the node configured as router and the router address
"AUTO": when the bridge device can be queried, `config.vmGatewayIP` is set to the address of
lowest index in the address list of the device whose netmask is the netmask of the private
subnet of the cluster and that lies in that subnet, and the function returns 0; when no address
qualifies, or the device cannot be queried, the function returns 1 and `config.vmGatewayIP` is
left as it was. -/
theorem C26_router_autodetect (k : Consts) (s : State) (r : ReadEnv)
    (hpop : r.gni_populate_rc = 0) (hmode : r.gni.nmCode ≠ k.NM_VPCMIDO)
    (hcl : r.find_self_cluster_rc = 0) (hnr : s.config.nc_router ≠ 0)
    (hip : s.config.nc_router_ip ≠ 0) (hauto : s.config.ncRouterIP = [65, 85, 84, 79]) :
    (∀ (i ip nm : Nat), r.getdevinfo_rc = 0 → r.brdev[i]? = some (ip, nm) →
      nm = r.private_subnet.netmask →
      (ip &&& r.private_subnet.netmask) = r.private_subnet.subnet →
      (∀ x ∈ r.brdev.take i, ¬ (x.2 = r.private_subnet.netmask ∧
        (x.1 &&& r.private_subnet.netmask) = r.private_subnet.subnet)) →
      (eucanetd_read_latest_network k s r).config.vmGatewayIP = ip ∧
      (eucanetd_read_latest_network k s r).rc = 0) ∧
    ((r.getdevinfo_rc ≠ 0 ∨
        ∀ x ∈ r.brdev, ¬ (x.2 = r.private_subnet.netmask ∧
          (x.1 &&& r.private_subnet.netmask) = r.private_subnet.subnet)) →
      (eucanetd_read_latest_network k s r).rc = 1 ∧
      (eucanetd_read_latest_network k s r).config.vmGatewayIP = s.config.vmGatewayIP) := by
  have hvp : IS_NETMODE_VPCMIDO k (versionGate (gni_populate s r)) = false := by
    simp [IS_NETMODE_VPCMIDO, hmode]
  have hsel : eucanetd_read_latest_network k s r =
      if r.getdevinfo_rc ≠ 0 then { versionGate (gni_populate s r) with rc := 1 }
      else storeDetected (versionGate (gni_populate s r))
        (autodetect r.private_subnet r.brdev) := by
    unfold eucanetd_read_latest_network selectGateway
    simp [hpop, hvp, hcl, hnr, hip, hauto]
  refine ⟨fun i ip nm hdev hi hnm hsub hlow => ?_, fun hno => ?_⟩
  · rw [hsel, if_neg (by simp [hdev]),
      autodetect_first r.private_subnet r.brdev i ip nm hi ⟨hnm, hsub⟩ hlow]
    simp [storeDetected]
  · rw [hsel]
    by_cases hdev : r.getdevinfo_rc ≠ 0
    · rw [if_pos hdev]
      simp
    · rw [if_neg hdev]
      have hnone : autodetect r.private_subnet r.brdev = none :=
        (autodetect_none _ _).2 (hno.resolve_left hdev)
      rw [hnone]
      simp [storeDetected]

/-- C26 at a concrete read: of the addresses 192.168.1.1, 10.0.0.5 and 10.0.0.6 of the bridge
device, the gateway in the subnet 10.0.0.0/24 becomes 10.0.0.5. -/
theorem C26_router_autodetect_witness :
    (eucanetd_read_latest_network sampleConsts autoState autoRead).config.vmGatewayIP
      = 167772165 ∧
    (eucanetd_read_latest_network sampleConsts autoState autoRead).rc = 0 :=
  (C26_router_autodetect sampleConsts autoState autoRead (by decide) (by decide) (by decide)
    (by decide) (by decide) (by decide)).1 1 167772165 4294967040 (by decide) (by decide)
    (by decide) (by decide) (by decide)

/-- C22, as stated, fails. The option `-z` stores the flush mode `FLUSH_MIDO_TEST` and does not
set the flag `multieucanetd_safe`: the singleton socket is bound, and when the bind fails the
process exits with code 1. -/
theorem C22_counterexample :
    applyOption sampleConsts sampleOptConsts initialConfig optZ =
      .ok { flushmode := sampleOptConsts.FLUSH_MIDO_TEST,
            debug := sampleOptConsts.EUCANETD_DEBUG_INFO,
            flushmodearg := some vpcArg, multieucanetd_safe := false } ∧
    startup sampleConsts sampleOptConsts [optZ] 0 (-1) = .exit 1 := by
  decide

/-- C22 (amended): each of the options `-l`, `-m`, `-u`, `-v` stores its read-only flush mode
and sets the flag `multieucanetd_safe`, so that a process started with it alone does not try
to bind the singleton socket; each of the options `-F`, `-C`, `-Z`, `-M`, `-U`, `-V`, and
`-z`, leaves the flag as it was, so that a process started with it alone binds the socket and
exits with code 1 when the bind fails; after any sequence of options the flag is set exactly
when one of them is `-l`, `-m`, `-u` or `-v`. -/
theorem C22_safe_options (k : Consts) (m : OptConsts) (o : Opt) :
    (o.opt = 'l' ∨ o.opt = 'm' ∨ o.opt = 'u' ∨ o.opt = 'v' →
      (∀ c : OptConfig, ∃ c2, applyOption k m c o = .ok c2 ∧ c2.multieucanetd_safe = true ∧
        c2.flushmode =
          (if o.opt = 'l' then m.FLUSH_MIDO_LISTVPC
           else if o.opt = 'm' then m.FLUSH_MIDO_CHECKDUPS
           else if o.opt = 'u' then m.FLUSH_MIDO_CHECKUNCONNECTED
           else m.FLUSH_MIDO_CHECKVPC)) ∧
      (∀ u : Int, ∃ c2, startup k m [o] 0 u = .unlocked c2)) ∧
    (o.opt = 'F' ∨ o.opt = 'C' ∨ o.opt = 'Z' ∨ o.opt = 'M' ∨ o.opt = 'U' ∨ o.opt = 'V' ∨
        o.opt = 'z' →
      (∀ c : OptConfig, ∃ c2, applyOption k m c o = .ok c2 ∧
        c2.multieucanetd_safe = c.multieucanetd_safe) ∧
      startup k m [o] 0 (-1) = .exit 1 ∧
      (∀ u : Int, u ≠ -1 → ∃ c2, startup k m [o] 0 u = .locked c2)) ∧
    (∀ (opts : List Opt) (c2 : OptConfig), parseOptions k m initialConfig opts = .ok c2 →
      c2.multieucanetd_safe = opts.any Opt.isSafe) := by
  obtain ⟨ch, arg⟩ := o
  refine ⟨?_, ?_, fun opts c2 h => by
    rw [parseOptions_safe k m opts initialConfig c2 h]; simp [initialConfig]⟩
  · intro h
    simp only at h
    rcases h with h | h | h | h <;> subst h <;>
      simp [applyOption, startup, parseOptions, initialConfig]
  · intro h
    simp only at h
    rcases h with h | h | h | h | h | h | h <;> subst h <;>
      simp [applyOption, startup, parseOptions, initialConfig] <;>
      exact fun u hu => ⟨_, by rw [if_neg hu]⟩

/-- C22 (amended) at concrete command lines: with `-l` alone the process goes on without the
singleton socket, also when the bind would fail; with `-F` alone a failed bind ends the process
with code 1. -/
theorem C22_safe_options_witness :
    startup sampleConsts sampleOptConsts [optL] 0 (-1) =
      .unlocked { flushmode := sampleOptConsts.FLUSH_MIDO_LISTVPC,
                  debug := sampleOptConsts.EUCANETD_DEBUG_INFO,
                  flushmodearg := none, multieucanetd_safe := true } ∧
    startup sampleConsts sampleOptConsts [optL] 0 (-1) ≠ .exit 1 ∧
    startup sampleConsts sampleOptConsts [optF] 0 (-1) = .exit 1 :=
  have h1 := ((C22_safe_options sampleConsts sampleOptConsts optL).1 (Or.inl rfl)).2 (-1)
  have h2 := ((C22_safe_options sampleConsts sampleOptConsts optF).2.1 (Or.inl rfl)).2.1
  ⟨by decide, by obtain ⟨c2, hc⟩ := h1; rw [hc]; simp, h2⟩

/-- C29, evaluated on the code: with the options `-l -F` the flag `multieucanetd_safe`, set by
`-l`, is still set when `-F` has stored the flush mode `FLUSH_ALL`: the process does not try to
bind the singleton socket, whatever the bind would return, and goes on to a full flush; with
`-F` alone a failed bind ends the process with code 1. -/
theorem C29_lock_bypassed_for_full_flush :
    (∀ (k : Consts) (m : OptConsts) (u : Int),
      startup k m [optL, optF] 0 u =
        .unlocked { flushmode := k.FLUSH_ALL, debug := m.EUCANETD_DEBUG_INFO,
                    flushmodearg := none, multieucanetd_safe := true }) ∧
    sampleConsts.FLUSH_ALL ∉
      [sampleOptConsts.FLUSH_MIDO_LISTVPC, sampleOptConsts.FLUSH_MIDO_CHECKDUPS,
       sampleOptConsts.FLUSH_MIDO_CHECKUNCONNECTED, sampleOptConsts.FLUSH_MIDO_CHECKVPC] ∧
    startup sampleConsts sampleOptConsts [optF] 0 (-1) = .exit 1 := by
  refine ⟨fun k m u => ?_, by decide, by decide⟩
  simp [startup, parseOptions, applyOption, initialConfig, optL, optF]

end Eucanetd

namespace Diskutil

/-! # diskutil: lemmas -/

/-! ## Sector rounding -/

theorem wrapLL_of_range (x : Int) (h1 : -(2 ^ 63) ≤ x) (h2 : x < 2 ^ 63) : wrapLL x = x := by
  unfold wrapLL
  rw [Int.emod_eq_of_lt (by omega) (by omega)]
  omega

/-- On the byte counts in range, `round_down_sec` is division and multiplication. -/
theorem round_down_sec_eq (k : DiskConsts) (b : Int) (hS : 0 < k.SECTOR_SIZE) (hb : 0 ≤ b)
    (hrep : b + k.SECTOR_SIZE < 2 ^ 63) :
    round_down_sec k b = b / k.SECTOR_SIZE * k.SECTOR_SIZE := by
  unfold round_down_sec
  rw [Int.tmod_eq_emod hb hS.le, Int.tdiv_eq_ediv hb hS.le]
  have hmul : b / k.SECTOR_SIZE * k.SECTOR_SIZE ≤ b := Int.ediv_mul_le b hS.ne'
  have hnn : 0 ≤ b / k.SECTOR_SIZE * k.SECTOR_SIZE :=
    Int.mul_nonneg (Int.ediv_nonneg hb hS.le) hS.le
  split_ifs with h
  · exact wrapLL_of_range _ (by omega) (by omega)
  · have h0 : b % k.SECTOR_SIZE = 0 := by simpa using h
    have := Int.emod_add_ediv b k.SECTOR_SIZE
    rw [h0, zero_add, mul_comm] at this
    exact this.symm

/-- On the byte counts in range, `round_up_sec` is the next multiple unless the count is a
multiple. -/
theorem round_up_sec_eq (k : DiskConsts) (b : Int) (hS : 0 < k.SECTOR_SIZE) (hb : 0 ≤ b)
    (hrep : b + k.SECTOR_SIZE < 2 ^ 63) :
    round_up_sec k b =
      if b % k.SECTOR_SIZE = 0 then b else (b / k.SECTOR_SIZE + 1) * k.SECTOR_SIZE := by
  unfold round_up_sec
  rw [Int.tmod_eq_emod hb hS.le, Int.tdiv_eq_ediv hb hS.le]
  have hmul : b / k.SECTOR_SIZE * k.SECTOR_SIZE ≤ b := Int.ediv_mul_le b hS.ne'
  have hq : 0 ≤ b / k.SECTOR_SIZE := Int.ediv_nonneg hb hS.le
  have hqb : b / k.SECTOR_SIZE ≤ b := by
    have h1 : b / k.SECTOR_SIZE * 1 ≤ b / k.SECTOR_SIZE * k.SECTOR_SIZE :=
      Int.mul_le_mul_of_nonneg_left (by omega) hq
    omega
  have hnn : 0 ≤ b / k.SECTOR_SIZE * k.SECTOR_SIZE := Int.mul_nonneg hq hS.le
  by_cases h : b % k.SECTOR_SIZE = 0
  · simp [h]
  · have hexp : (b / k.SECTOR_SIZE + 1) * k.SECTOR_SIZE =
        b / k.SECTOR_SIZE * k.SECTOR_SIZE + k.SECTOR_SIZE := by ring
    rw [if_pos h, if_neg h, wrapLL_of_range (b / k.SECTOR_SIZE + 1) (by omega) (by omega),
      hexp]
    exact wrapLL_of_range _ (by omega) (by omega)


/-! ## `diskutil_init` -/

/-- Once `initialized` is set, every call returns 0 and leaves the state as it is. -/
theorem initCalls_initialized (st : InitState) (rcs : List Int) (h : st.initialized ≠ 0) :
    initCalls st rcs = (List.replicate rcs.length 0, st) := by
  induction rcs with
  | nil => rfl
  | cons rc rcs ih =>
    have hd : diskutil_init st rc = (0, st) := by simp [diskutil_init, h]
    simp only [initCalls, hd, ih, List.length_cons, List.replicate_succ]

/-! ## `diskutil_sectors` -/

/-- A run of bytes other than the delimiter is taken into the token being read. -/
theorem strtokScan_token (d : Nat) (t rest cur : Bytes) (h : d ∉ t) :
    strtokScan d cur (t ++ rest) = strtokScan d (cur ++ t) rest := by
  induction t generalizing cur with
  | nil => simp
  | cons c cs ih =>
    have hc : c ≠ d := fun he => h (by simp [he])
    have hcs : d ∉ cs := fun hm => h (by simp [hm])
    have h1 : strtokScan d cur (c :: (cs ++ rest)) =
        strtokScan d (cur ++ [c]) (cs ++ rest) := by
      rw [strtokScan, if_neg hc]
    rw [List.cons_append, h1, ih _ hcs]
    simp

/-- The first token of sections joined by the delimiter, with what follows it, and the tokens
after it. -/
theorem strtokAll_cons (d : Nat) (t : Bytes) (ts : List Bytes) (hne : t ≠ []) (hd : d ∉ t) :
    strtokAll d ([d].intercalate (t :: ts)) =
      (t, if ts = [] then none else some ([d].intercalate ts)) ::
        strtokAll d ([d].intercalate ts) := by
  cases ts with
  | nil =>
    have h := strtokScan_token d t [] [] hd
    simp only [List.append_nil, List.nil_append] at h
    simp [strtokAll, List.intercalate, h, strtokScan, hne]
  | cons u us =>
    have h := strtokScan_token d t (d :: [d].intercalate (u :: us)) [] hd
    simp only [List.nil_append] at h
    have hi : [d].intercalate (t :: u :: us) = t ++ d :: [d].intercalate (u :: us) := by
      simp [List.intercalate]
    rw [strtokAll, hi, h]
    simp [strtokScan, hne, strtokAll]

/-- The tokens of sections joined by the delimiter are the sections, when none of them is empty
or contains the delimiter; what follows a section in the buffer is the later sections, joined
by the delimiter, and nothing after the last section. -/
theorem strtokAll_intercalate (d : Nat) (ls : List Bytes) (h : ∀ t ∈ ls, t ≠ [] ∧ d ∉ t)
    (i : Nat) :
    (strtokAll d ([d].intercalate ls))[i]? =
      (ls[i]?).map (fun t =>
        (t, if ls.drop (i + 1) = [] then none else some ([d].intercalate (ls.drop (i + 1))))) := by
  induction ls generalizing i with
  | nil => simp [strtokAll, List.intercalate, strtokScan]
  | cons t ts ih =>
    have ht := h t (by simp)
    have hts : ∀ u ∈ ts, u ≠ [] ∧ d ∉ u := fun u hu => h u (by simp [hu])
    rw [strtokAll_cons d t ts ht.1 ht.2]
    cases i with
    | zero => simp
    | succ j =>
      rw [List.getElem?_cons_succ, List.getElem?_cons_succ, ih hts j]
      simp

/-- The loop stops at the token whose index from the current one is `part - p`. -/
theorem sectionLoop_eq (part : Int) (p : Int) (rest : List (Bytes × Option Bytes)) :
    sectionLoop part p rest = if part < p then none else rest[(part - p).toNat]? := by
  induction rest generalizing p with
  | nil => simp [sectionLoop]
  | cons t rest ih =>
    unfold sectionLoop
    by_cases h : p = part
    · subst h
      simp
    · rw [if_neg h, ih]
      by_cases hlt : part < p
      · rw [if_pos hlt, if_pos (by omega)]
      · rw [if_neg hlt, if_neg (by omega)]
        have hpos : (part - p).toNat = (part - (p + 1)).toNat + 1 := by omega
        rw [hpos, List.getElem?_cons_succ]

/-- The section found for the index `part`: the token after the first `part + 1` tokens. -/
theorem findSection_eq (tokens : List (Bytes × Option Bytes)) (part : Int) :
    findSection tokens part = if part < 0 then none else tokens[part.toNat + 1]? := by
  cases tokens with
  | nil => simp [findSection]
  | cons t rest =>
    simp only [findSection, sectionLoop_eq, sub_zero, List.getElem?_cons_succ]

/-- The function `strstr` finds nothing in a string in which the needle does not occur. -/
theorem strstr_none (hay needle : Bytes) (h : ¬ needle <:+: hay) : strstr hay needle = none := by
  induction hay with
  | nil =>
    have hn : needle ≠ [] := fun hn => h (by simp [hn])
    simp [strstr, hn]
  | cons c cs ih =>
    have h1 : ¬ needle <+: c :: cs := fun hp => h hp.isInfix
    have h2 : ¬ needle <:+: cs := fun hi => h (hi.trans (List.suffix_cons c cs).isInfix)
    have h1b : needle.isPrefixOf (c :: cs) = false := by
      rw [Bool.eq_false_iff]
      intro hp
      exact h1 (List.isPrefixOf_iff_prefix.1 hp)
    simp [strstr, h1b, ih h2]

/-- The function `strstr` returns the offset of the first occurrence. -/
theorem strstr_first (p s needle : Bytes) (hp : needle <+: s)
    (hfirst : ∀ i, i < p.length → ¬ needle <+: (p ++ s).drop i) :
    strstr (p ++ s) needle = some p.length := by
  induction p with
  | nil =>
    cases s with
    | nil =>
      have hn : needle = [] := List.prefix_nil.1 hp
      simp [strstr, hn]
    | cons c cs =>
      have hb : needle.isPrefixOf (c :: cs) = true := List.isPrefixOf_iff_prefix.2 hp
      simp [strstr, hb]
  | cons a p ih =>
    have h0 : ¬ needle <+: (a :: p ++ s) := by simpa using hfirst 0 (by simp)
    have h0b : needle.isPrefixOf (a :: (p ++ s)) = false := by
      rw [Bool.eq_false_iff]
      intro hh
      exact h0 (List.isPrefixOf_iff_prefix.1 hh)
    have hrest : ∀ i, i < p.length → ¬ needle <+: (p ++ s).drop i := by
      intro i hi
      simpa using hfirst (i + 1) (by simpa using hi)
    simp [strstr, h0b, ih hrest]

/-- The value `digitsVal` reads off a string of decimal digits. -/
theorem digitsVal_digits (acc : Nat) (ds : Bytes) (hd : ∀ c ∈ ds, 48 ≤ c ∧ c ≤ 57) :
    digitsVal acc ds =
      acc * 10 ^ ds.length + Nat.ofDigits 10 ((ds.map (· - 48)).reverse) := by
  induction ds generalizing acc with
  | nil => simp [digitsVal]
  | cons c cs ih =>
    have hc := hd c (by simp)
    have hcs : ∀ x ∈ cs, 48 ≤ x ∧ x ≤ 57 := fun x hx => hd x (by simp [hx])
    rw [digitsVal, if_pos hc, ih _ hcs]
    simp only [List.map_cons, List.reverse_cons, Nat.ofDigits_append, Nat.ofDigits_singleton,
      List.length_reverse, List.length_map, List.length_cons]
    ring

/-- On a string of decimal digits whose value is in range, `atoll` returns the value. -/
theorem atoll_digits (ds : Bytes) (hd : ∀ c ∈ ds, 48 ≤ c ∧ c ≤ 57)
    (hv : Nat.ofDigits 10 ((ds.map (· - 48)).reverse) < 2 ^ 63) :
    atoll ds = ((Nat.ofDigits 10 ((ds.map (· - 48)).reverse) : Nat) : Int) := by
  have hval := digitsVal_digits 0 ds hd
  rw [zero_mul, zero_add] at hval
  have hdrop : ds.dropWhile isspace = ds := by
    cases ds with
    | nil => rfl
    | cons c cs =>
      have hc := hd c (by simp)
      have hs : isspace c = false := by
        have h1 : ¬ c = 32 := by omega
        have h2 : ¬ c ≤ 13 := by omega
        simp [isspace, h1, h2]
      simp [List.dropWhile, hs]
  have hmin : min ((digitsVal 0 ds : Nat) : Int) (2 ^ 63 - 1) =
      ((Nat.ofDigits 10 ((ds.map (· - 48)).reverse) : Nat) : Int) := by
    rw [hval]
    apply min_eq_left
    have : ((Nat.ofDigits 10 ((ds.map (· - 48)).reverse) : Nat) : Int) < 2 ^ 63 := by
      exact_mod_cast hv
    omega
  unfold atoll
  rw [hdrop]
  split
  · next r =>
    have hc := hd 45 (by simp)
    omega
  · next r =>
    have hc := hd 43 (by simp)
    omega
  · exact hmin

theorem str_startsector :
    str "startsector" = [115, 116, 97, 114, 116, 115, 101, 99, 116, 111, 114] := by decide

theorem str_startsector_sp :
    str "startsector " = [115, 116, 97, 114, 116, 115, 101, 99, 116, 111, 114, 32] := by
  decide

theorem str_comma : str ", " = [44, 32] := by decide

theorem str_sectors : str " sectors" = [32, 115, 101, 99, 116, 111, 114, 115] := by decide

/-- At the offset `strstr` returns the needle occurs. -/
theorem strstr_some (hay needle : Bytes) (i : Nat) (h : strstr hay needle = some i) :
    needle <+: hay.drop i := by
  induction hay generalizing i with
  | nil =>
    by_cases hn : needle = []
    · simp [hn]
    · simp [strstr, hn] at h
  | cons c cs ih =>
    unfold strstr at h
    by_cases hp : needle.isPrefixOf (c :: cs) = true
    · rw [if_pos hp] at h
      simp only [Option.some.injEq] at h
      subst h
      exact List.isPrefixOf_iff_prefix.1 hp
    · rw [if_neg hp] at h
      cases hs : strstr cs needle with
      | none => rw [hs] at h; simp at h
      | some j =>
        rw [hs] at h
        simp only [Option.map_some', Option.some.injEq] at h
        subst h
        simpa using ih j hs

/-- Before the offset `strstr` returns the needle does not occur. -/
theorem strstr_least (hay needle : Bytes) (i : Nat) (h : strstr hay needle = some i) :
    ∀ j, j < i → ¬ needle <+: hay.drop j := by
  induction hay generalizing i with
  | nil =>
    by_cases hn : needle = []
    · simp [strstr, hn] at h
      intro j hj
      omega
    · simp [strstr, hn] at h
  | cons c cs ih =>
    unfold strstr at h
    by_cases hp : needle.isPrefixOf (c :: cs) = true
    · rw [if_pos hp] at h
      simp only [Option.some.injEq] at h
      intro j hj
      omega
    · rw [if_neg hp] at h
      cases hs : strstr cs needle with
      | none => rw [hs] at h; simp at h
      | some m =>
        rw [hs] at h
        simp only [Option.map_some', Option.some.injEq] at h
        subst h
        intro j hj
        cases j with
        | zero =>
          intro hpre
          exact hp (List.isPrefixOf_iff_prefix.2 (by simpa using hpre))
        | succ j2 =>
          simpa using ih m hs j2 (by omega)

/-- The section found in an output of the documented form, a name section followed by
sections, joined by semicolons: the section of the index given, with the later sections as
what follows it in the buffer. -/
theorem findSection_documented (name : Bytes) (secs : List Bytes)
    (hform : ∀ t ∈ name :: secs, t ≠ [] ∧ 59 ∉ t) (part : Int) :
    findSection (strtokAll 59 ([59].intercalate (name :: secs))) part =
      if part < 0 then none
      else (secs[part.toNat]?).map (fun t =>
        (t, if secs.drop (part.toNat + 1) = [] then none
            else some ([59].intercalate (secs.drop (part.toNat + 1))))) := by
  rw [findSection_eq, strtokAll_intercalate 59 (name :: secs) hform,
    List.getElem?_cons_succ]
  rfl

/-! ### The text after `startsector ` -/

/-- Without `, ` in the text, `*first` and `*last` stay 0. -/
theorem afterStart_no_comma (s : Bytes) (hno : ¬ str ", " <:+: s) : afterStart s = (0, 0) := by
  unfold afterStart
  rw [strstr_none s _ hno]

/-- Without ` sectors` after the first `, ` of the text, `*first` and `*last` stay 0. -/
theorem afterStart_no_sectors (a b : Bytes)
    (hcomma : ∀ i, i < a.length → ¬ str ", " <+: (a ++ (str ", " ++ b)).drop i)
    (hno : ¬ str " sectors" <:+: b) : afterStart (a ++ (str ", " ++ b)) = (0, 0) := by
  have h2 : strstr (a ++ (str ", " ++ b)) (str ", ") = some a.length :=
    strstr_first a _ _ (List.prefix_append _ _) hcomma
  have hdrop2 : (a ++ (str ", " ++ b)).drop (a.length + 2) = b := by
    rw [List.drop_append, str_comma]
    rfl
  unfold afterStart
  simp only [h2, hdrop2, strstr_none b _ hno]

/-- The values read off a text `a, b sectors ...`: what `atoll` makes of `a`, and of `a` and
`b`. -/
theorem afterStart_values (a b post : Bytes)
    (hcomma : ∀ i, i < a.length → ¬ str ", " <+:
      (a ++ (str ", " ++ (b ++ (str " sectors" ++ post)))).drop i)
    (hsec : ∀ i, i < b.length → ¬ str " sectors" <+: (b ++ (str " sectors" ++ post)).drop i) :
    afterStart (a ++ (str ", " ++ (b ++ (str " sectors" ++ post)))) =
      (atoll a, wrapLL (wrapLL (atoll a + atoll b) - 1)) := by
  have h2 : strstr (a ++ (str ", " ++ (b ++ (str " sectors" ++ post)))) (str ", ") =
      some a.length :=
    strstr_first a _ _ (List.prefix_append _ _) hcomma
  have hdrop2 : (a ++ (str ", " ++ (b ++ (str " sectors" ++ post)))).drop (a.length + 2) =
      b ++ (str " sectors" ++ post) := by
    rw [List.drop_append, str_comma]
    rfl
  have h3 : strstr (b ++ (str " sectors" ++ post)) (str " sectors") = some b.length :=
    strstr_first b _ _ (List.prefix_append _ _) hsec
  have ht1 : (a ++ (str ", " ++ (b ++ (str " sectors" ++ post)))).take a.length = a :=
    List.take_left' rfl
  have ht2 : (b ++ (str " sectors" ++ post)).take b.length = b := List.take_left' rfl
  unfold afterStart
  simp only [h2, hdrop2, h3, ht1, ht2]

/-- A byte absent from `p` that starts the needle: the needle does not occur at an offset
inside `p`. -/
theorem first_of_clean (p s : Bytes) (a : Nat) (n : Bytes) (hclean : a ∉ p) :
    ∀ i, i < p.length → ¬ (a :: n) <+: (p ++ s).drop i := by
  intro i hi hpre
  have hd : (p ++ s).drop i = p.drop i ++ s := by
    rw [List.drop_append_of_le_length (by omega)]
  rw [hd] at hpre
  have hne : p.drop i ≠ [] := by
    intro he
    have := List.drop_eq_nil_iff.1 he
    omega
  obtain ⟨x, xs, hx⟩ := List.exists_cons_of_ne_nil hne
  rw [hx] at hpre
  obtain ⟨t, ht⟩ := hpre
  simp only [List.cons_append, List.cons.injEq] at ht
  have hxa : x = a := ht.1.symm
  have : x ∈ p.drop i := by rw [hx]; simp
  exact hclean (hxa ▸ List.mem_of_mem_drop this)

/-- The values read off the text `S, C sectors ...` with `S` and `C` in decimal digits. -/
theorem afterStart_digits (ds1 ds2 post : Bytes)
    (hd1 : ∀ c ∈ ds1, 48 ≤ c ∧ c ≤ 57) (hd2 : ∀ c ∈ ds2, 48 ≤ c ∧ c ≤ 57)
    (hv1 : Nat.ofDigits 10 ((ds1.map (· - 48)).reverse) < 2 ^ 62)
    (hv2 : Nat.ofDigits 10 ((ds2.map (· - 48)).reverse) < 2 ^ 62) :
    afterStart (ds1 ++ (str ", " ++ (ds2 ++ (str " sectors" ++ post)))) =
      (((Nat.ofDigits 10 ((ds1.map (· - 48)).reverse) : Nat) : Int),
        ((Nat.ofDigits 10 ((ds1.map (· - 48)).reverse) : Nat) : Int) +
          ((Nat.ofDigits 10 ((ds2.map (· - 48)).reverse) : Nat) : Int) - 1) := by
  have hc1 : (44 : Nat) ∉ ds1 := fun h => by have := hd1 44 h; omega
  have hc2 : (32 : Nat) ∉ ds2 := fun h => by have := hd2 32 h; omega
  have ha1 := atoll_digits ds1 hd1 (by omega)
  have ha2 := atoll_digits ds2 hd2 (by omega)
  have hw1 : wrapLL (((Nat.ofDigits 10 ((ds1.map (· - 48)).reverse) : Nat) : Int) +
      ((Nat.ofDigits 10 ((ds2.map (· - 48)).reverse) : Nat) : Int)) =
      ((Nat.ofDigits 10 ((ds1.map (· - 48)).reverse) : Nat) : Int) +
      ((Nat.ofDigits 10 ((ds2.map (· - 48)).reverse) : Nat) : Int) :=
    wrapLL_of_range _ (by omega) (by omega)
  have hw2 : wrapLL (((Nat.ofDigits 10 ((ds1.map (· - 48)).reverse) : Nat) : Int) +
      ((Nat.ofDigits 10 ((ds2.map (· - 48)).reverse) : Nat) : Int) - 1) =
      ((Nat.ofDigits 10 ((ds1.map (· - 48)).reverse) : Nat) : Int) +
      ((Nat.ofDigits 10 ((ds2.map (· - 48)).reverse) : Nat) : Int) - 1 :=
    wrapLL_of_range _ (by omega) (by omega)
  rw [afterStart_values ds1 ds2 post
    (by rw [str_comma]; exact first_of_clean ds1 _ 44 [32] hc1)
    (by rw [str_sectors]; exact first_of_clean ds2 _ 32 [115, 101, 99, 116, 111, 114, 115] hc2),
    ha1, ha2, hw1, hw2]

/-! ### The section found -/

/-- A section without `startsector` leaves `*first` and `*last` at 0. -/
theorem sectorsOf_no_start (sec : Bytes) (rest : Option Bytes)
    (hno : ¬ str "startsector" <:+: sec) : sectorsOf sec rest = some (0, 0) := by
  unfold sectorsOf
  rw [strstr_none sec _ hno]

/-- A section whose first `startsector` is followed by one more byte: the values are read off
the text of the section after that byte. -/
theorem sectorsOf_inside (pre text : Bytes) (c : Nat) (rest : Option Bytes)
    (hfirst : ∀ i, i < pre.length → ¬ str "startsector" <+:
      (pre ++ (str "startsector" ++ c :: text)).drop i) :
    sectorsOf (pre ++ (str "startsector" ++ c :: text)) rest = some (afterStart text) := by
  have h1 : strstr (pre ++ (str "startsector" ++ c :: text)) (str "startsector") =
      some pre.length :=
    strstr_first pre _ _ (List.prefix_append _ _) hfirst
  have hlen : ¬ (pre ++ (str "startsector" ++ c :: text)).length < pre.length + 12 := by
    rw [str_startsector]
    simp only [List.length_append, List.length_cons, List.length_nil]
    omega
  have hdrop : (pre ++ (str "startsector" ++ c :: text)).drop (pre.length + 12) = text := by
    rw [List.drop_append, str_startsector]
    rfl
  unfold sectorsOf
  simp only [h1, if_neg hlen, hdrop]

/-- A section that ends with its first `startsector`: the values are read off what follows the
section in the buffer, and there is no result when nothing follows. -/
theorem sectorsOf_at_end (pre : Bytes) (rest : Option Bytes)
    (hfirst : ∀ i, i < pre.length → ¬ str "startsector" <+: (pre ++ str "startsector").drop i) :
    sectorsOf (pre ++ str "startsector") rest = rest.map afterStart := by
  have h1 : strstr (pre ++ str "startsector") (str "startsector") = some pre.length := by
    have h := strstr_first pre (str "startsector") (str "startsector") (List.prefix_refl _)
      hfirst
    exact h
  have hlen : (pre ++ str "startsector").length < pre.length + 12 := by
    rw [str_startsector]
    simp only [List.length_append, List.length_cons, List.length_nil]
    omega
  unfold sectorsOf
  simp only [h1, if_pos hlen]

/-- The section has no result only when it ends with its first `startsector` and nothing
follows it in the buffer. -/
theorem sectorsOf_none (sec : Bytes) (rest : Option Bytes) (h : sectorsOf sec rest = none) :
    rest = none ∧ ∃ pre, sec = pre ++ str "startsector" ∧
      ∀ i, i < pre.length → ¬ str "startsector" <+: (pre ++ str "startsector").drop i := by
  unfold sectorsOf at h
  cases h1 : strstr sec (str "startsector") with
  | none => rw [h1] at h; simp at h
  | some i =>
    rw [h1] at h
    simp only at h
    by_cases hlen : sec.length < i + 12
    · rw [if_pos hlen] at h
      have hrest : rest = none := by
        cases rest with
        | none => rfl
        | some r => simp at h
      have hpre := strstr_some sec _ i h1
      have hle := hpre.length_le
      have hd : (sec.drop i).length = (str "startsector").length := by
        rw [str_startsector] at hle ⊢
        simp only [List.length_cons, List.length_nil, List.length_drop] at hle ⊢
        omega
      have heq : str "startsector" = sec.drop i := hpre.eq_of_length hd.symm
      have hsec : sec = sec.take i ++ str "startsector" := by
        rw [heq, List.take_append_drop]
      have hil : i ≤ sec.length := by
        rw [str_startsector] at hd
        simp only [List.length_cons, List.length_nil, List.length_drop] at hd
        omega
      refine ⟨hrest, sec.take i, hsec, ?_⟩
      intro j hj
      rw [← hsec]
      apply strstr_least sec _ i h1 j
      simpa [List.length_take, hil] using hj
    · rw [if_neg hlen] at h
      simp at h

/-- An output of the documented form is not empty. -/
theorem intercalate_ne_nil (name : Bytes) (secs : List Bytes) (hne : name ≠ []) :
    [59].intercalate (name :: secs) ≠ [] := by
  cases secs with
  | nil => simpa [List.intercalate] using hne
  | cons u us => simp [List.intercalate, hne]

/-! # diskutil: the claims -/

/-- C28: for a positive sector size and every byte count `b` with `0 ≤ b` and `b + SECTOR_SIZE`
representable, `round_down_sec b` is the largest multiple of `SECTOR_SIZE` that is at most `b`,
`round_up_sec b` is the smallest multiple of `SECTOR_SIZE` that is at least `b`; both functions
are idempotent, and each returns `b` exactly when `b` is a multiple of `SECTOR_SIZE`. -/
theorem C28_sector_rounding (k : DiskConsts) (b : Int) (hS : 0 < k.SECTOR_SIZE) (hb : 0 ≤ b)
    (hrep : b + k.SECTOR_SIZE < 2 ^ 63) :
    (k.SECTOR_SIZE ∣ round_down_sec k b ∧ round_down_sec k b ≤ b ∧
      ∀ m : Int, k.SECTOR_SIZE ∣ m → m ≤ b → m ≤ round_down_sec k b) ∧
    (k.SECTOR_SIZE ∣ round_up_sec k b ∧ b ≤ round_up_sec k b ∧
      ∀ m : Int, k.SECTOR_SIZE ∣ m → b ≤ m → round_up_sec k b ≤ m) ∧
    round_down_sec k (round_down_sec k b) = round_down_sec k b ∧
    round_up_sec k (round_up_sec k b) = round_up_sec k b ∧
    (round_down_sec k b = b ↔ k.SECTOR_SIZE ∣ b) ∧
    (round_up_sec k b = b ↔ k.SECTOR_SIZE ∣ b) := by
  have hd := round_down_sec_eq k b hS hb hrep
  have hu := round_up_sec_eq k b hS hb hrep
  have hmul : b / k.SECTOR_SIZE * k.SECTOR_SIZE ≤ b := Int.ediv_mul_le b hS.ne'
  have hlt : b < (b / k.SECTOR_SIZE + 1) * k.SECTOR_SIZE := by
    have := Int.lt_ediv_add_one_mul_self b hS
    linarith
  have hdiv : k.SECTOR_SIZE ∣ b ↔ b % k.SECTOR_SIZE = 0 := by
    constructor
    · exact Int.emod_eq_zero_of_dvd
    · exact Int.dvd_of_emod_eq_zero
  have hdown_fix : ∀ x : Int, k.SECTOR_SIZE ∣ x → round_down_sec k x = x := by
    intro x hx
    have h0 : x.tmod k.SECTOR_SIZE = 0 := Int.tmod_eq_zero_of_dvd hx
    simp [round_down_sec, h0]
  have hup_fix : ∀ x : Int, k.SECTOR_SIZE ∣ x → round_up_sec k x = x := by
    intro x hx
    have h0 : x.tmod k.SECTOR_SIZE = 0 := Int.tmod_eq_zero_of_dvd hx
    simp [round_up_sec, h0]
  have hdd : k.SECTOR_SIZE ∣ round_down_sec k b := by
    rw [hd]
    exact Dvd.intro_left _ rfl
  have hud : k.SECTOR_SIZE ∣ round_up_sec k b := by
    rw [hu]
    split_ifs with h
    · exact hdiv.2 h
    · exact Dvd.intro_left _ rfl
  refine ⟨⟨hdd, by rw [hd]; exact hmul, ?_⟩, ⟨hud, ?_, ?_⟩, hdown_fix _ hdd, hup_fix _ hud,
    ⟨fun h => h ▸ hdd, hdown_fix b⟩, ⟨fun h => h ▸ hud, hup_fix b⟩⟩
  · intro m hm hle
    obtain ⟨q, rfl⟩ := hm
    rw [hd]
    have hq : q ≤ b / k.SECTOR_SIZE := by
      rw [Int.le_ediv_iff_mul_le hS]
      linarith [mul_comm k.SECTOR_SIZE q]
    nlinarith
  · rw [hu]
    split_ifs
    · exact le_refl b
    · exact hlt.le
  · intro m hm hle
    obtain ⟨q, rfl⟩ := hm
    rw [hu]
    split_ifs with h
    · exact hle
    · have hq : b / k.SECTOR_SIZE < q := by
        by_contra hcon
        have hq2 : q ≤ b / k.SECTOR_SIZE := by omega
        have h1 : k.SECTOR_SIZE * q ≤ b / k.SECTOR_SIZE * k.SECTOR_SIZE := by nlinarith
        have h2 : b = k.SECTOR_SIZE * q := by omega
        exact h (hdiv.1 ⟨q, h2⟩)
      nlinarith

/-- C28 at sectors of 512 bytes: 1000 bytes round down to 512 and up to 1024. -/
theorem C28_sector_rounding_witness :
    round_down_sec sampleDisk 1000 = 512 ∧ round_up_sec sampleDisk 1000 = 1024 ∧
    (512 : Int) ∣ round_down_sec sampleDisk 1000 ∧
    round_up_sec sampleDisk (round_up_sec sampleDisk 1000) =
      round_up_sec sampleDisk 1000 :=
  have h := C28_sector_rounding sampleDisk 1000 (by decide) (by decide) (by decide)
  ⟨by decide, by decide, h.1.1, h.2.2.2.1⟩

/-- C30: the first call of `diskutil_init` in a process returns what `verify_helpers` returns,
every later call returns 0 without calling `verify_helpers`, whatever the first call returned:
in any sequence of calls `verify_helpers` is called exactly once. -/
theorem C30_init_once (rc : Int) (rcs : List Int) :
    (diskutil_init InitState.start rc).1 = rc ∧
    (initCalls InitState.start (rc :: rcs)).1 = rc :: List.replicate rcs.length 0 ∧
    (initCalls InitState.start (rc :: rcs)).2.verifyCalls = 1 ∧
    (initCalls InitState.start (rc :: rcs)).2.initialized = 1 := by
  have hd : diskutil_init InitState.start rc = (rc, { initialized := 1, verifyCalls := 1 }) := by
    simp [diskutil_init, InitState.start]
  have hr := initCalls_initialized { initialized := 1, verifyCalls := 1 } rcs (by decide)
  simp only [initCalls, hd, hr]
  exact ⟨trivial, trivial, trivial, trivial⟩

/-- C27, as stated, fails. For a partition that exists, written `startsector 0, 1 sectors`,
`*first` and `*last` are set to 0 and 0 and the function returns `ERROR`. For a section with
the three markers but no numbers, `startsector x, y sectors`, `*last` is set to -1. And for a
section that ends with `startsector`, the function reads on in the section after it: `*first`
is set to 0 and `*last` to -1. -/
theorem C27_counterexample :
    diskutil_sectors sampleDisk
      (some (str "x86 boot sector; partition 1: ID=0x83, startsector 0, 1 sectors")) 0 =
      some { ret := sampleDisk.ERROR, first := 0, last := 0 } ∧
    diskutil_sectors sampleDisk
      (some (str "x86 boot sector; partition 1: ID=0x83, startsector x, y sectors")) 0 =
      some { ret := sampleDisk.ERROR, first := 0, last := -1 } ∧
    diskutil_sectors sampleDisk
      (some (str ("x86 boot sector; partition 1: startsector; partition 2: ID=0x83, " ++
        "starthead 2, startsector 32832, 32769 sectors"))) 0 =
      some { ret := sampleDisk.ERROR, first := 0, last := -1 } := by
  decide

/-- C27 (amended): for an output of the documented form, a name section followed by sections
joined by semicolons (none of them empty). (1) When the section of 0-based index `part` reads
`... startsector S, C sectors ...`, with `S` and `C` written in decimal digits (values below
2^62) after the first `startsector` of the section, the function sets `*first` to `S` and
`*last` to `S + C - 1`, and returns `OK` when `S + C - 1` is positive, `ERROR` otherwise.
(2) When `pruntf` fails, when `part` is negative, or when there is no section of that index,
`*first` and `*last` stay 0 and the function returns `ERROR`. (3) The same when the section
lacks `startsector`, when its first `startsector` and the byte after it are followed by text
without `, `, and when the first `, ` after them is followed by text without ` sectors`.
(4) When the section ends with its first `startsector` and other sections follow, the function
reads on in the rest of the output after the semicolon of the section, semicolons included:
`*first` and `*last` stay 0 when that text is without `, `, or without ` sectors` after its
first `, `; otherwise they are set to what `atoll` makes of the text before the first `, `,
and to that value plus what `atoll` makes of the text after it, minus 1. (5) The function has
no determined result exactly when the section ends with its first `startsector` and is the last
of the output: it then reads the memory after the string. (6) For any output at all, of the
documented form or not, whenever the function has a determined result it returns `OK` exactly
when `*last` ends up positive. -/
theorem C27_sectors (k : DiskConsts) (name : Bytes) (secs : List Bytes) (hk : k.OK ≠ k.ERROR)
    (hform : ∀ t ∈ name :: secs, t ≠ [] ∧ 59 ∉ t) :
    (∀ (part : Nat) (pre ds1 ds2 post : Bytes),
      secs[part]? = some (pre ++ (str "startsector " ++ (ds1 ++ (str ", " ++ (ds2 ++
        (str " sectors" ++ post)))))) →
      (∀ i, i < pre.length → ¬ str "startsector" <+:
        (pre ++ (str "startsector " ++ (ds1 ++ (str ", " ++ (ds2 ++
          (str " sectors" ++ post)))))).drop i) →
      (∀ c ∈ ds1, 48 ≤ c ∧ c ≤ 57) → (∀ c ∈ ds2, 48 ≤ c ∧ c ≤ 57) →
      Nat.ofDigits 10 ((ds1.map (· - 48)).reverse) < 2 ^ 62 →
      Nat.ofDigits 10 ((ds2.map (· - 48)).reverse) < 2 ^ 62 →
      diskutil_sectors k (some ([59].intercalate (name :: secs))) part =
        some { ret :=
                 if ((Nat.ofDigits 10 ((ds1.map (· - 48)).reverse) : Nat) : Int) +
                   ((Nat.ofDigits 10 ((ds2.map (· - 48)).reverse) : Nat) : Int) - 1 > 0
                 then k.OK else k.ERROR,
               first := ((Nat.ofDigits 10 ((ds1.map (· - 48)).reverse) : Nat) : Int),
               last := ((Nat.ofDigits 10 ((ds1.map (· - 48)).reverse) : Nat) : Int) +
                 ((Nat.ofDigits 10 ((ds2.map (· - 48)).reverse) : Nat) : Int) - 1 }) ∧
    (∀ part : Int, diskutil_sectors k none part =
      some { ret := k.ERROR, first := 0, last := 0 }) ∧
    (∀ part : Int, part < 0 ∨ secs[part.toNat]? = none →
      diskutil_sectors k (some ([59].intercalate (name :: secs))) part =
        some { ret := k.ERROR, first := 0, last := 0 }) ∧
    (∀ (part : Nat) (sec : Bytes), secs[part]? = some sec → ¬ str "startsector" <:+: sec →
      diskutil_sectors k (some ([59].intercalate (name :: secs))) part =
        some { ret := k.ERROR, first := 0, last := 0 }) ∧
    (∀ (part : Nat) (pre rest : Bytes) (c : Nat),
      secs[part]? = some (pre ++ (str "startsector" ++ c :: rest)) →
      (∀ i, i < pre.length → ¬ str "startsector" <+:
        (pre ++ (str "startsector" ++ c :: rest)).drop i) →
      ¬ str ", " <:+: rest →
      diskutil_sectors k (some ([59].intercalate (name :: secs))) part =
        some { ret := k.ERROR, first := 0, last := 0 }) ∧
    (∀ (part : Nat) (pre a b : Bytes) (c : Nat),
      secs[part]? = some (pre ++ (str "startsector" ++ c :: (a ++ (str ", " ++ b)))) →
      (∀ i, i < pre.length → ¬ str "startsector" <+:
        (pre ++ (str "startsector" ++ c :: (a ++ (str ", " ++ b)))).drop i) →
      (∀ i, i < a.length → ¬ str ", " <+: (a ++ (str ", " ++ b)).drop i) →
      ¬ str " sectors" <:+: b →
      diskutil_sectors k (some ([59].intercalate (name :: secs))) part =
        some { ret := k.ERROR, first := 0, last := 0 }) ∧
    (∀ (part : Nat) (pre : Bytes),
      secs[part]? = some (pre ++ str "startsector") →
      (∀ i, i < pre.length → ¬ str "startsector" <+: (pre ++ str "startsector").drop i) →
      secs.drop (part + 1) ≠ [] →
      (¬ str ", " <:+: [59].intercalate (secs.drop (part + 1)) →
        diskutil_sectors k (some ([59].intercalate (name :: secs))) part =
          some { ret := k.ERROR, first := 0, last := 0 }) ∧
      (∀ a b : Bytes, [59].intercalate (secs.drop (part + 1)) = a ++ (str ", " ++ b) →
        (∀ i, i < a.length → ¬ str ", " <+: (a ++ (str ", " ++ b)).drop i) →
        ¬ str " sectors" <:+: b →
        diskutil_sectors k (some ([59].intercalate (name :: secs))) part =
          some { ret := k.ERROR, first := 0, last := 0 }) ∧
      (∀ a b post : Bytes,
        [59].intercalate (secs.drop (part + 1)) =
          a ++ (str ", " ++ (b ++ (str " sectors" ++ post))) →
        (∀ i, i < a.length → ¬ str ", " <+:
          (a ++ (str ", " ++ (b ++ (str " sectors" ++ post)))).drop i) →
        (∀ i, i < b.length → ¬ str " sectors" <+: (b ++ (str " sectors" ++ post)).drop i) →
        diskutil_sectors k (some ([59].intercalate (name :: secs))) part =
          some { ret := if wrapLL (wrapLL (atoll a + atoll b) - 1) > 0 then k.OK else k.ERROR,
                 first := atoll a,
                 last := wrapLL (wrapLL (atoll a + atoll b) - 1) })) ∧
    (∀ part : Int,
      diskutil_sectors k (some ([59].intercalate (name :: secs))) part = none ↔
        0 ≤ part ∧ secs.drop (part.toNat + 1) = [] ∧
        ∃ pre, secs[part.toNat]? = some (pre ++ str "startsector") ∧
          ∀ i, i < pre.length → ¬ str "startsector" <+: (pre ++ str "startsector").drop i) ∧
    (∀ (output : Option Bytes) (part : Int) (r : Sectors),
      diskutil_sectors k output part = some r → (r.ret = k.OK ↔ r.last > 0)) := by
  have hout : [59].intercalate (name :: secs) ≠ [] :=
    intercalate_ne_nil name secs (hform name (by simp)).1
  have hfind : ∀ (part : Nat) (sec : Bytes), secs[part]? = some sec →
      diskutil_sectors k (some ([59].intercalate (name :: secs))) part =
        (sectorsOf sec (if secs.drop (part + 1) = [] then none
            else some ([59].intercalate (secs.drop (part + 1))))).map
          (fun (fl : Int × Int) =>
            ({ ret := if fl.2 > 0 then k.OK else k.ERROR, first := fl.1, last := fl.2 } :
              Sectors)) := by
    intro part sec hsec
    simp only [diskutil_sectors, if_neg hout, findSection_documented name secs hform]
    rw [if_neg (by omega), Int.toNat_ofNat, hsec]
    rfl
  have hzero : ∀ (part : Nat) (sec : Bytes), secs[part]? = some sec →
      sectorsOf sec (if secs.drop (part + 1) = [] then none
            else some ([59].intercalate (secs.drop (part + 1)))) = some (0, 0) →
      diskutil_sectors k (some ([59].intercalate (name :: secs))) part =
        some { ret := k.ERROR, first := 0, last := 0 } := by
    intro part sec hsec hz
    rw [hfind part sec hsec, hz]
    simp
  refine ⟨?_, fun part => rfl, ?_, ?_, ?_, ?_, ?_, ?_, ?_⟩
  · intro part pre ds1 ds2 post hsec hfirst hd1 hd2 hv1 hv2
    have hsp : str "startsector " = str "startsector" ++ [32] := by decide
    rw [hfind part _ hsec]
    rw [hsp, List.append_assoc, List.singleton_append] at hfirst ⊢
    rw [sectorsOf_inside pre _ 32 _ hfirst, afterStart_digits ds1 ds2 post hd1 hd2 hv1 hv2]
    rfl
  · intro part hpart
    simp only [diskutil_sectors, if_neg hout, findSection_documented name secs hform]
    rcases hpart with h | h
    · rw [if_pos h]
    · by_cases hneg : part < 0
      · rw [if_pos hneg]
      · rw [if_neg hneg, h]
        rfl
  · intro part sec hsec hno
    exact hzero part sec hsec (sectorsOf_no_start sec _ hno)
  · intro part pre rest c hsec hfirst hno
    exact hzero part _ hsec
      (by rw [sectorsOf_inside pre rest c _ hfirst, afterStart_no_comma rest hno])
  · intro part pre a b c hsec hfirst hcomma hno
    exact hzero part _ hsec
      (by rw [sectorsOf_inside pre _ c _ hfirst, afterStart_no_sectors a b hcomma hno])
  · intro part pre hsec hfirst hmore
    have hs : sectorsOf (pre ++ str "startsector")
        (if secs.drop (part + 1) = [] then none
          else some ([59].intercalate (secs.drop (part + 1)))) =
        some (afterStart ([59].intercalate (secs.drop (part + 1)))) := by
      rw [sectorsOf_at_end pre _ hfirst, if_neg hmore]
      rfl
    refine ⟨?_, ?_, ?_⟩
    · intro hno
      exact hzero part _ hsec (by rw [hs, afterStart_no_comma _ hno])
    · intro a b hab hcomma hno
      exact hzero part _ hsec (by rw [hs, hab, afterStart_no_sectors a b hcomma hno])
    · intro a b post hab hcomma hsecs
      rw [hfind part _ hsec, hs, hab, afterStart_values a b post hcomma hsecs]
      rfl
  · intro part
    constructor
    · intro hnone
      by_cases hneg : part < 0
      · simp only [diskutil_sectors, if_neg hout, findSection_documented name secs hform,
          if_pos hneg] at hnone
        simp at hnone
      · have hp : part = ((part.toNat : Nat) : Int) := by omega
        cases hsec : secs[part.toNat]? with
        | none =>
          simp only [diskutil_sectors, if_neg hout, findSection_documented name secs hform,
            if_neg hneg, hsec] at hnone
          simp at hnone
        | some sec =>
          rw [hp, hfind part.toNat sec hsec] at hnone
          have hn : sectorsOf sec (if secs.drop (part.toNat + 1) = [] then none
              else some ([59].intercalate (secs.drop (part.toNat + 1)))) = none := by
            simpa using hnone
          obtain ⟨hrest, pre, hpre, hfirst⟩ := sectorsOf_none _ _ hn
          refine ⟨by omega, ?_, pre, by rw [hpre], hfirst⟩
          by_contra hmore
          rw [if_neg hmore] at hrest
          simp at hrest
    · rintro ⟨hnn, hlast, pre, hsec, hfirst⟩
      have hp : part = ((part.toNat : Nat) : Int) := by omega
      rw [hp, hfind part.toNat _ hsec, sectorsOf_at_end pre _ hfirst, if_pos hlast]
      rfl
  · intro output part r h
    have key : ∀ fl : Int × Int,
        ((if fl.2 > 0 then k.OK else k.ERROR) = k.OK ↔ fl.2 > 0) := by
      intro fl
      by_cases hl : fl.2 > 0
      · simp [hl]
      · simp only [if_neg hl, hl, iff_false]
        exact fun he => hk he.symm
    unfold diskutil_sectors at h
    cases output with
    | none =>
      simp only [Option.some.injEq] at h
      subst h
      simp only [gt_iff_lt, lt_self_iff_false, iff_false]
      exact fun he => hk he.symm
    | some out =>
      simp only at h
      by_cases hempty : out = []
      · rw [if_pos hempty] at h
        simp at h
      rw [if_neg hempty] at h
      cases hf : findSection (strtokAll 59 out) part with
      | none =>
        rw [hf] at h
        simp only [Option.some.injEq] at h
        subst h
        simp only [gt_iff_lt, lt_self_iff_false, iff_false]
        exact fun he => hk he.symm
      | some sr =>
        obtain ⟨sec, rest⟩ := sr
        rw [hf] at h
        simp only at h
        cases hs : sectorsOf sec rest with
        | none => rw [hs] at h; simp at h
        | some fl =>
          rw [hs] at h
          simp only [Option.map_some', Option.some.injEq] at h
          subst h
          exact key fl

/-- C27 (amended) on the documented output: index 0 gives 63 and 32831, index 1 gives 32832
and 65600, index 2 gives 65601 and 65681, each with `OK`; index 3 names no partition and gives
`ERROR`. And on an output whose last section ends with `startsector`: no determined result. -/
theorem C27_sectors_witness :
    sampleOutput = [59].intercalate (sampleName :: sampleSecs) ∧
    diskutil_sectors sampleDisk (some sampleOutput) 0 =
      some { ret := sampleDisk.OK, first := 63, last := 32831 } ∧
    diskutil_sectors sampleDisk (some sampleOutput) 1 =
      some { ret := sampleDisk.OK, first := 32832, last := 65600 } ∧
    diskutil_sectors sampleDisk (some sampleOutput) 2 =
      some { ret := sampleDisk.OK, first := 65601, last := 65681 } ∧
    diskutil_sectors sampleDisk (some ([59].intercalate (sampleName :: sampleSecs))) 3 =
      some { ret := sampleDisk.ERROR, first := 0, last := 0 } ∧
    diskutil_sectors sampleDisk (some ([59].intercalate (sampleName :: sampleSecs)))
      ((0 : Nat) : Int) =
      some { ret := sampleDisk.OK, first := ((63 : Nat) : Int),
             last := ((63 : Nat) : Int) + ((32769 : Nat) : Int) - 1 } ∧
    diskutil_sectors sampleDisk
      (some ([59].intercalate (sampleName :: [str " partition 1: startsector"]))) 0 = none :=
  have h := C27_sectors sampleDisk sampleName sampleSecs (by decide) (by decide)
  have h0 := h.1 0 (str " partition 1: ID=0x83, starthead 1, ") (str "63")
    (str "32769") [] (by decide) (by decide) (by decide) (by decide) (by decide)
    (by decide)
  have g := C27_sectors sampleDisk sampleName [str " partition 1: startsector"] (by decide)
    (by decide)
  ⟨by rfl, by decide, by decide, by decide, h.2.2.1 3 (Or.inr (by decide)), h0,
    (g.2.2.2.2.2.2.2.1 0).2
      ⟨by decide, by decide, str " partition 1: ", by decide, by decide⟩⟩

end Diskutil
